import Mathlib

/-!
C99Compiler middle end: symbol table, semantic analysis, IR generator,
peephole optimizer.

A shallow embedding of `symbol_table.c`, `semantics.c` and `ir_generator.c`,
followed by theorems about it.

Conventions of the embedding.

* A C pointer that may be `NULL` is an `Option`; a `NULL`-terminated linked
  list (`Symbol::next`, `StructMember::next`, `Instruction::next`) is a `List`
  in link order.
* C `int` values are `Int`.  Signed overflow is undefined in C, so arithmetic
  is exact.  `atoi` and `atof` are modelled on the decimal text they are given;
  the result of `atoi` is cut to the range of `int` as the C library does.
  The two counters of the generator start at 0 and only grow
  (`grow_Generate_IR_from`); they are `Nat`.
* Text written to `stderr` is recorded as a list of `Diag` values, each the
  verbatim `fprintf` format string together with its arguments.  Text written
  to `stdout` is not recorded.
* `malloc` is assumed to succeed and `free` of symbols, names and types is not
  modelled; the one place where freed memory stays linked, the instruction
  list of the optimizer, is modelled with explicit freed cells.  Operand names
  are values in the generator: sharing of one name buffer between operands is
  not modelled there.  `free_ir_lists` frees the names, so it is given over
  operands that carry the address of their name (`StoredOperand`).
* A `size` field the source leaves unset after `malloc` reads as `UNSET_SIZE`.
* The members of the union `data` of a `Type` share their storage.  Where the
  source reads a member without a test of `kind`, the read is given for every
  kind (`read_return_type`, `return_type_is_void`).
* A memory access the C standard leaves undefined (an index past
  `num_children`, a `NULL` dereference, a read of a freed node) and a call of
  `exit` are results of type `Fault`.
* `check_semantics` visits the expression of a `CaseStatement` twice, the second
  time in its annotated form, so its recursion is not on a subterm; it is
  embedded with a recursion budget, and `Fault.out_of_fuel` reports a budget
  that was too small.  A budget of the height of the tree is always enough
  (`check_semantics_fuel_ends`).
* A function that only reads an object is a function of its value; where a
  statement is about what a call leaves of the object, the function is given a
  second time in state-passing form (`get_type_size_run`).
* Text written to a file by `print_ir_list` is a `String`; `%d` and `%f` are
  modelled by `format_d` and `format_f`.
* `Generate_IR` appends to three global lists through `emit`.  A step of the
  generator is a value of `Lower`: it returns, next to its result and the
  globals, the instructions it appended in order of emission, each tagged with
  the list `emit` chose for it; a list itself is the selection of one tag.
  `Generate_IR` recurses on children and grandchildren only, so it is total:
  `lowering_of` attaches to every node the step of `Generate_IR` on it, and a
  branch runs the steps stored at the children it visits.
* The `SwitchStatement` branch stores label names in the `type` field of
  statements.  The tree itself is never rebuilt; the overwritten fields are
  recorded in `GenState.labelled` by the position of the node.
-/

namespace C99Compiler

/-! ## Data model (`symbol_table.h`, `semantics.h`) -/

/-- The `kind` enumeration of `struct Type`. -/
inductive TypeKind where
  | TYPE_BASE | TYPE_ARRAY | TYPE_POINTER | TYPE_FUNCTION
  | TYPE_STRUCT | TYPE_UNION | TYPE_ENUM | TYPE_VOID
  deriving DecidableEq, Repr

/-- The `kind` enumeration of `struct Symbol`. -/
inductive SymKind where
  | SYM_VARIABLE | SYM_TYPENAME | SYM_FUNCTION
  deriving DecidableEq, Repr

mutual
/-- A `struct Type`: every variant carries the cached `size` field; the other
fields are the member of the `data` union selected by `kind`. -/
inductive CType where
  | base (size : Int) (base_name : String)
  | array (size : Int) (element_type : Option CType) (array_size : Int)
  | pointer (size : Int) (points_to : Option CType)
  | function (size : Int) (return_type : Option CType) (params : List Symbol)
  | struct (size : Int) (name : Option String) (members : List StructMember)
  | union (size : Int) (name : Option String) (members : List StructMember)
  | enum (size : Int)
  | void (size : Int)
/-- A `struct StructMember` without its `next` link. -/
inductive StructMember where
  | mk (name : Option String) (type : Option CType) (offset : Int)
/-- A `struct Symbol` without its `next` link. -/
inductive Symbol where
  | mk (kind : SymKind) (name : String) (type : Option CType)
end

/-- Field `kind` of a type. -/
def CType.kind : CType → TypeKind
  | .base _ _ => .TYPE_BASE
  | .array _ _ _ => .TYPE_ARRAY
  | .pointer _ _ => .TYPE_POINTER
  | .function _ _ _ => .TYPE_FUNCTION
  | .struct _ _ _ => .TYPE_STRUCT
  | .union _ _ _ => .TYPE_UNION
  | .enum _ => .TYPE_ENUM
  | .void _ => .TYPE_VOID

/-- Field `size` of a type. -/
def CType.size : CType → Int
  | .base s _ => s
  | .array s _ _ => s
  | .pointer s _ => s
  | .function s _ _ => s
  | .struct s _ _ => s
  | .union s _ _ => s
  | .enum s => s
  | .void s => s

/-- Field `kind` of a symbol. -/
def Symbol.kind : Symbol → SymKind
  | .mk k _ _ => k

/-- Field `name` of a symbol. -/
def Symbol.name : Symbol → String
  | .mk _ n _ => n

/-- Field `type` of a symbol. -/
def Symbol.type : Symbol → Option CType
  | .mk _ _ t => t

/-- Field `name` of a struct member. -/
def StructMember.name : StructMember → Option String
  | .mk n _ _ => n

/-- Field `type` of a struct member. -/
def StructMember.type : StructMember → Option CType
  | .mk _ t _ => t

/-- Field `offset` of a struct member. -/
def StructMember.offset : StructMember → Int
  | .mk _ _ o => o

/-- An argument of an `fprintf` call: a `char*` for `%s` (`none` when the
pointer passed is `NULL`) or an `int` for `%d`. -/
inductive DiagArg where
  | str (s : Option String)
  | int (i : Int)
  deriving DecidableEq, Repr

/-- One `fprintf(stderr, fmt, args...)` call. -/
structure Diag where
  fmt : String
  args : List DiagArg
  deriving DecidableEq, Repr

deriving instance DecidableEq for Except

/-- Ways a run leaves the defined behaviour of the program. -/
inductive Fault where
  | exit_failure
  | undefined_behaviour
  | out_of_fuel
  deriving DecidableEq, Repr

/-- The globals of `symbol_table.c` together with the `stderr` stream.
`scope_stack` lists the live scopes from the current one (level
`current_scope_level`) down to the global one (level 0); each scope lists its
symbols in link order, most recently inserted first. -/
structure State where
  scope_stack : List (List Symbol)
  stderr : List Diag

/-- The global `current_scope_level`; `-1` when no scope is active. -/
def State.current_scope_level (st : State) : Int :=
  (st.scope_stack.length : Int) - 1

/-- The bound `MAX_SCOPE_DEPTH`. -/
def MAX_SCOPE_DEPTH : Int := 100

/-! ## Symbol table (`symbol_table.c`) -/

/-- The format of the redeclaration diagnostic. -/
def FMT_REDECLARATION : String :=
  "Semantic Error: Redeclaration of identifier '%s'.\n"

/-- The inner loop shared by `insert_symbol` and `lookup_symbol`: first symbol
of one scope whose name compares equal under `strcmp`. -/
def find_in_scope (name : String) : List Symbol → Option Symbol
  | [] => none
  | s :: rest => if s.name = name then some s else find_in_scope name rest

/-- The function `insert_symbol`. -/
def insert_symbol (name : String) (type : Option CType) (kind : SymKind)
    (st : State) : State :=
  match st.scope_stack with
  | [] => st
  | cur :: outer =>
    match find_in_scope name cur with
    | some _ =>
      { st with stderr := st.stderr ++ [⟨FMT_REDECLARATION, [.str (some name)]⟩] }
    | none =>
      { st with scope_stack := (Symbol.mk kind name type :: cur) :: outer }

/-- The outer loop of `lookup_symbol`, from the current scope outward. -/
def lookup_in_scopes (name : String) : List (List Symbol) → Option Symbol
  | [] => none
  | scope :: outer =>
    match find_in_scope name scope with
    | some s => some s
    | none => lookup_in_scopes name outer

/-- The function `lookup_symbol`. -/
def lookup_symbol (name : String) (st : State) : Option Symbol :=
  lookup_in_scopes name st.scope_stack

/-- The function `enter_scope`. -/
def enter_scope (st : State) : Except Fault State :=
  if st.current_scope_level < MAX_SCOPE_DEPTH - 1 then
    .ok { st with scope_stack := [] :: st.scope_stack }
  else
    .error .exit_failure

/-- The function `leave_scope`. -/
def leave_scope (st : State) : State :=
  if st.current_scope_level > 0 then
    { st with scope_stack := st.scope_stack.tail }
  else st

/-- The function `init_symbol_table`. -/
def init_symbol_table (st : State) : Except Fault State :=
  enter_scope { st with scope_stack := [] }

/-- The function `add_parameters_to_scope`. -/
def add_parameters_to_scope : List Symbol → State → State
  | [], st => st
  | p :: rest, st =>
    add_parameters_to_scope rest (insert_symbol p.name p.type p.kind st)

/-! ## Type queries (`symbol_table.c`, `semantics.c`) -/

mutual
/-- The body of `get_type_size` for a non-`NULL` type. -/
def get_type_size_of : CType → Int
  | .base size base_name =>
    if size > 0 then size
    else if base_name = "char" then 1
    else if base_name = "short" then 2
    else if base_name = "int" then 4
    else if base_name = "long" then 8
    else if base_name = "float" then 4
    else if base_name = "double" then 8
    else 4
  | .pointer size _ => if size > 0 then size else 8
  | .struct size _ _ => if size > 0 then size else size
  | .union size _ _ => if size > 0 then size else size
  | .array size element_type array_size =>
    if size > 0 then size else array_size * get_type_size element_type
  | .function size _ _ => if size > 0 then size else 0
  | .enum size => if size > 0 then size else 0
  | .void size => if size > 0 then size else 0
/-- The function `get_type_size`. -/
def get_type_size : Option CType → Int
  | none => 0
  | some t => get_type_size_of t
end

mutual
/-- The body of `get_type_size` for a non-`NULL` type, in state-passing form:
the value returned and the type object as the call leaves it.  The function
assigns to no field; the object is rebuilt from what every step leaves behind,
the element type of an array from the recursive call on it. -/
def get_type_size_run_of : CType → Int × CType
  | .base size base_name =>
    (if size > 0 then size
     else if base_name = "char" then 1
     else if base_name = "short" then 2
     else if base_name = "int" then 4
     else if base_name = "long" then 8
     else if base_name = "float" then 4
     else if base_name = "double" then 8
     else 4, .base size base_name)
  | .pointer size points_to => (if size > 0 then size else 8, .pointer size points_to)
  | .struct size name members => (if size > 0 then size else size, .struct size name members)
  | .union size name members => (if size > 0 then size else size, .union size name members)
  | .array size element_type array_size =>
    if size > 0 then (size, .array size element_type array_size)
    else
      ((array_size * (get_type_size_run element_type).1),
        .array size (get_type_size_run element_type).2 array_size)
  | .function size return_type params =>
    (if size > 0 then size else 0, .function size return_type params)
  | .enum size => (if size > 0 then size else 0, .enum size)
  | .void size => (if size > 0 then size else 0, .void size)
/-- The function `get_type_size` in state-passing form: the value returned and
the type object as the call leaves it. -/
def get_type_size_run : Option CType → Int × Option CType
  | none => (0, none)
  | some t => ((get_type_size_run_of t).1, some (get_type_size_run_of t).2)
end

mutual
/-- The body of `are_types_compatible` once `type1` is known not to be
`NULL`.  The widening test sits under `type1->kind != type2->kind`, exactly as
in the source. -/
def are_types_compatible_of : CType → Option CType → Bool
  | _, none => false
  | t1, some t2 =>
    if t1.kind ≠ t2.kind then
      if t1.kind = .TYPE_BASE ∧ t2.kind = .TYPE_BASE then
        match t1, t2 with
        | .base _ n1, .base _ n2 =>
          if (n1 = "double" ∨ n1 = "float") ∧ n2 = "int" then true else false
        | _, _ => false
      else false
    else
      match t1, t2 with
      | .base _ n1, .base _ n2 => decide (n1 = n2)
      | .pointer _ p1, .pointer _ p2 => are_types_compatible p1 p2
      | _, _ => false
/-- The function `are_types_compatible`. -/
def are_types_compatible : Option CType → Option CType → Bool
  | none, _ => false
  | some t1, t2 => are_types_compatible_of t1 t2
end

/-- The member loop shared by `get_struct_member` and `get_member_offset`:
first member whose name compares equal under `strcmp`; a member without a
name makes `strcmp` read through `NULL`. -/
def find_member (member_name : String) :
    List StructMember → Except Fault (Option StructMember)
  | [] => .ok none
  | m :: rest =>
    match m.name with
    | none => .error .undefined_behaviour
    | some n => if n = member_name then .ok (some m) else find_member member_name rest

/-- The function `get_struct_member`. -/
def get_struct_member (struct_type : Option CType) (member_name : String) :
    Except Fault (Option StructMember) :=
  match struct_type with
  | some (.struct _ _ members) => find_member member_name members
  | some (.union _ _ members) => find_member member_name members
  | _ => .ok none

/-- The value read from a `size` field that `create_base_type`,
`create_array_type`, `create_pointer_type` and `create_function_type` leave
unset after `malloc`.  The embedding takes it to be `0`, "not yet computed",
the value `create_aggregate_type` stores explicitly. -/
def UNSET_SIZE : Int := 0

/-- The function `create_base_type`. -/
def create_base_type (base_name : String) : CType := .base UNSET_SIZE base_name

/-- The function `create_array_type`. -/
def create_array_type (element_type : Option CType) (size : Int) : CType :=
  .array UNSET_SIZE element_type size

/-- The function `create_pointer_type`. -/
def create_pointer_type (points_to : Option CType) : CType :=
  .pointer UNSET_SIZE points_to

/-- The function `create_function_type`. -/
def create_function_type (return_type : Option CType) (params : List Symbol) : CType :=
  .function UNSET_SIZE return_type params

/-- The function `create_aggregate_type`; `kind` is `TYPE_STRUCT` or
`TYPE_UNION`. -/
def create_aggregate_type (kind : TypeKind) (name : Option String) : Option CType :=
  match kind with
  | .TYPE_STRUCT => some (.struct 0 name [])
  | .TYPE_UNION => some (.union 0 name [])
  | _ => none

/-! ## Syntax tree and declarators (`semantics.h`, `semantics.c`) -/

/-- A `struct ASTNode`; `num_children` is the length of `children`. -/
inductive ASTNode where
  | mk (node_type : String) (value : Option String)
      (children : List (Option ASTNode)) (type : Option CType)

/-- Field `node_type`. -/
def ASTNode.node_type : ASTNode → String
  | .mk nt _ _ _ => nt

/-- Field `value`. -/
def ASTNode.value : ASTNode → Option String
  | .mk _ v _ _ => v

/-- Field `children`. -/
def ASTNode.children : ASTNode → List (Option ASTNode)
  | .mk _ _ cs _ => cs

/-- Field `type`. -/
def ASTNode.type : ASTNode → Option CType
  | .mk _ _ _ t => t

/-- Field `num_children`. -/
def ASTNode.num_children (n : ASTNode) : Int := n.children.length

/-- The assignment `node->type = t`. -/
def ASTNode.set_type : ASTNode → Option CType → ASTNode
  | .mk nt v cs _, t => .mk nt v cs t

/-- The C library predicate `isspace` in the "C" locale. -/
def c_isspace (c : Char) : Bool :=
  c = ' ' || (9 ≤ c.toNat && c.toNat ≤ 13)

/-- The digit loop of `atoi`: accumulates decimal digits until the first
character that is not one. -/
def atoi_digits : List Char → Int → Int
  | [], acc => acc
  | c :: cs, acc =>
    if 48 ≤ c.toNat ∧ c.toNat ≤ 57 then atoi_digits cs (acc * 10 + ((c.toNat : Int) - 48))
    else acc

/-- The value `strtol` returns for a number that is out of the range of
`long`: `LONG_MAX` or `LONG_MIN`. -/
def saturate_long (n : Int) : Int :=
  if 9223372036854775807 < n then 9223372036854775807
  else if n < -9223372036854775808 then -9223372036854775808
  else n

/-- The conversion of a `long` to `int`: the low 32 bits in two's
complement. -/
def long_to_int (n : Int) : Int :=
  (n + 2147483648) % 4294967296 - 2147483648

/-- The C library function `atoi`, `(int) strtol(s, NULL, 10)`: leading white
space, an optional sign, then decimal digits; the number they denote is
saturated to the range of `long` and converted to `int`.  The C standard
leaves `atoi` undefined on a number that `int` cannot represent; the
embedding gives the value the C library returns there, so that what an `int`
variable receives from `atoi` is always an `int`. -/
def atoi (s : String) : Int :=
  long_to_int (saturate_long
    (match s.toList.dropWhile c_isspace with
     | '-' :: cs => - atoi_digits cs 0
     | '+' :: cs => atoi_digits cs 0
     | cs => atoi_digits cs 0))

/-- Modelled from the spec: `yyerror` is defined by the parser, which is not
among the sources; by the diagnostics contract it writes one line to the error
stream, recorded here with the message as its argument. -/
def yyerror (s : String) (st : State) : State :=
  { st with stderr := st.stderr ++ [⟨"%s\n", [.str (some s)]⟩] }

/-- A call `lookup_symbol(name)` whose argument may be `NULL`: `strcmp` reads
through it as soon as some scope holds a symbol. -/
def lookup_symbol_ptr (name : Option String) (st : State) : Except Fault (Option Symbol) :=
  match name with
  | some n => .ok (lookup_symbol n st)
  | none => if st.scope_stack.all List.isEmpty then .ok none else .error .undefined_behaviour

/-- The three tests `get_base_type_from_specifiers` applies to
`specifier_to_check`: `some` is the value returned from inside the loop,
`none` means the loop goes on. -/
def check_specifier (spec : Option ASTNode) (st : State) :
    Except Fault (Option (Option CType × State)) :=
  match spec with
  | none => .error .undefined_behaviour
  | some (.mk nt v _ ty) =>
    if nt = "TypeSpecifier" then
      match v with
      | none => .error .undefined_behaviour
      | some name => .ok (some (some (create_base_type name), st))
    else if nt = "StructSpecifier" then .ok (some (ty, st))
    else if nt = "TypeName" then
      match lookup_symbol_ptr v st with
      | .error f => .error f
      | .ok (some sym) =>
        if sym.kind = .SYM_TYPENAME then .ok (some (sym.type, st))
        else .ok (some (some (create_base_type "int"), yyerror "Unknown type name" st))
      | .ok none => .ok (some (some (create_base_type "int"), yyerror "Unknown type name" st))
    else .ok none

mutual
/-- The loop of `get_base_type_from_specifiers` at a non-`NULL` `current`. -/
def get_base_type_from_specifiers_of : ASTNode → State → Except Fault (Option CType × State)
  | .mk nt v cs ty, st =>
    let specifier_to_check : Option ASTNode :=
      if nt = "DeclarationSpecifiers" ∨ nt = "SpecifierQualifierList" then
        match cs with
        | c0 :: _ => c0
        | [] => some (.mk nt v cs ty)
      else some (.mk nt v cs ty)
    match check_specifier specifier_to_check st with
    | .error f => .error f
    | .ok (some r) => .ok r
    | .ok none =>
      match cs with
      | _ :: c1 :: _ => get_base_type_from_specifiers c1 st
      | _ => .ok (some (create_base_type "int"), st)
/-- The function `get_base_type_from_specifiers`. -/
def get_base_type_from_specifiers : Option ASTNode → State → Except Fault (Option CType × State)
  | none, st => .ok (some (create_base_type "int"), st)
  | some n, st => get_base_type_from_specifiers_of n st
end

/-- The function `get_function_parameters_node`. -/
def get_function_parameters_node (declarator_node : Option ASTNode) : Option ASTNode :=
  match declarator_node with
  | none => none
  | some (.mk nt _ cs _) =>
    if nt = "FunctionDeclarator" then
      match cs with
      | _ :: c1 :: _ => c1
      | _ => none
    else none

/-- The function `is_function_declarator`. -/
def is_function_declarator (declarator_node : Option ASTNode) : Bool :=
  match declarator_node with
  | none => false
  | some n => decide (n.node_type = "FunctionDeclarator")

mutual
/-- The body of `get_declarator_name` at a non-`NULL` node. -/
def get_declarator_name_of : ASTNode → Except Fault (Option String)
  | .mk nt v cs _ =>
    if nt = "Identifier" then
      match v with
      | none => .error .undefined_behaviour
      | some name => .ok (some name)
    else
      match cs with
      | [] => .ok none
      | c0 :: rest =>
        if nt = "FunctionDeclarator" then get_declarator_name c0
        else if nt = "ArrayDeclarator" then get_declarator_name c0
        else if nt = "PointerDeclarator" then
          match rest with
          | c1 :: _ => get_declarator_name c1
          | [] => .error .undefined_behaviour
        else if nt = "InitDeclaratorList" then get_declarator_name c0
        else if nt = "InitDeclarator" then get_declarator_name c0
        else .ok none
/-- The function `get_declarator_name`. -/
def get_declarator_name : Option ASTNode → Except Fault (Option String)
  | none => .ok none
  | some n => get_declarator_name_of n
end

/-- The format of the warning of `evaluate_constant_expression`. -/
def FMT_UNSUPPORTED_CONSTANT : String :=
  "Warning: Unsupported constant expression for array size. Only integer literals are supported.\n"

/-- The function `evaluate_constant_expression`. -/
def evaluate_constant_expression (expr_node : Option ASTNode) (st : State) :
    Except Fault (Int × State) :=
  match expr_node with
  | none => .ok (0, st)
  | some n =>
    if n.node_type = "IntConstant" then
      match n.value with
      | none => .error .undefined_behaviour
      | some text => .ok (atoi text, st)
    else .ok (0, { st with stderr := st.stderr ++ [⟨FMT_UNSUPPORTED_CONSTANT, []⟩] })

mutual
/-- The `while (pointer_part)` loop of `build_declarator_type` at a non-`NULL`
`pointer_part`: one pointer level per node of the `children[0]` chain. -/
def wrap_pointers_of : ASTNode → Option CType → Option CType
  | .mk _ _ cs _, current_type =>
    match cs with
    | c0 :: _ => wrap_pointers c0 (some (create_pointer_type current_type))
    | [] => some (create_pointer_type current_type)
/-- The `while (pointer_part)` loop of `build_declarator_type`. -/
def wrap_pointers : Option ASTNode → Option CType → Option CType
  | none, current_type => current_type
  | some n, current_type => wrap_pointers_of n current_type
end

mutual
/-- The body of `build_declarator_type` at a non-`NULL` declarator. -/
def build_declarator_type_of :
    Option CType → ASTNode → State → Except Fault (Option CType × State)
  | base_type, .mk nt _ cs _, st =>
    if nt = "PointerDeclarator" then
      match cs with
      | c0 :: c1 :: _ =>
        match build_declarator_type base_type c1 st with
        | .error f => .error f
        | .ok (current_type, st1) => .ok (wrap_pointers c0 current_type, st1)
      | _ => .error .undefined_behaviour
    else if nt = "ArrayDeclarator" then
      match cs with
      | [] => .error .undefined_behaviour
      | [c0] =>
        match build_declarator_type base_type c0 st with
        | .error f => .error f
        | .ok (element_type, st1) => .ok (some (create_array_type element_type 0), st1)
      | c0 :: c1 :: _ =>
        match build_declarator_type base_type c0 st with
        | .error f => .error f
        | .ok (element_type, st1) =>
          match evaluate_constant_expression c1 st1 with
          | .error f => .error f
          | .ok (size, st2) => .ok (some (create_array_type element_type size), st2)
    else .ok (base_type, st)
/-- The function `build_declarator_type`. -/
def build_declarator_type :
    Option CType → Option ASTNode → State → Except Fault (Option CType × State)
  | base_type, none, st => .ok (base_type, st)
  | base_type, some n, st => build_declarator_type_of base_type n st
end

mutual
/-- The body of `build_parameter_list_from_ast` at a non-`NULL` node. -/
def build_parameter_list_from_ast_of : ASTNode → State → Except Fault (List Symbol × State)
  | .mk nt _ cs _, st =>
    if nt = "EmptyParameterList" then .ok ([], st)
    else if nt = "ParameterDeclaration" then
      match cs with
      | [] => .error .undefined_behaviour
      | [specifiers] =>
        match get_base_type_from_specifiers specifiers st with
        | .error f => .error f
        | .ok (_, st1) => .ok ([], st1)
      | specifiers :: declarator :: _ =>
        match get_base_type_from_specifiers specifiers st with
        | .error f => .error f
        | .ok (param_type, st1) =>
          match get_declarator_name declarator with
          | .error f => .error f
          | .ok param_name =>
            match build_declarator_type param_type declarator st1 with
            | .error f => .error f
            | .ok (full_param_type, st2) =>
              .ok ([Symbol.mk .SYM_VARIABLE (param_name.getD "") full_param_type], st2)
    else if nt = "ParameterList" then
      match cs with
      | c0 :: c1 :: _ =>
        match build_parameter_list_from_ast c0 st with
        | .error f => .error f
        | .ok (head, st1) =>
          match build_parameter_list_from_ast c1 st1 with
          | .error f => .error f
          | .ok (new_param, st2) => .ok (head ++ new_param, st2)
      | _ => .error .undefined_behaviour
    else .ok ([], st)
/-- The function `build_parameter_list_from_ast`. -/
def build_parameter_list_from_ast : Option ASTNode → State → Except Fault (List Symbol × State)
  | none, st => .ok ([], st)
  | some n, st => build_parameter_list_from_ast_of n st
end

/-! ## Struct and union layout (`semantics.c`) -/

/-- The locals of `calculate_struct_layout` that its loops update, with the
state they run in; `members` is the list from `head` to `tail`. -/
structure LayoutAcc where
  current_offset : Int
  max_member_size : Int
  members : List StructMember
  st : State

/-- One pass through the body of the inner `while (member_declarator_list)`
loop, after `member_name` and `member_type` are known. -/
def layout_add_member (kind : TypeKind) (member_name : Option String)
    (member_type : Option CType) (acc : LayoutAcc) (st1 : State) : LayoutAcc :=
  { current_offset :=
      if kind = .TYPE_STRUCT then acc.current_offset + get_type_size member_type
      else acc.current_offset
    max_member_size :=
      if kind = .TYPE_STRUCT then acc.max_member_size
      else if kind = .TYPE_UNION then
        (if get_type_size member_type > acc.max_member_size then get_type_size member_type
         else acc.max_member_size)
      else acc.max_member_size
    members := acc.members ++ [StructMember.mk member_name member_type acc.current_offset]
    st := st1 }

mutual
/-- The inner loop of `calculate_struct_layout` at a non-`NULL`
`member_declarator_list`. -/
def layout_declarators_of (kind : TypeKind) (base_member_type : Option CType) :
    ASTNode → LayoutAcc → Except Fault LayoutAcc
  | .mk _ _ cs _, acc =>
    match cs with
    | [] => .error .undefined_behaviour
    | declarator :: rest =>
      match get_declarator_name declarator with
      | .error f => .error f
      | .ok member_name =>
        match build_declarator_type base_member_type declarator acc.st with
        | .error f => .error f
        | .ok (member_type, st1) =>
          match rest with
          | c1 :: _ =>
            layout_declarators kind base_member_type c1
              (layout_add_member kind member_name member_type acc st1)
          | [] => .ok (layout_add_member kind member_name member_type acc st1)
/-- The inner loop `while (member_declarator_list)` of
`calculate_struct_layout`. -/
def layout_declarators (kind : TypeKind) (base_member_type : Option CType) :
    Option ASTNode → LayoutAcc → Except Fault LayoutAcc
  | none, acc => .ok acc
  | some n, acc => layout_declarators_of kind base_member_type n acc
end

/-- The part of the outer loop body of `calculate_struct_layout` that works on
`struct_decl`: base type from `children[0]`, members from `children[1]`. -/
def layout_struct_declaration (kind : TypeKind) (struct_decl : Option ASTNode)
    (acc : LayoutAcc) : Except Fault LayoutAcc :=
  match struct_decl with
  | none => .error .undefined_behaviour
  | some (.mk _ _ dcs _) =>
    match dcs with
    | d0 :: member_declarator_list :: _ =>
      match get_base_type_from_specifiers d0 acc.st with
      | .error f => .error f
      | .ok (base_member_type, st1) =>
        layout_declarators kind base_member_type member_declarator_list { acc with st := st1 }
    | _ => .error .undefined_behaviour

mutual
/-- The outer loop of `calculate_struct_layout` at a non-`NULL`
`decl_list_node`. -/
def layout_declarations_of (kind : TypeKind) : ASTNode → LayoutAcc → Except Fault LayoutAcc
  | .mk nt v cs ty, acc =>
    if nt = "StructDeclarationList" then
      match cs with
      | [] => .error .undefined_behaviour
      | [c0] => layout_struct_declaration kind c0 acc
      | c0 :: c1 :: _ =>
        match layout_struct_declaration kind c1 acc with
        | .error f => .error f
        | .ok acc1 => layout_declarations kind c0 acc1
    else layout_struct_declaration kind (some (.mk nt v cs ty)) acc
/-- The outer loop `while (decl_list_node)` of `calculate_struct_layout`. -/
def layout_declarations (kind : TypeKind) : Option ASTNode → LayoutAcc → Except Fault LayoutAcc
  | none, acc => .ok acc
  | some n, acc => layout_declarations_of kind n acc
end

/-- The function `calculate_struct_layout`; the laid-out type is returned in
place of the update of `*struct_type`.  A type of a kind other than
`TYPE_STRUCT` and `TYPE_UNION` has no `record_info` to receive the member list;
the embedding reports such a call as a fault. -/
def calculate_struct_layout (struct_type : Option CType) (decl_list_node : Option ASTNode)
    (st : State) : Except Fault (Option CType × State) :=
  match struct_type, decl_list_node with
  | none, _ => .ok (none, st)
  | some t, none => .ok (some t, st)
  | some t, some n =>
    match layout_declarations t.kind (some n) ⟨0, 0, [], st⟩ with
    | .error f => .error f
    | .ok acc =>
      match t with
      | .struct _ name _ => .ok (some (.struct acc.current_offset name acc.members), acc.st)
      | .union _ name _ => .ok (some (.union acc.max_member_size name acc.members), acc.st)
      | _ => .error .undefined_behaviour

/-- The function `get_member_offset`; `-1` stands for "not found". -/
def get_member_offset (struct_type : Option CType) (member_name : String) :
    Except Fault Int :=
  match struct_type with
  | none => .ok (-1)
  | some t =>
    let target : Option CType :=
      match t with
      | .pointer _ points_to => points_to
      | _ => some t
    match target with
    | some (.struct _ _ members) =>
      match find_member member_name members with
      | .error f => .error f
      | .ok (some m) => .ok m.offset
      | .ok none => .ok (-1)
    | some (.union _ _ members) =>
      match find_member member_name members with
      | .error f => .error f
      | .ok (some m) => .ok m.offset
      | .ok none => .ok (-1)
    | _ => .ok (-1)

/-! ## Semantic analysis (`semantics.c`) -/

def FMT_NOT_DECLARED : String := "Semantic Error: Identifier '%s' is not declared.\n"
def FMT_SWITCH_NOT_INT : String := "Semantic Error: switch quantity not an integer.\n"
def FMT_CASE_NOT_CONST : String :=
  "Semantic Error: case label does not reduce to an integer constant.\n"
def FMT_MEMBER_NOT_RECORD : String :=
  "Semantic Error: Request for member '%s' in something that is not a struct or union.\n"
def FMT_NO_MEMBER : String := "Semantic Error: No member named '%s' in '%s %s'.\n"
def FMT_ASSIGN_MISMATCH : String := "Semantic Error: Type mismatch in assignment to '%s'.\n"
def FMT_BINARY_MISMATCH : String :=
  "Semantic Error: Type mismatch in binary operation '%s'.\n"
def FMT_NOT_FUNCTION : String := "Semantic Error: Calling '%s' which is not a function.\n"
def FMT_TOO_MANY : String := "Semantic Error: Too many arguments to function '%s'.\n"
def FMT_EXPECTED_TYPE : String := "Semantic Check: Expected type for argument %d is '%s'.\n"
def FMT_ARG_MISMATCH : String :=
  "Semantic Error: Type mismatch for argument %d in call to '%s'.\n"
def FMT_TOO_FEW : String := "Semantic Error: Too few arguments to function '%s'.\n"
def FMT_OUT_OF_BOUNDS : String :=
  "Semantic Error: Array index %d is out of bounds for array '%s' of size %d.\n"
def FMT_INDEX_NON_ARRAY : String := "Semantic Error: Attempting to index a non-array type.\n"
def FMT_ARROW_NON_POINTER : String :=
  "Semantic Error: Arrow operator -> applied to non-pointer type.\n"
def FMT_ARROW_NON_RECORD : String :=
  "Semantic Error: Arrow operator -> applied to pointer to non-struct/union type.\n"

/-- One `fprintf(stderr, ...)`. -/
def State.report (st : State) (fmt : String) (args : List DiagArg) : State :=
  { st with stderr := st.stderr ++ [⟨fmt, args⟩] }

/-- The keyword printed for a record type in the "No member named" message. -/
def record_keyword (t : CType) : String :=
  if t.kind = .TYPE_STRUCT then "struct" else "union"

/-- Field `data.record_info.name` of a struct or union type. -/
def record_name : CType → Option String
  | .struct _ n _ => n
  | .union _ n _ => n
  | _ => none

/-- The tail of the `MemberAccess` and `PointerMemberAccess` branches of
`check_semantics`, once `struct_type` is known to be a struct or union: the
type to store in `node->type` (`none` when nothing is stored) and the state. -/
def check_member (struct_type : CType) (member_name : Option String) (st : State) :
    Except Fault (Option (Option CType) × State) :=
  match member_name with
  | none =>
    (match struct_type with
     | .struct _ _ [] => .ok (none, st.report FMT_NO_MEMBER
         [.str none, .str (some (record_keyword struct_type)), .str (record_name struct_type)])
     | .union _ _ [] => .ok (none, st.report FMT_NO_MEMBER
         [.str none, .str (some (record_keyword struct_type)), .str (record_name struct_type)])
     | _ => .error .undefined_behaviour)
  | some name =>
    match get_struct_member (some struct_type) name with
    | .error f => .error f
    | .ok (some member) => .ok (some member.type, st)
    | .ok none => .ok (none, st.report FMT_NO_MEMBER
        [.str (some name), .str (some (record_keyword struct_type)), .str (record_name struct_type)])

/-- The `while (arg_list)` loop of the `FunctionCall` branch of
`check_semantics`; `args` are the children of `arg_list` from index
`arg_count` on, `expected_param` the parameters not yet matched.  Returns the
final `expected_param`. -/
def check_arguments (callee : Option String) :
    List (Option ASTNode) → Int → List Symbol → State → Except Fault (List Symbol × State)
  | [], _, _, _ => .error .undefined_behaviour
  | none :: _, _, _, _ => .error .undefined_behaviour
  | some current_arg :: rest, arg_count, expected_param, st =>
    match expected_param with
    | [] => .ok ([], st.report FMT_TOO_MANY [.str callee])
    | p :: ps =>
      let checked : Except Fault State :=
        if are_types_compatible p.type current_arg.type then .ok st
        else
          match p.type with
          | some (.base _ base_name) =>
            .ok ((st.report FMT_EXPECTED_TYPE [.int arg_count, .str (some base_name)]).report
              FMT_ARG_MISMATCH [.int arg_count, .str (some (callee.getD "function"))])
          | _ => .error .undefined_behaviour
      match checked with
      | .error f => .error f
      | .ok st1 =>
        match rest with
        | [] => .ok (ps, st1)
        | _ :: _ => check_arguments callee rest (arg_count + 1) ps st1

/-- The `for` loop over `node->children` in the last branch of
`check_semantics`, with `check` standing for the recursive call. -/
def check_children
    (check : Option ASTNode → State → Except Fault (Option ASTNode × State)) :
    List (Option ASTNode) → State → Except Fault (List (Option ASTNode) × State)
  | [], st => .ok ([], st)
  | c :: cs, st =>
    match check c st with
    | .error f => .error f
    | .ok (c1, st1) =>
      match check_children check cs st1 with
      | .error f => .error f
      | .ok (cs1, st2) => .ok (c1 :: cs1, st2)

/-- Whether the operator text of a `BinaryOp` is one of the six relational
operators. -/
def is_relational (op : String) : Bool :=
  op = "==" || op = "!=" || op = "<" || op = ">" || op = "<=" || op = ">="

/-- The `FunctionCall` branch of `check_semantics`; it makes no recursive
call.  Returns the value of `node->type` afterwards and the state. -/
def check_function_call (cs : List (Option ASTNode)) (ty : Option CType) (st : State) :
    Except Fault (Option CType × State) :=
  match cs with
  | [] => .error .undefined_behaviour
  | none :: _ => .error .undefined_behaviour
  | some func_ident :: rest =>
    match lookup_symbol_ptr func_ident.value st with
    | .error f => .error f
    | .ok none => .ok (ty, st.report FMT_NOT_FUNCTION [.str func_ident.value])
    | .ok (some func_sym) =>
      if func_sym.kind ≠ .SYM_FUNCTION then
        .ok (ty, st.report FMT_NOT_FUNCTION [.str func_ident.value])
      else
        match func_sym.type with
        | some (.function _ return_type params) =>
          let arg_list : Option ASTNode :=
            match rest with
            | c1 :: _ => c1
            | [] => none
          let matched : Except Fault (List Symbol × State) :=
            match arg_list with
            | none => .ok (params, st)
            | some al =>
              if al.node_type = "ArgumentList" then
                check_arguments func_ident.value al.children 0 params st
              else
                match params with
                | [] => .error .undefined_behaviour
                | p :: ps =>
                  if are_types_compatible p.type al.type then .ok (ps, st)
                  else .ok (ps, st.report FMT_ARG_MISMATCH
                    [.int 0, .str (some (func_ident.value.getD "function"))])
          match matched with
          | .error f => .error f
          | .ok ([], st1) => .ok (return_type, st1)
          | .ok (_ :: _, st1) =>
            .ok (return_type, st1.report FMT_TOO_FEW [.str func_ident.value])
        | _ => .error .undefined_behaviour

/-- The bounds test of the `ArrayAccess` branch of `check_semantics`, run when
the index node is an `IntConstant`. -/
def check_array_bounds (array_node : Option ASTNode) (index_text : Option String)
    (array_size : Int) (st : State) : Except Fault State :=
  match index_text with
  | none => .error .undefined_behaviour
  | some text =>
    if atoi text < 0 ∨ atoi text ≥ array_size then
      match get_declarator_name array_node with
      | .error f => .error f
      | .ok array_name =>
        .ok (st.report FMT_OUT_OF_BOUNDS
          [.int (atoi text), .str (some (array_name.getD "array")), .int array_size])
    else .ok st

/-- The type of `check_semantics` as its branches call it: the node comes
back with the `type` fields the C code assigns in place. -/
abbrev Checker := Option ASTNode → State → Except Fault (Option ASTNode × State)

/-- The `FunctionDefinition` branch of `check_semantics`, with `check` standing
for the recursive call. -/
def check_function_definition (check : Checker) (nt : String) (v : Option String)
    (cs : List (Option ASTNode)) (ty : Option CType) (st : State) :
    Except Fault (Option ASTNode × State) :=
  match enter_scope st with
  | .error f => .error f
  | .ok st1 =>
    match cs with
    | c0 :: declarator_node :: rest2 =>
      match build_parameter_list_from_ast
          (get_function_parameters_node declarator_node) st1 with
      | .error f => .error f
      | .ok (params_list, st2) =>
        match rest2 with
        | [] => .error .undefined_behaviour
        | body :: rest3 =>
          match check body (add_parameters_to_scope params_list st2) with
          | .error f => .error f
          | .ok (body1, st3) =>
            .ok (some (.mk nt v (c0 :: declarator_node :: body1 :: rest3) ty),
              leave_scope st3)
    | _ => .error .undefined_behaviour

/-- The block of `check_semantics` run before the branches for a
`SwitchStatement`: the controlling expression is checked and must be `int`. -/
def check_switch_expression (check : Checker) (cs : List (Option ASTNode)) (st : State) :
    Except Fault (List (Option ASTNode) × State) :=
  match cs with
  | [] => .error .undefined_behaviour
  | c0 :: rest =>
    match check c0 st with
    | .error f => .error f
    | .ok (none, _) => .error .undefined_behaviour
    | .ok (some e, st1) =>
      match e.type with
      | some (.base _ base_name) =>
        if base_name ≠ "int" then .ok (some e :: rest, st1.report FMT_SWITCH_NOT_INT [])
        else .ok (some e :: rest, st1)
      | _ => .ok (some e :: rest, st1.report FMT_SWITCH_NOT_INT [])

/-- The block of `check_semantics` run before the branches for a
`CaseStatement`: the case expression is checked and must be an `IntConstant`. -/
def check_case_expression (check : Checker) (cs : List (Option ASTNode)) (st : State) :
    Except Fault (List (Option ASTNode) × State) :=
  match cs with
  | [] => .error .undefined_behaviour
  | c0 :: rest =>
    match check c0 st with
    | .error f => .error f
    | .ok (none, _) => .error .undefined_behaviour
    | .ok (some case_expr, st1) =>
      if case_expr.node_type ≠ "IntConstant" then
        .ok (some case_expr :: rest, st1.report FMT_CASE_NOT_CONST [])
      else .ok (some case_expr :: rest, st1)

/-- The `Identifier` branch of `check_semantics`. -/
def check_identifier (nt : String) (v : Option String) (cs : List (Option ASTNode))
    (ty : Option CType) (st : State) : Except Fault (Option ASTNode × State) :=
  match lookup_symbol_ptr v st with
  | .error f => .error f
  | .ok none => .ok (some (.mk nt v cs ty), st.report FMT_NOT_DECLARED [.str v])
  | .ok (some sym) => .ok (some (.mk nt v cs sym.type), st)

/-- The `MemberAccess` branch of `check_semantics`. -/
def check_member_access (check : Checker) (nt : String) (v : Option String)
    (cs : List (Option ASTNode)) (ty : Option CType) (st : State) :
    Except Fault (Option ASTNode × State) :=
  match cs with
  | [] => .error .undefined_behaviour
  | c0 :: rest =>
    match check c0 st with
    | .error f => .error f
    | .ok (none, _) => .error .undefined_behaviour
    | .ok (some struct_node, st1) =>
      match struct_node.type with
      | none => .ok (some (.mk nt v (some struct_node :: rest) ty), st1)
      | some t =>
        if t.kind ≠ .TYPE_STRUCT ∧ t.kind ≠ .TYPE_UNION then
          .ok (some (.mk nt v (some struct_node :: rest) ty),
            st1.report FMT_MEMBER_NOT_RECORD [.str v])
        else
          match check_member t v st1 with
          | .error f => .error f
          | .ok (some member_type, st2) =>
            .ok (some (.mk nt v (some struct_node :: rest) member_type), st2)
          | .ok (none, st2) => .ok (some (.mk nt v (some struct_node :: rest) ty), st2)

/-- The `Assignment` branch of `check_semantics`. -/
def check_assignment (check : Checker) (nt : String) (v : Option String)
    (cs : List (Option ASTNode)) (st : State) : Except Fault (Option ASTNode × State) :=
  match cs with
  | c0 :: c1 :: rest =>
    match check c0 st with
    | .error f => .error f
    | .ok (lhs, st1) =>
      match check c1 st1 with
      | .error f => .error f
      | .ok (rhs, st2) =>
        match lhs with
        | none => .error .undefined_behaviour
        | some l =>
          match l.type with
          | none => .ok (some (.mk nt v (lhs :: rhs :: rest) l.type), st2)
          | some _ =>
            match rhs with
            | none => .error .undefined_behaviour
            | some r =>
              if r.type.isSome ∧ ¬ are_types_compatible l.type r.type then
                match get_declarator_name lhs with
                | .error f => .error f
                | .ok lhs_name =>
                  .ok (some (.mk nt v (lhs :: rhs :: rest) l.type),
                    st2.report FMT_ASSIGN_MISMATCH
                      [.str (some (lhs_name.getD "expression"))])
              else .ok (some (.mk nt v (lhs :: rhs :: rest) l.type), st2)
  | _ => .error .undefined_behaviour

/-- The `BinaryOp` branch of `check_semantics`; it makes no recursive call. -/
def check_binary_op (nt : String) (v : Option String) (cs : List (Option ASTNode))
    (ty : Option CType) (st : State) : Except Fault (Option ASTNode × State) :=
  match cs with
  | none :: _ :: _ => .error .undefined_behaviour
  | some left :: right :: _ =>
    match left.type with
    | none => .ok (some (.mk nt v cs ty), st)
    | some _ =>
      match right with
      | none => .error .undefined_behaviour
      | some r =>
        match r.type with
        | none => .ok (some (.mk nt v cs ty), st)
        | some _ =>
          match v with
          | none => .error .undefined_behaviour
          | some op =>
            .ok (some (.mk nt v cs
                (if is_relational op then some (create_base_type "int") else left.type)),
              if are_types_compatible left.type r.type then st
              else st.report FMT_BINARY_MISMATCH [.str v])
  | _ => .error .undefined_behaviour

/-- The `ArrayAccess` branch of `check_semantics`. -/
def check_array_access (check : Checker) (nt : String) (v : Option String)
    (cs : List (Option ASTNode)) (ty : Option CType) (st : State) :
    Except Fault (Option ASTNode × State) :=
  match cs with
  | c0 :: c1 :: rest =>
    match check c0 st with
    | .error f => .error f
    | .ok (array_node, st1) =>
      match check c1 st1 with
      | .error f => .error f
      | .ok (index_node, st2) =>
        match array_node with
        | none => .error .undefined_behaviour
        | some a =>
          match a.type with
          | some (.array _ element_type array_size) =>
            match index_node with
            | none => .error .undefined_behaviour
            | some i =>
              if i.node_type = "IntConstant" then
                match check_array_bounds array_node i.value array_size st2 with
                | .error f => .error f
                | .ok st3 =>
                  .ok (some (.mk nt v (array_node :: index_node :: rest) element_type), st3)
              else
                .ok (some (.mk nt v (array_node :: index_node :: rest) element_type), st2)
          | _ =>
            .ok (some (.mk nt v (array_node :: index_node :: rest) ty),
              st2.report FMT_INDEX_NON_ARRAY [])
  | _ => .error .undefined_behaviour

/-- The `PointerMemberAccess` branch of `check_semantics`. -/
def check_pointer_member_access (check : Checker) (nt : String) (v : Option String)
    (cs : List (Option ASTNode)) (ty : Option CType) (st : State) :
    Except Fault (Option ASTNode × State) :=
  match cs with
  | [] => .error .undefined_behaviour
  | c0 :: rest =>
    match check c0 st with
    | .error f => .error f
    | .ok (none, _) => .error .undefined_behaviour
    | .ok (some ptr_node, st1) =>
      match ptr_node.type with
      | none => .ok (some (.mk nt v (some ptr_node :: rest) ty), st1)
      | some (.pointer _ none) => .error .undefined_behaviour
      | some (.pointer _ (some struct_type)) =>
        if struct_type.kind ≠ .TYPE_STRUCT ∧ struct_type.kind ≠ .TYPE_UNION then
          .ok (some (.mk nt v (some ptr_node :: rest) ty),
            st1.report FMT_ARROW_NON_RECORD [])
        else
          match check_member struct_type v st1 with
          | .error f => .error f
          | .ok (some member_type, st2) =>
            .ok (some (.mk nt v (some ptr_node :: rest) member_type), st2)
          | .ok (none, st2) => .ok (some (.mk nt v (some ptr_node :: rest) ty), st2)
      | some _ =>
        .ok (some (.mk nt v (some ptr_node :: rest) ty),
          st1.report FMT_ARROW_NON_POINTER [])

/-- The chain of branches of `check_semantics` that follows the two blocks for
`SwitchStatement` and `CaseStatement`, with `check` standing for the recursive
call. -/
def check_branches (check : Checker) (nt : String) (v : Option String)
    (cs : List (Option ASTNode)) (ty : Option CType) (st : State) :
    Except Fault (Option ASTNode × State) :=
  if nt = "Identifier" then check_identifier nt v cs ty st
  else if nt = "IntConstant" then .ok (some (.mk nt v cs (some (create_base_type "int"))), st)
  else if nt = "FloatConstant" then
    .ok (some (.mk nt v cs (some (create_base_type "double"))), st)
  else if nt = "CharConstant" then .ok (some (.mk nt v cs (some (create_base_type "char"))), st)
  else if nt = "MemberAccess" then check_member_access check nt v cs ty st
  else if nt = "Assignment" then check_assignment check nt v cs st
  else if nt = "BinaryOp" then check_binary_op nt v cs ty st
  else if nt = "FunctionCall" then
    match check_function_call cs ty st with
    | .error f => .error f
    | .ok (ty1, st1) => .ok (some (.mk nt v cs ty1), st1)
  else if nt = "ArrayAccess" then check_array_access check nt v cs ty st
  else if nt = "PointerMemberAccess" then check_pointer_member_access check nt v cs ty st
  else if nt = "SwitchStatement" then .ok (some (.mk nt v cs ty), st)
  else
    match check_children check cs st with
    | .error f => .error f
    | .ok (cs1, st1) => .ok (some (.mk nt v cs1 ty), st1)

/-- The body of `check_semantics` at a non-`NULL` node, with `check` standing
for the recursive call: the `FunctionDefinition` branch returns at once;
otherwise the `SwitchStatement` block, the `CaseStatement` block and the chain
of branches run in this order. -/
def check_node (check : Checker) (nt : String) (v : Option String)
    (cs : List (Option ASTNode)) (ty : Option CType) (st : State) :
    Except Fault (Option ASTNode × State) :=
  if nt = "FunctionDefinition" then check_function_definition check nt v cs ty st
  else
    match (if nt = "SwitchStatement" then check_switch_expression check cs st
      else .ok (cs, st)) with
    | .error f => .error f
    | .ok (cs1, st1) =>
      match (if nt = "CaseStatement" then check_case_expression check cs1 st1
        else .ok (cs1, st1)) with
      | .error f => .error f
      | .ok (cs2, st2) => check_branches check nt v cs2 ty st2

/-- The function `check_semantics` with a recursion budget: every recursive
call is made with one unit less. -/
def check_semantics_fuel : Nat → Checker
  | _, none, st => .ok (none, st)
  | 0, some _, _ => .error .out_of_fuel
  | fuel + 1, some (.mk nt v cs ty), st =>
    check_node (check_semantics_fuel fuel) nt v cs ty st

/-! ## Three-address code and the peephole optimizer (`ir_generator.h`, `ir_generator.c`) -/

/-- The enumeration `OpCode`. -/
inductive OpCode where
  | IR_ADD | IR_SUB | IR_MUL | IR_DIV | IR_MOD
  | IR_ASSIGN
  | IR_EQ | IR_NE | IR_LT | IR_GT | IR_LE | IR_GE
  | IR_AND | IR_OR | IR_BIT_AND | IR_BIT_OR | IR_XOR
  | IR_SHL | IR_SHR
  | IR_UNARY_MINUS | IR_NOT | IR_BIT_NOT | IR_ADDR | IR_DEREF
  | IR_GOTO | IR_IF_FALSE_GOTO | IR_IF_TRUE_GOTO
  | IR_ALLOC_HEAP | IR_FREE_HEAP
  | IR_ADDR_OF | IR_DEREF_LOAD | IR_DEREF_STORE
  | IR_INDEX_LOAD | IR_INDEX_STORE
  | IR_CALL | IR_PARAM | IR_RETURN
  | IR_LABEL
  | IR_NOP
  | IR_HALT
  deriving DecidableEq, Repr

/-- A C `double` by its IEEE 754 binary64 fields. -/
structure Double where
  sign : Bool
  exponent : Nat
  mantissa : Nat
  deriving DecidableEq, Repr

/-- Whether a `double` is a NaN. -/
def Double.is_nan (d : Double) : Bool := d.exponent = 2047 && d.mantissa ≠ 0

/-- Whether a `double` is a zero of either sign. -/
def Double.is_zero (d : Double) : Bool := d.exponent = 0 && d.mantissa = 0

/-- The C operator `==` on `double`: a NaN equals nothing, the two zeros are
equal, any other two values are equal when their fields agree. -/
def Double.c_eq (a b : Double) : Bool :=
  if a.is_nan || b.is_nan then false
  else if a.is_zero && b.is_zero then true
  else decide (a = b)

/-- An `Operand`: the tag `type` with the member of `val` it selects. -/
inductive Operand where
  | OP_NONE
  | OP_INT_CONST (int_val : Int)
  | OP_FLOAT_CONST (float_val : Double)
  | OP_CHAR_CONST (char_val : Int)
  | OP_STRING_LITERAL (str_val : String)
  | OP_IDENTIFIER (name : String)
  | OP_TEMPORARY (name : String)
  | OP_LABEL (name : String)
  deriving DecidableEq, Repr

/-- A `struct Instruction` without its `next` link. -/
structure Instruction where
  opcode : OpCode
  result : Operand
  arg1 : Operand
  arg2 : Operand
  deriving DecidableEq, Repr

/-- A node on the chain of `next` links that starts at a list head: `live`
while allocated, `freed` once `free` has been called on it.  A freed node on
the chain is one that some `next` field still points to. -/
inductive Cell where
  | live (i : Instruction)
  | freed (i : Instruction)
  deriving DecidableEq, Repr

/-- Whether a node is still allocated. -/
def Cell.is_live : Cell → Bool
  | .live _ => true
  | .freed _ => false

/-- The instruction a node holds, or held when it was freed. -/
def Cell.instr : Cell → Instruction
  | .live i => i
  | .freed i => i

/-- The function `are_operands_equal`. -/
def are_operands_equal : Operand → Operand → Bool
  | .OP_INT_CONST a, .OP_INT_CONST b => decide (a = b)
  | .OP_CHAR_CONST a, .OP_CHAR_CONST b => decide (a = b)
  | .OP_FLOAT_CONST a, .OP_FLOAT_CONST b => a.c_eq b
  | .OP_IDENTIFIER a, .OP_IDENTIFIER b => decide (a = b)
  | .OP_TEMPORARY a, .OP_TEMPORARY b => decide (a = b)
  | .OP_LABEL a, .OP_LABEL b => decide (a = b)
  | .OP_NONE, .OP_NONE => true
  | _, _ => false

/-- The test of the first pattern of `optimize_ir`: an `INDEX_LOAD` followed
by an `INDEX_STORE` with equal base and offset operands. -/
def is_redundant_load (current next_instr : Instruction) : Bool :=
  current.opcode = .IR_INDEX_LOAD && next_instr.opcode = .IR_INDEX_STORE &&
  are_operands_equal current.arg1 next_instr.result &&
  are_operands_equal current.arg2 next_instr.arg1

/-- The test of the second pattern of `optimize_ir` on four consecutive
instructions. -/
def is_redundant_mul_load (mul1 load mul2 store : Instruction) : Bool :=
  mul1.opcode = .IR_MUL && load.opcode = .IR_INDEX_LOAD &&
  mul2.opcode = .IR_MUL && store.opcode = .IR_INDEX_STORE &&
  are_operands_equal mul1.arg1 mul2.arg1 && are_operands_equal mul1.arg2 mul2.arg2 &&
  are_operands_equal load.arg2 mul1.result &&
  are_operands_equal store.arg1 mul2.result &&
  are_operands_equal load.arg1 store.result

/-- The second pattern of `optimize_ir` tested at `current`: the two nodes
after `next_instr` exist and the four instructions pass the test. -/
def starts_redundant_mul_load (current next_instr : Instruction) (rest : List Instruction) :
    Bool :=
  match rest with
  | mul2 :: store :: _ => is_redundant_mul_load current next_instr mul2 store
  | _ => false

/-- The `while (current && current->next)` loop of `optimize_ir`.

`before` is the chain of nodes from `head` up to, not including, `current`
(empty exactly when `current == head`); the second argument is the list from
`current` on.  The value is the chain from the `head` that is returned.

* Pattern 1 unlinks `current`.  When `current` is not `head` the code walks
  `prev` from `head` to the predecessor, reading the `next` field of every
  node of `before`; a freed node among them is a read of freed memory.
* Pattern 2 frees `mul1` and `load` and moves `current` to `mul2`, the head of
  `rest`.  It assigns `head` when `mul1 == head` and writes no `next` field, so
  when `mul1` is not `head` its predecessor keeps pointing to the freed
  `mul1`. -/
def optimize_loop : List Cell → List Instruction → Except Fault (List Cell)
  | before, [] => .ok before
  | before, [last] => .ok (before ++ [.live last])
  | before, current :: next_instr :: rest =>
    if is_redundant_load current next_instr then
      if before = [] then optimize_loop [] (next_instr :: rest)
      else if before.all Cell.is_live then optimize_loop before (next_instr :: rest)
      else .error .undefined_behaviour
    else if starts_redundant_mul_load current next_instr rest then
      if before = [] then optimize_loop [] rest
      else optimize_loop (before ++ [.freed current, .freed next_instr]) rest
    else optimize_loop (before ++ [.live current]) (next_instr :: rest)

/-- The function `optimize_ir`: the chain of nodes from the returned head. -/
def optimize_ir (head : List Instruction) : Except Fault (List Cell) :=
  match head with
  | [] => .ok []
  | _ :: _ => optimize_loop [] head

/-- A traversal of a list from its head along the `next` links, as every
consumer of an instruction list performs it: the instructions in order, or a
fault when the chain runs into a freed node. -/
def traverse : List Cell → Except Fault (List Instruction)
  | [] => .ok []
  | .live i :: rest =>
    match traverse rest with
    | .error f => .error f
    | .ok is => .ok (i :: is)
  | .freed _ :: _ => .error .undefined_behaviour

/-- The function `optimize_ir` applied to a list and its result traversed:
`optimize_ir(head)` as a list of instructions. -/
def optimize_ir_list (head : List Instruction) : Except Fault (List Instruction) :=
  match optimize_ir head with
  | .error f => .error f
  | .ok cells => traverse cells

/-! ## IR generation (`ir_generator.c`) -/

/-- The three instruction lists: `global_declarations_head`, `main_ir_head` and
`other_funcs_ir_head`. -/
inductive IRList where
  | global_declarations
  | main_ir
  | other_funcs_ir
  deriving DecidableEq, Repr

/-- An instruction appended by `emit`, with the list it was appended to. -/
structure Emitted where
  list : IRList
  instr : Instruction
  deriving DecidableEq, Repr

/-- The globals of the generator, the symbol table and the error stream.

`labelled` records the nodes of the tree whose `type` field the
`SwitchStatement` branch has overwritten with the name of a label
(`stmt->type = (Type*)name`): each by its position, the child indices on the
way from the root, most recent write first. -/
structure GenState where
  temp_counter : Nat
  label_counter : Nat
  current_break_label : Operand
  current_continue_label : Operand
  is_in_main_function : Bool
  is_global_declaration : Bool
  labelled : List (List Nat × String)
  table : State

/-- The globals as initialised at program start, over a symbol table. -/
def GenState.initial (table : State) : GenState :=
  ⟨0, 0, .OP_NONE, .OP_NONE, false, true, [], table⟩

/-- A step of the generator: from the globals to a value, the globals
afterwards and the instructions appended meanwhile, in order of emission. -/
def Lower (α : Type) : Type := GenState → Except Fault (α × GenState × List Emitted)

/-- A step that appends nothing and changes nothing. -/
def Lower.pure {α : Type} (a : α) : Lower α := fun s => .ok (a, s, [])

/-- Two steps in sequence: the second runs in the globals the first left, and
its instructions follow those of the first. -/
def Lower.bind {α β : Type} (x : Lower α) (f : α → Lower β) : Lower β := fun s =>
  match x s with
  | .error e => .error e
  | .ok (a, s1, e1) =>
    match f a s1 with
    | .error e => .error e
    | .ok (b, s2, e2) => .ok (b, s2, e1 ++ e2)

instance : Monad Lower where
  pure := Lower.pure
  bind := Lower.bind

/-- A step that leaves defined behaviour. -/
def Lower.fail {α : Type} (f : Fault) : Lower α := fun _ => .error f

/-- The current globals. -/
def Lower.get : Lower GenState := fun s => .ok (s, s, [])

/-- An update of the globals. -/
def Lower.modify (f : GenState → GenState) : Lower Unit := fun s => .ok ((), f s, [])

/-- The result of a call that can fault and touches no global. -/
def Lower.of_except {α : Type} (x : Except Fault α) : Lower α := fun s =>
  match x with
  | .error e => .error e
  | .ok a => .ok (a, s, [])

/-- One `fprintf(stderr, fmt, args...)` call of the generator. -/
def Lower.report (fmt : String) (args : List DiagArg) : Lower Unit :=
  Lower.modify (fun s => { s with table := s.table.report fmt args })

/-- The list the function `emit` appends to: chosen by the two flags. -/
def GenState.target (s : GenState) : IRList :=
  if s.is_global_declaration then .global_declarations
  else if s.is_in_main_function then .main_ir else .other_funcs_ir

/-- The function `emit`: the list is chosen by the two flags at the moment of
the call. -/
def emit (opcode : OpCode) (result arg1 arg2 : Operand) : Lower Unit := fun s =>
  .ok ((), s, [⟨s.target, ⟨opcode, result, arg1, arg2⟩⟩])

/-- The function `create_operand_temp`. -/
def create_operand_temp : Lower Operand := fun s =>
  .ok (.OP_TEMPORARY ("t" ++ toString s.temp_counter),
    { s with temp_counter := s.temp_counter + 1 }, [])

/-- The function `create_operand_label`. -/
def create_operand_label : Lower Operand := fun s =>
  .ok (.OP_LABEL ("L" ++ toString s.label_counter),
    { s with label_counter := s.label_counter + 1 }, [])

/-- The function `create_operand_argument`. -/
def create_operand_argument (index : Nat) : Operand :=
  .OP_IDENTIFIER ("ARG" ++ toString index)

/-- The function `create_operand_identifier`; `strdup` reads through its
argument. -/
def create_operand_identifier (name : Option String) : Lower Operand :=
  match name with
  | none => Lower.fail .undefined_behaviour
  | some n => pure (.OP_IDENTIFIER n)

/-- The function `create_operand_string`. -/
def create_operand_string (val : Option String) : Lower Operand :=
  match val with
  | none => Lower.fail .undefined_behaviour
  | some v => pure (.OP_STRING_LITERAL v)

/-- The instructions of one list among those emitted, in order. -/
def ir_list (which : IRList) (emitted : List Emitted) : List Instruction :=
  (emitted.filter (fun e => e.list = which)).map Emitted.instr

/-- The quotient `num / den` rounded to the nearest integer, ties to even. -/
def round_half_even (num den : Nat) : Nat :=
  if 2 * (num % den) < den then num / den
  else if den < 2 * (num % den) then num / den + 1
  else if (num / den) % 2 = 0 then num / den
  else num / den + 1

/-- The position of the highest set bit of `n`, with a recursion budget. -/
def log2_floor_fuel : Nat → Nat → Nat
  | 0, _ => 0
  | fuel + 1, n => if n < 2 then 0 else log2_floor_fuel fuel (n / 2) + 1

/-- The position of the highest set bit of `n`: the integer part of its binary
logarithm, `0` for `0`. -/
def log2_floor (n : Nat) : Nat := log2_floor_fuel n n

/-- The `double` nearest to `num / den` (`den` positive), ties to even, with the
given sign: the conversion `strtod` performs in the default rounding mode. -/
def Double.of_ratio (sign : Bool) (num den : Nat) : Double :=
  if num = 0 then ⟨sign, 0, 0⟩
  else
    let e0 : Int := (log2_floor num : Int) - (log2_floor den : Int)
    let below : Bool :=
      if 0 ≤ e0 then decide (num < den * 2 ^ e0.toNat) else decide (num * 2 ^ (-e0).toNat < den)
    let e : Int := if below then e0 - 1 else e0
    if e < -1022 then
      let m := round_half_even (num * 2 ^ 1074) den
      if 2 ^ 52 ≤ m then ⟨sign, 1, m - 2 ^ 52⟩ else ⟨sign, 0, m⟩
    else
      let m :=
        if e ≤ 52 then round_half_even (num * 2 ^ (52 - e).toNat) den
        else round_half_even num (den * 2 ^ (e - 52).toNat)
      let e1 : Int := if m = 2 ^ 53 then e + 1 else e
      let m1 : Nat := if m = 2 ^ 53 then 2 ^ 52 else m
      if 1023 < e1 then ⟨sign, 2047, 0⟩ else ⟨sign, (e1 + 1023).toNat, m1 - 2 ^ 52⟩

/-- Whether a character is a decimal digit. -/
def c_isdigit (c : Char) : Bool := 48 ≤ c.toNat && c.toNat ≤ 57

/-- The number a list of decimal digits denotes. -/
def digits_value (ds : List Char) : Nat :=
  ds.foldl (fun n c => 10 * n + (c.toNat - 48)) 0

/-- The exponent part of a decimal floating constant: `e` or `E`, an optional
sign and at least one digit; `0` when the text does not start with one. -/
def atof_exponent (cs : List Char) : Int :=
  match cs with
  | c :: rest =>
    if c = 'e' ∨ c = 'E' then
      match rest with
      | '-' :: ds =>
        if (ds.takeWhile c_isdigit).isEmpty then 0
        else - (digits_value (ds.takeWhile c_isdigit) : Int)
      | '+' :: ds => (digits_value (ds.takeWhile c_isdigit) : Int)
      | ds => (digits_value (ds.takeWhile c_isdigit) : Int)
    else 0
  | [] => 0

/-- The digits, fraction and exponent of `atof` after the sign. -/
def atof_unsigned (sign : Bool) (cs : List Char) : Double :=
  let int_part := cs.takeWhile c_isdigit
  let after_int := cs.dropWhile c_isdigit
  let frac_part :=
    match after_int with
    | '.' :: rest => rest.takeWhile c_isdigit
    | _ => []
  let after_frac :=
    match after_int with
    | '.' :: rest => rest.dropWhile c_isdigit
    | _ => after_int
  if int_part.isEmpty && frac_part.isEmpty then ⟨false, 0, 0⟩
  else
    let e10 : Int := atof_exponent after_frac - (frac_part.length : Int)
    let m := digits_value (int_part ++ frac_part)
    if 0 ≤ e10 then Double.of_ratio sign (m * 10 ^ e10.toNat) 1
    else Double.of_ratio sign m (10 ^ (-e10).toNat)

/-- The C library function `atof` on the decimal form of a floating constant:
leading white space, an optional sign, digits with an optional point, an
optional exponent; text with no number gives `0.0`.  The hexadecimal, infinity
and NaN forms that `strtod` also reads are not floating constants of the
language and are not modelled. -/
def atof (s : String) : Double :=
  match s.toList.dropWhile c_isspace with
  | '-' :: cs => atof_unsigned true cs
  | '+' :: cs => atof_unsigned false cs
  | cs => atof_unsigned false cs

/-- The bytes of the UTF-8 form of a character. -/
def c_bytes_of_char (c : Char) : List Nat :=
  if c.toNat < 128 then [c.toNat]
  else if c.toNat < 2048 then [192 + c.toNat / 64, 128 + c.toNat % 64]
  else if c.toNat < 65536 then
    [224 + c.toNat / 4096, 128 + c.toNat / 64 % 64, 128 + c.toNat % 64]
  else
    [240 + c.toNat / 262144, 128 + c.toNat / 4096 % 64, 128 + c.toNat / 64 % 64,
      128 + c.toNat % 64]

/-- The bytes of a C string, without the terminator. -/
def c_bytes (s : String) : List Nat :=
  s.toList.flatMap c_bytes_of_char

/-- A byte read as a `char`, which is signed on the platform of the program. -/
def c_char (b : Nat) : Int :=
  if b < 128 then b else (b : Int) - 256

/-- The expression `node->value[1]`: the byte after the first one, the
terminator `0` when the text has one byte; a read past the terminator is
undefined. -/
def value_char_1 (value : Option String) : Except Fault Int :=
  match value with
  | none => .error .undefined_behaviour
  | some text =>
    match c_bytes text with
    | [] => .error .undefined_behaviour
    | [_] => .ok 0
    | _ :: b :: _ => .ok (c_char b)

/-- A node of the tree at its position, with the steps `Generate_IR` and
`emit_params_for_call` perform on it and the same for its children: the
recursive calls of the two functions on a child are the steps stored at that
child. -/
inductive Lowering where
  | mk (position : List Nat) (node : ASTNode) (generate : Lower Operand)
      (emit_params : Nat → Lower Nat) (children : List (Option Lowering))

/-- The position of the node: the child indices on the way from the root. -/
def Lowering.position : Lowering → List Nat
  | .mk p _ _ _ _ => p

/-- The node itself. -/
def Lowering.node : Lowering → ASTNode
  | .mk _ n _ _ _ => n

/-- The call `Generate_IR(node)`. -/
def Lowering.generate : Lowering → Lower Operand
  | .mk _ _ g _ _ => g

/-- The call `emit_params_for_call(node, &count)`, from the value of `count`
before the call to the value after it. -/
def Lowering.emit_params : Lowering → Nat → Lower Nat
  | .mk _ _ _ e _ => e

/-- The array `node->children`. -/
def Lowering.children : Lowering → List (Option Lowering)
  | .mk _ _ _ _ cs => cs

/-- The call `Generate_IR(p)` on a pointer that may be `NULL`. -/
def Generate_IR_at : Option Lowering → Lower Operand
  | none => pure .OP_NONE
  | some l => l.generate

/-- The call `emit_params_for_call(p, &count)` on a pointer that may be
`NULL`. -/
def emit_params_for_call_at : Option Lowering → Nat → Lower Nat
  | none, count => pure count
  | some l, count => l.emit_params count

/-- The read `children[i]`; an index past `num_children` is undefined. -/
def child (kids : List (Option Lowering)) (i : Nat) : Lower (Option Lowering) :=
  match kids[i]? with
  | some k => pure k
  | none => Lower.fail .undefined_behaviour

/-- A dereference `p->...` of a node pointer. -/
def deref (p : Option Lowering) : Lower Lowering :=
  match p with
  | some l => pure l
  | none => Lower.fail .undefined_behaviour

/-- A read of the `type` field of the node at `position` as a `Type*`, `ty`
being the value the field had before generation.  A field that holds the name
of a label is not a type; using it as one is undefined. -/
def read_type (position : List Nat) (ty : Option CType) : Lower (Option CType) := do
  let s ← Lower.get
  match s.labelled.lookup position with
  | some _ => Lower.fail .undefined_behaviour
  | none => pure ty

/-- A read of the `type` field of the node at `position` as a `char*`, the
name of a label: `none` when the field is `NULL`.  A field that holds a type is
read as the bytes of that type; the embedding reports this as a fault. -/
def read_label (position : List Nat) (ty : Option CType) : Lower (Option String) := do
  let s ← Lower.get
  match s.labelled.lookup position with
  | some name => pure (some name)
  | none =>
    match ty with
    | none => pure none
    | some _ => Lower.fail .undefined_behaviour

/-- The assignment `stmt->type = (Type*)name`. -/
def write_label (position : List Nat) (name : String) : Lower Unit :=
  Lower.modify (fun s => { s with labelled := (position, name) :: s.labelled })

/-- The function `create_operand_label_named`. -/
def create_operand_label_named (name : Option String) : Lower Operand :=
  match name with
  | none => Lower.fail .undefined_behaviour
  | some n => pure (.OP_LABEL n)

/-- The member `val.name` of an operand that has one. -/
def Operand.val_name : Operand → String
  | .OP_IDENTIFIER n => n
  | .OP_TEMPORARY n => n
  | .OP_LABEL n => n
  | _ => ""

/-- The call `get_member_offset(type, member_name)` with a name that may be
`NULL`: `strcmp` reads through it at the first member. -/
def get_member_offset_ptr (struct_type : Option CType) (member_name : Option String) :
    Except Fault Int :=
  match member_name with
  | some name => get_member_offset struct_type name
  | none =>
    match struct_type with
    | some (.pointer _ (some (.struct _ _ (_ :: _)))) => .error .undefined_behaviour
    | some (.pointer _ (some (.union _ _ (_ :: _)))) => .error .undefined_behaviour
    | some (.struct _ _ (_ :: _)) => .error .undefined_behaviour
    | some (.union _ _ (_ :: _)) => .error .undefined_behaviour
    | _ => .ok (-1)

/-- The node types of the first branch of `Generate_IR`. -/
def structural_node_types : List String :=
  ["Program", "ExternalDeclaration", "BlockItemList", "BlockItem", "Statement",
   "EmptyStatement", "DeclarationSpecifiers", "TypeSpecifier", "TypeName",
   "StorageClassSpecifier", "TypeQualifier", "StructSpecifier", "StructToken", "UnionToken",
   "StructDeclarationList", "StructDeclaration", "SpecifierQualifierList",
   "StructDeclaratorList", "StructDeclarator", "EnumSpecifier", "EnumeratorList",
   "Enumerator", "Initializer", "InitializerList", "InitValues", "PointerDeclarator",
   "ParameterList", "ParameterDeclaration", "EmptyParameterList", "Pointer",
   "ParenthesizedAbstractDeclarator", "AbstractArraySuffix", "AbstractFunctionSuffix",
   "EmptyExpression"]

def FMT_IR_INDEX_ASSIGN : String :=
  "IR Generation Error: Attempting to index a non-array/pointer type for assignment.\n"
def FMT_IR_POINTER_MEMBER_ASSIGN : String :=
  "IR Generation Error: Member '%s' not found for pointer assignment.\n"
def FMT_IR_MEMBER_ASSIGN : String :=
  "IR Generation Error: Member '%s' not found for struct assignment.\n"
def FMT_IR_UNKNOWN_BINARY : String := "IR Generation Error: Unknown binary operator '%s'\n"
def FMT_IR_UNKNOWN_UNARY : String := "IR Generation Error: Unknown unary operator '%s'\n"
def FMT_IR_INDEX : String :=
  "IR Generation Error: Attempting to index a non-array/pointer type.\n"
def FMT_IR_MEMBER : String := "IR Generation Error: Member '%s' not found in struct.\n"
def FMT_IR_POINTER_MEMBER : String :=
  "IR Generation Error: Member '%s' not found in struct pointed to.\n"
def FMT_IR_BREAK : String := "Error: Break statement outside of loop or switch.\n"
def FMT_IR_CONTINUE : String := "Error: Continue statement outside of loop.\n"
def FMT_IR_UNHANDLED : String := "Warning: Unhandled AST node type for IR generation: %s\n"

/-- The loop `for (i = 0; i < node->num_children; i++) Generate_IR(node->children[i])`. -/
def generate_children : List (Option Lowering) → Lower Unit
  | [] => pure ()
  | k :: ks => do
    let _ ← Generate_IR_at k
    generate_children ks

/-- The allocation shared by the `Declaration` and `InitDeclarator` branches
for a symbol of struct, union or array type. -/
def emit_alloc_heap (var_name : String) (t : CType) : Lower Unit :=
  emit .IR_ALLOC_HEAP (.OP_IDENTIFIER var_name) (.OP_INT_CONST (get_type_size (some t))) .OP_NONE

/-- The `else` part of the loop body of the `Declaration` branch: a declarator
without initialiser. -/
def generate_uninitialized (current_decl : ASTNode) : Lower Unit := do
  let var_name ← Lower.of_except (get_declarator_name (some current_decl))
  match var_name with
  | none => pure ()
  | some name =>
    let s ← Lower.get
    match lookup_symbol name s.table with
    | none => Lower.fail .undefined_behaviour
    | some sym =>
      match sym.type with
      | none => Lower.fail .undefined_behaviour
      | some t =>
        if t.kind = .TYPE_STRUCT ∨ t.kind = .TYPE_UNION ∨ t.kind = .TYPE_ARRAY then
          emit_alloc_heap name t
        else
          match t with
          | .base _ base_name =>
            if base_name = "int" then
              emit .IR_ASSIGN (.OP_IDENTIFIER name) (.OP_INT_CONST 0) .OP_NONE
            else if base_name = "char" then
              emit .IR_ASSIGN (.OP_IDENTIFIER name) (.OP_CHAR_CONST 0) .OP_NONE
            else if base_name = "float" ∨ base_name = "double" then
              emit .IR_ASSIGN (.OP_IDENTIFIER name) (.OP_FLOAT_CONST ⟨false, 0, 0⟩) .OP_NONE
            else pure ()
          | _ => pure ()

mutual
/-- The body of the `while (declarator_list)` loop of the `Declaration` branch
at a non-`NULL` `declarator_list`. -/
def generate_declarators_of : Lowering → Lower Unit
  | .mk _ _ _ _ [] => Lower.fail .undefined_behaviour
  | .mk _ _ _ _ (none :: _) => Lower.fail .undefined_behaviour
  | .mk _ _ _ _ [some current_decl] =>
    if current_decl.node.node_type = "InitDeclarator" then do
      let _ ← current_decl.generate
      pure ()
    else generate_uninitialized current_decl.node
  | .mk _ _ _ _ (some current_decl :: next :: _) => do
    if current_decl.node.node_type = "InitDeclarator" then do
      let _ ← current_decl.generate
      pure ()
    else generate_uninitialized current_decl.node
    generate_declarators next
/-- The `while (declarator_list)` loop of the `Declaration` branch. -/
def generate_declarators : Option Lowering → Lower Unit
  | none => pure ()
  | some l => generate_declarators_of l
end

/-- The `InitDeclaratorList` branch of `Generate_IR`. -/
def generate_init_declarator_list (kids : List (Option Lowering)) : Lower Operand := do
  if 1 < kids.length then do
    let c1 ← child kids 1
    let _ ← Generate_IR_at c1
    pure ()
  else pure ()
  let c0 ← child kids 0
  let _ ← Generate_IR_at c0
  pure .OP_NONE

/-- The `InitDeclarator` branch of `Generate_IR`. -/
def generate_init_declarator (kids : List (Option Lowering)) : Lower Operand := do
  let declarator ← child kids 0
  let init_value ← child kids 1
  let var_name ← Lower.of_except (get_declarator_name (declarator.map Lowering.node))
  match var_name with
  | none => pure .OP_NONE
  | some name =>
    let s ← Lower.get
    match lookup_symbol name s.table with
    | none => pure ()
    | some sym =>
      match sym.type with
      | none => Lower.fail .undefined_behaviour
      | some t =>
        if t.kind = .TYPE_STRUCT ∨ t.kind = .TYPE_UNION ∨ t.kind = .TYPE_ARRAY then
          emit_alloc_heap name t
        else pure ()
    let rhs_op ← Generate_IR_at init_value
    emit .IR_ASSIGN (.OP_IDENTIFIER name) rhs_op .OP_NONE
    pure .OP_NONE

/-- The block of `Generate_IR` for an `ArrayDeclarator`; the node then runs
through the chain of branches that follows, down to its last one. -/
def generate_array_declarator (node : ASTNode) : Lower Unit := do
  let array_name ← Lower.of_except (get_declarator_name (some node))
  let s ← Lower.get
  let sym ← Lower.of_except (lookup_symbol_ptr array_name s.table)
  match sym with
  | none => pure ()
  | some sym =>
    match sym.type with
    | none => Lower.fail .undefined_behaviour
    | some (.array size element_type array_size) =>
      if 0 < array_size then do
        let name_op ← create_operand_identifier array_name
        emit .IR_ALLOC_HEAP name_op
          (.OP_INT_CONST (get_type_size (some (.array size element_type array_size)))) .OP_NONE
      else pure ()
    | some _ => pure ()

/-- The `while (current_param)` loop of the `FunctionDefinition` branch. -/
def emit_parameter_assignments : List Symbol → Nat → Lower Unit
  | [], _ => pure ()
  | current_param :: rest, arg_index => do
    emit .IR_ASSIGN (.OP_IDENTIFIER current_param.name) (create_operand_argument arg_index)
      .OP_NONE
    emit_parameter_assignments rest (arg_index + 1)

/-- The member `data.function_info.return_type` read from a type of any kind.
The members of the union `data` share their storage: the pointer read is the
return type of a function, the pointee of a pointer and the element type of an
array.  For a base type and for a struct or union it is the address of a name,
which is not the address of a `Type`; for the kinds no constructor fills in
it was never written. -/
def read_return_type : CType → Except Fault (Option CType)
  | .function _ return_type _ => .ok return_type
  | .pointer _ points_to => .ok points_to
  | .array _ element_type _ => .ok element_type
  | _ => .error .undefined_behaviour

/-- The test `strcmp(t->data.base_name, "void") == 0` on a type of any kind.
For a base type `base_name` is its name, for a struct or union it is the tag,
which may be `NULL`.  For a pointer, array or function type it is the address
of another `Type`, or `NULL`: `strcmp` then meets the bytes of the `kind` field
of that type, a value below 8 followed by a zero byte, which is not the text
`void`. -/
def return_type_is_void : CType → Except Fault Bool
  | .base _ base_name => .ok (base_name = "void")
  | .struct _ (some name) _ => .ok (name = "void")
  | .union _ (some name) _ => .ok (name = "void")
  | .pointer _ (some _) => .ok false
  | .array _ (some _) _ => .ok false
  | .function _ (some _) _ => .ok false
  | _ => .error .undefined_behaviour

/-- The end of the `FunctionDefinition` branch: a `RETURN` when the symbol of
the function has the return type `void`. -/
def emit_void_return (func_name : String) : Lower Unit := do
  let s ← Lower.get
  match lookup_symbol func_name s.table with
  | none => Lower.fail .undefined_behaviour
  | some function_entry =>
    match function_entry.type with
    | none => Lower.fail .undefined_behaviour
    | some type =>
      match read_return_type type with
      | .error f => Lower.fail f
      | .ok none => Lower.fail .undefined_behaviour
      | .ok (some return_type) =>
        match return_type_is_void return_type with
        | .error f => Lower.fail f
        | .ok true => emit .IR_RETURN .OP_NONE .OP_NONE .OP_NONE
        | .ok false => pure ()

/-- The `FunctionDefinition` branch of `Generate_IR`. -/
def generate_function_definition (kids : List (Option Lowering)) : Lower Operand := do
  let declarator_node ← child kids 1
  let func_name ← Lower.of_except (get_declarator_name (declarator_node.map Lowering.node))
  Lower.modify (fun s => { s with is_global_declaration := false })
  match func_name with
  | none => Lower.fail .undefined_behaviour
  | some name =>
    Lower.modify (fun s => { s with is_in_main_function := decide (name = "main") })
    emit .IR_LABEL (.OP_LABEL name) .OP_NONE .OP_NONE
    let s ← Lower.get
    let built ← Lower.of_except
      (build_parameter_list_from_ast
        (get_function_parameters_node (declarator_node.map Lowering.node)) s.table)
    Lower.modify (fun s => { s with table := built.2 })
    emit_parameter_assignments built.1 0
    let body ← child kids 2
    let _ ← Generate_IR_at body
    emit_void_return name
    pure .OP_NONE

/-- The `CompoundStatement` and `ExpressionStatement` branches of
`Generate_IR`. -/
def generate_first_child (kids : List (Option Lowering)) : Lower Operand :=
  match kids with
  | [] => pure .OP_NONE
  | c0 :: _ => do
    let _ ← Generate_IR_at c0
    pure .OP_NONE

/-- The `Return` branch of `Generate_IR`. -/
def generate_return (kids : List (Option Lowering)) : Lower Operand :=
  match kids with
  | c0 :: _ => do
    let s ← Lower.get
    if s.is_in_main_function = false then do
      let expression ← deref c0
      if expression.node.node_type = "EmptyExpression" then do
        emit .IR_RETURN .OP_NONE .OP_NONE .OP_NONE
        Lower.modify (fun s => { s with is_global_declaration := true })
        pure .OP_NONE
      else do
        let arg1_op ← expression.generate
        emit .IR_RETURN .OP_NONE arg1_op .OP_NONE
        Lower.modify (fun s => { s with is_global_declaration := true })
        pure .OP_NONE
    else do
      emit .IR_HALT .OP_NONE .OP_NONE .OP_NONE
      Lower.modify (fun s => { s with is_global_declaration := true })
      pure .OP_NONE
  | [] => do
    emit .IR_RETURN .OP_NONE .OP_NONE .OP_NONE
    Lower.modify (fun s => { s with is_global_declaration := true })
    pure .OP_NONE

/-- The `IntConstant`, `FloatConstant` and `CharConstant` branches of
`Generate_IR`. -/
def generate_constant (nt : String) (v : Option String) : Lower Operand :=
  if nt = "IntConstant" then
    match v with
    | none => Lower.fail .undefined_behaviour
    | some text => pure (.OP_INT_CONST (atoi text))
  else if nt = "FloatConstant" then
    match v with
    | none => Lower.fail .undefined_behaviour
    | some text => pure (.OP_FLOAT_CONST (atof text))
  else do
    let c ← Lower.of_except (value_char_1 v)
    pure (.OP_CHAR_CONST c)

/-- The store of the `Assignment` branch for a target `arr[i]`. -/
def generate_array_store (lhs : Lowering) (arg1_op : Operand) : Lower Operand := do
  let c0 ← child lhs.children 0
  let array_op ← Generate_IR_at c0
  let c1 ← child lhs.children 1
  let index_op ← Generate_IR_at c1
  let element_type ← read_type lhs.position lhs.node.type
  match element_type with
  | some t =>
    let offset_op ← create_operand_temp
    emit .IR_MUL offset_op index_op (.OP_INT_CONST (get_type_size (some t)))
    emit .IR_INDEX_STORE array_op offset_op arg1_op
  | none => Lower.report FMT_IR_INDEX_ASSIGN []
  pure arg1_op

/-- The store of the `Assignment` branch for the targets `p->m` and `s.m`;
`fmt` is the message of the branch. -/
def generate_member_store (fmt : String) (lhs : Lowering) (arg1_op : Operand) :
    Lower Operand := do
  let c0 ← child lhs.children 0
  let struct_op ← Generate_IR_at c0
  let base ← deref c0
  let base_type ← read_type base.position base.node.type
  let offset ← Lower.of_except (get_member_offset_ptr base_type lhs.node.value)
  if offset ≠ -1 then emit .IR_INDEX_STORE struct_op (.OP_INT_CONST offset) arg1_op
  else Lower.report fmt [.str lhs.node.value]
  pure arg1_op

/-- The `Assignment` branch of `Generate_IR`. -/
def generate_assignment (kids : List (Option Lowering)) : Lower Operand := do
  let rhs ← child kids 1
  let arg1_op ← Generate_IR_at rhs
  let c0 ← child kids 0
  let result_op ← Generate_IR_at c0
  let lhs ← deref c0
  if lhs.node.node_type = "ArrayAccess" then generate_array_store lhs arg1_op
  else if lhs.node.node_type = "PointerMemberAccess" then
    generate_member_store FMT_IR_POINTER_MEMBER_ASSIGN lhs arg1_op
  else if lhs.node.node_type = "MemberAccess" then
    generate_member_store FMT_IR_MEMBER_ASSIGN lhs arg1_op
  else if lhs.node.node_type = "UnaryOp" then
    match lhs.node.value with
    | none => Lower.fail .undefined_behaviour
    | some op =>
      if op = "*" then do
        let p ← child lhs.children 0
        let ptr_op ← Generate_IR_at p
        emit .IR_DEREF_STORE ptr_op arg1_op .OP_NONE
        pure result_op
      else do
        let target_op ← lhs.generate
        emit .IR_ASSIGN target_op arg1_op .OP_NONE
        pure target_op
  else do
    let target_op ← lhs.generate
    emit .IR_ASSIGN target_op arg1_op .OP_NONE
    pure target_op

/-- The opcode the `BinaryOp` branch selects for an operator other than the
comma; `none` for an operator it does not know. -/
def binary_op_code (op : String) : Option OpCode :=
  if op = "+" then some .IR_ADD
  else if op = "-" then some .IR_SUB
  else if op = "*" then some .IR_MUL
  else if op = "/" then some .IR_DIV
  else if op = "%" then some .IR_MOD
  else if op = "==" then some .IR_EQ
  else if op = "!=" then some .IR_NE
  else if op = "<" then some .IR_LT
  else if op = ">" then some .IR_GT
  else if op = "<=" then some .IR_LE
  else if op = ">=" then some .IR_GE
  else if op = "&&" then some .IR_AND
  else if op = "||" then some .IR_OR
  else if op = "&" then some .IR_BIT_AND
  else if op = "|" then some .IR_BIT_OR
  else if op = "^" then some .IR_XOR
  else if op = "<<" then some .IR_SHL
  else if op = ">>" then some .IR_SHR
  else none

/-- The `BinaryOp` branch of `Generate_IR`. -/
def generate_binary_op (v : Option String) (kids : List (Option Lowering)) :
    Lower Operand := do
  let c0 ← child kids 0
  let arg1_op ← Generate_IR_at c0
  let c1 ← child kids 1
  let arg2_op ← Generate_IR_at c1
  let result_op ← create_operand_temp
  match v with
  | none => Lower.fail .undefined_behaviour
  | some op =>
    match binary_op_code op with
    | some op_code =>
      emit op_code result_op arg1_op arg2_op
      pure result_op
    | none =>
      if op = "," then pure arg2_op
      else do
        Lower.report FMT_IR_UNKNOWN_BINARY [.str v]
        emit .IR_NOP result_op arg1_op arg2_op
        pure result_op

/-- The opcode the `UnaryOp` branch selects; `none` for an operator it does
not know. -/
def unary_op_code (op : String) : Option OpCode :=
  if op = "-" then some .IR_UNARY_MINUS
  else if op = "!" then some .IR_NOT
  else if op = "~" then some .IR_BIT_NOT
  else if op = "&" then some .IR_ADDR_OF
  else if op = "*" then some .IR_DEREF
  else none

/-- The `UnaryOp` branch of `Generate_IR`. -/
def generate_unary_op (v : Option String) (kids : List (Option Lowering)) :
    Lower Operand := do
  let c0 ← child kids 0
  let arg1_op ← Generate_IR_at c0
  let result_op ← create_operand_temp
  match v with
  | none => Lower.fail .undefined_behaviour
  | some op =>
    match unary_op_code op with
    | some op_code =>
      emit op_code result_op arg1_op .OP_NONE
      pure result_op
    | none =>
      Lower.report FMT_IR_UNKNOWN_UNARY [.str v]
      emit .IR_NOP result_op arg1_op .OP_NONE
      pure result_op

/-- The `PrefixIncrement` and `PrefixDecrement` branch of `Generate_IR`. -/
def generate_pre_step (op_code : OpCode) (kids : List (Option Lowering)) :
    Lower Operand := do
  let c0 ← child kids 0
  let target_op ← Generate_IR_at c0
  let result_op ← create_operand_temp
  emit op_code result_op target_op (.OP_INT_CONST 1)
  emit .IR_ASSIGN target_op result_op .OP_NONE
  pure result_op

/-- The `PostfixIncrement` and `PostfixDecrement` branch of `Generate_IR`. -/
def generate_post_step (op_code : OpCode) (kids : List (Option Lowering)) :
    Lower Operand := do
  let c0 ← child kids 0
  let target_op ← Generate_IR_at c0
  let result_op ← create_operand_temp
  emit .IR_ASSIGN result_op target_op .OP_NONE
  let temp_val_op ← create_operand_temp
  emit op_code temp_val_op target_op (.OP_INT_CONST 1)
  emit .IR_ASSIGN target_op temp_val_op .OP_NONE
  pure result_op

/-- The `FunctionCall` branch of `Generate_IR`. -/
def generate_function_call (kids : List (Option Lowering)) : Lower Operand := do
  let c0 ← child kids 0
  let func_ident_node ← deref c0
  let arg_list_node : Option Lowering :=
    match kids with
    | _ :: c1 :: _ => c1
    | _ => none
  let num_args ← emit_params_for_call_at arg_list_node 0
  let result_op ← create_operand_temp
  let callee ← create_operand_identifier func_ident_node.node.value
  emit .IR_CALL result_op callee (.OP_INT_CONST num_args)
  pure result_op

/-- The `ArrayAccess` branch of `Generate_IR`; `position` and `ty` are those of
the node. -/
def generate_array_access (position : List Nat) (ty : Option CType)
    (kids : List (Option Lowering)) : Lower Operand := do
  let c0 ← child kids 0
  let array_op ← Generate_IR_at c0
  let c1 ← child kids 1
  let index_op ← Generate_IR_at c1
  let array_node ← deref c0
  let array_type ← read_type array_node.position array_node.node.type
  let element_type ← read_type position ty
  match array_type, element_type with
  | some a, some e =>
    if a.kind = .TYPE_ARRAY ∨ a.kind = .TYPE_POINTER then do
      let offset_op ← create_operand_temp
      emit .IR_MUL offset_op index_op (.OP_INT_CONST (get_type_size (some e)))
      let result_op ← create_operand_temp
      emit .IR_INDEX_LOAD result_op array_op offset_op
      pure result_op
    else do
      Lower.report FMT_IR_INDEX []
      pure (.OP_INT_CONST 0)
  | _, _ => do
    Lower.report FMT_IR_INDEX []
    pure (.OP_INT_CONST 0)

/-- The `MemberAccess` and `PointerMemberAccess` branches of `Generate_IR`;
`fmt` is the message of the branch and `recovery` the operand it returns when
the member is not found. -/
def generate_member_access (fmt : String) (recovery : Operand) (v : Option String)
    (kids : List (Option Lowering)) : Lower Operand := do
  let c0 ← child kids 0
  let struct_op ← Generate_IR_at c0
  let base ← deref c0
  let base_type ← read_type base.position base.node.type
  let offset ← Lower.of_except (get_member_offset_ptr base_type v)
  if offset ≠ -1 then do
    let result_op ← create_operand_temp
    emit .IR_INDEX_LOAD result_op struct_op (.OP_INT_CONST offset)
    pure result_op
  else do
    Lower.report fmt [.str v]
    pure recovery

/-- The `IfStatement` branch of `Generate_IR`. -/
def generate_if (kids : List (Option Lowering)) : Lower Operand := do
  let c0 ← child kids 0
  let cond_op ← Generate_IR_at c0
  let label_end ← create_operand_label
  emit .IR_IF_FALSE_GOTO label_end cond_op .OP_NONE
  let c1 ← child kids 1
  let _ ← Generate_IR_at c1
  emit .IR_LABEL label_end .OP_NONE .OP_NONE
  pure .OP_NONE

/-- The `IfElseStatement` branch of `Generate_IR`. -/
def generate_if_else (kids : List (Option Lowering)) : Lower Operand := do
  let c0 ← child kids 0
  let cond_op ← Generate_IR_at c0
  let label_else ← create_operand_label
  let label_end ← create_operand_label
  emit .IR_IF_FALSE_GOTO label_else cond_op .OP_NONE
  let c1 ← child kids 1
  let _ ← Generate_IR_at c1
  emit .IR_GOTO label_end .OP_NONE .OP_NONE
  emit .IR_LABEL label_else .OP_NONE .OP_NONE
  let c2 ← child kids 2
  let _ ← Generate_IR_at c2
  emit .IR_LABEL label_end .OP_NONE .OP_NONE
  pure .OP_NONE

/-- The `WhileStatement` branch of `Generate_IR`. -/
def generate_while (kids : List (Option Lowering)) : Lower Operand := do
  let label_loop_cond ← create_operand_label
  let label_loop_body ← create_operand_label
  let label_loop_end ← create_operand_label
  emit .IR_GOTO label_loop_cond .OP_NONE .OP_NONE
  emit .IR_LABEL label_loop_body .OP_NONE .OP_NONE
  let c1 ← child kids 1
  let _ ← Generate_IR_at c1
  emit .IR_LABEL label_loop_cond .OP_NONE .OP_NONE
  let c0 ← child kids 0
  let cond_op ← Generate_IR_at c0
  emit .IR_IF_FALSE_GOTO label_loop_end cond_op .OP_NONE
  emit .IR_GOTO label_loop_body .OP_NONE .OP_NONE
  emit .IR_LABEL label_loop_end .OP_NONE .OP_NONE
  pure .OP_NONE

/-- The `DoWhileStatement` branch of `Generate_IR`. -/
def generate_do_while (kids : List (Option Lowering)) : Lower Operand := do
  let label_loop_start ← create_operand_label
  let label_loop_end ← create_operand_label
  emit .IR_LABEL label_loop_start .OP_NONE .OP_NONE
  let c0 ← child kids 0
  let _ ← Generate_IR_at c0
  let c1 ← child kids 1
  let cond_op ← Generate_IR_at c1
  emit .IR_IF_FALSE_GOTO label_loop_end cond_op .OP_NONE
  emit .IR_GOTO label_loop_start .OP_NONE .OP_NONE
  emit .IR_LABEL label_loop_end .OP_NONE .OP_NONE
  pure .OP_NONE

/-- The two assignments `current_continue_label.type = OP_NONE` and
`current_break_label.type = OP_NONE`. -/
def clear_loop_labels : Lower Unit :=
  Lower.modify (fun s =>
    { s with current_continue_label := .OP_NONE, current_break_label := .OP_NONE })

/-- The `ForStatement` branch of `Generate_IR`. -/
def generate_for (kids : List (Option Lowering)) : Lower Operand := do
  let label_loop_cond ← create_operand_label
  let label_loop_incr ← create_operand_label
  let label_loop_body ← create_operand_label
  let label_loop_end ← create_operand_label
  Lower.modify (fun s =>
    { s with current_continue_label := label_loop_incr, current_break_label := label_loop_end })
  let c0 ← child kids 0
  let _ ← Generate_IR_at c0
  emit .IR_GOTO label_loop_cond .OP_NONE .OP_NONE
  emit .IR_LABEL label_loop_body .OP_NONE .OP_NONE
  let c3 ← child kids 3
  let _ ← Generate_IR_at c3
  emit .IR_LABEL label_loop_incr .OP_NONE .OP_NONE
  let c2 ← child kids 2
  let _ ← Generate_IR_at c2
  emit .IR_LABEL label_loop_cond .OP_NONE .OP_NONE
  let c1 ← child kids 1
  let cond_op ← Generate_IR_at c1
  emit .IR_IF_FALSE_GOTO label_loop_end cond_op .OP_NONE
  emit .IR_GOTO label_loop_body .OP_NONE .OP_NONE
  clear_loop_labels
  emit .IR_LABEL label_loop_end .OP_NONE .OP_NONE
  pure .OP_NONE

/-- The `ForDeclStatement` branch of `Generate_IR`. -/
def generate_for_decl (kids : List (Option Lowering)) : Lower Operand := do
  let label_loop_cond ← create_operand_label
  let label_loop_body ← create_operand_label
  let label_loop_end ← create_operand_label
  Lower.modify (fun s =>
    { s with current_continue_label := label_loop_cond, current_break_label := label_loop_end })
  let c0 ← child kids 0
  let _ ← Generate_IR_at c0
  emit .IR_GOTO label_loop_cond .OP_NONE .OP_NONE
  emit .IR_LABEL label_loop_body .OP_NONE .OP_NONE
  let c3 ← child kids 3
  let _ ← Generate_IR_at c3
  let c2 ← child kids 2
  let _ ← Generate_IR_at c2
  emit .IR_LABEL label_loop_cond .OP_NONE .OP_NONE
  let c1 ← child kids 1
  let cond_op ← Generate_IR_at c1
  emit .IR_IF_FALSE_GOTO label_loop_end cond_op .OP_NONE
  emit .IR_GOTO label_loop_body .OP_NONE .OP_NONE
  clear_loop_labels
  emit .IR_LABEL label_loop_end .OP_NONE .OP_NONE
  pure .OP_NONE

/-- The `BreakStatement` branch of `Generate_IR`. -/
def generate_break : Lower Operand := do
  let s ← Lower.get
  match s.current_break_label with
  | .OP_NONE => Lower.report FMT_IR_BREAK []
  | label => emit .IR_GOTO label .OP_NONE .OP_NONE
  pure .OP_NONE

/-- The `ContinueStatement` branch of `Generate_IR`. -/
def generate_continue : Lower Operand := do
  let s ← Lower.get
  match s.current_continue_label with
  | .OP_NONE => Lower.report FMT_IR_CONTINUE []
  | label => emit .IR_GOTO label .OP_NONE .OP_NONE
  pure .OP_NONE

/-- The `CaseStatement` (`statement_index` 1) and `DefaultStatement`
(`statement_index` 0) branches of `Generate_IR`. -/
def generate_labelled (statement_index : Nat) (position : List Nat) (ty : Option CType)
    (kids : List (Option Lowering)) : Lower Operand := do
  let label ← read_label position ty
  match label with
  | some name => emit .IR_LABEL (.OP_LABEL name) .OP_NONE .OP_NONE
  | none => pure ()
  let statement ← child kids statement_index
  let _ ← Generate_IR_at statement
  pure .OP_NONE

/-- Pass 1 of the `SwitchStatement` branch over the children of
`block_item_list_node`: a fresh label for every `CaseStatement` and
`DefaultStatement`, its name stored in the `type` field of the statement.
Returns `default_label`. -/
def label_cases : List (Option Lowering) → Operand → Lower Operand
  | [], default_label => pure default_label
  | none :: _, _ => Lower.fail .undefined_behaviour
  | some stmt :: rest, default_label =>
    if stmt.node.node_type = "CaseStatement" then do
      let label ← create_operand_label
      write_label stmt.position label.val_name
      label_cases rest default_label
    else if stmt.node.node_type = "DefaultStatement" then do
      let label ← create_operand_label
      write_label stmt.position label.val_name
      label_cases rest label
    else label_cases rest default_label

/-- Pass 2 of the `SwitchStatement` branch over the children of
`block_item_list_node`: for every `CaseStatement` the code of its expression,
a comparison with `switch_val` and a jump to the label of the case. -/
def emit_case_tests (switch_val : Operand) : List (Option Lowering) → Lower Unit
  | [] => pure ()
  | none :: _ => Lower.fail .undefined_behaviour
  | some stmt :: rest =>
    if stmt.node.node_type = "CaseStatement" then do
      let c0 ← child stmt.children 0
      let case_val ← Generate_IR_at c0
      let name ← read_label stmt.position stmt.node.type
      let case_label ← create_operand_label_named name
      let condition ← create_operand_temp
      emit .IR_EQ condition switch_val case_val
      emit .IR_IF_TRUE_GOTO case_label condition .OP_NONE
      emit_case_tests switch_val rest
    else emit_case_tests switch_val rest

/-- The `SwitchStatement` branch of `Generate_IR`. -/
def generate_switch (kids : List (Option Lowering)) : Lower Operand := do
  let c0 ← child kids 0
  let switch_val ← Generate_IR_at c0
  let end_label ← create_operand_label
  let s ← Lower.get
  let old_break_label := s.current_break_label
  Lower.modify (fun s => { s with current_break_label := end_label })
  let c1 ← child kids 1
  let body ← deref c1
  let block_item_list_node : Option Lowering :=
    match body.children with
    | b :: _ => b
    | [] => none
  let default_label ←
    match block_item_list_node with
    | some b => label_cases b.children .OP_NONE
    | none => pure .OP_NONE
  match block_item_list_node with
  | some b => emit_case_tests switch_val b.children
  | none => pure ()
  match default_label with
  | .OP_NONE => emit .IR_GOTO end_label .OP_NONE .OP_NONE
  | label => emit .IR_GOTO label .OP_NONE .OP_NONE
  let _ ← body.generate
  emit .IR_LABEL end_label .OP_NONE .OP_NONE
  Lower.modify (fun s => { s with current_break_label := old_break_label })
  pure .OP_NONE

/-- The last branch of `Generate_IR`, for a node type no branch names. -/
def generate_unhandled (nt : String) (kids : List (Option Lowering)) : Lower Operand := do
  Lower.report FMT_IR_UNHANDLED [.str (some nt)]
  generate_children kids
  pure .OP_NONE

/-- The chain of branches of `Generate_IR` from `FunctionDefinition` on. -/
def generate_branches (position : List Nat) (nt : String) (v : Option String)
    (ty : Option CType) (kids : List (Option Lowering)) : Lower Operand :=
  if nt = "FunctionDefinition" then generate_function_definition kids
  else if nt = "CompoundStatement" then generate_first_child kids
  else if nt = "ExpressionStatement" then generate_first_child kids
  else if nt = "Return" then generate_return kids
  else if nt = "Identifier" then create_operand_identifier v
  else if nt = "IntConstant" then generate_constant nt v
  else if nt = "FloatConstant" then generate_constant nt v
  else if nt = "CharConstant" then generate_constant nt v
  else if nt = "StringLiteral" then create_operand_string v
  else if nt = "Assignment" then generate_assignment kids
  else if nt = "BinaryOp" then generate_binary_op v kids
  else if nt = "UnaryOp" then generate_unary_op v kids
  else if nt = "PrefixIncrement" then generate_pre_step .IR_ADD kids
  else if nt = "PrefixDecrement" then generate_pre_step .IR_SUB kids
  else if nt = "PostfixIncrement" then generate_post_step .IR_ADD kids
  else if nt = "PostfixDecrement" then generate_post_step .IR_SUB kids
  else if nt = "FunctionCall" then generate_function_call kids
  else if nt = "ArrayAccess" then generate_array_access position ty kids
  else if nt = "MemberAccess" then generate_member_access FMT_IR_MEMBER .OP_NONE v kids
  else if nt = "PointerMemberAccess" then
    generate_member_access FMT_IR_POINTER_MEMBER (.OP_INT_CONST 0) v kids
  else if nt = "IfStatement" then generate_if kids
  else if nt = "IfElseStatement" then generate_if_else kids
  else if nt = "WhileStatement" then generate_while kids
  else if nt = "DoWhileStatement" then generate_do_while kids
  else if nt = "ForStatement" then generate_for kids
  else if nt = "ForDeclStatement" then generate_for_decl kids
  else if nt = "BreakStatement" then generate_break
  else if nt = "ContinueStatement" then generate_continue
  else if nt = "CaseStatement" then generate_labelled 1 position ty kids
  else if nt = "DefaultStatement" then generate_labelled 0 position ty kids
  else if nt = "SwitchStatement" then generate_switch kids
  else generate_unhandled nt kids

/-- The body of `Generate_IR` at a non-`NULL` node, over the steps of its
children. -/
def generate_node (position : List Nat) (nt : String) (v : Option String)
    (cs : List (Option ASTNode)) (ty : Option CType) (kids : List (Option Lowering)) :
    Lower Operand :=
  if nt ∈ structural_node_types then do
    generate_children kids
    pure .OP_NONE
  else if nt = "Declaration" then do
    let declarator_list ← child kids 1
    generate_declarators declarator_list
    pure .OP_NONE
  else if nt = "InitDeclaratorList" then generate_init_declarator_list kids
  else if nt = "InitDeclarator" then generate_init_declarator kids
  else if nt = "ArrayDeclarator" then do
    generate_array_declarator (.mk nt v cs ty)
    generate_branches position nt v ty kids
  else generate_branches position nt v ty kids

/-- The body of `emit_params_for_call` at a non-`NULL` node, over the steps of
its children; `generate` is `Generate_IR` on the node itself. -/
def emit_params_node (nt : String) (generate : Lower Operand) (kids : List (Option Lowering))
    (count : Nat) : Lower Nat :=
  if nt = "EmptyExpression" then pure count
  else if nt = "ArgumentList" then do
    let c0 ← child kids 0
    let count1 ← emit_params_for_call_at c0 count
    if 1 < kids.length then do
      let c1 ← child kids 1
      let param_op ← Generate_IR_at c1
      emit .IR_PARAM .OP_NONE param_op .OP_NONE
      pure (count1 + 1)
    else pure count1
  else do
    let param_op ← generate
    emit .IR_PARAM .OP_NONE param_op .OP_NONE
    pure (count + 1)

mutual
/-- The steps of `Generate_IR` and `emit_params_for_call` on a node at a
position and on everything below it. -/
def lowering_of (position : List Nat) : ASTNode → Lowering
  | .mk nt v cs ty =>
    .mk position (.mk nt v cs ty)
      (generate_node position nt v cs ty (lowering_children position 0 cs))
      (emit_params_node nt
        (generate_node position nt v cs ty (lowering_children position 0 cs))
        (lowering_children position 0 cs))
      (lowering_children position 0 cs)
/-- The steps on the children from index `i` on of the node at `position`. -/
def lowering_children (position : List Nat) (i : Nat) :
    List (Option ASTNode) → List (Option Lowering)
  | [] => []
  | none :: cs => none :: lowering_children position (i + 1) cs
  | some c :: cs => some (lowering_of (position ++ [i]) c) :: lowering_children position (i + 1) cs
end

/-- The function `Generate_IR` on the node at `position`. -/
def Generate_IR_from (position : List Nat) (node : Option ASTNode) : Lower Operand :=
  match node with
  | none => pure .OP_NONE
  | some n => (lowering_of position n).generate

/-- The function `Generate_IR` called on the root of a tree. -/
def Generate_IR (node : Option ASTNode) : Lower Operand :=
  Generate_IR_from [] node

/-- The function `emit_params_for_call` on the node at `position`. -/
def emit_params_for_call (position : List Nat) (node : Option ASTNode) (count : Nat) :
    Lower Nat :=
  match node with
  | none => pure count
  | some n => (lowering_of position n).emit_params count

/-! ## Textual form of the three-address code (`ir_generator.c`) -/

/-- The text `fprintf` writes for `%d`. -/
def format_d (n : Int) : String := toString n

/-- A number below `10 ^ 6` in six decimal digits. -/
def six_digits (n : Nat) : String :=
  "".pushn '0' (6 - (toString n).length) ++ toString n

/-- The text `fprintf` writes for `%f`: the value rounded to six decimals, ties
to even on the exact value; `inf` and `nan` for the special values, each with
its sign. -/
def format_f (d : Double) : String :=
  (if d.sign then "-" else "") ++
    (if d.exponent = 2047 then (if d.mantissa = 0 then "inf" else "nan")
     else
      let significand : Nat := if d.exponent = 0 then d.mantissa else 2 ^ 52 + d.mantissa
      let exponent : Int := ((if d.exponent = 0 then 1 else d.exponent : Nat) : Int) - 1075
      let millionths : Nat :=
        if 0 ≤ exponent then significand * 2 ^ exponent.toNat * 10 ^ 6
        else round_half_even (significand * 10 ^ 6) (2 ^ (-exponent).toNat)
      toString (millionths / 10 ^ 6) ++ "." ++ six_digits (millionths % 10 ^ 6))

/-- The function `print_operand`: the text written for an operand. -/
def print_operand : Operand → String
  | .OP_NONE => ""
  | .OP_INT_CONST int_val => format_d int_val
  | .OP_FLOAT_CONST float_val => format_f float_val
  | .OP_CHAR_CONST char_val => format_d char_val
  | .OP_STRING_LITERAL str_val => "\"" ++ str_val ++ "\""
  | .OP_IDENTIFIER name => name
  | .OP_TEMPORARY name => name
  | .OP_LABEL name => name

/-- The member `val.name` read for `%s` whatever the tag of the operand: the
string of an operand that holds one; an operand that holds a number or nothing
has no pointer there. -/
def Operand.read_name : Operand → Except Fault String
  | .OP_IDENTIFIER name => .ok name
  | .OP_TEMPORARY name => .ok name
  | .OP_LABEL name => .ok name
  | .OP_STRING_LITERAL str_val => .ok str_val
  | _ => .error .undefined_behaviour

/-- The member `val.int_val` read for `%d` whatever the tag of the operand: the
value of an integer constant; under every other tag the four bytes were not
written as an `int`. -/
def Operand.read_int : Operand → Except Fault Int
  | .OP_INT_CONST int_val => .ok int_val
  | _ => .error .undefined_behaviour

/-- The mnemonic `print_ir_list` writes for the opcodes of its three-operand
case. -/
def binary_mnemonic : OpCode → String
  | .IR_ADD => "ADD"
  | .IR_SUB => "SUB"
  | .IR_MUL => "MUL"
  | .IR_DIV => "DIV"
  | .IR_MOD => "MOD"
  | .IR_SHL => "SHL"
  | .IR_SHR => "SHR"
  | .IR_EQ => "EQ"
  | .IR_NE => "NE"
  | .IR_LT => "LT"
  | .IR_GT => "GT"
  | .IR_LE => "LE"
  | .IR_GE => "GE"
  | .IR_AND => "AND"
  | .IR_OR => "OR"
  | .IR_BIT_AND => "BIT_AND"
  | .IR_BIT_OR => "BIT_OR"
  | _ => "XOR"

/-- The mnemonic `print_ir_list` writes for the opcodes of its unary case. -/
def unary_mnemonic : OpCode → String
  | .IR_UNARY_MINUS => "UMINUS"
  | .IR_NOT => "NOT"
  | .IR_BIT_NOT => "BIT_NOT"
  | .IR_ADDR => "ADDR"
  | _ => "DEREF_LOAD"

/-- One pass through the loop body of `print_ir_list`: the text written for an
instruction. -/
def print_instruction (current : Instruction) : Except Fault String :=
  match current.opcode with
  | .IR_HALT => .ok "\tHALT\n"
  | .IR_LABEL => current.result.read_name.map (fun name => name ++ ":\n")
  | .IR_ASSIGN =>
    .ok ("\tASSIGN " ++ print_operand current.result ++ ", " ++ print_operand current.arg1 ++ "\n")
  | .IR_ADD | .IR_SUB | .IR_MUL | .IR_DIV | .IR_MOD | .IR_SHL | .IR_SHR | .IR_EQ | .IR_NE
  | .IR_LT | .IR_GT | .IR_LE | .IR_GE | .IR_AND | .IR_OR | .IR_BIT_AND | .IR_BIT_OR
  | .IR_XOR =>
    .ok ("\t" ++ binary_mnemonic current.opcode ++ " " ++ print_operand current.result ++ ", " ++
      print_operand current.arg1 ++ ", " ++ print_operand current.arg2 ++ "\n")
  | .IR_UNARY_MINUS | .IR_NOT | .IR_BIT_NOT | .IR_ADDR | .IR_DEREF =>
    .ok ("\t" ++ unary_mnemonic current.opcode ++ " " ++ print_operand current.result ++ ", " ++
      print_operand current.arg1 ++ "\n")
  | .IR_ALLOC_HEAP =>
    .ok ("\tALLOC_HEAP " ++ print_operand current.result ++ ", " ++
      print_operand current.arg1 ++ "\n")
  | .IR_FREE_HEAP => .ok ("\tFREE_HEAP " ++ print_operand current.arg1 ++ "\n")
  | .IR_ADDR_OF =>
    .ok ("\tADDR_OF " ++ print_operand current.result ++ ", " ++
      print_operand current.arg1 ++ "\n")
  | .IR_DEREF_LOAD =>
    .ok ("\tDEREF_LOAD " ++ print_operand current.result ++ ", " ++
      print_operand current.arg1 ++ "\n")
  | .IR_DEREF_STORE =>
    .ok ("\tDEREF_STORE " ++ print_operand current.result ++ ", " ++
      print_operand current.arg1 ++ "\n")
  | .IR_INDEX_LOAD =>
    .ok ("\tINDEX_LOAD " ++ print_operand current.result ++ ", " ++
      print_operand current.arg1 ++ ", " ++ print_operand current.arg2 ++ "\n")
  | .IR_INDEX_STORE =>
    .ok ("\tINDEX_STORE " ++ print_operand current.result ++ ", " ++
      print_operand current.arg1 ++ ", " ++ print_operand current.arg2 ++ "\n")
  | .IR_GOTO => current.result.read_name.map (fun name => "\tJUMP " ++ name ++ "\n")
  | .IR_IF_FALSE_GOTO =>
    current.result.read_name.map
      (fun name => "\tJUMPF " ++ name ++ ", " ++ print_operand current.arg1 ++ "\n")
  | .IR_IF_TRUE_GOTO =>
    current.result.read_name.map
      (fun name => "\tJUMPT " ++ name ++ ", " ++ print_operand current.arg1 ++ "\n")
  | .IR_CALL =>
    match current.arg1.read_name, current.arg2.read_int with
    | .ok name, .ok count =>
      .ok ("\tCALL " ++ name ++ ", " ++ format_d count ++ "," ++
        print_operand current.result ++ "\n")
    | _, _ => .error .undefined_behaviour
  | .IR_PARAM => .ok ("\tPARAM " ++ print_operand current.arg1 ++ "\n")
  | .IR_RETURN => .ok ("\tRETURN " ++ print_operand current.arg1 ++ "\n")
  | .IR_NOP => .ok "\tNOP\n"

/-- The function `print_ir_list`: the text written for a list, from its head
along the `next` links. -/
def print_ir_list : List Instruction → Except Fault String
  | [] => .ok ""
  | current :: rest =>
    match print_instruction current with
    | .error f => .error f
    | .ok line =>
      match print_ir_list rest with
      | .error f => .error f
      | .ok text => .ok (line ++ text)

/-! ## Reference execution of the three-address code

The executor of the instruction lists is outside the sources.  The test
programs state what their compiled code computes; the definitions of this
section give the opcodes they use their reading as three-address code, so that
such a statement can be evaluated on the lists `Generate_IR` produces. -/

/-- Modelled from the spec: a value held by a variable or temporary during
execution: an integer, or the address of a variable. -/
inductive Value where
  | int (n : Int)
  | address (name : String)
  deriving DecidableEq, Repr

/-- Modelled from the spec: the state of an execution: the variables and
temporaries written so far, most recent first; the values of the `PARAM`
instructions not yet taken by a `CALL`; and for every call in progress the
code after it with the operand that receives its result. -/
structure Machine where
  store : List (String × Value)
  params : List Value
  frames : List (List Instruction × Operand)

/-- Modelled from the spec: the value of an operand; a name never written reads
as `0`. -/
def Machine.read (m : Machine) : Operand → Value
  | .OP_INT_CONST n => .int n
  | .OP_CHAR_CONST c => .int c
  | .OP_IDENTIFIER name => (m.store.lookup name).getD (.int 0)
  | .OP_TEMPORARY name => (m.store.lookup name).getD (.int 0)
  | _ => .int 0

/-- Modelled from the spec: a write to the variable or temporary an operand
names. -/
def Machine.write (m : Machine) (target : Operand) (v : Value) : Machine :=
  match target with
  | .OP_IDENTIFIER name => { m with store := (name, v) :: m.store }
  | .OP_TEMPORARY name => { m with store := (name, v) :: m.store }
  | _ => m

/-- Modelled from the spec: the code that follows the `LABEL` instruction of a
label. -/
def code_after_label (name : String) : List Instruction → Option (List Instruction)
  | [] => none
  | i :: rest =>
    if i.opcode = .IR_LABEL ∧ i.result = .OP_LABEL name then some rest
    else code_after_label name rest

/-- Modelled from the spec: the result of an arithmetic or comparison opcode on
two integers; a comparison gives `1` or `0`. -/
def binary_value (opcode : OpCode) (a b : Int) : Option Int :=
  match opcode with
  | .IR_ADD => some (a + b)
  | .IR_SUB => some (a - b)
  | .IR_MUL => some (a * b)
  | .IR_EQ => some (if a = b then 1 else 0)
  | .IR_NE => some (if a = b then 0 else 1)
  | .IR_LT => some (if a < b then 1 else 0)
  | .IR_GT => some (if b < a then 1 else 0)
  | .IR_LE => some (if a ≤ b then 1 else 0)
  | .IR_GE => some (if b ≤ a then 1 else 0)
  | _ => none

/-- Modelled from the spec: the argument slots `ARG<index>`, `ARG<index+1>`,
... set to the values of a call, in order. -/
def bind_arguments : List Value → Nat → Machine → Machine
  | [], _, m => m
  | v :: rest, index, m =>
    bind_arguments rest (index + 1) (m.write (create_operand_argument index) v)

/-- Modelled from the spec: execution of `code` within `program` for at most
`steps` instructions: the state at `HALT`, at a `RETURN` with no call in
progress or at the end of the code; `none` when the steps run out, a jump
target is missing, or an instruction is outside the opcodes read here.

`ASSIGN`, the arithmetic and comparison opcodes and `UNARY_MINUS` write their
result operand; `GOTO` continues after the label, `IF_TRUE_GOTO` and
`IF_FALSE_GOTO` do so when their operand is non-zero and zero; `ADDR_OF` takes
the address of a variable, `DEREF` reads and `DEREF_STORE` writes the variable
an address points to; `PARAM` queues a value; `CALL` moves the queued values to
the argument slots and continues after the label of the callee; `RETURN`
resumes the caller with the value returned. -/
def execute (program : List Instruction) : Nat → List Instruction → Machine → Option Machine
  | 0, _, _ => none
  | _ + 1, [], m => some m
  | steps + 1, i :: rest, m =>
    match i.opcode with
    | .IR_HALT => some m
    | .IR_LABEL => execute program steps rest m
    | .IR_ASSIGN => execute program steps rest (m.write i.result (m.read i.arg1))
    | .IR_UNARY_MINUS =>
      match m.read i.arg1 with
      | .int a => execute program steps rest (m.write i.result (.int (-a)))
      | _ => none
    | .IR_GOTO =>
      match code_after_label i.result.val_name program with
      | some code => execute program steps code m
      | none => none
    | .IR_IF_TRUE_GOTO =>
      if m.read i.arg1 = .int 0 then execute program steps rest m
      else
        match code_after_label i.result.val_name program with
        | some code => execute program steps code m
        | none => none
    | .IR_IF_FALSE_GOTO =>
      if m.read i.arg1 = .int 0 then
        match code_after_label i.result.val_name program with
        | some code => execute program steps code m
        | none => none
      else execute program steps rest m
    | .IR_ADDR_OF => execute program steps rest (m.write i.result (.address i.arg1.val_name))
    | .IR_DEREF =>
      match m.read i.arg1 with
      | .address name =>
        execute program steps rest (m.write i.result (m.read (.OP_IDENTIFIER name)))
      | _ => none
    | .IR_DEREF_STORE =>
      match m.read i.result with
      | .address name =>
        execute program steps rest (m.write (.OP_IDENTIFIER name) (m.read i.arg1))
      | _ => none
    | .IR_PARAM =>
      execute program steps rest { m with params := m.params ++ [m.read i.arg1] }
    | .IR_CALL =>
      match code_after_label i.arg1.val_name program with
      | some code =>
        execute program steps code
          { bind_arguments m.params 0 m with params := [], frames := (rest, i.result) :: m.frames }
      | none => none
    | .IR_RETURN =>
      match m.frames with
      | [] => some m
      | (code, result) :: frames =>
        execute program steps code
          { (match i.arg1 with
              | .OP_NONE => m
              | value => m.write result (m.read value)) with frames := frames }
    | opcode =>
      match m.read i.arg1, m.read i.arg2 with
      | .int a, .int b =>
        match binary_value opcode a b with
        | some c => execute program steps rest (m.write i.result (.int c))
        | none => none
      | _, _ => none

/-- Modelled from the spec: the value of a variable after running a program
from its first instruction in an empty state. -/
def value_after (program : List Instruction) (steps : Nat) (name : String) : Option Value :=
  (execute program steps program ⟨[], [], []⟩).map (fun m => m.read (.OP_IDENTIFIER name))

/-! ## Release of the instruction lists (`ir_generator.c`)

The name of an identifier, temporary, label or string-literal operand is a
heap block made by `strdup`; `emit` copies the operand, pointer included, into
the instruction node.  The definitions of this section carry the address of
that block next to the operand, which the generator model above leaves out. -/

/-- An operand as an instruction node stores it, with the address its
`val.name` (`val.str_val` for a string literal) holds, `none` for `NULL`.
Copies of one operand hold the same address. -/
structure StoredOperand where
  operand : Operand
  name : Option Nat
  deriving DecidableEq, Repr

/-- An instruction node with its operands as stored. -/
structure StoredInstruction where
  opcode : OpCode
  result : StoredOperand
  arg1 : StoredOperand
  arg2 : StoredOperand
  deriving DecidableEq, Repr

/-- The call `free(p)` on the address of a heap block, `freed` being the
blocks freed so far: freeing a block a second time is undefined. -/
def free_block (freed : List Nat) (address : Nat) : Except Fault (List Nat) :=
  if address ∈ freed then .error .undefined_behaviour else .ok (address :: freed)

/-- The function `free_operand`. -/
def free_operand (op : StoredOperand) (freed : List Nat) : Except Fault (List Nat) :=
  match op.operand with
  | .OP_STRING_LITERAL _ | .OP_IDENTIFIER _ | .OP_TEMPORARY _ | .OP_LABEL _ =>
    match op.name with
    | some address => free_block freed address
    | none => .ok freed
  | _ => .ok freed

/-- The function `free_ir_list` on a list of live nodes: the three operands of
every node are passed to `free_operand`, then the node is freed. -/
def free_ir_list : List StoredInstruction → List Nat → Except Fault (List Nat)
  | [], freed => .ok freed
  | temp :: rest, freed =>
    match free_operand temp.result freed with
    | .error f => .error f
    | .ok freed1 =>
      match free_operand temp.arg1 freed1 with
      | .error f => .error f
      | .ok freed2 =>
        match free_operand temp.arg2 freed2 with
        | .error f => .error f
        | .ok freed3 => free_ir_list rest freed3

/-- The three instruction lists, each from its head. -/
structure IRLists where
  main_ir : List StoredInstruction
  other_funcs_ir : List StoredInstruction
  global_declarations : List StoredInstruction
  deriving DecidableEq, Repr

/-- The function `free_ir_lists`, from the other globals of the generator, the
three lists and the heap blocks freed so far to their values afterwards: the
lists are released in the order main, other functions, global declarations,
and the six list pointers are set to `NULL`. -/
def free_ir_lists (s : GenState) (lists : IRLists) (freed : List Nat) :
    Except Fault (GenState × IRLists × List Nat) :=
  match free_ir_list lists.main_ir freed with
  | .error f => .error f
  | .ok freed1 =>
    match free_ir_list lists.other_funcs_ir freed1 with
    | .error f => .error f
    | .ok freed2 =>
      match free_ir_list lists.global_declarations freed2 with
      | .error f => .error f
      | .ok freed3 => .ok (s, ⟨[], [], []⟩, freed3)

/-! ## Properties and example inputs used in the statements -/

/-- An invariant of the layout loops: a property of the offset, the maximum and
the member list that adding a member preserves. -/
structure LayoutInvariant (kind : TypeKind) (J : Int → Int → List StructMember → Prop) : Prop where
  add : ∀ name ty off mx ms, J off mx ms →
    J (layout_add_member kind name ty ⟨off, mx, ms, ⟨[], []⟩⟩ ⟨[], []⟩).current_offset
      (layout_add_member kind name ty ⟨off, mx, ms, ⟨[], []⟩⟩ ⟨[], []⟩).max_member_size
      (layout_add_member kind name ty ⟨off, mx, ms, ⟨[], []⟩⟩ ⟨[], []⟩).members

/-- Members laid end to end from `start`: each offset is `start` plus the sizes
of the members before it. -/
def members_packed_from (start : Int) : List StructMember → Prop
  | [] => True
  | m :: rest => m.offset = start ∧ members_packed_from (start + get_type_size m.type) rest

/-- The sizes of the member types, in list order. -/
def member_sizes (ms : List StructMember) : List Int :=
  ms.map (fun m => get_type_size m.type)

/-- The AST of a member declaration `<type> <name>;`. -/
def struct_declaration (type_name member_name : String) : Option ASTNode :=
  some (.mk "StructDeclaration" none
    [some (.mk "SpecifierQualifierList" none
      [some (.mk "TypeSpecifier" (some type_name) [] none)] none),
     some (.mk "StructDeclaratorList" none
      [some (.mk "Identifier" (some member_name) [] none)] none)] none)

/-- The member declarations of `struct Point { int x; int y; }` as a
left-recursive `StructDeclarationList`. -/
def point_members : ASTNode :=
  .mk "StructDeclarationList" none
    [some (.mk "StructDeclarationList" none [struct_declaration "int" "x"] none),
     struct_declaration "int" "y"] none

/-- The member declarations of `union Data { int i; float f; }`. -/
def data_members : ASTNode :=
  .mk "StructDeclarationList" none
    [some (.mk "StructDeclarationList" none [struct_declaration "int" "i"] none),
     struct_declaration "float" "f"] none

/-- The AST of the assignment `d = 1`. -/
def assign_d_1 : Option ASTNode :=
  some (.mk "Assignment" (some "=")
    [some (.mk "Identifier" (some "d") [] none), some (.mk "IntConstant" (some "1") [] none)]
    none)

/-- Whether some position of the list passes the test of pattern 1 or of
pattern 2. -/
def has_match : List Instruction → Bool
  | [] => false
  | [_] => false
  | current :: next_instr :: rest =>
    is_redundant_load current next_instr ||
    starts_redundant_mul_load current next_instr rest ||
    has_match (next_instr :: rest)

/-- Two runs of `optimize_ir` in succession, the second on the list the first
returned. -/
def optimize_ir_twice (head : List Instruction) : Except Fault (List Instruction) :=
  match optimize_ir_list head with
  | .error f => .error f
  | .ok once => optimize_ir_list once

/-- The instruction `INDEX_LOAD t1, s, 0`. -/
def load_t1 : Instruction :=
  ⟨.IR_INDEX_LOAD, .OP_TEMPORARY "t1", .OP_IDENTIFIER "s", .OP_INT_CONST 0⟩

/-- The instruction `INDEX_LOAD t2, s, 0`. -/
def load_t2 : Instruction :=
  ⟨.IR_INDEX_LOAD, .OP_TEMPORARY "t2", .OP_IDENTIFIER "s", .OP_INT_CONST 0⟩

/-- The instruction `INDEX_STORE s, 0, v`. -/
def store_v : Instruction :=
  ⟨.IR_INDEX_STORE, .OP_IDENTIFIER "s", .OP_INT_CONST 0, .OP_IDENTIFIER "v"⟩

/-- The instruction `LABEL f`. -/
def label_f : Instruction := ⟨.IR_LABEL, .OP_LABEL "f", .OP_NONE, .OP_NONE⟩

/-- The instruction `RETURN`. -/
def return_none : Instruction := ⟨.IR_RETURN, .OP_NONE, .OP_NONE, .OP_NONE⟩

/-- A checker `c2` extends `c1`: it returns what `c1` returns wherever `c1` does
not run out of budget. -/
def Checker.Extends (c1 c2 : Checker) : Prop :=
  ∀ n st, c1 n st ≠ .error .out_of_fuel → c2 n st = c1 n st

/-- The instruction `MUL t0, i, 4`. -/
def mul_t0 : Instruction :=
  ⟨.IR_MUL, .OP_TEMPORARY "t0", .OP_IDENTIFIER "i", .OP_INT_CONST 4⟩

/-- The instruction `INDEX_LOAD t1, a, t0`. -/
def load_a_t0 : Instruction :=
  ⟨.IR_INDEX_LOAD, .OP_TEMPORARY "t1", .OP_IDENTIFIER "a", .OP_TEMPORARY "t0"⟩

/-- The instruction `MUL t2, i, 4`. -/
def mul_t2 : Instruction :=
  ⟨.IR_MUL, .OP_TEMPORARY "t2", .OP_IDENTIFIER "i", .OP_INT_CONST 4⟩

/-- The instruction `INDEX_STORE a, t2, v`. -/
def store_a_t2 : Instruction :=
  ⟨.IR_INDEX_STORE, .OP_IDENTIFIER "a", .OP_TEMPORARY "t2", .OP_IDENTIFIER "v"⟩

/-- A scope holding `float func_float_int_float_char(int x, float y, char z)`. -/
def func_float_int_float_char_scope : State :=
  ⟨[[Symbol.mk .SYM_FUNCTION "func_float_int_float_char"
      (some (create_function_type (some (create_base_type "float"))
        [Symbol.mk .SYM_VARIABLE "x" (some (create_base_type "int")),
         Symbol.mk .SYM_VARIABLE "y" (some (create_base_type "float")),
         Symbol.mk .SYM_VARIABLE "z" (some (create_base_type "char"))]))]], []⟩

/-- The AST of the call `func_float_int_float_char(x, 5.5, c_val)`, its
arguments a left-recursive `ArgumentList`: the list of the first two, then the
third. -/
def call_three_arguments : Option ASTNode :=
  some (.mk "FunctionCall" none
    [some (.mk "Identifier" (some "func_float_int_float_char") [] none),
     some (.mk "ArgumentList" none
       [some (.mk "ArgumentList" none
          [some (.mk "Identifier" (some "x") [] none),
           some (.mk "FloatConstant" (some "5.5") [] none)] none),
        some (.mk "Identifier" (some "c_val") [] none)] none)] none)

/-- A scope holding `int a` and `int b`. -/
def a_b_scope : State :=
  ⟨[[Symbol.mk .SYM_VARIABLE "a" (some (create_base_type "int")),
     Symbol.mk .SYM_VARIABLE "b" (some (create_base_type "int"))]], []⟩

/-- The AST of `a op b` on two identifiers, nothing annotated. -/
def binary_a_b (op : String) : ASTNode :=
  .mk "BinaryOp" (some op)
    [some (.mk "Identifier" (some "a") [] none), some (.mk "Identifier" (some "b") [] none)]
    none

/-- The AST of an identifier. -/
def ast_identifier (name : String) : Option ASTNode :=
  some (.mk "Identifier" (some name) [] none)

/-- The AST of an integer constant. -/
def ast_int (text : String) : Option ASTNode :=
  some (.mk "IntConstant" (some text) [] none)

/-- The AST of `left op right`. -/
def ast_binary (op : String) (left right : Option ASTNode) : Option ASTNode :=
  some (.mk "BinaryOp" (some op) [left, right] none)

/-- The AST of the expression `lhs = rhs`. -/
def ast_assign (lhs rhs : Option ASTNode) : Option ASTNode :=
  some (.mk "Assignment" (some "=") [lhs, rhs] none)

/-- The AST of the statement `lhs = rhs;`. -/
def ast_assign_statement (lhs rhs : Option ASTNode) : Option ASTNode :=
  some (.mk "ExpressionStatement" none [ast_assign lhs rhs] none)

/-- The AST of `return expression;`. -/
def ast_return (expression : Option ASTNode) : Option ASTNode :=
  some (.mk "Return" none [expression] none)

/-- The AST of a block `{ items }`. -/
def ast_block (items : List (Option ASTNode)) : Option ASTNode :=
  some (.mk "CompoundStatement" none [some (.mk "BlockItemList" none items none)] none)

/-- The AST of the declaration `int name = text;`. -/
def ast_int_declaration (name text : String) : Option ASTNode :=
  some (.mk "Declaration" none
    [some (.mk "DeclarationSpecifiers" none [some (.mk "TypeSpecifier" (some "int") [] none)] none),
     some (.mk "InitDeclaratorList" none
       [some (.mk "InitDeclarator" none [ast_identifier name, ast_int text] none)] none)] none)

/-- The AST of a function definition `<return_type> name(parameters) body`. -/
def ast_function (return_type name : String) (parameters body : Option ASTNode) :
    Option ASTNode :=
  some (.mk "FunctionDefinition" none
    [some (.mk "DeclarationSpecifiers" none
       [some (.mk "TypeSpecifier" (some return_type) [] none)] none),
     some (.mk "FunctionDeclarator" none [ast_identifier name, parameters] none),
     body] none)

/-- A symbol table holding a function `name` of no parameters returning
`return_type`. -/
def function_scope (return_type name : String) : State :=
  ⟨[[Symbol.mk .SYM_FUNCTION name
      (some (create_function_type (some (create_base_type return_type)) []))]], []⟩

/-- The AST of a parameter declaration `int name`. -/
def ast_int_parameter (name : String) : Option ASTNode :=
  some (.mk "ParameterDeclaration" none
    [some (.mk "DeclarationSpecifiers" none [some (.mk "TypeSpecifier" (some "int") [] none)] none),
     ast_identifier name] none)

/-- The AST of `int f(int c) { if (c) return 1; c = 2; return c; }`. -/
def early_return_function : Option ASTNode :=
  ast_function "int" "f" (ast_int_parameter "c")
    (ast_block
      [some (.mk "IfStatement" none [ast_identifier "c", ast_return (ast_int "1")] none),
       ast_assign_statement (ast_identifier "c") (ast_int "2"),
       ast_return (ast_identifier "c")])

/-- A symbol table holding `int f(int c)`. -/
def early_return_scope : State :=
  ⟨[[Symbol.mk .SYM_FUNCTION "f"
      (some (create_function_type (some (create_base_type "int"))
        [Symbol.mk .SYM_VARIABLE "c" (some (create_base_type "int"))]))]], []⟩

/-- Whether an instruction is a jump. -/
def is_jump (i : Instruction) : Bool :=
  i.opcode = .IR_GOTO || i.opcode = .IR_IF_FALSE_GOTO || i.opcode = .IR_IF_TRUE_GOTO

/-- Whether every jump of a list targets a label that a `LABEL` instruction of
the same list lays down. -/
def jumps_resolved (l : List Instruction) : Bool :=
  l.all (fun i => !is_jump i || l.any (fun j => j.opcode = .IR_LABEL && j.result = i.result))

/-- The AST of `int main() { return; }` with the `Return` node holding
`children`. -/
def main_returning (children : List (Option ASTNode)) : Option ASTNode :=
  ast_function "int" "main" (some (.mk "EmptyParameterList" none [] none))
    (ast_block [some (.mk "Return" none children none)])

/-- The instruction `HALT`. -/
def halt : Instruction := ⟨.IR_HALT, .OP_NONE, .OP_NONE, .OP_NONE⟩

/-- The AST of `int func_int_int_int(int a, int b) { return a + b; }` of
`tests/test_functions.c`. -/
def func_int_int_int_definition : Option ASTNode :=
  ast_function "int" "func_int_int_int"
    (some (.mk "ParameterList" none [ast_int_parameter "a", ast_int_parameter "b"] none))
    (ast_block [ast_return (ast_binary "+" (ast_identifier "a") (ast_identifier "b"))])

/-- The parameters `int a, int b`. -/
def parameters_a_b : List Symbol :=
  [Symbol.mk .SYM_VARIABLE "a" (some (create_base_type "int")),
   Symbol.mk .SYM_VARIABLE "b" (some (create_base_type "int"))]

/-- A symbol table holding `int func_int_int_int(int a, int b)`. -/
def func_int_int_int_scope : State :=
  ⟨[[Symbol.mk .SYM_FUNCTION "func_int_int_int"
      (some (create_function_type (some (create_base_type "int")) parameters_a_b))]], []⟩

/-- The AST of a definition `first(int a) { }`; a single parameter is the
`ParameterDeclaration` itself. -/
def first_definition : Option ASTNode :=
  ast_function "int" "first" (ast_int_parameter "a") (ast_block [])

/-- A symbol table in which `first` is a function of `int a` that returns
`int *`. -/
def first_returns_pointer_scope : State :=
  ⟨[[Symbol.mk .SYM_FUNCTION "first"
      (some (create_function_type (some (create_pointer_type (some (create_base_type "int"))))
        [Symbol.mk .SYM_VARIABLE "a" (some (create_base_type "int"))]))]], []⟩

/-- The instructions at the entry of a function `f` with the parameters
`params`, in the list `list`: the label `f`, then for the parameter at index
`i` the copy `ASSIGN name, ARGi`. -/
def function_entry (list : IRList) (f : String) (params : List Symbol) : List Emitted :=
  (⟨.IR_LABEL, .OP_LABEL f, .OP_NONE, .OP_NONE⟩ ::
    params.enum.map (fun p =>
      ⟨.IR_ASSIGN, .OP_IDENTIFIER p.2.name, .OP_IDENTIFIER ("ARG" ++ toString p.1),
        .OP_NONE⟩)).map
    (fun i => ⟨list, i⟩)

/-- The left-recursive `ArgumentList` of the arguments `first, more...`: the
first argument alone, then one `ArgumentList` node per further argument with
the list so far as left child and the argument as right child. -/
def argument_list (first : ASTNode) (more : List ASTNode) : ASTNode :=
  more.foldl (fun list a => .mk "ArgumentList" none [some list, some a] none) first

/-- The AST of a call `f(arguments)`. -/
def ast_call (f : String) (arguments : List ASTNode) : Option ASTNode :=
  some (.mk "FunctionCall" none
    (ast_identifier f ::
      match arguments with
      | [] => []
      | first :: more => [some (argument_list first more)]) none)

/-- The lowerings of the arguments after the first one, in source order: an
argument followed by `k` further ones is the right child `k` levels down the
left spine of the list at `position`. -/
def later_argument_steps (position : List Nat) : List ASTNode → List (Lower Operand)
  | [] => []
  | a :: rest =>
    Generate_IR_from (position ++ List.replicate rest.length 0 ++ [1]) (some a) ::
      later_argument_steps position rest

/-- The lowerings of the arguments of the list at `position`, in source order;
the first argument is the end of the left spine. -/
def argument_steps (position : List Nat) : List ASTNode → List (Lower Operand)
  | [] => []
  | first :: more =>
    Generate_IR_from (position ++ List.replicate more.length 0) (some first) ::
      later_argument_steps position more

/-- Arguments lowered from left to right, each followed by one `PARAM` that
carries its operand: the code of the first argument, then `PARAM` with the
operand that argument returned, in the list selected by the globals the
argument left, then the same for the remaining arguments from those globals
on. -/
def lower_arguments : List (Lower Operand) → Lower Unit
  | [] => fun s => .ok ((), s, [])
  | argument :: rest => fun s =>
    match argument s with
    | .error f => .error f
    | .ok (param_op, s1, code) =>
      match lower_arguments rest s1 with
      | .error f => .error f
      | .ok (_, s2, more) =>
        .ok ((), s2,
          code ++ ⟨s1.target, ⟨.IR_PARAM, .OP_NONE, param_op, .OP_NONE⟩⟩ :: more)

/-- The arguments `x, 5.5, c_val` of the call in `main` of
`tests/test_functions.c`. -/
def arguments_x_5_5_c_val : List ASTNode :=
  [.mk "Identifier" (some "x") [] none, .mk "FloatConstant" (some "5.5") [] none,
   .mk "Identifier" (some "c_val") [] none]

/-- The arguments `x + y, z`. -/
def arguments_sum_z : List ASTNode :=
  [.mk "BinaryOp" (some "+") [ast_identifier "x", ast_identifier "y"] none,
   .mk "Identifier" (some "z") [] none]

/-- The instruction `LABEL name`. -/
def label_named (name : String) : Instruction := ⟨.IR_LABEL, .OP_LABEL name, .OP_NONE, .OP_NONE⟩

/-- The AST of `*pointer`. -/
def ast_deref (pointer : Option ASTNode) : Option ASTNode :=
  some (.mk "UnaryOp" (some "*") [pointer] none)

/-- The AST of the parameter declaration `int *name`. -/
def ast_int_pointer_parameter (name : String) : Option ASTNode :=
  some (.mk "ParameterDeclaration" none
    [some (.mk "DeclarationSpecifiers" none [some (.mk "TypeSpecifier" (some "int") [] none)] none),
     some (.mk "PointerDeclarator" none
       [some (.mk "Pointer" none [] none), ast_identifier name] none)] none)

/-- The AST of `*ptr = *ptr + 1`. -/
def increment_through_ptr : Option ASTNode :=
  ast_assign (ast_deref (ast_identifier "ptr"))
    (ast_binary "+" (ast_deref (ast_identifier "ptr")) (ast_int "1"))

/-- The AST of `void func_ptr_int(int *ptr) { *ptr = *ptr + 1; }` of
`tests/test_functions.c`. -/
def func_ptr_int_definition : Option ASTNode :=
  ast_function "void" "func_ptr_int" (ast_int_pointer_parameter "ptr")
    (ast_block [some (.mk "ExpressionStatement" none [increment_through_ptr] none)])

/-- The AST of a caller of `func_ptr_int`:
`int main() { int x = 10; int *p_x = &x; func_ptr_int(p_x); return x; }`. -/
def func_ptr_int_caller : Option ASTNode :=
  ast_function "int" "main" (some (.mk "EmptyParameterList" none [] none))
    (ast_block
      [ast_int_declaration "x" "10",
       some (.mk "Declaration" none
         [some (.mk "DeclarationSpecifiers" none
            [some (.mk "TypeSpecifier" (some "int") [] none)] none),
          some (.mk "InitDeclaratorList" none
            [some (.mk "InitDeclarator" none
              [some (.mk "PointerDeclarator" none
                 [some (.mk "Pointer" none [] none), ast_identifier "p_x"] none),
               some (.mk "UnaryOp" (some "&") [ast_identifier "x"] none)] none)] none)] none),
       some (.mk "ExpressionStatement" none
         [ast_call "func_ptr_int" [.mk "Identifier" (some "p_x") [] none]] none),
       ast_return (ast_identifier "x")])

/-- The AST of the program made of `func_ptr_int` and the caller. -/
def func_ptr_int_program : Option ASTNode :=
  some (.mk "Program" none [func_ptr_int_definition, func_ptr_int_caller] none)

/-- A symbol table holding `void func_ptr_int(int *ptr)` and `int main()`. -/
def func_ptr_int_scope : State :=
  ⟨[[Symbol.mk .SYM_FUNCTION "main"
       (some (create_function_type (some (create_base_type "int")) [])),
     Symbol.mk .SYM_FUNCTION "func_ptr_int"
       (some (create_function_type (some (create_base_type "void"))
         [Symbol.mk .SYM_VARIABLE "ptr"
           (some (create_pointer_type (some (create_base_type "int"))))]))]], []⟩

/-- The code of `func_ptr_int`. -/
def func_ptr_int_code : List Instruction :=
  [label_named "func_ptr_int",
   ⟨.IR_ASSIGN, .OP_IDENTIFIER "ptr", .OP_IDENTIFIER "ARG0", .OP_NONE⟩,
   ⟨.IR_DEREF, .OP_TEMPORARY "t0", .OP_IDENTIFIER "ptr", .OP_NONE⟩,
   ⟨.IR_ADD, .OP_TEMPORARY "t1", .OP_TEMPORARY "t0", .OP_INT_CONST 1⟩,
   ⟨.IR_DEREF, .OP_TEMPORARY "t2", .OP_IDENTIFIER "ptr", .OP_NONE⟩,
   ⟨.IR_DEREF_STORE, .OP_IDENTIFIER "ptr", .OP_TEMPORARY "t1", .OP_NONE⟩,
   return_none]

/-- A run of `insert_symbol` calls, one per symbol of the list, in list order. -/
def insert_symbols (symbols : List Symbol) (st : State) : State :=
  symbols.foldl (fun st s => insert_symbol s.name s.type s.kind st) st

/-- A type with one level of pointer taken off: the pointee of a pointer, the
type itself otherwise. -/
def pointee_once : Option CType → Option CType
  | some (.pointer _ points_to) => points_to
  | t => t

/-- The member list of a struct or union type; `none` for every other type and
for `NULL`. -/
def record_members : Option CType → Option (List StructMember)
  | some (.struct _ _ members) => some members
  | some (.union _ _ members) => some members
  | _ => none

/-- The type `struct Point` with `y` at offset 0 and `x` at offset 4, as
`calculate_struct_layout` builds it from `point_members`. -/
def point_type : CType :=
  .struct 8 (some "Point")
    [.mk (some "y") (some (create_base_type "int")) 0,
     .mk (some "x") (some (create_base_type "int")) 4]

/-- The member declarations of `struct T { char a; int b; double c; }` as a
left-recursive `StructDeclarationList`. -/
def char_int_double_members : ASTNode :=
  .mk "StructDeclarationList" none
    [some (.mk "StructDeclarationList" none
      [some (.mk "StructDeclarationList" none [struct_declaration "char" "a"] none),
       struct_declaration "int" "b"] none),
     struct_declaration "double" "c"] none

/-- The instruction `INDEX_LOAD t1, a, 0`. -/
def load_t1_a_0 : Instruction :=
  ⟨.IR_INDEX_LOAD, .OP_TEMPORARY "t1", .OP_IDENTIFIER "a", .OP_INT_CONST 0⟩

/-- The instruction `INDEX_STORE a, 0, t1`: it stores the value of `t1`. -/
def store_a_0_t1 : Instruction :=
  ⟨.IR_INDEX_STORE, .OP_IDENTIFIER "a", .OP_INT_CONST 0, .OP_TEMPORARY "t1"⟩

/-- The AST of `break;`. -/
def ast_break : Option ASTNode := some (.mk "BreakStatement" none [] none)

/-- The AST of `continue;`. -/
def ast_continue : Option ASTNode := some (.mk "ContinueStatement" none [] none)

/-- The AST of `while (x) { break; }`. -/
def while_break : Option ASTNode :=
  some (.mk "WhileStatement" none [ast_identifier "x", ast_block [ast_break]] none)

/-- The AST of `do { continue; } while (x);`. -/
def do_continue : Option ASTNode :=
  some (.mk "DoWhileStatement" none [ast_block [ast_continue], ast_identifier "x"] none)

/-- The AST of `for (;;) { while (x) { break; } }`. -/
def for_while_break : Option ASTNode :=
  some (.mk "ForStatement" none
    [some (.mk "ExpressionStatement" none [] none),
     some (.mk "ExpressionStatement" none [] none),
     none,
     ast_block [while_break]] none)

/-- The instruction `LABEL name`. -/
def label_of (name : String) : Instruction := ⟨.IR_LABEL, .OP_LABEL name, .OP_NONE, .OP_NONE⟩

/-- The instruction `GOTO name`. -/
def goto_of (name : String) : Instruction := ⟨.IR_GOTO, .OP_LABEL name, .OP_NONE, .OP_NONE⟩

/-- The instruction `IF_FALSE_GOTO name, operand`. -/
def if_false_goto (name : String) (operand : Operand) : Instruction :=
  ⟨.IR_IF_FALSE_GOTO, .OP_LABEL name, operand, .OP_NONE⟩

/-- The AST of the statement `e;`. -/
def ast_expression_statement (e : Option ASTNode) : Option ASTNode :=
  some (.mk "ExpressionStatement" none [e] none)

/-- A scope holding `int a`, `int b` and the function `int f(int c)`. -/
def a_b_f_scope : State :=
  ⟨[[Symbol.mk .SYM_FUNCTION "f"
      (some (create_function_type (some (create_base_type "int"))
        [Symbol.mk .SYM_VARIABLE "c" (some (create_base_type "int"))])),
     Symbol.mk .SYM_VARIABLE "a" (some (create_base_type "int")),
     Symbol.mk .SYM_VARIABLE "b" (some (create_base_type "int"))]], []⟩

/-- The AST of `switch (a) { zz; b; }`. -/
def switch_a_zz_b : Option ASTNode :=
  some (.mk "SwitchStatement" none
    [ast_identifier "a",
     ast_block [ast_expression_statement (ast_identifier "zz"),
                ast_expression_statement (ast_identifier "b")]] none)

/-- The zero constant the `Declaration` branch assigns to a variable declared
without initialiser: integer 0 for `int`, character 0 for `char`, 0.0 for
`float` and `double`, and none for every other type. -/
def zero_constant : CType → Option Operand
  | .base _ base_name =>
    if base_name = "int" then some (.OP_INT_CONST 0)
    else if base_name = "char" then some (.OP_CHAR_CONST 0)
    else if base_name = "float" ∨ base_name = "double" then
      some (.OP_FLOAT_CONST ⟨false, 0, 0⟩)
    else none
  | _ => none

/-- The AST of a declaration `<type_name> <declarator>;` without initialiser. -/
def ast_declaration (type_name : String) (declarator : Option ASTNode) : Option ASTNode :=
  some (.mk "Declaration" none
    [some (.mk "DeclarationSpecifiers" none
       [some (.mk "TypeSpecifier" (some type_name) [] none)] none),
     some (.mk "InitDeclaratorList" none [declarator] none)] none)

/-- The AST of the declarator `*name`. -/
def ast_pointer_declarator (name : String) : Option ASTNode :=
  some (.mk "PointerDeclarator" none
    [some (.mk "Pointer" none [] none), ast_identifier name] none)

/-- The AST of the globals `int a; char b; float c; double d; int *p_a;` of
`tests/test_declarations.c`. -/
def scalar_globals : Option ASTNode :=
  some (.mk "Program" none
    [ast_declaration "int" (ast_identifier "a"),
     ast_declaration "char" (ast_identifier "b"),
     ast_declaration "float" (ast_identifier "c"),
     ast_declaration "double" (ast_identifier "d"),
     ast_declaration "int" (ast_pointer_declarator "p_a")] none)

/-- A symbol table holding the globals `int a; char b; float c; double d;
int *p_a;` and `long l`. -/
def scalar_globals_scope : State :=
  ⟨[[Symbol.mk .SYM_VARIABLE "l" (some (create_base_type "long")),
     Symbol.mk .SYM_VARIABLE "p_a"
       (some (create_pointer_type (some (create_base_type "int")))),
     Symbol.mk .SYM_VARIABLE "d" (some (create_base_type "double")),
     Symbol.mk .SYM_VARIABLE "c" (some (create_base_type "float")),
     Symbol.mk .SYM_VARIABLE "b" (some (create_base_type "char")),
     Symbol.mk .SYM_VARIABLE "a" (some (create_base_type "int"))]], []⟩

/-- The instruction `ASSIGN name, value`. -/
def assign_of (name : String) (value : Operand) : Instruction :=
  ⟨.IR_ASSIGN, .OP_IDENTIFIER name, value, .OP_NONE⟩

/-- An operand with its kind forgotten as far as `print_operand` tells it
apart: a character constant becomes the integer constant of its value, a
temporary or a label the identifier of its name. -/
def Operand.without_kind : Operand → Operand
  | .OP_CHAR_CONST char_val => .OP_INT_CONST char_val
  | .OP_TEMPORARY name => .OP_IDENTIFIER name
  | .OP_LABEL name => .OP_IDENTIFIER name
  | op => op

/-- An instruction with the kinds of its operands forgotten and `IR_DEREF`
replaced by `IR_DEREF_LOAD`. -/
def Instruction.without_kinds (i : Instruction) : Instruction :=
  ⟨if i.opcode = .IR_DEREF then .IR_DEREF_LOAD else i.opcode,
    i.result.without_kind, i.arg1.without_kind, i.arg2.without_kind⟩

mutual
/-- The height of a tree: the number of nodes on its longest path from the
root. -/
def ASTNode.height : ASTNode → Nat
  | .mk _ _ cs _ => children_height cs + 1
/-- The greatest height among the trees of a list of children. -/
def children_height : List (Option ASTNode) → Nat
  | [] => 0
  | none :: cs => children_height cs
  | some c :: cs => max c.height (children_height cs)
end

/-- The height of the tree behind a node pointer, `0` for `NULL`. -/
def node_height : Option ASTNode → Nat
  | none => 0
  | some n => n.height

/-- A result that is not the exhaustion of a recursion budget. -/
def ends {α : Type} : Except Fault α → Prop
  | .error f => f ≠ .out_of_fuel
  | .ok _ => True

/-- A result that is not the exhaustion of a recursion budget and, when it is a
return, comes with the scope stack of the state `st`. -/
def ends_in_scopes {α : Type} (st : State) : Except Fault (α × State) → Prop
  | .error f => f ≠ .out_of_fuel
  | .ok (_, st1) => st1.scope_stack = st.scope_stack

/-- What a call that has come to its end leaves behind, in terms of a measure
`height` of its subject: it has not run out of budget, and when it returns, the
subject has the height it had and the scope stack is the one the call
started with. -/
def keeps_scopes {α : Type} (height : α → Nat) (a : α) (st : State) :
    Except Fault (α × State) → Prop
  | .error f => f ≠ .out_of_fuel
  | .ok (a1, st1) => height a1 = height a ∧ st1.scope_stack = st.scope_stack

/-- A checker keeps the scopes on trees of height at most `k`, in every state
with an active scope. -/
def Checker.KeepsScopes (k : Nat) (check : Checker) : Prop :=
  ∀ n st, node_height n ≤ k → st.scope_stack ≠ [] → keeps_scopes node_height n st (check n st)

/-- The symbol the scope of a function body binds to `name`: the first
parameter of that name. -/
def parameter_named (name : String) (params : List Symbol) : Option Symbol :=
  params.find? (fun p => p.name = name)

/-- The AST of a parameter declaration `<type_name> <name>`. -/
def ast_parameter (type_name name : String) : Option ASTNode :=
  some (.mk "ParameterDeclaration" none
    [some (.mk "DeclarationSpecifiers" none
       [some (.mk "TypeSpecifier" (some type_name) [] none)] none),
     ast_identifier name] none)

/-- The AST of `int f(int c, char d) { c; d; }`. -/
def shadowing_function : Option ASTNode :=
  ast_function "int" "f"
    (some (.mk "ParameterList" none [ast_parameter "int" "c", ast_parameter "char" "d"] none))
    (ast_block [ast_expression_statement (ast_identifier "c"),
                ast_expression_statement (ast_identifier "d")])

/-- A symbol table holding the global `double c` and the function
`int f(int c, char d)`. -/
def shadowing_scope : State :=
  ⟨[[Symbol.mk .SYM_FUNCTION "f"
      (some (create_function_type (some (create_base_type "int"))
        [Symbol.mk .SYM_VARIABLE "c" (some (create_base_type "int")),
         Symbol.mk .SYM_VARIABLE "d" (some (create_base_type "char"))])),
     Symbol.mk .SYM_VARIABLE "c" (some (create_base_type "double"))]], []⟩

/-- The AST of `int f(int c, char d) { c; d; }` with `c` annotated `int` and
`d` annotated `char`. -/
def shadowing_function_checked : Option ASTNode :=
  ast_function "int" "f"
    (some (.mk "ParameterList" none [ast_parameter "int" "c", ast_parameter "char" "d"] none))
    (ast_block
      [ast_expression_statement
         (some (.mk "Identifier" (some "c") [] (some (create_base_type "int")))),
       ast_expression_statement
         (some (.mk "Identifier" (some "d") [] (some (create_base_type "char"))))])

/-- Whether an operand is a string literal. -/
def Operand.is_string_literal : Operand → Bool
  | .OP_STRING_LITERAL _ => true
  | _ => false

/-- Whether an operand is a float constant. -/
def Operand.is_float : Operand → Bool
  | .OP_FLOAT_CONST _ => true
  | _ => false

/-- Whether an operand is a float constant that holds a NaN. -/
def Operand.is_nan : Operand → Bool
  | .OP_FLOAT_CONST d => d.is_nan
  | _ => false

/-- The AST of `e++`. -/
def ast_post_increment (e : Option ASTNode) : Option ASTNode :=
  some (.mk "PostfixIncrement" none [e] none)

/-- The AST of `array[index]`. -/
def ast_array_access (array index : Option ASTNode) : Option ASTNode :=
  some (.mk "ArrayAccess" none [array, index] none)

/-- A scope holding `int a[10]`, `int i` and `int v`. -/
def a_i_v_scope : State :=
  ⟨[[Symbol.mk .SYM_VARIABLE "v" (some (create_base_type "int")),
     Symbol.mk .SYM_VARIABLE "i" (some (create_base_type "int")),
     Symbol.mk .SYM_VARIABLE "a"
       (some (create_array_type (some (create_base_type "int")) 10))]], []⟩

/-- The AST of `a[i++] = v`. -/
def store_a_i_incr : Option ASTNode :=
  ast_assign (ast_array_access (ast_identifier "a") (ast_post_increment (ast_identifier "i")))
    (ast_identifier "v")

/-- The AST of `a[i] = v`. -/
def store_a_i : Option ASTNode :=
  ast_assign (ast_array_access (ast_identifier "a") (ast_identifier "i")) (ast_identifier "v")

/-- The instructions of a list with a given opcode. -/
def with_opcode (opcode : OpCode) (l : List Instruction) : List Instruction :=
  l.filter (fun i => i.opcode = opcode)

/-- The AST of `int *name = &target;`. -/
def ast_int_pointer_declaration (name target : String) : Option ASTNode :=
  some (.mk "Declaration" none
    [some (.mk "DeclarationSpecifiers" none [some (.mk "TypeSpecifier" (some "int") [] none)] none),
     some (.mk "InitDeclaratorList" none
       [some (.mk "InitDeclarator" none
         [ast_pointer_declarator name,
          some (.mk "UnaryOp" (some "&") [ast_identifier target] none)] none)] none)] none)

/-- The AST of `x = (*p = 5)`. -/
def assign_x_deref_p_5 : Option ASTNode :=
  ast_assign (ast_identifier "x") (ast_assign (ast_deref (ast_identifier "p")) (ast_int "5"))

/-- The AST of `{ int y = 10; int *p = &y; x = (*p = 5); }`. -/
def store_through_p_block : Option ASTNode :=
  ast_block
    [ast_int_declaration "y" "10",
     ast_int_pointer_declaration "p" "y",
     ast_expression_statement assign_x_deref_p_5]

/-- A scope holding `int x`, `int y`, `int *p`, `int a[10]`, `int i`, and a
struct `s` and a pointer `q` to it with the `int` members `m` at offset 0 and
`n` at offset 4. -/
def assignment_scope : State :=
  ⟨[[Symbol.mk .SYM_VARIABLE "q"
       (some (create_pointer_type (some (.struct 8 (some "S")
         [.mk (some "m") (some (create_base_type "int")) 0,
          .mk (some "n") (some (create_base_type "int")) 4])))),
     Symbol.mk .SYM_VARIABLE "s"
       (some (.struct 8 (some "S")
         [.mk (some "m") (some (create_base_type "int")) 0,
          .mk (some "n") (some (create_base_type "int")) 4])),
     Symbol.mk .SYM_VARIABLE "i" (some (create_base_type "int")),
     Symbol.mk .SYM_VARIABLE "a"
       (some (create_array_type (some (create_base_type "int")) 10)),
     Symbol.mk .SYM_VARIABLE "p" (some (create_pointer_type (some (create_base_type "int")))),
     Symbol.mk .SYM_VARIABLE "y" (some (create_base_type "int")),
     Symbol.mk .SYM_VARIABLE "x" (some (create_base_type "int"))]], []⟩

/-- The AST of `x = (target = 5)`. -/
def assign_x_of_assignment (target : Option ASTNode) : Option ASTNode :=
  ast_assign (ast_identifier "x") (ast_assign target (ast_int "5"))

/-- The last instruction `Generate_IR` emits to the global-declarations list
for a tree analysed in `assignment_scope`. -/
def last_global_instruction (node : Option ASTNode) : Except Fault (Option Instruction) :=
  ((check_semantics_fuel 6 node assignment_scope).bind
    (fun r => Generate_IR r.1 (GenState.initial r.2))).map
    (fun r => (ir_list .global_declarations r.2.2).getLast?)

/-- The AST of `for (;;) body`. -/
def ast_for_ever (body : Option ASTNode) : Option ASTNode :=
  some (.mk "ForStatement" none
    [some (.mk "ExpressionStatement" none [] none),
     some (.mk "ExpressionStatement" none [] none),
     none,
     body] none)

/-- The AST of `for (;;) { for (;;) { } break; continue; }`. -/
def for_for_break_continue : Option ASTNode :=
  ast_for_ever (ast_block [ast_for_ever (ast_block []), ast_break, ast_continue])

/-- The AST of `for (;;) { for (int y = 0;;) { } break; continue; }`. -/
def for_for_decl_break_continue : Option ASTNode :=
  ast_for_ever
    (ast_block
      [some (.mk "ForDeclStatement" none
         [ast_int_declaration "y" "0",
          some (.mk "ExpressionStatement" none [] none),
          none,
          ast_block []] none),
       ast_break, ast_continue])

/-- The AST of `switch (x) { case 1: for (;;) { } break; }`. -/
def switch_for_break : Option ASTNode :=
  some (.mk "SwitchStatement" none
    [ast_identifier "x",
     ast_block
       [some (.mk "CaseStatement" none [ast_int "1", ast_for_ever (ast_block [])] none),
        ast_break]] none)

/-- The lists, the labels left in `current_break_label` and
`current_continue_label`, and the messages of a run of `Generate_IR` from the
initial globals over an empty symbol table. -/
def labels_after (node : Option ASTNode) :
    Except Fault (List Instruction × Operand × Operand × List Diag) :=
  (Generate_IR node (GenState.initial ⟨[[]], []⟩)).map
    (fun r => (ir_list .global_declarations r.2.2, r.2.1.current_break_label,
      r.2.1.current_continue_label, r.2.1.table.stderr))

/-- The AST of `for (i = 0; i < 3; i++) { continue; }`. -/
def for_continue : Option ASTNode :=
  some (.mk "ForStatement" none
    [ast_assign (ast_identifier "i") (ast_int "0"),
     ast_binary "<" (ast_identifier "i") (ast_int "3"),
     ast_post_increment (ast_identifier "i"),
     ast_block [ast_continue]] none)

/-- The AST of `for (int i = 0; i < 3; i++) { continue; }`. -/
def for_decl_continue : Option ASTNode :=
  some (.mk "ForDeclStatement" none
    [ast_int_declaration "i" "0",
     ast_binary "<" (ast_identifier "i") (ast_int "3"),
     ast_post_increment (ast_identifier "i"),
     ast_block [ast_continue]] none)

/-- The code of `for (i = 0; i < 3; i++) { continue; }`. -/
def for_continue_code : List Instruction :=
  [assign_of "i" (.OP_INT_CONST 0),
   goto_of "L0",
   label_of "L2",
   goto_of "L1",
   label_of "L1",
   ⟨.IR_ASSIGN, .OP_TEMPORARY "t0", .OP_IDENTIFIER "i", .OP_NONE⟩,
   ⟨.IR_ADD, .OP_TEMPORARY "t1", .OP_IDENTIFIER "i", .OP_INT_CONST 1⟩,
   assign_of "i" (.OP_TEMPORARY "t1"),
   label_of "L0",
   ⟨.IR_LT, .OP_TEMPORARY "t2", .OP_IDENTIFIER "i", .OP_INT_CONST 3⟩,
   if_false_goto "L3" (.OP_TEMPORARY "t2"),
   goto_of "L2",
   label_of "L3"]

/-- The code of `for (int i = 0; i < 3; i++) { continue; }`. -/
def for_decl_continue_code : List Instruction :=
  [assign_of "i" (.OP_INT_CONST 0),
   goto_of "L0",
   label_of "L1",
   goto_of "L0",
   ⟨.IR_ASSIGN, .OP_TEMPORARY "t0", .OP_IDENTIFIER "i", .OP_NONE⟩,
   ⟨.IR_ADD, .OP_TEMPORARY "t1", .OP_IDENTIFIER "i", .OP_INT_CONST 1⟩,
   assign_of "i" (.OP_TEMPORARY "t1"),
   label_of "L0",
   ⟨.IR_LT, .OP_TEMPORARY "t2", .OP_IDENTIFIER "i", .OP_INT_CONST 3⟩,
   if_false_goto "L2" (.OP_TEMPORARY "t2"),
   goto_of "L1",
   label_of "L2"]

/-- The empty parameter list `()`. -/
def ast_no_parameters : Option ASTNode := some (.mk "EmptyParameterList" none [] none)

/-- The AST of `void func_void_void() { }` of `tests/test_functions.c`. -/
def func_void_void_definition : Option ASTNode :=
  ast_function "void" "func_void_void" ast_no_parameters (ast_block [])

/-- The AST of `void func_void_void() { return; }`, the `Return` node holding
`children`. -/
def func_void_void_returning (children : List (Option ASTNode)) : Option ASTNode :=
  ast_function "void" "func_void_void" ast_no_parameters
    (ast_block [some (.mk "Return" none children none)])

/-- A symbol table holding `int g`, `void func_void_void()`, `int one()` and
`int main()`. -/
def functions_and_global_scope : State :=
  ⟨[[Symbol.mk .SYM_FUNCTION "main"
       (some (create_function_type (some (create_base_type "int")) [])),
     Symbol.mk .SYM_FUNCTION "one"
       (some (create_function_type (some (create_base_type "int")) [])),
     Symbol.mk .SYM_FUNCTION "func_void_void"
       (some (create_function_type (some (create_base_type "void")) [])),
     Symbol.mk .SYM_VARIABLE "g" (some (create_base_type "int"))]], []⟩

/-- The AST of a program made of a function definition followed by the global
declaration `int g;`. -/
def function_then_global (definition : Option ASTNode) : Option ASTNode :=
  some (.mk "Program" none [definition, ast_declaration "int" (ast_identifier "g")] none)

/-- The three lists and the flag `is_global_declaration` after a run of
`Generate_IR` from the initial globals over `functions_and_global_scope`: the
global-declarations list, the main-function list, the other-functions list. -/
def lists_after (node : Option ASTNode) :
    Except Fault (List Instruction × List Instruction × List Instruction × Bool) :=
  (Generate_IR node (GenState.initial functions_and_global_scope)).map
    (fun r => (ir_list .global_declarations r.2.2, ir_list .main_ir r.2.2,
      ir_list .other_funcs_ir r.2.2, r.2.1.is_global_declaration))

/-- The name of the temporary made at a value of `temp_counter`. -/
def temp_name (counter : Nat) : String := "t" ++ toString counter

/-- The name of the label made at a value of `label_counter`. -/
def label_name (counter : Nat) : String := "L" ++ toString counter

/-- A scope holding `int count`, `float pi`, `double result`, `int a` and
`float add_ten(float value)`, the names of `tests/test_complex_expressions.c`. -/
def complex_expression_scope : State :=
  ⟨[[Symbol.mk .SYM_VARIABLE "a" (some (create_base_type "int")),
     Symbol.mk .SYM_VARIABLE "result" (some (create_base_type "double")),
     Symbol.mk .SYM_VARIABLE "pi" (some (create_base_type "float")),
     Symbol.mk .SYM_VARIABLE "count" (some (create_base_type "int")),
     Symbol.mk .SYM_FUNCTION "add_ten"
       (some (create_function_type (some (create_base_type "float"))
         [Symbol.mk .SYM_VARIABLE "value" (some (create_base_type "float"))]))]], []⟩

/-- The AST of a call `callee(argument)` whose argument is not wrapped in an
`ArgumentList`. -/
def ast_call_bare (callee : String) (argument : Option ASTNode) : Option ASTNode :=
  some (.mk "FunctionCall" none [ast_identifier callee, argument] none)

/-- A step of the generator under which `temp_counter` and `label_counter`
never decrease: whenever the step returns, neither counter is below its value
before the step. -/
structure counters_grow {α : Type} (x : Lower α) : Prop where
  le : ∀ s a s1 code, x s = .ok (a, s1, code) →
    s.temp_counter ≤ s1.temp_counter ∧ s.label_counter ≤ s1.label_counter

/-- The property `counters_grow` for the two functions at a node and at every
node below it. -/
inductive Lowering.Grows : Lowering → Prop
  | mk (position : List Nat) (node : ASTNode) (generate : Lower Operand)
      (emit_params : Nat → Lower Nat) (children : List (Option Lowering)) :
      counters_grow generate → (∀ count, counters_grow (emit_params count)) →
      (∀ l, some l ∈ children → Lowering.Grows l) →
      Lowering.Grows (.mk position node generate emit_params children)

/-- The property `Lowering.Grows` for a child pointer, `NULL` included. -/
def grows_at : Option Lowering → Prop
  | none => True
  | some l => l.Grows

/-- The list `ASSIGN x, 1` as stored, the name of `x` at address 0. -/
def stored_assign_x_1 : List StoredInstruction :=
  [⟨.IR_ASSIGN, ⟨.OP_IDENTIFIER "x", some 0⟩, ⟨.OP_INT_CONST 1, none⟩, ⟨.OP_NONE, none⟩⟩]

/-- The list `ADD t0, y, 1; ASSIGN x, t0` as stored: the two instructions hold
copies of the one operand `t0`, whose name is at address 0. -/
def stored_add_assign : List StoredInstruction :=
  [⟨.IR_ADD, ⟨.OP_TEMPORARY "t0", some 0⟩, ⟨.OP_IDENTIFIER "y", some 1⟩, ⟨.OP_INT_CONST 1, none⟩⟩,
   ⟨.IR_ASSIGN, ⟨.OP_IDENTIFIER "x", some 2⟩, ⟨.OP_TEMPORARY "t0", some 0⟩, ⟨.OP_NONE, none⟩⟩]

/-- The AST of `a[i++] = v` as `check_semantics` annotates it in the scope of
`int a[10]; int i; int v;`. -/
def store_a_i_incr_checked : Option ASTNode :=
  some (.mk "Assignment" (some "=")
    [some (.mk "ArrayAccess" none
       [some (.mk "Identifier" (some "a") []
          (some (create_array_type (some (create_base_type "int")) 10))),
        some (.mk "PostfixIncrement" none
          [some (.mk "Identifier" (some "i") [] (some (create_base_type "int")))] none)]
       (some (create_base_type "int"))),
     some (.mk "Identifier" (some "v") [] (some (create_base_type "int")))]
    (some (create_base_type "int")))

/-- The AST of `s.m = s.m`. -/
def assign_member_to_itself : Option ASTNode :=
  ast_assign (some (.mk "MemberAccess" (some "m") [ast_identifier "s"] none))
    (some (.mk "MemberAccess" (some "m") [ast_identifier "s"] none))

/-- The instructions `Generate_IR` appends to the global-declarations list for
a tree analysed in `assignment_scope`. -/
def global_code_of (node : Option ASTNode) : Except Fault (List Instruction) :=
  ((check_semantics_fuel 6 node assignment_scope).bind
    (fun r => Generate_IR r.1 (GenState.initial r.2))).map
    (fun r => ir_list .global_declarations r.2.2)

/-! # Verification -/

/-! ## Theorems: symbol table -/

theorem find_in_scope_eq_none (name : String) (l : List Symbol) :
    find_in_scope name l = none ↔ ∀ x ∈ l, x.name ≠ name := by
  induction l with
  | nil => simp [find_in_scope]
  | cons a l ih =>
    simp only [find_in_scope, List.mem_cons, forall_eq_or_imp]
    by_cases h : a.name = name
    · simp [h]
    · simp [h, ih]

theorem find_in_scope_eq_some (name : String) (l : List Symbol) (s : Symbol) :
    find_in_scope name l = some s ↔
      ∃ a b, l = a ++ s :: b ∧ s.name = name ∧ ∀ x ∈ a, x.name ≠ name := by
  induction l with
  | nil => simp [find_in_scope]
  | cons y l ih =>
    simp only [find_in_scope]
    by_cases h : y.name = name
    · simp only [h, if_true, Option.some.injEq]
      constructor
      · rintro rfl
        exact ⟨[], l, rfl, h, by simp⟩
      · rintro ⟨a, b, hl, hs, ha⟩
        cases a with
        | nil => simp at hl; exact hl.1
        | cons a0 a =>
          simp at hl
          exact absurd (hl.1 ▸ h) (ha a0 (by simp))
    · simp only [h, if_false, ih]
      constructor
      · rintro ⟨a, b, hl, hs, ha⟩
        refine ⟨y :: a, b, by simp [hl], hs, ?_⟩
        intro x hx
        rcases List.mem_cons.1 hx with rfl | hx
        · exact h
        · exact ha x hx
      · rintro ⟨a, b, hl, hs, ha⟩
        cases a with
        | nil =>
          simp at hl
          exact absurd (hl.1 ▸ hs) h
        | cons a0 a =>
          simp at hl
          exact ⟨a, b, hl.2, hs, fun x hx => ha x (by simp [hx])⟩

theorem find_in_scope_mem (name : String) (l : List Symbol) (s : Symbol)
    (h : find_in_scope name l = some s) : s ∈ l ∧ s.name = name := by
  obtain ⟨a, b, hl, hs, _⟩ := (find_in_scope_eq_some name l s).1 h
  exact ⟨by simp [hl], hs⟩

theorem lookup_in_scopes_eq_none (name : String) (stack : List (List Symbol)) :
    lookup_in_scopes name stack = none ↔ ∀ sc ∈ stack, ∀ x ∈ sc, x.name ≠ name := by
  induction stack with
  | nil => simp [lookup_in_scopes]
  | cons sc stack ih =>
    simp only [lookup_in_scopes, List.mem_cons, forall_eq_or_imp]
    cases hf : find_in_scope name sc with
    | none =>
      simp only [ih]
      exact ⟨fun h => ⟨(find_in_scope_eq_none name sc).1 hf, h⟩, fun h => h.2⟩
    | some s =>
      simp only [false_iff, not_and, reduceCtorEq]
      intro hno
      have := (find_in_scope_eq_none name sc).2 hno
      simp [hf] at this

theorem lookup_in_scopes_eq_some (name : String) (stack : List (List Symbol)) (s : Symbol) :
    lookup_in_scopes name stack = some s ↔
      ∃ inner scope outer, stack = inner ++ scope :: outer ∧
        (∀ sc ∈ inner, ∀ x ∈ sc, x.name ≠ name) ∧ find_in_scope name scope = some s := by
  induction stack with
  | nil => simp [lookup_in_scopes]
  | cons sc stack ih =>
    simp only [lookup_in_scopes]
    cases hf : find_in_scope name sc with
    | none =>
      simp only [ih]
      constructor
      · rintro ⟨inner, scope, outer, hst, hin, hfs⟩
        refine ⟨sc :: inner, scope, outer, by simp [hst], ?_, hfs⟩
        intro sc1 hsc1
        rcases List.mem_cons.1 hsc1 with rfl | hsc1
        · exact (find_in_scope_eq_none name _).1 hf
        · exact hin sc1 hsc1
      · rintro ⟨inner, scope, outer, hst, hin, hfs⟩
        cases inner with
        | nil =>
          simp at hst
          rw [← hst.1, hf] at hfs
          cases hfs
        | cons i0 inner =>
          simp at hst
          exact ⟨inner, scope, outer, hst.2, fun sc1 h1 => hin sc1 (by simp [h1]), hfs⟩
    | some s1 =>
      simp only [Option.some.injEq]
      constructor
      · rintro rfl
        exact ⟨[], sc, stack, rfl, by simp, hf⟩
      · rintro ⟨inner, scope, outer, hst, hin, hfs⟩
        cases inner with
        | nil =>
          simp at hst
          rw [← hst.1, hf] at hfs
          exact Option.some.inj hfs
        | cons i0 inner =>
          simp at hst
          have := (find_in_scope_eq_none name sc).2 (hst.1 ▸ hin i0 (by simp))
          simp [hf] at this

/-- C1: in a state with an active scope, inserting a name the current scope
already binds appends exactly one redeclaration diagnostic and leaves the
scope stack as it was; `lookup_symbol` returns the original symbol of the
current scope before and after. -/
theorem insert_symbol_redeclaration (st : State) (cur : List Symbol)
    (outer : List (List Symbol)) (name : String) (type : Option CType) (kind : SymKind)
    (hstack : st.scope_stack = cur :: outer) (hbound : ∃ x ∈ cur, x.name = name) :
    (insert_symbol name type kind st).scope_stack = st.scope_stack ∧
    (insert_symbol name type kind st).stderr
      = st.stderr ++ [⟨FMT_REDECLARATION, [.str (some name)]⟩] ∧
    ∃ s ∈ cur, s.name = name ∧ lookup_symbol name st = some s ∧
      lookup_symbol name (insert_symbol name type kind st) = some s := by
  cases hf : find_in_scope name cur with
  | none =>
    obtain ⟨x, hx, hn⟩ := hbound
    exact absurd hn ((find_in_scope_eq_none name cur).1 hf x hx)
  | some s =>
    have hins : insert_symbol name type kind st
        = { st with stderr := st.stderr ++ [⟨FMT_REDECLARATION, [.str (some name)]⟩] } := by
      simp [insert_symbol, hstack, hf]
    obtain ⟨hmem, hname⟩ := find_in_scope_mem name cur s hf
    refine ⟨by rw [hins], by rw [hins], s, hmem, hname, ?_, ?_⟩
    · simp [lookup_symbol, hstack, lookup_in_scopes, hf]
    · rw [hins]; simp [lookup_symbol, hstack, lookup_in_scopes, hf]

/-- Witness for C1: `x : int` inserted twice in the global scope. -/
theorem insert_symbol_redeclaration_witness :
    (insert_symbol "x" (some (create_base_type "int")) .SYM_VARIABLE
      (insert_symbol "x" (some (create_base_type "int")) .SYM_VARIABLE ⟨[[]], []⟩)).stderr
      = [⟨FMT_REDECLARATION, [.str (some "x")]⟩] :=
  (insert_symbol_redeclaration
    (insert_symbol "x" (some (create_base_type "int")) .SYM_VARIABLE ⟨[[]], []⟩)
    [Symbol.mk .SYM_VARIABLE "x" (some (create_base_type "int"))] [] "x"
    (some (create_base_type "int")) .SYM_VARIABLE rfl
    ⟨_, List.mem_singleton.2 rfl, rfl⟩).2.1

/-- C2: `lookup_symbol` returns the first symbol with the name in the innermost
scope that binds it, and `none` exactly when no scope binds the name; inserting
a name absent from the current scope succeeds without a diagnostic whatever the
outer scopes bind, and the new symbol is what `lookup_symbol` then returns. -/
theorem lookup_symbol_innermost (st : State) (name : String) :
    (∀ s, lookup_symbol name st = some s ↔
      ∃ inner scope outer, st.scope_stack = inner ++ scope :: outer ∧
        (∀ sc ∈ inner, ∀ x ∈ sc, x.name ≠ name) ∧
        ∃ a b, scope = a ++ s :: b ∧ s.name = name ∧ ∀ x ∈ a, x.name ≠ name) ∧
    (lookup_symbol name st = none ↔ ∀ sc ∈ st.scope_stack, ∀ x ∈ sc, x.name ≠ name) ∧
    (∀ cur outer type kind, st.scope_stack = cur :: outer → (∀ x ∈ cur, x.name ≠ name) →
      (insert_symbol name type kind st).scope_stack
        = (Symbol.mk kind name type :: cur) :: outer ∧
      (insert_symbol name type kind st).stderr = st.stderr ∧
      lookup_symbol name (insert_symbol name type kind st)
        = some (Symbol.mk kind name type)) := by
  refine ⟨?_, ?_, ?_⟩
  · intro s
    simp only [lookup_symbol, lookup_in_scopes_eq_some, find_in_scope_eq_some]
  · simp only [lookup_symbol, lookup_in_scopes_eq_none]
  · intro cur outer type kind hstack habsent
    have hf : find_in_scope name cur = none := (find_in_scope_eq_none name cur).2 habsent
    have hins : insert_symbol name type kind st
        = { st with scope_stack := (Symbol.mk kind name type :: cur) :: outer } := by
      simp [insert_symbol, hstack, hf]
    rw [hins]
    refine ⟨rfl, rfl, ?_⟩
    simp [lookup_symbol, lookup_in_scopes, find_in_scope, Symbol.name]

/-- Witness for C2: `x : double` inserted in an inner scope shadows the global
`x : int`. -/
theorem lookup_symbol_innermost_witness :
    lookup_symbol "x" (insert_symbol "x" (some (create_base_type "double")) .SYM_VARIABLE
      ⟨[[], [Symbol.mk .SYM_VARIABLE "x" (some (create_base_type "int"))]], []⟩)
      = some (Symbol.mk .SYM_VARIABLE "x" (some (create_base_type "double"))) :=
  ((lookup_symbol_innermost
    ⟨[[], [Symbol.mk .SYM_VARIABLE "x" (some (create_base_type "int"))]], []⟩ "x").2.2
    [] [[Symbol.mk .SYM_VARIABLE "x" (some (create_base_type "int"))]]
    (some (create_base_type "double")) .SYM_VARIABLE rfl (by simp)).2.2

/-! ## Theorems: type queries -/

/-- C5: `get_type_size` returns a positive cached size as it is; otherwise a
base type has the size fixed for its name (4 for any other name), a pointer 8,
an array its element count times the size of its element type, a struct or
union its stored size (0 when only forward-declared); a missing type has
size 0. -/
theorem get_type_size_cases :
    get_type_size none = 0 ∧
    (∀ t : CType, t.size > 0 → get_type_size (some t) = t.size) ∧
    (∀ s : Int, s ≤ 0 →
      get_type_size (some (.base s "char")) = 1 ∧
      get_type_size (some (.base s "short")) = 2 ∧
      get_type_size (some (.base s "int")) = 4 ∧
      get_type_size (some (.base s "long")) = 8 ∧
      get_type_size (some (.base s "float")) = 4 ∧
      get_type_size (some (.base s "double")) = 8 ∧
      (∀ n : String, n ≠ "char" → n ≠ "short" → n ≠ "int" → n ≠ "long" → n ≠ "float" →
        n ≠ "double" → get_type_size (some (.base s n)) = 4) ∧
      (∀ p, get_type_size (some (.pointer s p)) = 8) ∧
      (∀ e n, get_type_size (some (.array s e n)) = n * get_type_size e) ∧
      (∀ name ms, get_type_size (some (.struct s name ms)) = s) ∧
      (∀ name ms, get_type_size (some (.union s name ms)) = s)) ∧
    (∀ name ms, get_type_size (some (.struct 0 name ms)) = 0) ∧
    (∀ name ms, get_type_size (some (.union 0 name ms)) = 0) := by
  refine ⟨by simp [get_type_size], ?_, ?_, by simp [get_type_size, get_type_size_of],
    by simp [get_type_size, get_type_size_of]⟩
  · intro t ht
    cases t <;> simp_all [get_type_size, get_type_size_of, CType.size]
  · intro s hs
    have hs' : ¬ s > 0 := not_lt.mpr hs
    refine ⟨?_, ?_, ?_, ?_, ?_, ?_, ?_, ?_, ?_, ?_, ?_⟩ <;>
      simp [get_type_size, get_type_size_of, hs']
    intro n h1 h2 h3 h4 h5 h6
    simp [h1, h2, h3, h4, h5, h6]

/-- Witness for C5: `int[10]` with no cached size has size 40, and a cached
size 12 is returned as it is. -/
theorem get_type_size_cases_witness :
    get_type_size (some (.array 0 (some (.base 0 "int")) 10)) = 10 * 4 ∧
    get_type_size (some (.base 12 "int")) = 12 := by
  refine ⟨?_, get_type_size_cases.2.1 (.base 12 "int") (by decide)⟩
  rw [(get_type_size_cases.2.2.1 0 (le_refl 0)).2.2.2.2.2.2.2.2.1,
    (get_type_size_cases.2.2.1 0 (le_refl 0)).2.2.1]

/-- C6: two base types with the same name are compatible; two pointer types
are compatible exactly when their pointee types are; two base types with
different names that are not the widening pair are not compatible; a missing
type is compatible with nothing. -/
theorem are_types_compatible_same_kind :
    (∀ (s1 s2 : Int) (n : String),
      are_types_compatible (some (.base s1 n)) (some (.base s2 n)) = true) ∧
    (∀ (s1 s2 : Int) (p1 p2 : Option CType),
      are_types_compatible (some (.pointer s1 p1)) (some (.pointer s2 p2))
        = are_types_compatible p1 p2) ∧
    (∀ (s1 s2 : Int) (n1 n2 : String), n1 ≠ n2 →
      ¬ ((n1 = "double" ∨ n1 = "float") ∧ n2 = "int") →
      are_types_compatible (some (.base s1 n1)) (some (.base s2 n2)) = false) ∧
    (∀ t : Option CType,
      are_types_compatible none t = false ∧ are_types_compatible t none = false) := by
  refine ⟨?_, ?_, ?_, ?_⟩
  · intro s1 s2 n
    simp [are_types_compatible, are_types_compatible_of, CType.kind]
  · intro s1 s2 p1 p2
    simp [are_types_compatible, are_types_compatible_of, CType.kind]
  · intro s1 s2 n1 n2 hne _
    simp [are_types_compatible, are_types_compatible_of, CType.kind, hne]
  · intro t
    refine ⟨by simp [are_types_compatible], ?_⟩
    cases t with
    | none => simp [are_types_compatible]
    | some t => cases t <;> simp [are_types_compatible, are_types_compatible_of]

/-- Witness for C6: `int**` is compatible with `int**` and not with
`char**`. -/
theorem are_types_compatible_same_kind_witness :
    are_types_compatible (some (.pointer 0 (some (.pointer 0 (some (.base 0 "int"))))))
        (some (.pointer 0 (some (.pointer 0 (some (.base 0 "int")))))) = true ∧
    are_types_compatible (some (.pointer 0 (some (.pointer 0 (some (.base 0 "char"))))))
        (some (.pointer 0 (some (.pointer 0 (some (.base 0 "int")))))) = false := by
  constructor
  · rw [are_types_compatible_same_kind.2.1, are_types_compatible_same_kind.2.1]
    exact are_types_compatible_same_kind.1 0 0 "int"
  · rw [are_types_compatible_same_kind.2.1, are_types_compatible_same_kind.2.1]
    exact are_types_compatible_same_kind.2.2.1 0 0 "char" "int" (by decide) (by decide)

/-- C7: at a `double` or `float` left-hand side and an `int` right-hand side
`are_types_compatible` returns 0, because the widening test is only reached
when the two kinds differ; so `d = 1` with `double d` reports a type
mismatch.  The reverse direction is not compatible either. -/
theorem are_types_compatible_widening_unreachable :
    (∀ s1 s2 : Int,
      are_types_compatible (some (.base s1 "double")) (some (.base s2 "int")) = false ∧
      are_types_compatible (some (.base s1 "float")) (some (.base s2 "int")) = false ∧
      are_types_compatible (some (.base s1 "int")) (some (.base s2 "double")) = false) ∧
    (check_semantics_fuel 2 assign_d_1
        ⟨[[Symbol.mk .SYM_VARIABLE "d" (some (create_base_type "double"))]], []⟩).map
      (fun r => r.2.stderr)
      = .ok [⟨FMT_ASSIGN_MISMATCH, [.str (some "d")]⟩] := by
  refine ⟨?_, by decide⟩
  intro s1 s2
  simp [are_types_compatible, are_types_compatible_of, CType.kind]

/-! ## Theorems: struct and union layout -/

theorem ASTNode.children_induction {P : ASTNode → Prop}
    (h : ∀ nt v cs ty, (∀ c, some c ∈ cs → P c) → P (.mk nt v cs ty)) : ∀ n, P n := by
  intro n
  refine ASTNode.rec (motive_1 := P) (motive_2 := fun cs => ∀ c, some c ∈ cs → P c)
    (motive_3 := fun o => ∀ c, o = some c → P c) ?_ ?_ ?_ ?_ ?_ n
  · intro nt v cs ty ih
    exact h nt v cs ty ih
  · intro c hc
    simp at hc
  · intro hd tl ihh iht c hc
    rcases List.mem_cons.1 hc with hc | hc
    · exact ihh c hc.symm
    · exact iht c hc
  · intro c hc
    cases hc
  · intro val ih c hc
    cases hc
    exact ih

theorem layout_add_member_inv {kind : TypeKind} {J : Int → Int → List StructMember → Prop}
    (hJ : LayoutInvariant kind J) (name : Option String) (ty : Option CType) (acc : LayoutAcc)
    (st1 : State) (h : J acc.current_offset acc.max_member_size acc.members) :
    J (layout_add_member kind name ty acc st1).current_offset
      (layout_add_member kind name ty acc st1).max_member_size
      (layout_add_member kind name ty acc st1).members := by
  have := hJ.add name ty acc.current_offset acc.max_member_size acc.members h
  simpa [layout_add_member] using this

theorem layout_declarators_of_inv {kind : TypeKind} {J : Int → Int → List StructMember → Prop}
    (hJ : LayoutInvariant kind J) (bt : Option CType) (n : ASTNode) :
    ∀ acc acc1, J acc.current_offset acc.max_member_size acc.members →
      layout_declarators_of kind bt n acc = .ok acc1 →
      J acc1.current_offset acc1.max_member_size acc1.members := by
  induction n using ASTNode.children_induction with
  | h nt v cs ty ih =>
    intro acc acc1 hacc hrun
    cases cs with
    | nil => simp [layout_declarators_of] at hrun
    | cons declarator rest =>
      rw [layout_declarators_of] at hrun
      cases hn : get_declarator_name declarator with
      | error f => simp [hn] at hrun
      | ok member_name =>
        simp only [hn] at hrun
        cases hb : build_declarator_type bt declarator acc.st with
        | error f => simp [hb] at hrun
        | ok r =>
          obtain ⟨member_type, st1⟩ := r
          simp only [hb] at hrun
          have hadd := layout_add_member_inv hJ member_name member_type acc st1 hacc
          cases rest with
          | nil =>
            simp only [Except.ok.injEq] at hrun
            rw [← hrun]; exact hadd
          | cons c1 rest1 =>
            simp only at hrun
            cases c1 with
            | none =>
              simp only [layout_declarators, Except.ok.injEq] at hrun
              rw [← hrun]; exact hadd
            | some n1 =>
              simp only [layout_declarators] at hrun
              exact ih n1 (by simp) _ _ hadd hrun

theorem layout_declarators_inv {kind : TypeKind} {J : Int → Int → List StructMember → Prop}
    (hJ : LayoutInvariant kind J) (bt : Option CType) (n : Option ASTNode)
    (acc acc1 : LayoutAcc) (hacc : J acc.current_offset acc.max_member_size acc.members)
    (hrun : layout_declarators kind bt n acc = .ok acc1) :
    J acc1.current_offset acc1.max_member_size acc1.members := by
  cases n with
  | none =>
    simp only [layout_declarators, Except.ok.injEq] at hrun
    rw [← hrun]; exact hacc
  | some n =>
    simp only [layout_declarators] at hrun
    exact layout_declarators_of_inv hJ bt n acc acc1 hacc hrun

theorem layout_struct_declaration_inv {kind : TypeKind}
    {J : Int → Int → List StructMember → Prop} (hJ : LayoutInvariant kind J)
    (d : Option ASTNode) (acc acc1 : LayoutAcc)
    (hacc : J acc.current_offset acc.max_member_size acc.members)
    (hrun : layout_struct_declaration kind d acc = .ok acc1) :
    J acc1.current_offset acc1.max_member_size acc1.members := by
  unfold layout_struct_declaration at hrun
  split at hrun
  · cases hrun
  · split at hrun
    · split at hrun
      · cases hrun
      · refine layout_declarators_inv hJ _ _ _ _ ?_ hrun
        exact hacc
    · cases hrun

theorem layout_declarations_of_inv {kind : TypeKind} {J : Int → Int → List StructMember → Prop}
    (hJ : LayoutInvariant kind J) (n : ASTNode) :
    ∀ acc acc1, J acc.current_offset acc.max_member_size acc.members →
      layout_declarations_of kind n acc = .ok acc1 →
      J acc1.current_offset acc1.max_member_size acc1.members := by
  induction n using ASTNode.children_induction with
  | h nt v cs ty ih =>
    intro acc acc1 hacc hrun
    unfold layout_declarations_of at hrun
    split at hrun
    · split at hrun
      · cases hrun
      · exact layout_struct_declaration_inv hJ _ _ _ hacc hrun
      · rename_i c0 c1 rest
        split at hrun
        · cases hrun
        · rename_i acc2 hsd
          have h2 := layout_struct_declaration_inv hJ _ _ _ hacc hsd
          cases c0 with
          | none =>
            simp only [layout_declarations, Except.ok.injEq] at hrun
            rw [← hrun]; exact h2
          | some n0 =>
            simp only [layout_declarations] at hrun
            exact ih n0 (by simp) _ _ h2 hrun
    · exact layout_struct_declaration_inv hJ _ _ _ hacc hrun

theorem members_packed_from_append (start : Int) (ms : List StructMember) (m : StructMember) :
    members_packed_from start (ms ++ [m]) ↔
      members_packed_from start ms ∧ m.offset = start + (member_sizes ms).sum := by
  induction ms generalizing start with
  | nil => simp [members_packed_from, member_sizes]
  | cons a ms ih =>
    have h1 := ih (start + get_type_size a.type)
    simp only [member_sizes] at h1
    show (a.offset = start ∧ members_packed_from (start + get_type_size a.type) (ms ++ [m])) ↔ _
    rw [h1]
    simp only [members_packed_from, member_sizes, List.map_cons, List.sum_cons, and_assoc,
      add_assoc]

theorem struct_layout_invariant :
    LayoutInvariant .TYPE_STRUCT
      (fun off _ ms => members_packed_from 0 ms ∧ off = (member_sizes ms).sum) := by
  constructor
  intro name ty off mx ms h
  obtain ⟨hp, ho⟩ := h
  simp only [layout_add_member, if_true]
  refine ⟨(members_packed_from_append 0 ms _).2 ⟨hp, by simp [StructMember.offset, ho]⟩, ?_⟩
  simp [member_sizes, StructMember.type, ho]

theorem members_packed_from_chain (start : Int) (ms : List StructMember)
    (h : members_packed_from start ms) :
    List.Chain' (fun a b => b.offset = a.offset + get_type_size a.type) ms := by
  induction ms generalizing start with
  | nil => exact List.chain'_nil
  | cons a ms ih =>
    obtain ⟨ha, hrest⟩ := h
    cases ms with
    | nil => exact List.chain'_singleton a
    | cons b ms =>
      refine List.chain'_cons.2 ⟨?_, ih _ hrest⟩
      rw [hrest.1, ha]

theorem members_packed_from_last (start : Int) (ms : List StructMember)
    (h : members_packed_from start ms) (m : StructMember) (hm : ms.getLast? = some m) :
    m.offset + get_type_size m.type = start + (member_sizes ms).sum := by
  induction ms generalizing start with
  | nil => simp at hm
  | cons a ms ih =>
    obtain ⟨ha, hrest⟩ := h
    cases ms with
    | nil =>
      simp at hm
      subst hm
      simp [member_sizes, ha]
    | cons b ms =>
      have hm' : (b :: ms).getLast? = some m := by
        simpa [List.getLast?_cons_cons] using hm
      have := ih _ hrest hm'
      rw [this]
      simp [member_sizes, add_assoc]

theorem foldl_max_ge (l : List Int) (a : Int) :
    a ≤ l.foldl max a ∧ (∀ x ∈ l, x ≤ l.foldl max a) ∧
      (l.foldl max a = a ∨ l.foldl max a ∈ l) := by
  induction l generalizing a with
  | nil => simp
  | cons b l ih =>
    obtain ⟨h1, h2, h3⟩ := ih (max a b)
    simp only [List.foldl_cons, List.mem_cons, forall_eq_or_imp]
    refine ⟨le_trans (le_max_left a b) h1, ⟨le_trans (le_max_right a b) h1, h2⟩, ?_⟩
    rcases h3 with h3 | h3
    · rw [h3]
      rcases max_choice a b with h | h
      · left; exact h
      · right; left; exact h
    · right; right; exact h3

theorem union_layout_invariant :
    LayoutInvariant .TYPE_UNION
      (fun off mx ms => off = 0 ∧ (∀ m ∈ ms, m.offset = 0) ∧
        mx = (member_sizes ms).foldl max 0) := by
  constructor
  intro name ty off mx ms h
  obtain ⟨ho, hz, hm⟩ := h
  have hne : ¬ (TypeKind.TYPE_UNION = TypeKind.TYPE_STRUCT) := by decide
  simp only [layout_add_member, hne, if_false, if_true]
  refine ⟨ho, ?_, ?_⟩
  · intro m hmem
    rcases List.mem_append.1 hmem with hmem | hmem
    · exact hz m hmem
    · rw [List.mem_singleton.1 hmem]; exact ho
  · simp only [member_sizes, List.map_append, List.map_cons, List.map_nil, List.foldl_append,
      List.foldl_cons, List.foldl_nil]
    simp only [member_sizes] at hm
    rw [← hm]
    have hty : (StructMember.mk name ty off).type = ty := rfl
    rw [hty]
    by_cases hgt : get_type_size ty > mx
    · simp [hgt, max_eq_right (le_of_lt hgt)]
    · simp [hgt, max_eq_left (not_lt.1 hgt)]

/-- C3: the member list of a struct laid out by `calculate_struct_layout`
starts at offset 0, each later member lies at the previous member's offset
plus the size of the previous member's type (so at least there), and the
struct's size is the sum of the member sizes, which is the last member's
offset plus its size. -/
theorem struct_layout_offsets (size0 : Int) (name : Option String)
    (members0 : List StructMember) (decl_list_node : ASTNode) (st st1 : State)
    (t1 : Option CType)
    (hrun : calculate_struct_layout (some (.struct size0 name members0))
      (some decl_list_node) st = .ok (t1, st1)) :
    ∃ ms, t1 = some (.struct (member_sizes ms).sum name ms) ∧
      (∀ m rest, ms = m :: rest → m.offset = 0) ∧
      List.Chain' (fun a b => b.offset ≥ a.offset + get_type_size a.type) ms ∧
      List.Chain' (fun a b => b.offset = a.offset + get_type_size a.type) ms ∧
      (∀ m, ms.getLast? = some m →
        (member_sizes ms).sum = m.offset + get_type_size m.type) := by
  unfold calculate_struct_layout at hrun
  simp only [CType.kind] at hrun
  split at hrun
  · cases hrun
  · rename_i acc hacc
    have hinv := layout_declarations_of_inv struct_layout_invariant decl_list_node
      ⟨0, 0, [], st⟩ acc (by simp [members_packed_from, member_sizes]) (by
        simpa [layout_declarations] using hacc)
    obtain ⟨hp, ho⟩ := hinv
    simp only [Except.ok.injEq, Prod.mk.injEq] at hrun
    refine ⟨acc.members, ?_, ?_, ?_, members_packed_from_chain 0 _ hp, ?_⟩
    · rw [← hrun.1, ho]
    · intro m rest hms
      rw [hms] at hp
      exact hp.1
    · exact (members_packed_from_chain 0 _ hp).imp (fun _ _ h => le_of_eq h.symm)
    · intro m hm
      have := members_packed_from_last 0 _ hp m hm
      simp only [zero_add] at this
      exact this.symm

/-- C4: every member of a union laid out by `calculate_struct_layout` has
offset 0, and the union's size is the maximum of the member sizes taken from
the initial 0: it bounds every member size, it is 0 for a union without
members, and it is the size of some member as soon as one member has a
non-negative size. -/
theorem union_layout_offsets (size0 : Int) (name : Option String)
    (members0 : List StructMember) (decl_list_node : ASTNode) (st st1 : State)
    (t1 : Option CType)
    (hrun : calculate_struct_layout (some (.union size0 name members0))
      (some decl_list_node) st = .ok (t1, st1)) :
    ∃ ms size, t1 = some (.union size name ms) ∧
      (∀ m ∈ ms, m.offset = 0) ∧
      size = (member_sizes ms).foldl max 0 ∧
      (ms = [] → size = 0) ∧
      (∀ m ∈ ms, get_type_size m.type ≤ size) ∧
      ((∃ m ∈ ms, 0 ≤ get_type_size m.type) → ∃ m ∈ ms, get_type_size m.type = size) := by
  unfold calculate_struct_layout at hrun
  simp only [CType.kind] at hrun
  split at hrun
  · cases hrun
  · rename_i acc hacc
    have hinv := layout_declarations_of_inv union_layout_invariant decl_list_node
      ⟨0, 0, [], st⟩ acc (by simp [member_sizes]) (by
        simpa [layout_declarations] using hacc)
    obtain ⟨_, hz, hm⟩ := hinv
    simp only [Except.ok.injEq, Prod.mk.injEq] at hrun
    obtain ⟨hge, hub, hatt⟩ := foldl_max_ge (member_sizes acc.members) 0
    refine ⟨acc.members, acc.max_member_size, hrun.1.symm, hz, hm, ?_, ?_, ?_⟩
    · intro hnil
      rw [hm, hnil]; simp [member_sizes]
    · intro m hmem
      rw [hm]
      exact hub _ (List.mem_map.2 ⟨m, hmem, rfl⟩)
    · rintro ⟨m, hmem, hpos⟩
      rw [hm]
      rcases hatt with h0 | hin
      · refine ⟨m, hmem, ?_⟩
        have := hub _ (List.mem_map.2 ⟨m, hmem, rfl⟩)
        rw [h0] at this ⊢
        exact le_antisymm this hpos
      · obtain ⟨m1, hm1, hs⟩ := List.mem_map.1 hin
        exact ⟨m1, hm1, hs⟩

/-- Witness for C3: `struct Point { int x; int y; }` is laid out with offsets 0
and 4 and size 8. -/
theorem struct_layout_offsets_witness :
    calculate_struct_layout (some (.struct 0 (some "Point") [])) (some point_members)
        ⟨[[]], []⟩
      = .ok (some (.struct 8 (some "Point")
          [.mk (some "y") (some (create_base_type "int")) 0,
           .mk (some "x") (some (create_base_type "int")) 4]), ⟨[[]], []⟩) ∧
    ∃ ms, some (CType.struct 8 (some "Point")
          [.mk (some "y") (some (create_base_type "int")) 0,
           .mk (some "x") (some (create_base_type "int")) 4])
        = some (.struct (member_sizes ms).sum (some "Point") ms) ∧
      (∀ m rest, ms = m :: rest → m.offset = 0) ∧
      List.Chain' (fun a b => b.offset ≥ a.offset + get_type_size a.type) ms ∧
      List.Chain' (fun a b => b.offset = a.offset + get_type_size a.type) ms ∧
      (∀ m, ms.getLast? = some m →
        (member_sizes ms).sum = m.offset + get_type_size m.type) :=
  ⟨rfl, struct_layout_offsets 0 (some "Point") [] point_members ⟨[[]], []⟩ ⟨[[]], []⟩ _ rfl⟩

/-- Witness for C4: `union Data { int i; float f; }` is laid out with both
offsets 0 and size 4. -/
theorem union_layout_offsets_witness :
    calculate_struct_layout (some (.union 0 (some "Data") [])) (some data_members)
        ⟨[[]], []⟩
      = .ok (some (.union 4 (some "Data")
          [.mk (some "f") (some (create_base_type "float")) 0,
           .mk (some "i") (some (create_base_type "int")) 0]), ⟨[[]], []⟩) ∧
    ∃ ms size, some (CType.union 4 (some "Data")
          [.mk (some "f") (some (create_base_type "float")) 0,
           .mk (some "i") (some (create_base_type "int")) 0])
        = some (.union size (some "Data") ms) ∧
      (∀ m ∈ ms, m.offset = 0) ∧
      size = (member_sizes ms).foldl max 0 ∧
      (ms = [] → size = 0) ∧
      (∀ m ∈ ms, get_type_size m.type ≤ size) ∧
      ((∃ m ∈ ms, 0 ≤ get_type_size m.type) → ∃ m ∈ ms, get_type_size m.type = size) :=
  ⟨rfl, union_layout_offsets 0 (some "Data") [] data_members ⟨[[]], []⟩ ⟨[[]], []⟩ _ rfl⟩

/-! ## Theorems: semantic analysis -/

/-! A larger budget never changes a result other than `out_of_fuel`. -/

theorem Checker.Extends.of_error {c1 c2 : Checker} (h : Checker.Extends c1 c2)
    {n : Option ASTNode} {st : State} {f : Fault} (h0 : c1 n st = .error f)
    (hf : f ≠ .out_of_fuel) : c2 n st = .error f := by
  rw [h n st (by rw [h0]; intro e; exact hf (Except.error.inj e)), h0]

theorem Checker.Extends.of_ok {c1 c2 : Checker} (h : Checker.Extends c1 c2)
    {n : Option ASTNode} {st : State} {p : Option ASTNode × State} (h0 : c1 n st = .ok p) :
    c2 n st = .ok p := by
  rw [h n st (by rw [h0]; simp), h0]

theorem ne_out_of_fuel {α : Type} {f : Fault}
    (h : (Except.error f : Except Fault α) ≠ .error .out_of_fuel) : f ≠ .out_of_fuel :=
  fun e => h (by rw [e])

theorem check_children_extends (c1 c2 : Checker) (h : Checker.Extends c1 c2)
    (cs : List (Option ASTNode)) :
    ∀ st, check_children c1 cs st ≠ .error .out_of_fuel →
      check_children c2 cs st = check_children c1 cs st := by
  induction cs with
  | nil => intro st _; rfl
  | cons c cs ih =>
    intro st hne
    simp only [check_children] at hne ⊢
    cases h0 : c1 c st with
    | error f =>
      simp only [h0] at hne
      rw [h.of_error h0 (ne_out_of_fuel hne)]
    | ok p =>
      obtain ⟨c', st1⟩ := p
      rw [h.of_ok h0]
      simp only [h0] at hne ⊢
      rw [ih st1 (by
        intro e
        rw [e] at hne
        exact hne rfl)]

theorem check_array_access_extends (c1 c2 : Checker) (h : Checker.Extends c1 c2)
    (nt : String) (v : Option String) (cs : List (Option ASTNode)) (ty : Option CType)
    (st : State) (hne : check_array_access c1 nt v cs ty st ≠ .error .out_of_fuel) :
    check_array_access c2 nt v cs ty st = check_array_access c1 nt v cs ty st := by
  unfold check_array_access at hne ⊢
  split
  · rename_i c0 c1' rest
    simp only at hne
    cases h0 : c1 c0 st with
    | error f =>
      simp only [h0] at hne
      rw [h.of_error h0 (ne_out_of_fuel hne)]
    | ok p =>
      obtain ⟨a, st1⟩ := p
      rw [h.of_ok h0]
      simp only [h0] at hne ⊢
      cases h1 : c1 c1' st1 with
      | error f =>
        simp only [h1] at hne
        rw [h.of_error h1 (ne_out_of_fuel hne)]
      | ok q =>
        rw [h.of_ok h1]
  · rfl

theorem check_assignment_extends (c1 c2 : Checker) (h : Checker.Extends c1 c2)
    (nt : String) (v : Option String) (cs : List (Option ASTNode))
    (st : State) (hne : check_assignment c1 nt v cs st ≠ .error .out_of_fuel) :
    check_assignment c2 nt v cs st = check_assignment c1 nt v cs st := by
  unfold check_assignment at hne ⊢
  split
  · rename_i c0 c1' rest
    simp only at hne
    cases h0 : c1 c0 st with
    | error f =>
      simp only [h0] at hne
      rw [h.of_error h0 (ne_out_of_fuel hne)]
    | ok p =>
      obtain ⟨a, st1⟩ := p
      rw [h.of_ok h0]
      simp only [h0] at hne ⊢
      cases h1 : c1 c1' st1 with
      | error f =>
        simp only [h1] at hne
        rw [h.of_error h1 (ne_out_of_fuel hne)]
      | ok q =>
        rw [h.of_ok h1]
  · rfl

theorem check_member_access_extends (c1 c2 : Checker) (h : Checker.Extends c1 c2)
    (nt : String) (v : Option String) (cs : List (Option ASTNode)) (ty : Option CType)
    (st : State) (hne : check_member_access c1 nt v cs ty st ≠ .error .out_of_fuel) :
    check_member_access c2 nt v cs ty st = check_member_access c1 nt v cs ty st := by
  unfold check_member_access at hne ⊢
  split
  · rfl
  · rename_i c0 rest
    simp only at hne
    cases h0 : c1 c0 st with
    | error f =>
      simp only [h0] at hne
      rw [h.of_error h0 (ne_out_of_fuel hne)]
    | ok p =>
      rw [h.of_ok h0]

theorem check_pointer_member_access_extends (c1 c2 : Checker) (h : Checker.Extends c1 c2)
    (nt : String) (v : Option String) (cs : List (Option ASTNode)) (ty : Option CType)
    (st : State) (hne : check_pointer_member_access c1 nt v cs ty st ≠ .error .out_of_fuel) :
    check_pointer_member_access c2 nt v cs ty st
      = check_pointer_member_access c1 nt v cs ty st := by
  unfold check_pointer_member_access at hne ⊢
  split
  · rfl
  · rename_i c0 rest
    simp only at hne
    cases h0 : c1 c0 st with
    | error f =>
      simp only [h0] at hne
      rw [h.of_error h0 (ne_out_of_fuel hne)]
    | ok p =>
      rw [h.of_ok h0]

theorem check_switch_expression_extends (c1 c2 : Checker) (h : Checker.Extends c1 c2)
    (cs : List (Option ASTNode))
    (st : State) (hne : check_switch_expression c1 cs st ≠ .error .out_of_fuel) :
    check_switch_expression c2 cs st = check_switch_expression c1 cs st := by
  unfold check_switch_expression at hne ⊢
  split
  · rfl
  · rename_i c0 rest
    simp only at hne
    cases h0 : c1 c0 st with
    | error f =>
      simp only [h0] at hne
      rw [h.of_error h0 (ne_out_of_fuel hne)]
    | ok p =>
      rw [h.of_ok h0]

theorem check_case_expression_extends (c1 c2 : Checker) (h : Checker.Extends c1 c2)
    (cs : List (Option ASTNode))
    (st : State) (hne : check_case_expression c1 cs st ≠ .error .out_of_fuel) :
    check_case_expression c2 cs st = check_case_expression c1 cs st := by
  unfold check_case_expression at hne ⊢
  split
  · rfl
  · rename_i c0 rest
    simp only at hne
    cases h0 : c1 c0 st with
    | error f =>
      simp only [h0] at hne
      rw [h.of_error h0 (ne_out_of_fuel hne)]
    | ok p =>
      rw [h.of_ok h0]

theorem check_function_definition_extends (c1 c2 : Checker) (h : Checker.Extends c1 c2)
    (nt : String) (v : Option String) (cs : List (Option ASTNode)) (ty : Option CType)
    (st : State) (hne : check_function_definition c1 nt v cs ty st ≠ .error .out_of_fuel) :
    check_function_definition c2 nt v cs ty st
      = check_function_definition c1 nt v cs ty st := by
  unfold check_function_definition at hne ⊢
  revert hne
  cases enter_scope st with
  | error f => intro _; rfl
  | ok st1 =>
    cases cs with
    | nil => intro _; rfl
    | cons c0 t =>
      cases t with
      | nil => intro _; rfl
      | cons d rest2 =>
        simp only
        cases build_parameter_list_from_ast (get_function_parameters_node d) st1 with
        | error f => intro _; rfl
        | ok p =>
          obtain ⟨params_list, st2⟩ := p
          cases rest2 with
          | nil => intro _; rfl
          | cons body rest3 =>
            simp only
            intro hne
            cases h0 : c1 body (add_parameters_to_scope params_list st2) with
            | error f =>
              simp only [h0] at hne
              rw [h.of_error h0 (ne_out_of_fuel hne)]
            | ok q =>
              rw [h.of_ok h0]

theorem check_branches_extends (c1 c2 : Checker) (h : Checker.Extends c1 c2)
    (nt : String) (v : Option String) (cs : List (Option ASTNode)) (ty : Option CType)
    (st : State) (hne : check_branches c1 nt v cs ty st ≠ .error .out_of_fuel) :
    check_branches c2 nt v cs ty st = check_branches c1 nt v cs ty st := by
  unfold check_branches at hne ⊢
  by_cases h1 : nt = "Identifier"
  · simp only [if_pos h1]
  simp only [if_neg h1] at hne ⊢
  by_cases h2 : nt = "IntConstant"
  · simp only [if_pos h2]
  simp only [if_neg h2] at hne ⊢
  by_cases h3 : nt = "FloatConstant"
  · simp only [if_pos h3]
  simp only [if_neg h3] at hne ⊢
  by_cases h4 : nt = "CharConstant"
  · simp only [if_pos h4]
  simp only [if_neg h4] at hne ⊢
  by_cases h5 : nt = "MemberAccess"
  · simp only [if_pos h5] at hne ⊢
    exact check_member_access_extends c1 c2 h nt v cs ty st hne
  simp only [if_neg h5] at hne ⊢
  by_cases h6 : nt = "Assignment"
  · simp only [if_pos h6] at hne ⊢
    exact check_assignment_extends c1 c2 h nt v cs st hne
  simp only [if_neg h6] at hne ⊢
  by_cases h7 : nt = "BinaryOp"
  · simp only [if_pos h7]
  simp only [if_neg h7] at hne ⊢
  by_cases h8 : nt = "FunctionCall"
  · simp only [if_pos h8]
  simp only [if_neg h8] at hne ⊢
  by_cases h9 : nt = "ArrayAccess"
  · simp only [if_pos h9] at hne ⊢
    exact check_array_access_extends c1 c2 h nt v cs ty st hne
  simp only [if_neg h9] at hne ⊢
  by_cases h10 : nt = "PointerMemberAccess"
  · simp only [if_pos h10] at hne ⊢
    exact check_pointer_member_access_extends c1 c2 h nt v cs ty st hne
  simp only [if_neg h10] at hne ⊢
  by_cases h11 : nt = "SwitchStatement"
  · simp only [if_pos h11]
  simp only [if_neg h11] at hne ⊢
  rw [check_children_extends c1 c2 h cs st (by
    intro e
    rw [e] at hne
    exact hne rfl)]

theorem check_node_extends (c1 c2 : Checker) (h : Checker.Extends c1 c2)
    (nt : String) (v : Option String) (cs : List (Option ASTNode)) (ty : Option CType)
    (st : State) (hne : check_node c1 nt v cs ty st ≠ .error .out_of_fuel) :
    check_node c2 nt v cs ty st = check_node c1 nt v cs ty st := by
  unfold check_node at hne ⊢
  by_cases hfd : nt = "FunctionDefinition"
  · simp only [if_pos hfd] at hne ⊢
    exact check_function_definition_extends c1 c2 h nt v cs ty st hne
  · simp only [if_neg hfd] at hne ⊢
    have h1 : (if nt = "SwitchStatement" then check_switch_expression c2 cs st
        else .ok (cs, st))
        = (if nt = "SwitchStatement" then check_switch_expression c1 cs st
        else .ok (cs, st)) := by
      split
      · rename_i hsw
        simp only [hsw, if_true] at hne
        apply check_switch_expression_extends c1 c2 h
        intro e
        rw [e] at hne
        exact hne rfl
      · rfl
    rw [h1]
    cases hpre : (if nt = "SwitchStatement" then check_switch_expression c1 cs st
        else .ok (cs, st)) with
    | error f => rfl
    | ok p =>
      obtain ⟨cs1, st1⟩ := p
      simp only [hpre] at hne ⊢
      have h2 : (if nt = "CaseStatement" then check_case_expression c2 cs1 st1
          else .ok (cs1, st1))
          = (if nt = "CaseStatement" then check_case_expression c1 cs1 st1
          else .ok (cs1, st1)) := by
        split
        · rename_i hca
          simp only [hca, if_true] at hne
          apply check_case_expression_extends c1 c2 h
          intro e
          rw [e] at hne
          exact hne rfl
        · rfl
      rw [h2]
      cases hpre2 : (if nt = "CaseStatement" then check_case_expression c1 cs1 st1
          else .ok (cs1, st1)) with
      | error f => rfl
      | ok q =>
        obtain ⟨cs2, st2⟩ := q
        simp only [hpre2] at hne ⊢
        exact check_branches_extends c1 c2 h nt v cs2 ty st2 hne

theorem check_semantics_fuel_succ (fuel : Nat) :
    Checker.Extends (check_semantics_fuel fuel) (check_semantics_fuel (fuel + 1)) := by
  induction fuel with
  | zero =>
    intro n st hne
    cases n with
    | none => simp [check_semantics_fuel]
    | some node => simp [check_semantics_fuel] at hne
  | succ fuel ih =>
    intro n st hne
    cases n with
    | none => simp [check_semantics_fuel]
    | some node =>
      cases node with
      | mk nt v cs ty =>
        rw [check_semantics_fuel] at hne
        rw [check_semantics_fuel, check_semantics_fuel]
        exact check_node_extends _ _ ih nt v cs ty st hne

theorem check_semantics_fuel_mono (fuel more : Nat) (n : Option ASTNode) (st : State)
    (hne : check_semantics_fuel fuel n st ≠ .error .out_of_fuel) :
    check_semantics_fuel (fuel + more) n st = check_semantics_fuel fuel n st := by
  induction more with
  | zero => rfl
  | succ more ih =>
    rw [← Nat.add_assoc, check_semantics_fuel_succ (fuel + more) n st (by rw [ih]; exact hne),
      ih]

theorem toDigitsCore_append (b : Nat) (fuel : Nat) :
    ∀ (n : Nat) (ds : List Char),
      Nat.toDigitsCore b fuel n ds = Nat.toDigitsCore b fuel n [] ++ ds := by
  induction fuel with
  | zero => intro n ds; simp [Nat.toDigitsCore]
  | succ fuel ih =>
    intro n ds
    simp only [Nat.toDigitsCore]
    by_cases h : n / b = 0
    · simp [h]
    · simp only [h, if_false]
      rw [ih (n / b) (Nat.digitChar (n % b) :: ds), ih (n / b) [Nat.digitChar (n % b)]]
      simp

theorem digitChar_value (k : Nat) (h : k < 10) : (Nat.digitChar k).toNat - 48 = k := by
  interval_cases k <;> rfl

theorem digits_value_append (xs : List Char) (c : Char) :
    digits_value (xs ++ [c]) = 10 * digits_value xs + (c.toNat - 48) := by
  simp [digits_value, List.foldl_append]

theorem digits_value_toDigitsCore (fuel : Nat) :
    ∀ n : Nat, n < fuel → digits_value (Nat.toDigitsCore 10 fuel n []) = n := by
  induction fuel with
  | zero => intro n h; omega
  | succ fuel ih =>
    intro n h
    simp only [Nat.toDigitsCore]
    by_cases h0 : n / 10 = 0
    · simp only [h0, if_true]
      have hn : n < 10 := by omega
      have hd := digitChar_value (n % 10) (Nat.mod_lt _ (by decide))
      simp only [digits_value, List.foldl, Nat.mul_zero, Nat.zero_add, hd]
      omega
    · simp only [h0, if_false]
      rw [toDigitsCore_append, digits_value_append, ih (n / 10) (by omega),
        digitChar_value (n % 10) (Nat.mod_lt _ (by decide))]
      omega

theorem digits_value_toString (n : Nat) : digits_value (toString n).data = n := by
  show digits_value (Nat.repr n).data = n
  simp only [Nat.repr, List.asString, Nat.toDigits]
  exact digits_value_toDigitsCore (n + 1) n (by omega)

theorem traverse_eq_ok (cells : List Cell) (r : List Instruction) :
    traverse cells = .ok r ↔ cells = r.map Cell.live := by
  induction cells generalizing r with
  | nil =>
    cases r <;> simp [traverse]
  | cons c cells ih =>
    cases c with
    | freed i => cases r <;> simp [traverse]
    | live i =>
      simp only [traverse]
      cases ht : traverse cells with
      | error f =>
        simp only [false_iff, reduceCtorEq]
        intro h
        cases r with
        | nil => simp at h
        | cons a r =>
          simp only [List.map_cons, List.cons.injEq] at h
          have := (ih r).2 h.2
          rw [ht] at this
          cases this
      | ok t =>
        have ht' := (ih t).1 ht
        cases r with
        | nil => simp
        | cons a r =>
          simp only [Except.ok.injEq, List.cons.injEq, List.map_cons, Cell.live.injEq]
          constructor
          · rintro ⟨h1, h2⟩
            exact ⟨h1, by rw [ht', h2]⟩
          · rintro ⟨h1, h2⟩
            refine ⟨h1, ?_⟩
            have := (ih r).2 h2
            rw [ht] at this
            exact Except.ok.inj this

theorem optimize_loop_cons_cons (before : List Cell) (current next_instr : Instruction)
    (rest : List Instruction) :
    optimize_loop before (current :: next_instr :: rest) =
      if is_redundant_load current next_instr then
        if before = [] then optimize_loop [] (next_instr :: rest)
        else if before.all Cell.is_live then optimize_loop before (next_instr :: rest)
        else .error .undefined_behaviour
      else if starts_redundant_mul_load current next_instr rest then
        if before = [] then optimize_loop [] rest
        else optimize_loop (before ++ [.freed current, .freed next_instr]) rest
      else optimize_loop (before ++ [.live current]) (next_instr :: rest) := by
  rw [optimize_loop]

theorem optimize_loop_of_no_match (rest : List Instruction) :
    ∀ before, has_match rest = false →
      optimize_loop before rest = .ok (before ++ rest.map Cell.live) := by
  induction rest with
  | nil => intro before _; simp [optimize_loop]
  | cons c tail ih =>
    intro before h
    cases tail with
    | nil => simp [optimize_loop]
    | cons n rest =>
      simp only [has_match, Bool.or_eq_false_iff] at h
      obtain ⟨⟨h1, h2⟩, h3⟩ := h
      rw [optimize_loop_cons_cons, h1, h2]
      simp only [Bool.false_eq_true, if_false]
      rw [ih _ h3]
      simp

theorem countP_live_map_live (l : List Instruction) :
    (l.map Cell.live).countP Cell.is_live = l.length := by
  induction l with
  | nil => rfl
  | cons a l ih => simp [List.countP_cons, Cell.is_live, ih]

theorem optimize_loop_live_le (k : Nat) :
    ∀ (rest : List Instruction) (before cells : List Cell), rest.length ≤ k →
      optimize_loop before rest = .ok cells →
      cells.countP Cell.is_live ≤ before.countP Cell.is_live + rest.length := by
  induction k with
  | zero =>
    intro rest before cells hk hrun
    cases rest with
    | nil =>
      simp only [optimize_loop, Except.ok.injEq] at hrun
      rw [← hrun]; simp
    | cons c tail => simp at hk
  | succ k ih =>
    intro rest before cells hk hrun
    cases rest with
    | nil =>
      simp only [optimize_loop, Except.ok.injEq] at hrun
      rw [← hrun]; simp
    | cons c tail =>
      cases tail with
      | nil =>
        simp only [optimize_loop, Except.ok.injEq] at hrun
        rw [← hrun]
        simp [List.countP_append, List.countP_cons, Cell.is_live]
      | cons n rest =>
        have hlen1 : (n :: rest).length ≤ k := by simpa using Nat.le_of_succ_le_succ hk
        have hlen2 : rest.length ≤ k := by
          have : rest.length ≤ (n :: rest).length := by simp
          exact le_trans this hlen1
        rw [optimize_loop_cons_cons] at hrun
        simp only [List.length_cons]
        split at hrun
        · split at hrun
          · have := ih (n :: rest) [] cells hlen1 hrun
            rename_i hb
            subst hb
            simp only [List.length_cons] at this
            omega
          · split at hrun
            · have := ih (n :: rest) before cells hlen1 hrun
              simp only [List.length_cons] at this
              omega
            · cases hrun
        · split at hrun
          · split at hrun
            · have := ih rest [] cells hlen2 hrun
              rename_i hb
              subst hb
              omega
            · have := ih rest _ cells hlen2 hrun
              simp only [List.countP_append, List.countP_cons, List.countP_nil, Cell.is_live]
                at this
              simp at this
              omega
          · have := ih (n :: rest) _ cells hlen1 hrun
            simp only [List.countP_append, List.countP_cons, List.countP_nil, Cell.is_live,
              List.length_cons] at this
            simp at this
            omega

theorem optimize_loop_live_lt (rest : List Instruction) :
    ∀ (before cells : List Cell), has_match rest = true →
      optimize_loop before rest = .ok cells →
      cells.countP Cell.is_live < before.countP Cell.is_live + rest.length := by
  induction rest with
  | nil => intro before cells h; simp [has_match] at h
  | cons c tail ih =>
    intro before cells h hrun
    cases tail with
    | nil => simp [has_match] at h
    | cons n rest =>
      rw [optimize_loop_cons_cons] at hrun
      simp only [List.length_cons]
      split at hrun
      · split at hrun
        · have := optimize_loop_live_le _ (n :: rest) [] cells (le_refl _) hrun
          rename_i hb
          subst hb
          simp only [List.length_cons] at this
          omega
        · split at hrun
          · have := optimize_loop_live_le _ (n :: rest) before cells (le_refl _) hrun
            simp only [List.length_cons] at this
            omega
          · cases hrun
      · rename_i h1
        split at hrun
        · split at hrun
          · have := optimize_loop_live_le _ rest [] cells (le_refl _) hrun
            rename_i hb
            subst hb
            omega
          · have := optimize_loop_live_le _ rest _ cells (le_refl _) hrun
            simp only [List.countP_append, List.countP_cons, List.countP_nil, Cell.is_live]
              at this
            simp at this
            omega
        · rename_i h2
          have h3 : has_match (n :: rest) = true := by
            simp only [has_match, Bool.or_eq_true] at h
            rcases h with (h | h) | h
            · exact absurd h h1
            · exact absurd h h2
            · exact h
          have := ih _ cells h3 hrun
          simp only [List.countP_append, List.countP_cons, List.countP_nil, Cell.is_live,
            List.length_cons] at this
          simp at this
          omega

theorem optimize_ir_eq_loop (head : List Instruction) :
    optimize_ir head = optimize_loop [] head := by
  cases head with
  | nil => simp [optimize_ir, optimize_loop]
  | cons a l => simp [optimize_ir]

theorem optimize_ir_list_fixed_iff (r : List Instruction) :
    optimize_ir_list r = .ok r ↔ has_match r = false := by
  constructor
  · intro h
    by_contra hm
    have hm' : has_match r = true := by simpa using hm
    unfold optimize_ir_list at h
    rw [optimize_ir_eq_loop] at h
    cases hrun : optimize_loop [] r with
    | error f => simp [hrun] at h
    | ok cells =>
      simp only [hrun] at h
      have hcells := (traverse_eq_ok cells r).1 h
      have hlt := optimize_loop_live_lt r [] cells hm' hrun
      rw [hcells, countP_live_map_live] at hlt
      simp at hlt
  · intro h
    unfold optimize_ir_list
    rw [optimize_ir_eq_loop, optimize_loop_of_no_match r [] h]
    simp only [List.nil_append]
    exact (traverse_eq_ok _ r).2 rfl

theorem optimize_loop_tail (k : Nat) :
    ∀ (rest : List Instruction) (before cells : List Cell), rest.length ≤ k →
      optimize_loop before rest = .ok cells →
      ∃ tail, cells = before ++ tail ∧ ∀ t, traverse tail = .ok t → t.Sublist rest := by
  induction k with
  | zero =>
    intro rest before cells hk hrun
    cases rest with
    | nil =>
      simp only [optimize_loop, Except.ok.injEq] at hrun
      exact ⟨[], by simp [hrun], fun t ht => by simp [traverse] at ht; simp [← ht]⟩
    | cons c tail => simp at hk
  | succ k ih =>
    intro rest before cells hk hrun
    cases rest with
    | nil =>
      simp only [optimize_loop, Except.ok.injEq] at hrun
      exact ⟨[], by simp [hrun], fun t ht => by simp [traverse] at ht; simp [← ht]⟩
    | cons c tail =>
      cases tail with
      | nil =>
        simp only [optimize_loop, Except.ok.injEq] at hrun
        refine ⟨[.live c], hrun.symm, fun t ht => ?_⟩
        simp [traverse] at ht
        simp [← ht]
      | cons n rest =>
        have hlen1 : (n :: rest).length ≤ k := by simpa using Nat.le_of_succ_le_succ hk
        have hlen2 : rest.length ≤ k := by
          have : rest.length ≤ (n :: rest).length := by simp
          exact le_trans this hlen1
        rw [optimize_loop_cons_cons] at hrun
        split at hrun
        · split at hrun
          · obtain ⟨tail, hc, hs⟩ := ih (n :: rest) [] cells hlen1 hrun
            rename_i hb
            subst hb
            exact ⟨tail, hc, fun t ht => (hs t ht).cons c⟩
          · split at hrun
            · obtain ⟨tail, hc, hs⟩ := ih (n :: rest) before cells hlen1 hrun
              exact ⟨tail, hc, fun t ht => (hs t ht).cons c⟩
            · cases hrun
        · split at hrun
          · split at hrun
            · obtain ⟨tail, hc, hs⟩ := ih rest [] cells hlen2 hrun
              rename_i hb
              subst hb
              exact ⟨tail, hc, fun t ht => ((hs t ht).cons n).cons c⟩
            · obtain ⟨tail, hc, _⟩ := ih rest _ cells hlen2 hrun
              refine ⟨[.freed c, .freed n] ++ tail, by simp [hc], fun t ht => ?_⟩
              simp [traverse] at ht
          · obtain ⟨tail, hc, hs⟩ := ih (n :: rest) _ cells hlen1 hrun
            refine ⟨.live c :: tail, by simp [hc], fun t ht => ?_⟩
            simp only [traverse] at ht
            cases htt : traverse tail with
            | error f => simp [htt] at ht
            | ok t1 =>
              simp only [htt, Except.ok.injEq] at ht
              rw [← ht]
              exact (hs t1 htt).cons₂ c

/-- A second run of `optimize_ir` reproduces the list `r` returned by the
first run exactly when `r` contains no match of pattern 1 or pattern 2. -/
theorem optimize_ir_twice_eq_iff (l r : List Instruction)
    (h : optimize_ir_list l = .ok r) :
    optimize_ir_twice l = optimize_ir_list l ↔ has_match r = false := by
  unfold optimize_ir_twice
  rw [h]
  exact optimize_ir_list_fixed_iff r

/-- On `INDEX_LOAD t1, s, 0; INDEX_LOAD t2, s, 0; INDEX_STORE s, 0, v` the first
run removes the second load only, and a second run removes the first load as
well. -/
theorem optimize_ir_not_idempotent :
    optimize_ir_list [load_t1, load_t2, store_v] = .ok [load_t1, store_v] ∧
    optimize_ir_twice [load_t1, load_t2, store_v] = .ok [store_v] ∧
    optimize_ir_twice [load_t1, load_t2, store_v]
      ≠ optimize_ir_list [load_t1, load_t2, store_v] := by
  decide

/-- One run on `INDEX_LOAD t1, s, 0; INDEX_STORE s, 0, v` leaves the store
alone, which has no match, and a second run returns it again. -/
theorem optimize_ir_twice_eq_iff_witness :
    optimize_ir_twice [load_t1, store_v] = optimize_ir_list [load_t1, store_v] :=
  (optimize_ir_twice_eq_iff [load_t1, store_v] [store_v] (by decide)).2 (by decide)

/-- C9, at the failing input: for `s.m = s.m`, `s` a struct with the member
`m` at offset 0, `Generate_IR` emits `INDEX_LOAD t0, s, 0; INDEX_LOAD t1, s, 0;
INDEX_STORE s, 0, t0`.  One run of `optimize_ir` removes the second load and
goes on with the store: the pair this leaves, the first load directly before
the store, is a match of pattern 1 that the run does not examine.  A second
run removes the first load as well, so the two runs differ. -/
theorem optimize_ir_misses_cascade :
    global_code_of assign_member_to_itself =
      .ok [⟨.IR_INDEX_LOAD, .OP_TEMPORARY "t0", .OP_IDENTIFIER "s", .OP_INT_CONST 0⟩,
           ⟨.IR_INDEX_LOAD, .OP_TEMPORARY "t1", .OP_IDENTIFIER "s", .OP_INT_CONST 0⟩,
           ⟨.IR_INDEX_STORE, .OP_IDENTIFIER "s", .OP_INT_CONST 0, .OP_TEMPORARY "t0"⟩] ∧
    optimize_ir_list
        [⟨.IR_INDEX_LOAD, .OP_TEMPORARY "t0", .OP_IDENTIFIER "s", .OP_INT_CONST 0⟩,
         ⟨.IR_INDEX_LOAD, .OP_TEMPORARY "t1", .OP_IDENTIFIER "s", .OP_INT_CONST 0⟩,
         ⟨.IR_INDEX_STORE, .OP_IDENTIFIER "s", .OP_INT_CONST 0, .OP_TEMPORARY "t0"⟩] =
      .ok [⟨.IR_INDEX_LOAD, .OP_TEMPORARY "t0", .OP_IDENTIFIER "s", .OP_INT_CONST 0⟩,
           ⟨.IR_INDEX_STORE, .OP_IDENTIFIER "s", .OP_INT_CONST 0, .OP_TEMPORARY "t0"⟩] ∧
    is_redundant_load
        ⟨.IR_INDEX_LOAD, .OP_TEMPORARY "t0", .OP_IDENTIFIER "s", .OP_INT_CONST 0⟩
        ⟨.IR_INDEX_STORE, .OP_IDENTIFIER "s", .OP_INT_CONST 0, .OP_TEMPORARY "t0"⟩ = true ∧
    optimize_ir_twice
        [⟨.IR_INDEX_LOAD, .OP_TEMPORARY "t0", .OP_IDENTIFIER "s", .OP_INT_CONST 0⟩,
         ⟨.IR_INDEX_LOAD, .OP_TEMPORARY "t1", .OP_IDENTIFIER "s", .OP_INT_CONST 0⟩,
         ⟨.IR_INDEX_STORE, .OP_IDENTIFIER "s", .OP_INT_CONST 0, .OP_TEMPORARY "t0"⟩] =
      .ok [⟨.IR_INDEX_STORE, .OP_IDENTIFIER "s", .OP_INT_CONST 0, .OP_TEMPORARY "t0"⟩] := by
  refine ⟨by decide!, by decide, by decide, by decide⟩

/-- Every list `optimize_ir` returns with all nodes live is a subsequence of
the input: the instructions are unmodified, in their original order, and none
is added. -/
theorem optimize_ir_list_sublist (l r : List Instruction)
    (h : optimize_ir_list l = .ok r) : r.Sublist l := by
  unfold optimize_ir_list at h
  rw [optimize_ir_eq_loop] at h
  cases hrun : optimize_loop [] l with
  | error f => simp [hrun] at h
  | ok cells =>
    simp only [hrun] at h
    obtain ⟨tail, hcells, hsub⟩ := optimize_loop_tail _ l [] cells (le_refl _) hrun
    simp only [List.nil_append] at hcells
    subst hcells
    exact hsub r h

/-- C11, at the failing input: in `LABEL f; MUL t0, i, 4; INDEX_LOAD t1, a, t0;
MUL t2, i, 4; INDEX_STORE a, t2, v` pattern 2 matches behind the label.  The
chain from the returned head still runs through the two freed nodes, so the
list cannot be traversed; with the same four instructions first in the list
the head is moved and the list is `MUL t2, i, 4; INDEX_STORE a, t2, v`. -/
theorem mul_load_left_linked_after_label :
    optimize_ir [label_f, mul_t0, load_a_t0, mul_t2, store_a_t2] =
      .ok [.live label_f, .freed mul_t0, .freed load_a_t0, .live mul_t2, .live store_a_t2] ∧
    optimize_ir_list [label_f, mul_t0, load_a_t0, mul_t2, store_a_t2] =
      .error .undefined_behaviour ∧
    optimize_ir_list [mul_t0, load_a_t0, mul_t2, store_a_t2] = .ok [mul_t2, store_a_t2] := by
  decide

/-- C12, at the failing input: in `LABEL f; MUL t0, i, 4; INDEX_LOAD t1, a, t0;
MUL t2, i, 4; INDEX_STORE a, t2, v; INDEX_LOAD t1, s, 0; INDEX_STORE s, 0, v`
pattern 2 frees two nodes that stay linked behind the label, and the search
for the predecessor of the later load reads them: `optimize_ir` has no defined
result on this list. -/
theorem optimize_ir_reads_freed_nodes :
    optimize_ir [label_f, mul_t0, load_a_t0, mul_t2, store_a_t2, load_t1, store_v] =
      .error .undefined_behaviour ∧
    optimize_loop [.live label_f, .freed mul_t0, .freed load_a_t0]
        [mul_t2, store_a_t2, load_t1, store_v] = .error .undefined_behaviour := by
  decide

/-! ## Theorems: semantic analysis of calls and binary operations -/

/-- C19, at the failing input: the call `func_float_int_float_char(x, 5.5, c_val)`
passes three arguments to a function of three parameters.  The loop of the
`FunctionCall` branch indexes the children of the outer `ArgumentList`: it
takes the inner list for argument 0 and `c_val` for argument 1, and with one
parameter left over it reports "Too few arguments". -/
theorem three_arguments_reported_too_few :
    ∀ fuel : Nat,
    (check_semantics_fuel (fuel + 1) call_three_arguments func_float_int_float_char_scope).map
        (fun r => r.2.stderr) =
      .ok [⟨FMT_EXPECTED_TYPE, [.int 0, .str (some "int")]⟩,
           ⟨FMT_ARG_MISMATCH, [.int 0, .str (some "func_float_int_float_char")]⟩,
           ⟨FMT_EXPECTED_TYPE, [.int 1, .str (some "float")]⟩,
           ⟨FMT_ARG_MISMATCH, [.int 1, .str (some "func_float_int_float_char")]⟩,
           ⟨FMT_TOO_FEW, [.str (some "func_float_int_float_char")]⟩] := by
  intro fuel
  rfl

/-- C20, at the failing input: in the scope of `int a; int b;` the analysis of
`a + b` and of `a < b`, with the operands not annotated beforehand, returns the
node as it was, its `type` still `NULL`, and reports nothing: the `BinaryOp`
branch reads the operand types without analysing the operands. -/
theorem binary_op_left_unannotated :
    ∀ fuel : Nat,
    check_semantics_fuel (fuel + 1) (some (binary_a_b "+")) a_b_scope =
      .ok (some (binary_a_b "+"), a_b_scope) ∧
    check_semantics_fuel (fuel + 1) (some (binary_a_b "<")) a_b_scope =
      .ok (some (binary_a_b "<"), a_b_scope) := by
  intro fuel
  exact ⟨rfl, rfl⟩

/-! ## Theorems: IR generation -/

theorem lower_bind_apply {α β : Type} (x : Lower α) (f : α → Lower β) (s : GenState) :
    (x >>= f) s =
      match x s with
      | .error e => .error e
      | .ok (a, s1, e1) =>
        match f a s1 with
        | .error e => .error e
        | .ok (b, s2, e2) => .ok (b, s2, e1 ++ e2) := rfl

theorem lower_pure_apply {α : Type} (a : α) (s : GenState) :
    (pure a : Lower α) s = .ok (a, s, []) := rfl

theorem lowering_children_cons (position : List Nat) (i : Nat) (c : Option ASTNode)
    (cs : List (Option ASTNode)) :
    lowering_children position i (c :: cs) =
      c.map (lowering_of (position ++ [i])) :: lowering_children position (i + 1) cs := by
  cases c <;> simp [lowering_children]

theorem Generate_IR_at_map (position : List Nat) (c : Option ASTNode) :
    Generate_IR_at (c.map (lowering_of position)) = Generate_IR_from position c := by
  cases c <;> rfl

theorem lowering_of_node (position : List Nat) (n : ASTNode) :
    (lowering_of position n).node = n := by
  cases n; rw [lowering_of]; rfl

theorem map_lowering_node (position : List Nat) (c : Option ASTNode) :
    (c.map (lowering_of position)).map Lowering.node = c := by
  cases c <;> simp [lowering_of_node]

theorem Generate_IR_from_mk (position : List Nat) (nt : String) (v : Option String)
    (cs : List (Option ASTNode)) (ty : Option CType) :
    Generate_IR_from position (some (.mk nt v cs ty)) =
      generate_node position nt v cs ty (lowering_children position 0 cs) := by
  simp only [Generate_IR_from]; rw [lowering_of]; rfl


theorem emit_parameter_assignments_eq (params : List Symbol) (k : Nat) (s : GenState) :
    emit_parameter_assignments params k s =
      .ok ((), s, (params.enumFrom k).map (fun p =>
        ⟨s.target,
          ⟨.IR_ASSIGN, .OP_IDENTIFIER p.2.name, create_operand_argument p.1, .OP_NONE⟩⟩)) := by
  induction params generalizing k with
  | nil => rfl
  | cons p ps ih =>
    simp only [emit_parameter_assignments, lower_bind_apply, emit, ih, List.enumFrom_cons,
      List.map_cons, List.singleton_append]

theorem emit_apply (opcode : OpCode) (result arg1 arg2 : Operand) (s : GenState) :
    emit opcode result arg1 arg2 s = .ok ((), s, [⟨s.target, ⟨opcode, result, arg1, arg2⟩⟩]) :=
  rfl

/-- C17: for a `FunctionDefinition` whose declarator names `f` and whose
parameter list builds to `params`, the instructions `Generate_IR` emits begin
with `LABEL f` followed, for the parameter `p` at index `i` in declaration
order, by `ASSIGN p, ARGi`, the second operand being the identifier whose name
is `ARG` followed by the decimal digits of `i`; all of them are in the
main-function list when `f` is `main` and in the other-functions list
otherwise.  The code of the body follows, and a `RETURN` when the test of the
return type for `void` succeeds.  `Generate_IR` returns as soon as the
lowering of the body returns and the return type of the symbol of `f` can be
read and tested; the return type may be of any kind. -/
theorem function_definition_entry (position : List Nat) (v : Option String)
    (specifiers declarator body : Option ASTNode) (rest : List (Option ASTNode))
    (ty : Option CType) (f : String) (params : List Symbol) (table : State)
    (s s2 : GenState) (op : Operand) (body_code : List Emitted) (function_entry_sym : Symbol)
    (type return_type : CType) (is_void : Bool)
    (hname : get_declarator_name declarator = .ok (some f))
    (hparams : build_parameter_list_from_ast (get_function_parameters_node declarator) s.table =
      .ok (params, table))
    (hbody : Generate_IR_from (position ++ [2]) body
      { s with is_global_declaration := false, is_in_main_function := decide (f = "main"),
               table := table } = .ok (op, s2, body_code))
    (hsym : lookup_symbol f s2.table = some function_entry_sym)
    (htype : function_entry_sym.type = some type)
    (hret : read_return_type type = .ok (some return_type))
    (hvoid : return_type_is_void return_type = .ok is_void) :
    Generate_IR_from position
        (some (.mk "FunctionDefinition" v (specifiers :: declarator :: body :: rest) ty)) s =
      .ok (.OP_NONE, s2,
        (⟨.IR_LABEL, .OP_LABEL f, .OP_NONE, .OP_NONE⟩ ::
          params.enum.map (fun p =>
            ⟨.IR_ASSIGN, .OP_IDENTIFIER p.2.name, .OP_IDENTIFIER ("ARG" ++ toString p.1),
              .OP_NONE⟩)).map
            (fun i => ⟨if f = "main" then .main_ir else .other_funcs_ir, i⟩) ++
          body_code ++
          (if is_void then [⟨s2.target, ⟨.IR_RETURN, .OP_NONE, .OP_NONE, .OP_NONE⟩⟩]
           else [])) := by
  rw [Generate_IR_from_mk]
  have hnt : ("FunctionDefinition" ∈ structural_node_types) = False := by decide
  simp only [generate_node, hnt, if_false, generate_branches, if_true,
    show ("FunctionDefinition" = "Declaration") = False by decide,
    show ("FunctionDefinition" = "InitDeclaratorList") = False by decide,
    show ("FunctionDefinition" = "InitDeclarator") = False by decide,
    show ("FunctionDefinition" = "ArrayDeclarator") = False by decide]
  simp only [generate_function_definition, lowering_children_cons, lower_bind_apply, child,
    List.getElem?_cons_succ, List.getElem?_cons_zero, lower_pure_apply, map_lowering_node, hname,
    Lower.of_except, Lower.modify, Lower.get, hparams, emit_apply,
    emit_parameter_assignments_eq, Generate_IR_at_map, List.nil_append, List.append_nil]
  simp only [List.append_assoc, hbody, emit_void_return, lower_bind_apply, Lower.get, hsym, htype,
    hret, hvoid]
  cases is_void <;> by_cases hmain : f = "main" <;>
    simp [hmain, emit_apply, lower_pure_apply, GenState.target, List.enum,
      create_operand_argument]

/-- Witness for C17: `int func_int_int_int(int a, int b) { return a + b; }`
gives `LABEL func_int_int_int; ASSIGN a, ARG0; ASSIGN b, ARG1`, then the code
of the body, all in the other-functions list; the return type `int` is not
`void` and no `RETURN` is appended.  A function `first` of `int a` whose
symbol has the return type `int *` gives `LABEL first; ASSIGN a, ARG0`. -/
theorem function_definition_entry_witness :
    Generate_IR_from [] func_int_int_int_definition (GenState.initial func_int_int_int_scope) =
      .ok (.OP_NONE,
        ⟨1, 0, .OP_NONE, .OP_NONE, false, true, [], func_int_int_int_scope⟩,
        [⟨.other_funcs_ir, ⟨.IR_LABEL, .OP_LABEL "func_int_int_int", .OP_NONE, .OP_NONE⟩⟩,
         ⟨.other_funcs_ir,
           ⟨.IR_ASSIGN, .OP_IDENTIFIER "a", .OP_IDENTIFIER "ARG0", .OP_NONE⟩⟩,
         ⟨.other_funcs_ir,
           ⟨.IR_ASSIGN, .OP_IDENTIFIER "b", .OP_IDENTIFIER "ARG1", .OP_NONE⟩⟩,
         ⟨.other_funcs_ir,
           ⟨.IR_ADD, .OP_TEMPORARY "t0", .OP_IDENTIFIER "a", .OP_IDENTIFIER "b"⟩⟩,
         ⟨.other_funcs_ir, ⟨.IR_RETURN, .OP_NONE, .OP_TEMPORARY "t0", .OP_NONE⟩⟩]) ∧
    Generate_IR_from [] first_definition (GenState.initial first_returns_pointer_scope) =
      .ok (.OP_NONE,
        ⟨0, 0, .OP_NONE, .OP_NONE, false, false, [], first_returns_pointer_scope⟩,
        [⟨.other_funcs_ir, ⟨.IR_LABEL, .OP_LABEL "first", .OP_NONE, .OP_NONE⟩⟩,
         ⟨.other_funcs_ir,
           ⟨.IR_ASSIGN, .OP_IDENTIFIER "a", .OP_IDENTIFIER "ARG0", .OP_NONE⟩⟩]) :=
  ⟨function_definition_entry [] none _ _ _ [] none "func_int_int_int" parameters_a_b
    func_int_int_int_scope (GenState.initial func_int_int_int_scope)
    ⟨1, 0, .OP_NONE, .OP_NONE, false, true, [], func_int_int_int_scope⟩ .OP_NONE
    [⟨.other_funcs_ir,
       ⟨.IR_ADD, .OP_TEMPORARY "t0", .OP_IDENTIFIER "a", .OP_IDENTIFIER "b"⟩⟩,
     ⟨.other_funcs_ir, ⟨.IR_RETURN, .OP_NONE, .OP_TEMPORARY "t0", .OP_NONE⟩⟩]
    (Symbol.mk .SYM_FUNCTION "func_int_int_int"
      (some (create_function_type (some (create_base_type "int")) parameters_a_b)))
    (create_function_type (some (create_base_type "int")) parameters_a_b)
    (create_base_type "int") false rfl rfl rfl rfl rfl rfl rfl,
   function_definition_entry [] none _ _ _ [] none "first"
    [Symbol.mk .SYM_VARIABLE "a" (some (create_base_type "int"))]
    first_returns_pointer_scope (GenState.initial first_returns_pointer_scope)
    ⟨0, 0, .OP_NONE, .OP_NONE, false, false, [], first_returns_pointer_scope⟩ .OP_NONE []
    (Symbol.mk .SYM_FUNCTION "first"
      (some (create_function_type (some (create_pointer_type (some (create_base_type "int"))))
        [Symbol.mk .SYM_VARIABLE "a" (some (create_base_type "int"))])))
    (create_function_type (some (create_pointer_type (some (create_base_type "int"))))
      [Symbol.mk .SYM_VARIABLE "a" (some (create_base_type "int"))])
    (create_pointer_type (some (create_base_type "int"))) false rfl rfl rfl rfl rfl rfl rfl⟩

/-- C13, at the failing input: `int f(int c) { if (c) return 1; c = 2; return c; }`
passes semantic analysis without a diagnostic.  The `Return` inside the `if`
sets `is_global_declaration`, so the end label of the `if` and everything after
it are appended to the global-declarations list: the other-functions list
holds the jump `IF_FALSE_GOTO L0` and no `LABEL L0`. -/
theorem early_return_label_in_other_list :
    (check_semantics_fuel 8 early_return_function early_return_scope).map
        (fun r => r.2.stderr) = .ok [] ∧
    (Generate_IR early_return_function (GenState.initial early_return_scope)).map
        (fun r => (ir_list .other_funcs_ir r.2.2, ir_list .global_declarations r.2.2)) =
      .ok ([⟨.IR_LABEL, .OP_LABEL "f", .OP_NONE, .OP_NONE⟩,
            ⟨.IR_ASSIGN, .OP_IDENTIFIER "c", .OP_IDENTIFIER "ARG0", .OP_NONE⟩,
            ⟨.IR_IF_FALSE_GOTO, .OP_LABEL "L0", .OP_IDENTIFIER "c", .OP_NONE⟩,
            ⟨.IR_RETURN, .OP_NONE, .OP_INT_CONST 1, .OP_NONE⟩],
           [⟨.IR_LABEL, .OP_LABEL "L0", .OP_NONE, .OP_NONE⟩,
            ⟨.IR_ASSIGN, .OP_IDENTIFIER "c", .OP_INT_CONST 2, .OP_NONE⟩,
            ⟨.IR_RETURN, .OP_NONE, .OP_IDENTIFIER "c", .OP_NONE⟩]) ∧
    jumps_resolved
      [⟨.IR_LABEL, .OP_LABEL "f", .OP_NONE, .OP_NONE⟩,
       ⟨.IR_ASSIGN, .OP_IDENTIFIER "c", .OP_IDENTIFIER "ARG0", .OP_NONE⟩,
       ⟨.IR_IF_FALSE_GOTO, .OP_LABEL "L0", .OP_IDENTIFIER "c", .OP_NONE⟩,
       ⟨.IR_RETURN, .OP_NONE, .OP_INT_CONST 1, .OP_NONE⟩] = false := by
  refine ⟨rfl, rfl, by decide⟩

/-- C18, at the failing input: a `Return` node without a child, lowered while
`is_in_main_function` is set, emits one `RETURN` and no `HALT`; the same holds
inside `int main() { return; }`, whose main-function list is `LABEL main;
RETURN`.  With an `EmptyExpression` child the list is `LABEL main; HALT`. -/
theorem return_without_child_in_main :
    (∀ (position : List Nat) (v : Option String) (ty : Option CType) (s : GenState),
      Generate_IR_from position (some (.mk "Return" v [] ty))
          { s with is_in_main_function := true } =
        .ok (.OP_NONE, { s with is_in_main_function := true, is_global_declaration := true },
          [⟨if s.is_global_declaration then .global_declarations else .main_ir,
            return_none⟩])) ∧
    (Generate_IR (main_returning []) (GenState.initial (function_scope "int" "main"))).map
        (fun r => ir_list .main_ir r.2.2) = .ok [⟨.IR_LABEL, .OP_LABEL "main", .OP_NONE, .OP_NONE⟩,
          return_none] ∧
    (Generate_IR (main_returning [some (.mk "EmptyExpression" none [] none)])
        (GenState.initial (function_scope "int" "main"))).map
        (fun r => ir_list .main_ir r.2.2) = .ok [⟨.IR_LABEL, .OP_LABEL "main", .OP_NONE, .OP_NONE⟩,
          halt] := by
  refine ⟨?_, rfl, rfl⟩
  intro position v ty s
  rfl

theorem lowering_of_children (position : List Nat) (n : ASTNode) :
    (lowering_of position n).children = lowering_children position 0 n.children := by
  cases n; rw [lowering_of]; rfl

theorem lowering_of_position (position : List Nat) (n : ASTNode) :
    (lowering_of position n).position = position := by
  cases n; rw [lowering_of]; rfl

theorem Generate_IR_at_some (position : List Nat) (n : ASTNode) :
    Generate_IR_at (some (lowering_of position n)) = Generate_IR_from position (some n) := rfl

theorem generate_node_assignment (position : List Nat) (v : Option String)
    (cs : List (Option ASTNode)) (ty : Option CType) (kids : List (Option Lowering)) :
    generate_node position "Assignment" v cs ty kids = generate_assignment kids := rfl

/-- C15: for an `Assignment` whose target is `*p`, `Generate_IR` lowers the
right-hand side, then the target as an expression, then `p`, and emits
`DEREF_STORE` with the operand of `p` as target and the operand of the
right-hand side as value; it returns as soon as the three lowerings do. -/
theorem deref_assignment_store (position : List Nat) (v : Option String)
    (p rhs : Option ASTNode) (lrest rest : List (Option ASTNode)) (lty ty : Option CType)
    (s s1 s2 s3 : GenState) (rhs_op target_value ptr_op : Operand)
    (rhs_code target_code ptr_code : List Emitted)
    (hrhs : Generate_IR_from (position ++ [1]) rhs s = .ok (rhs_op, s1, rhs_code))
    (htarget : Generate_IR_from (position ++ [0])
      (some (.mk "UnaryOp" (some "*") (p :: lrest) lty)) s1 =
        .ok (target_value, s2, target_code))
    (hptr : Generate_IR_from (position ++ [0] ++ [0]) p s2 = .ok (ptr_op, s3, ptr_code)) :
    Generate_IR_from position
        (some (.mk "Assignment" v
          (some (.mk "UnaryOp" (some "*") (p :: lrest) lty) :: rhs :: rest) ty)) s =
      .ok (target_value, s3,
        rhs_code ++ target_code ++ ptr_code ++
          [⟨s3.target, ⟨.IR_DEREF_STORE, ptr_op, rhs_op, .OP_NONE⟩⟩]) := by
  rw [Generate_IR_from_mk, generate_node_assignment]
  simp only [List.append_assoc] at hptr
  simp only [generate_assignment, Generate_IR_at_some, lowering_children_cons, lower_bind_apply, child,
    List.getElem?_cons_succ, List.getElem?_cons_zero, lower_pure_apply, Generate_IR_at_map,
    hrhs, htarget, Option.map_some', deref, lowering_of_node, ASTNode.node_type, ASTNode.value,
    lowering_of_children, ASTNode.children, hptr, emit_apply,
    show ("UnaryOp" = "ArrayAccess") = False by decide,
    show ("UnaryOp" = "PointerMemberAccess") = False by decide,
    show ("UnaryOp" = "MemberAccess") = False by decide, if_false, if_true,
    List.nil_append, List.append_nil, List.append_assoc]

theorem lower_pure_bind {α β : Type} (a : α) (f : α → Lower β) : (pure a >>= f) = f a := by
  funext s
  simp only [lower_bind_apply, lower_pure_apply]
  cases f a s with
  | error e => rfl
  | ok r => obtain ⟨b, s2, e2⟩ := r; simp

theorem lower_bind_assoc {α β γ : Type} (x : Lower α) (f : α → Lower β) (g : β → Lower γ) :
    (x >>= f >>= g) = (x >>= fun a => f a >>= g) := by
  funext s
  simp only [lower_bind_apply]
  cases x s with
  | error e => rfl
  | ok r =>
    obtain ⟨a, s1, e1⟩ := r
    simp only
    cases f a s1 with
    | error e => rfl
    | ok r2 =>
      obtain ⟨b, s2, e2⟩ := r2
      simp only
      cases g b s2 with
      | error e => rfl
      | ok r3 => obtain ⟨c, s3, e3⟩ := r3; simp

theorem lower_arguments_nil : lower_arguments [] = pure () := rfl

theorem lower_arguments_cons (argument : Lower Operand) (rest : List (Lower Operand)) :
    lower_arguments (argument :: rest) =
      (do
        let param_op ← argument
        emit .IR_PARAM .OP_NONE param_op .OP_NONE
        lower_arguments rest) := by
  funext s
  simp only [lower_arguments, lower_bind_apply, emit_apply]
  cases argument s with
  | error e => rfl
  | ok r =>
    obtain ⟨param_op, s1, code⟩ := r
    simp only
    cases lower_arguments rest s1 with
    | error e => rfl
    | ok r2 =>
      obtain ⟨u, s2, more⟩ := r2
      simp

theorem lower_arguments_append (xs ys : List (Lower Operand)) :
    lower_arguments (xs ++ ys) = (lower_arguments xs >>= fun _ => lower_arguments ys) := by
  induction xs with
  | nil => simp [lower_arguments_nil, lower_pure_bind]
  | cons x xs ih =>
    simp only [List.cons_append, lower_arguments_cons, List.append_eq, ih, lower_bind_assoc]

theorem later_argument_steps_snoc (position : List Nat) (xs : List ASTNode) (a : ASTNode) :
    later_argument_steps position (xs ++ [a]) =
      later_argument_steps (position ++ [0]) xs ++
        [Generate_IR_from (position ++ [1]) (some a)] := by
  induction xs with
  | nil => simp [later_argument_steps]
  | cons x xs ih =>
    simp [later_argument_steps, ih, List.replicate_succ, List.append_assoc]

theorem argument_steps_snoc (position : List Nat) (first : ASTNode) (xs : List ASTNode)
    (a : ASTNode) :
    argument_steps position (first :: (xs ++ [a])) =
      argument_steps (position ++ [0]) (first :: xs) ++
        [Generate_IR_from (position ++ [1]) (some a)] := by
  simp [argument_steps, later_argument_steps_snoc, List.replicate_succ, List.append_assoc]

theorem emit_params_for_call_mk (position : List Nat) (nt : String) (v : Option String)
    (cs : List (Option ASTNode)) (ty : Option CType) (count : Nat) :
    emit_params_for_call position (some (.mk nt v cs ty)) count =
      emit_params_node nt (Generate_IR_from position (some (.mk nt v cs ty)))
        (lowering_children position 0 cs) count := by
  simp only [emit_params_for_call]; rw [lowering_of]; rfl

theorem emit_params_for_call_at_map (position : List Nat) (c : Option ASTNode) (count : Nat) :
    emit_params_for_call_at (c.map (lowering_of position)) count =
      emit_params_for_call position c count := by
  cases c <;> rfl

theorem emit_params_for_call_at_some (position : List Nat) (n : ASTNode) (count : Nat) :
    emit_params_for_call_at (some (lowering_of position n)) count =
      emit_params_for_call position (some n) count := rfl

theorem emit_params_argument_list (first : ASTNode)
    (hlist : first.node_type ≠ "ArgumentList") (hempty : first.node_type ≠ "EmptyExpression")
    (more : List ASTNode) :
    ∀ (position : List Nat) (count : Nat),
      emit_params_for_call position (some (argument_list first more)) count =
        (lower_arguments (argument_steps position (first :: more)) >>= fun _ =>
          pure (count + (more.length + 1))) := by
  induction more using List.reverseRecOn with
  | nil =>
    intro position count
    obtain ⟨nt, v, cs, ty⟩ := first
    simp only [ASTNode.node_type] at hlist hempty
    simp only [argument_list, List.foldl_nil, emit_params_for_call_mk, emit_params_node,
      if_neg hlist, if_neg hempty, argument_steps, later_argument_steps, lower_arguments_cons,
      lower_arguments_nil,
      List.length_nil, List.replicate_zero, List.append_nil, lower_bind_assoc, lower_pure_bind,
      Nat.zero_add]
  | append_singleton xs a ih =>
    intro position count
    simp only [argument_list, List.foldl_append, List.foldl_cons, List.foldl_nil]
    rw [emit_params_for_call_mk]
    simp only [emit_params_node, show ("ArgumentList" = "EmptyExpression") = False by decide,
      if_false, if_true, lowering_children_cons, child, List.getElem?_cons_zero,
      List.getElem?_cons_succ, lower_pure_bind, emit_params_for_call_at_map, List.length_cons,
      lowering_children, List.length_nil, Generate_IR_at_map, Option.map_some',
      emit_params_for_call_at_some, Generate_IR_at_some, Nat.zero_add,
      show (1 < 1 + 1) = True by decide]
    have := ih (position ++ [0]) count
    simp only [argument_list] at this
    rw [this, argument_steps_snoc, lower_arguments_append]
    simp only [lower_bind_assoc, lower_pure_bind, lower_arguments_cons, lower_arguments_nil,
      List.length_append,
      List.length_cons, List.length_nil]
    simp [Nat.add_assoc]

theorem generate_node_function_call (position : List Nat) (v : Option String)
    (cs : List (Option ASTNode)) (ty : Option CType) (kids : List (Option Lowering)) :
    generate_node position "FunctionCall" v cs ty kids = generate_function_call kids := rfl

/-- Witness for C15: in `void func_ptr_int(int *ptr) { *ptr = *ptr + 1; }` the
assignment lowers to `DEREF t0, ptr; ADD t1, t0, 1; DEREF t2, ptr;
DEREF_STORE ptr, t1`; the function copies `ptr` from `ARG0` first; and running
`int x = 10; int *p_x = &x; func_ptr_int(p_x);` leaves `x` equal to 11. -/
theorem deref_assignment_store_witness :
    Generate_IR_from [0, 2, 0, 0, 0] increment_through_ptr
        ⟨0, 0, .OP_NONE, .OP_NONE, false, false, [], func_ptr_int_scope⟩ =
      .ok (.OP_TEMPORARY "t2",
        ⟨3, 0, .OP_NONE, .OP_NONE, false, false, [], func_ptr_int_scope⟩,
        [⟨.other_funcs_ir, ⟨.IR_DEREF, .OP_TEMPORARY "t0", .OP_IDENTIFIER "ptr", .OP_NONE⟩⟩,
         ⟨.other_funcs_ir, ⟨.IR_ADD, .OP_TEMPORARY "t1", .OP_TEMPORARY "t0", .OP_INT_CONST 1⟩⟩,
         ⟨.other_funcs_ir, ⟨.IR_DEREF, .OP_TEMPORARY "t2", .OP_IDENTIFIER "ptr", .OP_NONE⟩⟩,
         ⟨.other_funcs_ir,
           ⟨.IR_DEREF_STORE, .OP_IDENTIFIER "ptr", .OP_TEMPORARY "t1", .OP_NONE⟩⟩]) ∧
    (Generate_IR func_ptr_int_program (GenState.initial func_ptr_int_scope)).map
        (fun r => ir_list .other_funcs_ir r.2.2) = .ok func_ptr_int_code ∧
    (Generate_IR func_ptr_int_program (GenState.initial func_ptr_int_scope)).map
        (fun r => value_after (ir_list .main_ir r.2.2 ++ ir_list .other_funcs_ir r.2.2) 100 "x") =
      .ok (some (.int 11)) := by
  refine ⟨?_, by decide!, by decide!⟩
  unfold increment_through_ptr ast_assign ast_deref
  exact deref_assignment_store [0, 2, 0, 0, 0] (some "=") (ast_identifier "ptr")
    (ast_binary "+" (some (.mk "UnaryOp" (some "*") [ast_identifier "ptr"] none)) (ast_int "1"))
    [] [] none none
    ⟨0, 0, .OP_NONE, .OP_NONE, false, false, [], func_ptr_int_scope⟩
    ⟨2, 0, .OP_NONE, .OP_NONE, false, false, [], func_ptr_int_scope⟩
    ⟨3, 0, .OP_NONE, .OP_NONE, false, false, [], func_ptr_int_scope⟩
    ⟨3, 0, .OP_NONE, .OP_NONE, false, false, [], func_ptr_int_scope⟩
    (.OP_TEMPORARY "t1") (.OP_TEMPORARY "t2") (.OP_IDENTIFIER "ptr")
    [⟨.other_funcs_ir, ⟨.IR_DEREF, .OP_TEMPORARY "t0", .OP_IDENTIFIER "ptr", .OP_NONE⟩⟩,
     ⟨.other_funcs_ir, ⟨.IR_ADD, .OP_TEMPORARY "t1", .OP_TEMPORARY "t0", .OP_INT_CONST 1⟩⟩]
    [⟨.other_funcs_ir, ⟨.IR_DEREF, .OP_TEMPORARY "t2", .OP_IDENTIFIER "ptr", .OP_NONE⟩⟩]
    [] rfl rfl rfl

/-! ## Theorems: scopes -/

theorem insert_symbol_tail (name : String) (type : Option CType) (kind : SymKind) (st : State)
    (cur : List Symbol) (outer : List (List Symbol)) (h : st.scope_stack = cur :: outer) :
    ∃ cur1, (insert_symbol name type kind st).scope_stack = cur1 :: outer := by
  unfold insert_symbol
  rw [h]
  simp only
  cases find_in_scope name cur with
  | none => exact ⟨_, rfl⟩
  | some s => exact ⟨cur, rfl⟩

theorem insert_symbols_tail (symbols : List Symbol) :
    ∀ (st : State) (cur : List Symbol) (outer : List (List Symbol)),
      st.scope_stack = cur :: outer →
      ∃ cur1, (insert_symbols symbols st).scope_stack = cur1 :: outer := by
  induction symbols with
  | nil => intro st cur outer h; exact ⟨cur, h⟩
  | cons s rest ih =>
    intro st cur outer h
    obtain ⟨cur1, h1⟩ := insert_symbol_tail s.name s.type s.kind st cur outer h
    exact ih _ cur1 outer h1

/-- C23: in an initialised table below the depth bound, `enter_scope` succeeds,
and after any run of `insert_symbol` calls `leave_scope` gives back the scope
stack the table had before `enter_scope`: the same depth and the same
`lookup_symbol` result for every name.  At the global scope `leave_scope`
leaves the state as it is. -/
theorem enter_insert_leave_scope (st : State) (symbols : List Symbol)
    (hinit : 0 ≤ st.current_scope_level)
    (hbound : st.current_scope_level < MAX_SCOPE_DEPTH - 1) :
    (∃ st1, enter_scope st = .ok st1 ∧
      st1.current_scope_level = st.current_scope_level + 1 ∧
      (leave_scope (insert_symbols symbols st1)).scope_stack = st.scope_stack ∧
      (leave_scope (insert_symbols symbols st1)).current_scope_level
        = st.current_scope_level ∧
      ∀ name, lookup_symbol name (leave_scope (insert_symbols symbols st1))
        = lookup_symbol name st) ∧
    (st.current_scope_level = 0 → leave_scope st = st) := by
  refine ⟨?_, ?_⟩
  · refine ⟨{ st with scope_stack := [] :: st.scope_stack }, ?_, ?_, ?_⟩
    · simp [enter_scope, hbound]
    · simp [State.current_scope_level]
    · obtain ⟨cur1, h1⟩ := insert_symbols_tail symbols
        { st with scope_stack := [] :: st.scope_stack } [] st.scope_stack rfl
      have hlevel : (insert_symbols symbols
          { st with scope_stack := [] :: st.scope_stack }).current_scope_level > 0 := by
        simp only [State.current_scope_level, h1, List.length_cons] at hinit ⊢
        push_cast
        omega
      have hleave : (leave_scope (insert_symbols symbols
          { st with scope_stack := [] :: st.scope_stack })).scope_stack = st.scope_stack := by
        unfold leave_scope
        rw [if_pos hlevel]
        simp [h1]
      refine ⟨hleave, ?_, ?_⟩
      · simp only [State.current_scope_level, hleave]
      · intro name
        simp only [lookup_symbol, hleave]
  · intro h0
    unfold leave_scope
    rw [if_neg (by omega)]

/-- Witness for C23: two insertions, one of them a redeclaration, between
`enter_scope` and `leave_scope` over a table holding a global `x`. -/
theorem enter_insert_leave_scope_witness :
    (∃ st1, enter_scope ⟨[[Symbol.mk .SYM_VARIABLE "x" (some (create_base_type "int"))]], []⟩
        = .ok st1 ∧
      st1.current_scope_level = 1 ∧
      (leave_scope (insert_symbols
        [Symbol.mk .SYM_VARIABLE "x" (some (create_base_type "char")),
         Symbol.mk .SYM_VARIABLE "x" (some (create_base_type "double"))] st1)).scope_stack
        = [[Symbol.mk .SYM_VARIABLE "x" (some (create_base_type "int"))]] ∧
      (leave_scope (insert_symbols
        [Symbol.mk .SYM_VARIABLE "x" (some (create_base_type "char")),
         Symbol.mk .SYM_VARIABLE "x" (some (create_base_type "double"))]
        st1)).current_scope_level = 0 ∧
      ∀ name, lookup_symbol name (leave_scope (insert_symbols
        [Symbol.mk .SYM_VARIABLE "x" (some (create_base_type "char")),
         Symbol.mk .SYM_VARIABLE "x" (some (create_base_type "double"))] st1))
        = lookup_symbol name
            ⟨[[Symbol.mk .SYM_VARIABLE "x" (some (create_base_type "int"))]], []⟩) ∧
    ((⟨[[Symbol.mk .SYM_VARIABLE "x" (some (create_base_type "int"))]], []⟩ :
        State).current_scope_level = 0 →
      leave_scope ⟨[[Symbol.mk .SYM_VARIABLE "x" (some (create_base_type "int"))]], []⟩
        = ⟨[[Symbol.mk .SYM_VARIABLE "x" (some (create_base_type "int"))]], []⟩) :=
  enter_insert_leave_scope
    ⟨[[Symbol.mk .SYM_VARIABLE "x" (some (create_base_type "int"))]], []⟩
    [Symbol.mk .SYM_VARIABLE "x" (some (create_base_type "char")),
     Symbol.mk .SYM_VARIABLE "x" (some (create_base_type "double"))]
    (by decide) (by decide)

/-! ## Theorems: type sizes and member offsets -/

mutual
theorem get_type_size_run_of_eq : ∀ t : CType,
    get_type_size_run_of t = (get_type_size_of t, t)
  | .base _ _ => by simp [get_type_size_run_of, get_type_size_of]
  | .pointer _ _ => by simp [get_type_size_run_of, get_type_size_of]
  | .struct _ _ _ => by simp [get_type_size_run_of, get_type_size_of]
  | .union _ _ _ => by simp [get_type_size_run_of, get_type_size_of]
  | .array size e n => by
    rw [get_type_size_run_of, get_type_size_of, get_type_size_run_eq e]
    split <;> rfl
  | .function _ _ _ => by simp [get_type_size_run_of, get_type_size_of]
  | .enum _ => by simp [get_type_size_run_of, get_type_size_of]
  | .void _ => by simp [get_type_size_run_of, get_type_size_of]
theorem get_type_size_run_eq : ∀ t : Option CType,
    get_type_size_run t = (get_type_size t, t)
  | none => by simp [get_type_size_run, get_type_size]
  | some t => by
    rw [get_type_size_run, get_type_size, get_type_size_run_of_eq t]
end

/-- C29: a call of `get_type_size` leaves the type object as it was, cached
size, members and element types included, and the value it returns is a
function of the type: a second call on the object the first call leaves returns
the same value, and so does every further one. -/
theorem get_type_size_idempotent :
    ∀ t : Option CType,
      (get_type_size_run t).2 = t ∧
      (get_type_size_run (get_type_size_run t).2).1 = (get_type_size_run t).1 ∧
      (get_type_size_run (get_type_size_run t).2).2 = t ∧
      (get_type_size_run t).1 = get_type_size t := by
  intro t
  simp [get_type_size_run_eq]

theorem find_member_first (m : String) (pre : List StructMember) (mem : StructMember)
    (post : List StructMember) (hpre : ∀ x ∈ pre, ∃ n, x.name = some n ∧ n ≠ m)
    (hmem : mem.name = some m) :
    find_member m (pre ++ mem :: post) = .ok (some mem) := by
  induction pre with
  | nil => simp [find_member, hmem]
  | cons x rest ih =>
    obtain ⟨n, hn, hne⟩ := hpre x (List.mem_cons_self _ _)
    simp only [List.cons_append, find_member, hn, if_neg hne]
    exact ih (fun y hy => hpre y (List.mem_cons_of_mem _ hy))

theorem find_member_absent (m : String) (members : List StructMember)
    (h : ∀ x ∈ members, ∃ n, x.name = some n ∧ n ≠ m) :
    find_member m members = .ok none := by
  induction members with
  | nil => rfl
  | cons x rest ih =>
    obtain ⟨n, hn, hne⟩ := h x (List.mem_cons_self _ _)
    simp only [find_member, hn, if_neg hne]
    exact ih (fun y hy => h y (List.mem_cons_of_mem _ hy))

theorem get_member_offset_eq (t : Option CType) (m : String) :
    get_member_offset t m =
      (get_struct_member (pointee_once t) m).map
        (fun r => match r with
          | some mem => mem.offset
          | none => -1) := by
  cases t with
  | none => rfl
  | some t =>
    cases t with
    | pointer s p =>
      cases p with
      | none => rfl
      | some u =>
        cases u <;> simp only [get_member_offset, pointee_once, get_struct_member] <;>
          first
          | rfl
          | (cases find_member m _ with
             | error f => rfl
             | ok r => cases r <;> rfl)
    | struct s n ms =>
      simp only [get_member_offset, pointee_once, get_struct_member]
      cases find_member m ms with
      | error f => rfl
      | ok r => cases r <;> rfl
    | union s n ms =>
      simp only [get_member_offset, pointee_once, get_struct_member]
      cases find_member m ms with
      | error f => rfl
      | ok r => cases r <;> rfl
    | base s n => rfl
    | array s e n => rfl
    | function s r ps => rfl
    | enum s => rfl
    | void s => rfl

theorem get_struct_member_members (u : Option CType) (members : List StructMember) (m : String)
    (h : record_members u = some members) :
    get_struct_member u m = find_member m members := by
  cases u with
  | none => simp [record_members] at h
  | some t =>
    cases t <;> simp [record_members] at h <;> subst h <;> rfl

theorem get_struct_member_no_record (u : Option CType) (m : String)
    (h : record_members u = none) : get_struct_member u m = .ok none := by
  cases u with
  | none => rfl
  | some t => cases t <;> first | rfl | simp [record_members] at h

/-- C25: `get_member_offset(t, m)` looks at `t` with one level of pointer taken
off.  Its result is what `get_struct_member` finds there for `m`: the offset of
the member found, `-1` when none is found.  On a struct or union it is the
offset of the first member named `m`, the members before it carrying other
names, and `-1` when every member carries another name; on anything else,
`NULL`, a pointer to `NULL` and a pointer to a pointer to a struct included, it
is `-1`. -/
theorem get_member_offset_first_member (t : Option CType) (m : String) :
    get_member_offset t m =
      (get_struct_member (pointee_once t) m).map
        (fun r => match r with
          | some mem => mem.offset
          | none => -1) ∧
    (∀ members pre mem post, record_members (pointee_once t) = some members →
      members = pre ++ mem :: post → (∀ x ∈ pre, ∃ n, x.name = some n ∧ n ≠ m) →
      mem.name = some m →
      get_member_offset t m = .ok mem.offset ∧
      get_struct_member (pointee_once t) m = .ok (some mem)) ∧
    (∀ members, record_members (pointee_once t) = some members →
      (∀ x ∈ members, ∃ n, x.name = some n ∧ n ≠ m) → get_member_offset t m = .ok (-1)) ∧
    (record_members (pointee_once t) = none → get_member_offset t m = .ok (-1)) ∧
    (∀ s1 s2 u, t = some (.pointer s1 (some (.pointer s2 u))) →
      get_member_offset t m = .ok (-1)) := by
  refine ⟨get_member_offset_eq t m, ?_, ?_, ?_, ?_⟩
  · intro members pre mem post hrec hsplit hpre hmem
    have hfind : get_struct_member (pointee_once t) m = .ok (some mem) := by
      rw [get_struct_member_members _ _ _ hrec, hsplit]
      exact find_member_first m pre mem post hpre hmem
    refine ⟨?_, hfind⟩
    rw [get_member_offset_eq, hfind]
    rfl
  · intro members hrec hall
    rw [get_member_offset_eq, get_struct_member_members _ _ _ hrec,
      find_member_absent m members hall]
    rfl
  · intro hrec
    rw [get_member_offset_eq, get_struct_member_no_record _ _ hrec]
    rfl
  · intro s1 s2 u ht
    subst ht
    rfl

/-- Witness for C25: through a pointer to `struct Point` the member `x` is
found at offset 4 behind `y`, a name that is no member gives `-1`, and so does
a pointer to a pointer to the struct. -/
theorem get_member_offset_first_member_witness :
    get_member_offset (some (create_pointer_type (some point_type))) "x" = .ok 4 ∧
    get_struct_member (some point_type) "x"
      = .ok (some (.mk (some "x") (some (create_base_type "int")) 4)) ∧
    get_member_offset (some (create_pointer_type (some point_type))) "z" = .ok (-1) ∧
    get_member_offset
      (some (create_pointer_type (some (create_pointer_type (some point_type))))) "x"
      = .ok (-1) :=
  ⟨((get_member_offset_first_member (some (create_pointer_type (some point_type))) "x").2.1
      _ [.mk (some "y") (some (create_base_type "int")) 0]
      (.mk (some "x") (some (create_base_type "int")) 4) [] rfl rfl
      (by
        intro x hx
        rw [List.mem_singleton] at hx
        subst hx
        exact ⟨"y", rfl, by decide⟩) rfl).1,
   ((get_member_offset_first_member (some (create_pointer_type (some point_type))) "x").2.1
      _ [.mk (some "y") (some (create_base_type "int")) 0]
      (.mk (some "x") (some (create_base_type "int")) 4) [] rfl rfl
      (by
        intro x hx
        rw [List.mem_singleton] at hx
        subst hx
        exact ⟨"y", rfl, by decide⟩) rfl).2,
   by decide, by decide⟩

/-- C24, at the failing input: for `struct Point { int x; int y; }`, given as
the left-recursive list of its two member declarations,
`calculate_struct_layout` takes the last declaration first: the member list is
`y` at offset 0, then `x` at offset 4, and `get_member_offset` returns 4 for
`x` and 0 for `y`.  For `struct { char a; int b; double c; }` the list is `c`
at 0, `b` at 8, `a` at 12. -/
theorem struct_members_listed_last_first :
    calculate_struct_layout (some (.struct 0 (some "Point") [])) (some point_members)
        ⟨[[]], []⟩ = .ok (some point_type, ⟨[[]], []⟩) ∧
    get_member_offset (some point_type) "x" = .ok 4 ∧
    get_member_offset (some point_type) "y" = .ok 0 ∧
    calculate_struct_layout (some (.struct 0 (some "T") [])) (some char_int_double_members)
        ⟨[[]], []⟩ =
      .ok (some (.struct 13 (some "T")
        [.mk (some "c") (some (create_base_type "double")) 0,
         .mk (some "b") (some (create_base_type "int")) 8,
         .mk (some "a") (some (create_base_type "char")) 12]), ⟨[[]], []⟩) :=
  ⟨rfl, by decide, by decide, rfl⟩

/-! ## Theorems: identifiers, loops and deleted loads -/

/-- C21, at the failing inputs, in a scope holding `int a`, `int b` and
`int f(int c)`.  The operands of a `BinaryOp`, the argument of a `FunctionCall`
and the statements of a switch body are never visited: `zz + 1;` and `a + b;`
come back as they were, without a diagnostic and without a type on `zz`, `a` or
`b`; `f(zz);` reports a type mismatch for the untyped argument and no
undeclared identifier; `switch (a) { zz; b; }` annotates `a` only.  As a
statement of its own `zz;` is reported and `a;` is annotated. -/
theorem identifier_operands_not_visited :
    ∀ fuel : Nat,
    check_semantics_fuel (fuel + 2)
        (ast_expression_statement (ast_binary "+" (ast_identifier "zz") (ast_int "1")))
        a_b_f_scope =
      .ok (ast_expression_statement (ast_binary "+" (ast_identifier "zz") (ast_int "1")),
        a_b_f_scope) ∧
    check_semantics_fuel (fuel + 2)
        (ast_expression_statement (ast_binary "+" (ast_identifier "a") (ast_identifier "b")))
        a_b_f_scope =
      .ok (ast_expression_statement (ast_binary "+" (ast_identifier "a") (ast_identifier "b")),
        a_b_f_scope) ∧
    check_semantics_fuel (fuel + 2)
        (ast_expression_statement (ast_call "f" [.mk "Identifier" (some "zz") [] none]))
        a_b_f_scope =
      .ok (ast_expression_statement
          (some (.mk "FunctionCall" none [ast_identifier "f", ast_identifier "zz"]
            (some (create_base_type "int")))),
        a_b_f_scope.report FMT_ARG_MISMATCH [.int 0, .str (some "f")]) ∧
    check_semantics_fuel (fuel + 2) switch_a_zz_b a_b_f_scope =
      .ok (some (.mk "SwitchStatement" none
          [some (.mk "Identifier" (some "a") [] (some (create_base_type "int"))),
           ast_block [ast_expression_statement (ast_identifier "zz"),
                      ast_expression_statement (ast_identifier "b")]] none),
        a_b_f_scope) ∧
    check_semantics_fuel (fuel + 2) (ast_expression_statement (ast_identifier "zz"))
        a_b_f_scope =
      .ok (ast_expression_statement (ast_identifier "zz"),
        a_b_f_scope.report FMT_NOT_DECLARED [.str (some "zz")]) ∧
    check_semantics_fuel (fuel + 2) (ast_expression_statement (ast_identifier "a"))
        a_b_f_scope =
      .ok (ast_expression_statement
          (some (.mk "Identifier" (some "a") [] (some (create_base_type "int")))),
        a_b_f_scope) := by
  intro fuel
  exact ⟨rfl, rfl, rfl, rfl, rfl, rfl⟩

/-- C27, at the failing inputs, from the initial globals.  The `while` and
`do`-`while` branches set no break or continue label: for
`while (x) { break; }` no jump is emitted for the `break` and the error for a
`break` outside of a loop is reported; likewise for the `continue` of
`do { continue; } while (x);`.  In `for (;;) { while (x) { break; } }` the
`break` jumps to `L3`, the end label of the `for`, not to `L6`, the end label of
the `while` around it. -/
theorem break_in_while_has_no_label :
    (Generate_IR while_break (GenState.initial ⟨[[]], []⟩)).map
        (fun r => (r.2.2.map Emitted.instr, r.2.1.table.stderr)) =
      .ok ([goto_of "L0", label_of "L1", label_of "L0",
            if_false_goto "L2" (.OP_IDENTIFIER "x"), goto_of "L1", label_of "L2"],
           [⟨FMT_IR_BREAK, []⟩]) ∧
    (Generate_IR do_continue (GenState.initial ⟨[[]], []⟩)).map
        (fun r => (r.2.2.map Emitted.instr, r.2.1.table.stderr)) =
      .ok ([label_of "L0", if_false_goto "L1" (.OP_IDENTIFIER "x"), goto_of "L0",
            label_of "L1"],
           [⟨FMT_IR_CONTINUE, []⟩]) ∧
    (Generate_IR for_while_break (GenState.initial ⟨[[]], []⟩)).map
        (fun r => (r.2.2.map Emitted.instr, r.2.1.table.stderr)) =
      .ok ([goto_of "L0", label_of "L2",
            goto_of "L4", label_of "L5", goto_of "L3", label_of "L4",
            if_false_goto "L6" (.OP_IDENTIFIER "x"), goto_of "L5", label_of "L6",
            label_of "L1", label_of "L0", if_false_goto "L3" .OP_NONE, goto_of "L2",
            label_of "L3"],
           []) := by
  refine ⟨by decide, by decide, by decide!⟩

/-- C30, at the failing input: in `INDEX_LOAD t, a, k; INDEX_STORE a, k, t` the
store writes the value the load has just read into `t`.  Pattern 1 compares
base and offset only and deletes the load: the list returned is the store
alone, whose value operand is the result of the deleted load. -/
theorem load_deleted_though_store_reads_it :
    (∀ (t a : String) (k : Int),
      optimize_ir_list
          [⟨.IR_INDEX_LOAD, .OP_TEMPORARY t, .OP_IDENTIFIER a, .OP_INT_CONST k⟩,
           ⟨.IR_INDEX_STORE, .OP_IDENTIFIER a, .OP_INT_CONST k, .OP_TEMPORARY t⟩] =
        .ok [⟨.IR_INDEX_STORE, .OP_IDENTIFIER a, .OP_INT_CONST k, .OP_TEMPORARY t⟩]) ∧
    optimize_ir_list [load_t1_a_0, store_a_0_t1] = .ok [store_a_0_t1] ∧
    store_a_0_t1.arg2 = load_t1_a_0.result ∧
    is_redundant_load load_t1_a_0 store_a_0_t1 = true := by
  refine ⟨?_, by decide, rfl, by decide⟩
  intro t a k
  simp [optimize_ir_list, optimize_ir, optimize_loop, is_redundant_load, are_operands_equal,
    traverse]

/-! ## Theorems: declarations without initialiser -/

theorem generate_node_declaration (position : List Nat) (v : Option String)
    (cs : List (Option ASTNode)) (ty : Option CType) (kids : List (Option Lowering)) :
    generate_node position "Declaration" v cs ty kids =
      (do
        let declarator_list ← child kids 1
        generate_declarators declarator_list
        pure Operand.OP_NONE : Lower Operand) := rfl

theorem generate_uninitialized_scalar (declarator : ASTNode) (s : GenState) (name : String)
    (sym : Symbol) (t : CType)
    (hname : get_declarator_name (some declarator) = .ok (some name))
    (hsym : lookup_symbol name s.table = some sym) (htype : sym.type = some t)
    (hscalar : t.kind ≠ .TYPE_STRUCT ∧ t.kind ≠ .TYPE_UNION ∧ t.kind ≠ .TYPE_ARRAY) :
    generate_uninitialized declarator s =
      .ok ((), s, (zero_constant t).toList.map
        (fun zero => ⟨s.target, ⟨.IR_ASSIGN, .OP_IDENTIFIER name, zero, .OP_NONE⟩⟩)) := by
  have hnot : ¬ (t.kind = .TYPE_STRUCT ∨ t.kind = .TYPE_UNION ∨ t.kind = .TYPE_ARRAY) := by
    rintro (h | h | h)
    · exact hscalar.1 h
    · exact hscalar.2.1 h
    · exact hscalar.2.2 h
  simp only [generate_uninitialized, hname, lower_bind_apply, Lower.of_except, Lower.get, hsym,
    htype, if_neg hnot, List.nil_append]
  cases t with
  | base size base_name =>
    simp only [zero_constant]
    by_cases h1 : base_name = "int"
    · simp [h1, emit_apply]
    · by_cases h2 : base_name = "char"
      · simp [h1, h2, emit_apply]
      · by_cases h3 : base_name = "float" ∨ base_name = "double"
        · simp [h1, h2, h3, emit_apply]
        · simp [h1, h2, h3, lower_pure_apply]
  | _ => simp [zero_constant, lower_pure_apply]

/-- C26, amended: for a declaration without initialiser whose single
declarator names a variable that the symbol table resolves to a type other than
struct, union and array, `Generate_IR` emits no heap allocation; it emits one
`ASSIGN` of a zero constant to the variable when the type is `int` (integer 0),
`char` (character 0), `float` or `double` (0.0), and no instruction for every
other type: another base type, a pointer. -/
theorem uninitialized_scalar_declaration (position : List Nat) (v lv : Option String)
    (lnt : String) (specs : Option ASTNode) (declarator : ASTNode)
    (rest : List (Option ASTNode)) (ty lty : Option CType) (s : GenState) (name : String)
    (sym : Symbol) (t : CType)
    (hdecl : declarator.node_type ≠ "InitDeclarator")
    (hname : get_declarator_name (some declarator) = .ok (some name))
    (hsym : lookup_symbol name s.table = some sym) (htype : sym.type = some t)
    (hscalar : t.kind ≠ .TYPE_STRUCT ∧ t.kind ≠ .TYPE_UNION ∧ t.kind ≠ .TYPE_ARRAY) :
    Generate_IR_from position
        (some (.mk "Declaration" v
          (specs :: some (.mk lnt lv [some declarator] lty) :: rest) ty)) s =
      .ok (.OP_NONE, s, (zero_constant t).toList.map
        (fun zero => ⟨s.target, ⟨.IR_ASSIGN, .OP_IDENTIFIER name, zero, .OP_NONE⟩⟩)) ∧
    (∀ size, zero_constant (.base size "int") = some (.OP_INT_CONST 0)) ∧
    (∀ size, zero_constant (.base size "char") = some (.OP_CHAR_CONST 0)) ∧
    (∀ size, zero_constant (.base size "float") = some (.OP_FLOAT_CONST ⟨false, 0, 0⟩)) ∧
    (∀ size, zero_constant (.base size "double") = some (.OP_FLOAT_CONST ⟨false, 0, 0⟩)) ∧
    (∀ size base_name, base_name ∉ ["int", "char", "float", "double"] →
      zero_constant (.base size base_name) = none) ∧
    (∀ size points_to, zero_constant (.pointer size points_to) = none) := by
  refine ⟨?_, fun _ => rfl, fun _ => rfl, fun _ => rfl, fun _ => rfl, ?_, fun _ _ => rfl⟩
  · rw [Generate_IR_from_mk, generate_node_declaration]
    simp only [lowering_children_cons, child, List.getElem?_cons_succ, List.getElem?_cons_zero,
      Option.map_some', lower_bind_apply, lower_pure_apply, generate_declarators]
    rw [lowering_of]
    simp only [lowering_children_cons, Option.map_some']
    have hl : lowering_children (position ++ [1]) (0 + 1) [] = [] := rfl
    rw [hl, generate_declarators_of]
    simp only [lowering_of_node, if_neg hdecl,
      generate_uninitialized_scalar declarator s name sym t hname hsym htype hscalar,
      List.nil_append, List.append_nil]
  · intro size base_name hn
    simp only [List.mem_cons, List.mem_singleton, List.not_mem_nil, or_false, not_or] at hn
    simp [zero_constant, hn.1, hn.2.1, hn.2.2.1, hn.2.2.2]

/-- Witness for C26: `int a;` with `a` in the table, and the globals
`int a; char b; float c; double d; int *p_a;` of `tests/test_declarations.c`:
four assignments, none for the pointer. -/
theorem uninitialized_scalar_declaration_witness :
    Generate_IR_from [0] (ast_declaration "int" (ast_identifier "a"))
        (GenState.initial scalar_globals_scope) =
      .ok (.OP_NONE, GenState.initial scalar_globals_scope,
        [⟨.global_declarations, assign_of "a" (.OP_INT_CONST 0)⟩]) ∧
    (Generate_IR scalar_globals (GenState.initial scalar_globals_scope)).map
        (fun r => r.2.2.map Emitted.instr) =
      .ok [assign_of "a" (.OP_INT_CONST 0), assign_of "b" (.OP_CHAR_CONST 0),
           assign_of "c" (.OP_FLOAT_CONST ⟨false, 0, 0⟩),
           assign_of "d" (.OP_FLOAT_CONST ⟨false, 0, 0⟩)] :=
  ⟨(uninitialized_scalar_declaration [0] none none "InitDeclaratorList" _
      (.mk "Identifier" (some "a") [] none) [] none none
      (GenState.initial scalar_globals_scope) "a"
      (Symbol.mk .SYM_VARIABLE "a" (some (create_base_type "int"))) (create_base_type "int")
      (by decide) rfl rfl rfl (by decide)).1,
   by decide⟩

/-- Counterexample to C26: for the uninitialised declarations `int *p_a;` and
`long l;`, both names in the table with a scalar type, `Generate_IR` emits no
instruction at all. -/
theorem uninitialized_pointer_not_assigned :
    Generate_IR (ast_declaration "int" (ast_pointer_declarator "p_a"))
        (GenState.initial scalar_globals_scope) =
      .ok (.OP_NONE, GenState.initial scalar_globals_scope, []) ∧
    Generate_IR (ast_declaration "long" (ast_identifier "l"))
        (GenState.initial scalar_globals_scope) =
      .ok (.OP_NONE, GenState.initial scalar_globals_scope, []) :=
  ⟨rfl, rfl⟩

/-! ## Theorems: textual form of the three-address code -/

theorem print_operand_without_kind (op : Operand) :
    print_operand op.without_kind = print_operand op := by
  cases op <;> rfl

theorem read_name_without_kind (op : Operand) :
    op.without_kind.read_name = op.read_name := by
  cases op <;> rfl

theorem read_int_without_kind (op : Operand) (n : Int) (h : op.read_int = .ok n) :
    op.without_kind.read_int = .ok n := by
  cases op <;> first | exact h | cases h

theorem print_instruction_without_kinds (i : Instruction) (line : String)
    (h : print_instruction i = .ok line) :
    print_instruction i.without_kinds = .ok line := by
  obtain ⟨opcode, result, arg1, arg2⟩ := i
  cases opcode
  case IR_CALL =>
    -- the `CALL` case reads `arg2` as an integer
    simp only [print_instruction] at h
    cases hn : arg1.read_name with
    | error f => simp [hn] at h
    | ok name =>
      cases hi : arg2.read_int with
      | error f => simp [hn, hi] at h
      | ok count =>
        rw [← h]
        simp [print_instruction, Instruction.without_kinds, print_operand_without_kind,
          read_name_without_kind, read_int_without_kind arg2 count hi, hn, hi]
  case IR_DEREF =>
    rw [← h]
    have e : "\t" ++ "DEREF_LOAD" ++ " " = "\tDEREF_LOAD " := by decide
    simp only [print_instruction, Instruction.without_kinds, print_operand_without_kind,
      unary_mnemonic, if_true, e]
  all_goals
    rw [← h]
    simp only [print_instruction, Instruction.without_kinds, print_operand_without_kind,
      read_name_without_kind, binary_mnemonic, unary_mnemonic, reduceCtorEq, if_false]

/-- C28, amended: the text `print_ir_list` writes holds the mnemonic of every
instruction and the values of its printed operands, and not their kinds.
Whenever a list is written, the list with every character constant replaced by
the integer constant of its value, every temporary and label by the identifier
of its name, and `IR_DEREF` by `IR_DEREF_LOAD`, is written as the same text: no
reader recovers more than that from the text. -/
theorem print_ir_list_without_kinds (l : List Instruction) (text : String)
    (h : print_ir_list l = .ok text) :
    print_ir_list (l.map Instruction.without_kinds) = .ok text := by
  induction l generalizing text with
  | nil => exact h
  | cons i rest ih =>
    simp only [print_ir_list, List.map_cons] at h ⊢
    cases hi : print_instruction i with
    | error f => simp [hi] at h
    | ok line =>
      cases hr : print_ir_list rest with
      | error f => simp [hi, hr] at h
      | ok tail =>
        simp only [hi, hr] at h
        rw [print_instruction_without_kinds i line hi, ih tail hr]
        exact h

/-- Witness for C28: `UMINUS t0, 'a'` then `DEREF t1, t0` then `JUMP L0` is
written as the text of `UMINUS t0, 97; DEREF_LOAD t1, t0; JUMP L0` over
identifiers. -/
theorem print_ir_list_without_kinds_witness :
    print_ir_list
        [⟨.IR_UNARY_MINUS, .OP_IDENTIFIER "t0", .OP_INT_CONST 97, .OP_NONE⟩,
         ⟨.IR_DEREF_LOAD, .OP_IDENTIFIER "t1", .OP_IDENTIFIER "t0", .OP_NONE⟩,
         ⟨.IR_GOTO, .OP_IDENTIFIER "L0", .OP_NONE, .OP_NONE⟩] =
      .ok "\tUMINUS t0, 97\n\tDEREF_LOAD t1, t0\n\tJUMP L0\n" :=
  print_ir_list_without_kinds
    [⟨.IR_UNARY_MINUS, .OP_TEMPORARY "t0", .OP_CHAR_CONST 97, .OP_NONE⟩,
     ⟨.IR_DEREF, .OP_TEMPORARY "t1", .OP_TEMPORARY "t0", .OP_NONE⟩,
     ⟨.IR_GOTO, .OP_LABEL "L0", .OP_NONE, .OP_NONE⟩]
    "\tUMINUS t0, 97\n\tDEREF_LOAD t1, t0\n\tJUMP L0\n" (by decide)

/-- Counterexample to C28: `ASSIGN x, 5` with the integer constant 5 and with
the character constant 5 are two lists that differ in the kind of a printed
operand, and `DEREF t1, p` and `DEREF_LOAD t1, p` two that differ in the opcode;
each pair is written as one text. -/
theorem print_ir_list_not_injective :
    print_ir_list [assign_of "x" (.OP_INT_CONST 5)] = .ok "\tASSIGN x, 5\n" ∧
    print_ir_list [assign_of "x" (.OP_CHAR_CONST 5)] = .ok "\tASSIGN x, 5\n" ∧
    [assign_of "x" (.OP_INT_CONST 5)] ≠ [assign_of "x" (.OP_CHAR_CONST 5)] ∧
    print_ir_list [⟨.IR_DEREF, .OP_TEMPORARY "t1", .OP_IDENTIFIER "p", .OP_NONE⟩] =
      .ok "\tDEREF_LOAD t1, p\n" ∧
    print_ir_list [⟨.IR_DEREF_LOAD, .OP_TEMPORARY "t1", .OP_IDENTIFIER "p", .OP_NONE⟩] =
      .ok "\tDEREF_LOAD t1, p\n" := by
  refine ⟨by decide, by decide, by decide, by decide, by decide⟩

/-! ## Theorems: scopes during semantic analysis -/

theorem ends_in_scopes_ok {α : Type} {st : State} {x : Except Fault (α × State)}
    (h : ends_in_scopes st x) {a : α} {st1 : State} (hx : x = .ok (a, st1)) :
    st1.scope_stack = st.scope_stack := by
  subst hx
  exact h

theorem ends_in_scopes_error {α : Type} {st : State} {x : Except Fault (α × State)}
    (h : ends_in_scopes st x) {f : Fault} (hx : x = .error f) : f ≠ .out_of_fuel := by
  subst hx
  exact h

theorem ends_error {α : Type} {x : Except Fault α} (h : ends x) {f : Fault}
    (hx : x = .error f) : f ≠ .out_of_fuel := by
  subst hx
  exact h

theorem lookup_symbol_ptr_ends (v : Option String) (st : State) :
    ends (lookup_symbol_ptr v st) := by
  unfold lookup_symbol_ptr
  split
  · trivial
  · split
    · trivial
    · exact (by decide : Fault.undefined_behaviour ≠ Fault.out_of_fuel)

theorem check_specifier_scopes (spec : Option ASTNode) (st : State) (t : Option CType)
    (st1 : State) (h : check_specifier spec st = .ok (some (t, st1))) :
    st1.scope_stack = st.scope_stack := by
  unfold check_specifier at h
  split at h
  · cases h
  · split at h
    · split at h
      · cases h
      · cases h; rfl
    · split at h
      · cases h; rfl
      · split at h
        · split at h
          · cases h
          · split at h
            · cases h; rfl
            · cases h; rfl
          · cases h; rfl
        · cases h

theorem check_specifier_error (spec : Option ASTNode) (st : State) (f : Fault)
    (h : check_specifier spec st = .error f) : f ≠ .out_of_fuel := by
  unfold check_specifier at h
  split at h
  · cases h; decide
  · split at h
    · split at h
      · cases h; decide
      · cases h
    · split at h
      · cases h
      · split at h
        · split at h
          · rename_i hr
            cases h
            exact ends_error (lookup_symbol_ptr_ends _ _) hr
          · split at h
            · cases h
            · cases h
          · cases h
        · cases h

theorem get_base_type_from_specifiers_of_unfold (nt : String) (v : Option String)
    (cs : List (Option ASTNode)) (ty : Option CType) (st : State) :
    get_base_type_from_specifiers_of (.mk nt v cs ty) st =
      match check_specifier
          (if nt = "DeclarationSpecifiers" ∨ nt = "SpecifierQualifierList" then
            match cs with
            | c0 :: _ => c0
            | [] => some (.mk nt v cs ty)
          else some (.mk nt v cs ty)) st with
      | .error f => .error f
      | .ok (some r) => .ok r
      | .ok none =>
        match cs with
        | _ :: c1 :: _ => get_base_type_from_specifiers c1 st
        | _ => .ok (some (create_base_type "int"), st) := by
  cases cs with
  | nil => rfl
  | cons c0 t =>
    cases t with
    | nil => rfl
    | cons c1 r => rfl

mutual
theorem get_base_type_from_specifiers_of_ends :
    ∀ (n : ASTNode) (st : State), ends_in_scopes st (get_base_type_from_specifiers_of n st)
  | .mk nt v cs ty, st => by
    rw [get_base_type_from_specifiers_of_unfold]
    split
    · rename_i f hr
      exact check_specifier_error _ _ _ hr
    · rename_i r hr
      obtain ⟨t, st1⟩ := r
      exact check_specifier_scopes _ _ _ _ hr
    · cases cs with
      | nil => exact rfl
      | cons c0 rest =>
        cases rest with
        | nil => exact rfl
        | cons c1 rest2 => exact get_base_type_from_specifiers_ends c1 st
theorem get_base_type_from_specifiers_ends :
    ∀ (n : Option ASTNode) (st : State), ends_in_scopes st (get_base_type_from_specifiers n st)
  | none, st => by
    rw [get_base_type_from_specifiers]
    exact rfl
  | some n, st => by
    rw [get_base_type_from_specifiers]
    exact get_base_type_from_specifiers_of_ends n st
end

theorem evaluate_constant_expression_ends (e : Option ASTNode) (st : State) :
    ends_in_scopes st (evaluate_constant_expression e st) := by
  unfold evaluate_constant_expression
  split
  · exact rfl
  · split
    · split
      · exact (by decide : Fault.undefined_behaviour ≠ Fault.out_of_fuel)
      · exact rfl
    · exact rfl

theorem get_declarator_name_of_unfold (nt : String) (v : Option String)
    (cs : List (Option ASTNode)) (ty : Option CType) :
    get_declarator_name_of (.mk nt v cs ty) =
      if nt = "Identifier" then
        match v with
        | none => .error .undefined_behaviour
        | some name => .ok (some name)
      else
        match cs with
        | [] => .ok none
        | c0 :: rest =>
          if nt = "FunctionDeclarator" then get_declarator_name c0
          else if nt = "ArrayDeclarator" then get_declarator_name c0
          else if nt = "PointerDeclarator" then
            match rest with
            | c1 :: _ => get_declarator_name c1
            | [] => .error .undefined_behaviour
          else if nt = "InitDeclaratorList" then get_declarator_name c0
          else if nt = "InitDeclarator" then get_declarator_name c0
          else .ok none := by
  cases cs with
  | nil => rfl
  | cons c0 t =>
    cases t with
    | nil => rfl
    | cons c1 r => rfl

mutual
theorem get_declarator_name_of_ends : ∀ n : ASTNode, ends (get_declarator_name_of n)
  | .mk nt v cs ty => by
    rw [get_declarator_name_of_unfold]
    by_cases hi : nt = "Identifier"
    · simp only [if_pos hi]
      cases v with
      | none => exact (by decide : Fault.undefined_behaviour ≠ Fault.out_of_fuel)
      | some name => trivial
    simp only [if_neg hi]
    cases cs with
    | nil => trivial
    | cons c0 rest =>
      simp only
      by_cases h1 : nt = "FunctionDeclarator"
      · simp only [if_pos h1]
        exact get_declarator_name_ends c0
      simp only [if_neg h1]
      by_cases h2 : nt = "ArrayDeclarator"
      · simp only [if_pos h2]
        exact get_declarator_name_ends c0
      simp only [if_neg h2]
      by_cases h3 : nt = "PointerDeclarator"
      · simp only [if_pos h3]
        cases rest with
        | nil => exact (by decide : Fault.undefined_behaviour ≠ Fault.out_of_fuel)
        | cons c1 rest2 => exact get_declarator_name_ends c1
      simp only [if_neg h3]
      by_cases h4 : nt = "InitDeclaratorList"
      · simp only [if_pos h4]
        exact get_declarator_name_ends c0
      simp only [if_neg h4]
      by_cases h5 : nt = "InitDeclarator"
      · simp only [if_pos h5]
        exact get_declarator_name_ends c0
      simp only [if_neg h5]
      trivial
theorem get_declarator_name_ends : ∀ n : Option ASTNode, ends (get_declarator_name n)
  | none => by
    rw [get_declarator_name]
    trivial
  | some n => by
    rw [get_declarator_name]
    exact get_declarator_name_of_ends n
end

mutual
theorem build_declarator_type_of_ends :
    ∀ (base : Option CType) (n : ASTNode) (st : State),
      ends_in_scopes st (build_declarator_type_of base n st)
  | base, .mk nt v cs ty, st => by
    rw [build_declarator_type_of.eq_def]
    simp only
    by_cases hp : nt = "PointerDeclarator"
    · simp only [if_pos hp]
      cases cs with
      | nil => exact (by decide : Fault.undefined_behaviour ≠ Fault.out_of_fuel)
      | cons c0 rest =>
        cases rest with
        | nil => exact (by decide : Fault.undefined_behaviour ≠ Fault.out_of_fuel)
        | cons c1 rest2 =>
          simp only
          have hb := build_declarator_type_ends base c1 st
          cases hr : build_declarator_type base c1 st with
          | error f => exact ends_in_scopes_error hb hr
          | ok p =>
            obtain ⟨t2, st2⟩ := p
            exact ends_in_scopes_ok hb hr
    · simp only [if_neg hp]
      by_cases ha : nt = "ArrayDeclarator"
      · simp only [if_pos ha]
        cases cs with
        | nil => exact (by decide : Fault.undefined_behaviour ≠ Fault.out_of_fuel)
        | cons c0 rest =>
          have hb := build_declarator_type_ends base c0 st
          cases rest with
          | nil =>
            simp only
            cases hr : build_declarator_type base c0 st with
            | error f => exact ends_in_scopes_error hb hr
            | ok p =>
              obtain ⟨t2, st2⟩ := p
              exact ends_in_scopes_ok hb hr
          | cons c1 rest2 =>
            simp only
            cases hr : build_declarator_type base c0 st with
            | error f => exact ends_in_scopes_error hb hr
            | ok p =>
              obtain ⟨t2, st2⟩ := p
              simp only
              have he := evaluate_constant_expression_ends c1 st2
              cases hq : evaluate_constant_expression c1 st2 with
              | error f => exact ends_in_scopes_error he hq
              | ok q =>
                obtain ⟨size, st3⟩ := q
                show st3.scope_stack = st.scope_stack
                rw [ends_in_scopes_ok he hq]
                exact ends_in_scopes_ok hb hr
      · simp only [if_neg ha]
        exact rfl
theorem build_declarator_type_ends :
    ∀ (base : Option CType) (n : Option ASTNode) (st : State),
      ends_in_scopes st (build_declarator_type base n st)
  | base, none, st => by
    rw [build_declarator_type]
    exact rfl
  | base, some n, st => by
    rw [build_declarator_type]
    exact build_declarator_type_of_ends base n st
end

theorem build_parameter_list_from_ast_of_unfold (nt : String) (v : Option String)
    (cs : List (Option ASTNode)) (ty : Option CType) (st : State) :
    build_parameter_list_from_ast_of (.mk nt v cs ty) st =
      if nt = "EmptyParameterList" then .ok ([], st)
      else if nt = "ParameterDeclaration" then
        match cs with
        | [] => .error .undefined_behaviour
        | [specifiers] =>
          match get_base_type_from_specifiers specifiers st with
          | .error f => .error f
          | .ok (_, st1) => .ok ([], st1)
        | specifiers :: declarator :: _ =>
          match get_base_type_from_specifiers specifiers st with
          | .error f => .error f
          | .ok (param_type, st1) =>
            match get_declarator_name declarator with
            | .error f => .error f
            | .ok param_name =>
              match build_declarator_type param_type declarator st1 with
              | .error f => .error f
              | .ok (full_param_type, st2) =>
                .ok ([Symbol.mk .SYM_VARIABLE (param_name.getD "") full_param_type], st2)
      else if nt = "ParameterList" then
        match cs with
        | c0 :: c1 :: _ =>
          match build_parameter_list_from_ast c0 st with
          | .error f => .error f
          | .ok (head, st1) =>
            match build_parameter_list_from_ast c1 st1 with
            | .error f => .error f
            | .ok (new_param, st2) => .ok (head ++ new_param, st2)
        | _ => .error .undefined_behaviour
      else .ok ([], st) := by
  cases cs with
  | nil => rfl
  | cons c0 t =>
    cases t with
    | nil => rfl
    | cons c1 r => rfl

mutual
theorem build_parameter_list_from_ast_of_kinds :
    ∀ (n : ASTNode) (st : State) (ps : List Symbol) (st1 : State),
      build_parameter_list_from_ast_of n st = .ok (ps, st1) →
      ∀ p ∈ ps, p.kind = .SYM_VARIABLE
  | .mk nt v cs ty, st, ps, st1, h => by
    rw [build_parameter_list_from_ast_of_unfold] at h
    by_cases he : nt = "EmptyParameterList"
    · simp only [if_pos he] at h
      cases h
      simp
    simp only [if_neg he] at h
    by_cases hd : nt = "ParameterDeclaration"
    · simp only [if_pos hd] at h
      cases cs with
      | nil => cases h
      | cons specifiers rest =>
        cases rest with
        | nil =>
          simp only at h
          cases hb : get_base_type_from_specifiers specifiers st with
          | error f => simp [hb] at h
          | ok p =>
            obtain ⟨t, st2⟩ := p
            simp only [hb] at h
            cases h
            simp
        | cons declarator rest2 =>
          simp only at h
          cases hb : get_base_type_from_specifiers specifiers st with
          | error f => simp [hb] at h
          | ok p =>
            obtain ⟨t, st2⟩ := p
            simp only [hb] at h
            cases hn : get_declarator_name declarator with
            | error f => simp [hn] at h
            | ok name =>
              simp only [hn] at h
              cases ht : build_declarator_type t declarator st2 with
              | error f => simp [ht] at h
              | ok q =>
                obtain ⟨full, st3⟩ := q
                simp only [ht] at h
                cases h
                intro p hp
                rw [List.mem_singleton] at hp
                subst hp
                rfl
    simp only [if_neg hd] at h
    by_cases hl : nt = "ParameterList"
    · simp only [if_pos hl] at h
      cases cs with
      | nil => cases h
      | cons c0 rest =>
        cases rest with
        | nil => cases h
        | cons c1 rest2 =>
          simp only at h
          cases h0 : build_parameter_list_from_ast c0 st with
          | error f => simp [h0] at h
          | ok p =>
            obtain ⟨head, st2⟩ := p
            simp only [h0] at h
            cases h1 : build_parameter_list_from_ast c1 st2 with
            | error f => simp [h1] at h
            | ok q =>
              obtain ⟨new_param, st3⟩ := q
              simp only [h1] at h
              cases h
              have hk0 := build_parameter_list_from_ast_kinds c0 st _ _ h0
              have hk1 := build_parameter_list_from_ast_kinds c1 st2 _ _ h1
              intro p hp
              rcases List.mem_append.1 hp with hp | hp
              · exact hk0 p hp
              · exact hk1 p hp
    simp only [if_neg hl] at h
    cases h
    simp
theorem build_parameter_list_from_ast_kinds :
    ∀ (n : Option ASTNode) (st : State) (ps : List Symbol) (st1 : State),
      build_parameter_list_from_ast n st = .ok (ps, st1) →
      ∀ p ∈ ps, p.kind = .SYM_VARIABLE
  | none, st, ps, st1, h => by
    rw [build_parameter_list_from_ast] at h
    cases h
    simp
  | some n, st, ps, st1, h => by
    rw [build_parameter_list_from_ast] at h
    exact build_parameter_list_from_ast_of_kinds n st ps st1 h
end

mutual
theorem build_parameter_list_from_ast_of_ends :
    ∀ (n : ASTNode) (st : State), ends_in_scopes st (build_parameter_list_from_ast_of n st)
  | .mk nt v cs ty, st => by
    rw [build_parameter_list_from_ast_of_unfold]
    by_cases he : nt = "EmptyParameterList"
    · simp only [if_pos he]
      exact rfl
    simp only [if_neg he]
    by_cases hd : nt = "ParameterDeclaration"
    · simp only [if_pos hd]
      cases cs with
      | nil => exact (by decide : Fault.undefined_behaviour ≠ Fault.out_of_fuel)
      | cons specifiers rest =>
        have hb := get_base_type_from_specifiers_ends specifiers st
        cases rest with
        | nil =>
          simp only
          cases hr : get_base_type_from_specifiers specifiers st with
          | error f => exact ends_in_scopes_error hb hr
          | ok p =>
            obtain ⟨t, st2⟩ := p
            exact ends_in_scopes_ok hb hr
        | cons declarator rest2 =>
          simp only
          cases hr : get_base_type_from_specifiers specifiers st with
          | error f => exact ends_in_scopes_error hb hr
          | ok p =>
            obtain ⟨t, st2⟩ := p
            simp only
            have hn := get_declarator_name_ends declarator
            cases hq : get_declarator_name declarator with
            | error f => exact ends_error hn hq
            | ok name =>
              simp only
              have ht := build_declarator_type_ends t declarator st2
              cases hu : build_declarator_type t declarator st2 with
              | error f => exact ends_in_scopes_error ht hu
              | ok q =>
                obtain ⟨full, st3⟩ := q
                show st3.scope_stack = st.scope_stack
                rw [ends_in_scopes_ok ht hu]
                exact ends_in_scopes_ok hb hr
    simp only [if_neg hd]
    by_cases hl : nt = "ParameterList"
    · simp only [if_pos hl]
      cases cs with
      | nil => exact (by decide : Fault.undefined_behaviour ≠ Fault.out_of_fuel)
      | cons c0 rest =>
        cases rest with
        | nil => exact (by decide : Fault.undefined_behaviour ≠ Fault.out_of_fuel)
        | cons c1 rest2 =>
          simp only
          have h0 := build_parameter_list_from_ast_ends c0 st
          cases hr : build_parameter_list_from_ast c0 st with
          | error f => exact ends_in_scopes_error h0 hr
          | ok p =>
            obtain ⟨head, st2⟩ := p
            simp only
            have h1 := build_parameter_list_from_ast_ends c1 st2
            cases hq : build_parameter_list_from_ast c1 st2 with
            | error f => exact ends_in_scopes_error h1 hq
            | ok q =>
              obtain ⟨new_param, st3⟩ := q
              show st3.scope_stack = st.scope_stack
              rw [ends_in_scopes_ok h1 hq]
              exact ends_in_scopes_ok h0 hr
    simp only [if_neg hl]
    exact rfl
theorem build_parameter_list_from_ast_ends :
    ∀ (n : Option ASTNode) (st : State), ends_in_scopes st (build_parameter_list_from_ast n st)
  | none, st => by
    rw [build_parameter_list_from_ast]
    exact rfl
  | some n, st => by
    rw [build_parameter_list_from_ast]
    exact build_parameter_list_from_ast_of_ends n st
end

theorem symbol_eta (p : Symbol) : Symbol.mk p.kind p.name p.type = p := by
  cases p; rfl

theorem add_parameters_to_scope_find (params : List Symbol) :
    ∀ (st : State) (cur : List Symbol) (outer : List (List Symbol)),
      st.scope_stack = cur :: outer →
      ∃ cur1, (add_parameters_to_scope params st).scope_stack = cur1 :: outer ∧
        ∀ name, find_in_scope name cur1 =
          match find_in_scope name cur with
          | some s => some s
          | none => parameter_named name params := by
  induction params with
  | nil =>
    intro st cur outer h
    refine ⟨cur, h, ?_⟩
    intro name
    cases find_in_scope name cur <;> rfl
  | cons p rest ih =>
    intro st cur outer h
    rw [add_parameters_to_scope]
    cases hf : find_in_scope p.name cur with
    | some s0 =>
      have hins : (insert_symbol p.name p.type p.kind st).scope_stack = cur :: outer := by
        simp [insert_symbol, h, hf]
      obtain ⟨cur1, h1, hfind⟩ := ih _ cur outer hins
      refine ⟨cur1, h1, ?_⟩
      intro name
      rw [hfind name]
      cases hn : find_in_scope name cur with
      | some s => rfl
      | none =>
        have hne : ¬ p.name = name := by
          intro e
          rw [e, hn] at hf
          cases hf
        simp [parameter_named, List.find?, hne]
    | none =>
      have hins : (insert_symbol p.name p.type p.kind st).scope_stack = (p :: cur) :: outer := by
        simp [insert_symbol, h, hf, symbol_eta]
      obtain ⟨cur1, h1, hfind⟩ := ih _ (p :: cur) outer hins
      refine ⟨cur1, h1, ?_⟩
      intro name
      rw [hfind name]
      by_cases hne : p.name = name
      · have hn : find_in_scope name cur = none := by rw [← hne]; exact hf
        simp [find_in_scope, hne, hn, parameter_named, List.find?]
      · cases hn : find_in_scope name cur with
        | some s => simp [find_in_scope, hne, hn]
        | none => simp [find_in_scope, hne, hn, parameter_named, List.find?]

theorem node_height_mk (nt : String) (v : Option String) (cs : List (Option ASTNode))
    (ty : Option CType) : node_height (some (.mk nt v cs ty)) = children_height cs + 1 := by
  simp [node_height, ASTNode.height]

theorem children_height_cons (c : Option ASTNode) (cs : List (Option ASTNode)) :
    children_height (c :: cs) = max (node_height c) (children_height cs) := by
  cases c with
  | none => simp [children_height, node_height]
  | some n => simp [children_height, node_height]

theorem find_member_ends (m : String) (members : List StructMember) :
    ends (find_member m members) := by
  induction members with
  | nil => trivial
  | cons x rest ih =>
    simp only [find_member]
    split
    · exact (by decide : Fault.undefined_behaviour ≠ Fault.out_of_fuel)
    · split
      · trivial
      · exact ih

theorem get_struct_member_ends (t : Option CType) (m : String) :
    ends (get_struct_member t m) := by
  unfold get_struct_member
  split
  · exact find_member_ends _ _
  · exact find_member_ends _ _
  · trivial

theorem check_member_ends (t : CType) (v : Option String) (st : State) :
    ends_in_scopes st (check_member t v st) := by
  unfold check_member
  split
  · split
    · exact rfl
    · exact rfl
    · exact (by decide : Fault.undefined_behaviour ≠ Fault.out_of_fuel)
  · rename_i name
    have hm := get_struct_member_ends (some t) name
    split
    · rename_i f hr
      exact ends_error hm hr
    · exact rfl
    · exact rfl

theorem check_arguments_ends (callee : Option String) (args : List (Option ASTNode)) :
    ∀ (k : Int) (ps : List Symbol) (st : State),
      ends_in_scopes st (check_arguments callee args k ps st) := by
  induction args with
  | nil =>
    intro k ps st
    simp only [check_arguments]
    exact (by decide : Fault.undefined_behaviour ≠ Fault.out_of_fuel)
  | cons a rest ih =>
    intro k ps st
    cases a with
    | none =>
      simp only [check_arguments]
      exact (by decide : Fault.undefined_behaviour ≠ Fault.out_of_fuel)
    | some current_arg =>
      cases ps with
      | nil =>
        simp only [check_arguments]
        exact rfl
      | cons p ps1 =>
        simp only [check_arguments]
        split
        · rename_i f hchecked
          split at hchecked
          · cases hchecked
          · split at hchecked
            · cases hchecked
            · cases hchecked
              exact (by decide : Fault.undefined_behaviour ≠ Fault.out_of_fuel)
        · rename_i st2 hchecked
          have hs2 : st2.scope_stack = st.scope_stack := by
            split at hchecked
            · cases hchecked; rfl
            · split at hchecked
              · cases hchecked; rfl
              · cases hchecked
          cases rest with
          | nil => exact hs2
          | cons a2 rest2 =>
            simp only
            have hi := ih (k + 1) ps1 st2
            cases hr : check_arguments callee (a2 :: rest2) (k + 1) ps1 st2 with
            | error f => exact ends_in_scopes_error hi hr
            | ok q =>
              obtain ⟨r, st3⟩ := q
              show st3.scope_stack = st.scope_stack
              rw [ends_in_scopes_ok hi hr, hs2]

theorem check_function_call_ends (cs : List (Option ASTNode)) (ty : Option CType)
    (st : State) : ends_in_scopes st (check_function_call cs ty st) := by
  unfold check_function_call
  split
  · exact (by decide : Fault.undefined_behaviour ≠ Fault.out_of_fuel)
  · exact (by decide : Fault.undefined_behaviour ≠ Fault.out_of_fuel)
  · rename_i func_ident rest
    have hl := lookup_symbol_ptr_ends func_ident.value st
    split
    · rename_i f hr
      exact ends_error hl hr
    · exact rfl
    · split
      · exact rfl
      · split
        · rename_i rt params hty
          simp only
          split
          · rename_i f hm
            split at hm
            · cases hm
            · split at hm
              · exact ends_in_scopes_error (check_arguments_ends _ _ _ _ _) hm
              · split at hm
                · cases hm
                  exact (by decide : Fault.undefined_behaviour ≠ Fault.out_of_fuel)
                · split at hm
                  · cases hm
                  · cases hm
          · rename_i st2 hm
            show st2.scope_stack = st.scope_stack
            split at hm
            · cases hm; rfl
            · split at hm
              · exact ends_in_scopes_ok (check_arguments_ends _ _ _ _ _) hm
              · split at hm
                · cases hm
                · split at hm
                  · cases hm; rfl
                  · cases hm; rfl
          · rename_i p ps st2 hm
            show st2.scope_stack = st.scope_stack
            split at hm
            · cases hm; rfl
            · split at hm
              · exact ends_in_scopes_ok (check_arguments_ends _ _ _ _ _) hm
              · split at hm
                · cases hm
                · split at hm
                  · cases hm; rfl
                  · cases hm; rfl
        · exact (by decide : Fault.undefined_behaviour ≠ Fault.out_of_fuel)

theorem check_array_bounds_ends (a : Option ASTNode) (text : Option String) (size : Int)
    (st : State) :
    match check_array_bounds a text size st with
    | .error f => f ≠ .out_of_fuel
    | .ok st1 => st1.scope_stack = st.scope_stack := by
  unfold check_array_bounds
  cases text with
  | none => simp
  | some t =>
    simp only
    by_cases hb : atoi t < 0 ∨ atoi t ≥ size
    · simp only [if_pos hb]
      have hn := get_declarator_name_ends a
      cases hr : get_declarator_name a with
      | error f => exact ends_error hn hr
      | ok name => simp [State.report]
    · simp only [if_neg hb]

theorem keeps_node {nt : String} {v : Option String} {ty ty1 : Option CType}
    {cs cs1 : List (Option ASTNode)} {st st1 : State}
    (hh : children_height cs1 = children_height cs)
    (hs : st1.scope_stack = st.scope_stack) :
    keeps_scopes node_height (some (.mk nt v cs ty)) st (.ok (some (.mk nt v cs1 ty1), st1)) :=
  ⟨by simp [node_height_mk, hh], hs⟩

theorem keeps_fault {α : Type} {height : α → Nat} {a : α} {st : State} {f : Fault}
    (hf : f ≠ .out_of_fuel) : keeps_scopes height a st (.error f) := hf

theorem children_height_head {c c1 : Option ASTNode} (rest : List (Option ASTNode))
    (h : node_height c1 = node_height c) :
    children_height (c1 :: rest) = children_height (c :: rest) := by
  simp [children_height_cons, h]

theorem children_height_two {c d c1 d1 : Option ASTNode} (rest : List (Option ASTNode))
    (h : node_height c1 = node_height c) (h1 : node_height d1 = node_height d) :
    children_height (c1 :: d1 :: rest) = children_height (c :: d :: rest) := by
  simp [children_height_cons, h, h1]

theorem children_height_bound {c : Option ASTNode} {rest : List (Option ASTNode)} {k : Nat}
    (h : children_height (c :: rest) ≤ k) : node_height c ≤ k ∧ children_height rest ≤ k := by
  rw [children_height_cons] at h
  exact ⟨le_trans (le_max_left _ _) h, le_trans (le_max_right _ _) h⟩

theorem check_children_keeps (k : Nat) (check : Checker) (h : Checker.KeepsScopes k check)
    (cs : List (Option ASTNode)) :
    ∀ st, children_height cs ≤ k → st.scope_stack ≠ [] →
      keeps_scopes children_height cs st (check_children check cs st) := by
  induction cs with
  | nil => intro st _ _; exact ⟨rfl, rfl⟩
  | cons c cs ih =>
    intro st hcs hst
    obtain ⟨hb, hbs⟩ := children_height_bound hcs
    have h0 := h c st hb hst
    simp only [check_children]
    cases hc : check c st with
    | error f => rw [hc] at h0; exact h0
    | ok p =>
      obtain ⟨c1, st1⟩ := p
      rw [hc] at h0
      obtain ⟨hh, hs⟩ := h0
      have h1 := ih st1 hbs (by rw [hs]; exact hst)
      simp only
      cases hr : check_children check cs st1 with
      | error f => rw [hr] at h1; exact h1
      | ok q =>
        obtain ⟨cs1, st2⟩ := q
        rw [hr] at h1
        obtain ⟨hh1, hs1⟩ := h1
        exact ⟨by simp [children_height_cons, hh, hh1], by rw [hs1, hs]⟩

theorem check_identifier_keeps (nt : String) (v : Option String) (cs : List (Option ASTNode))
    (ty : Option CType) (st : State) :
    keeps_scopes node_height (some (.mk nt v cs ty)) st (check_identifier nt v cs ty st) := by
  unfold check_identifier
  have hl := lookup_symbol_ptr_ends v st
  split
  · rename_i f hr
    exact keeps_fault (ends_error hl hr)
  · exact keeps_node rfl rfl
  · exact keeps_node rfl rfl

theorem check_member_access_keeps (k : Nat) (check : Checker)
    (h : Checker.KeepsScopes k check) (nt : String) (v : Option String)
    (cs : List (Option ASTNode)) (ty : Option CType) (st : State)
    (hcs : children_height cs ≤ k) (hst : st.scope_stack ≠ []) :
    keeps_scopes node_height (some (.mk nt v cs ty)) st
      (check_member_access check nt v cs ty st) := by
  unfold check_member_access
  cases cs with
  | nil => exact keeps_fault (by decide)
  | cons c0 rest =>
    obtain ⟨hb, _⟩ := children_height_bound hcs
    have h0 := h c0 st hb hst
    simp only
    cases hc : check c0 st with
    | error f => rw [hc] at h0; exact keeps_fault h0
    | ok p =>
      obtain ⟨c1, st1⟩ := p
      rw [hc] at h0
      obtain ⟨hh, hs⟩ := h0
      cases c1 with
      | none => exact keeps_fault (by decide)
      | some struct_node =>
        simp only
        split
        · exact keeps_node (children_height_head rest hh) hs
        · rename_i t ht
          split
          · exact keeps_node (children_height_head rest hh) hs
          · have hm := check_member_ends t v st1
            split
            · rename_i f hr
              exact keeps_fault (ends_in_scopes_error hm hr)
            · rename_i mt st2 hr
              exact keeps_node (children_height_head rest hh)
                (by rw [ends_in_scopes_ok hm hr, hs])
            · rename_i st2 hr
              exact keeps_node (children_height_head rest hh)
                (by rw [ends_in_scopes_ok hm hr, hs])

theorem check_pointer_member_access_keeps (k : Nat) (check : Checker)
    (h : Checker.KeepsScopes k check) (nt : String) (v : Option String)
    (cs : List (Option ASTNode)) (ty : Option CType) (st : State)
    (hcs : children_height cs ≤ k) (hst : st.scope_stack ≠ []) :
    keeps_scopes node_height (some (.mk nt v cs ty)) st
      (check_pointer_member_access check nt v cs ty st) := by
  unfold check_pointer_member_access
  cases cs with
  | nil => exact keeps_fault (by decide)
  | cons c0 rest =>
    obtain ⟨hb, _⟩ := children_height_bound hcs
    have h0 := h c0 st hb hst
    simp only
    cases hc : check c0 st with
    | error f => rw [hc] at h0; exact keeps_fault h0
    | ok p =>
      obtain ⟨c1, st1⟩ := p
      rw [hc] at h0
      obtain ⟨hh, hs⟩ := h0
      cases c1 with
      | none => exact keeps_fault (by decide)
      | some ptr_node =>
        simp only
        split
        · exact keeps_node (children_height_head rest hh) hs
        · exact keeps_fault (by decide)
        · rename_i size struct_type ht
          split
          · exact keeps_node (children_height_head rest hh) hs
          · have hm := check_member_ends struct_type v st1
            split
            · rename_i f hr
              exact keeps_fault (ends_in_scopes_error hm hr)
            · rename_i mt st2 hr
              exact keeps_node (children_height_head rest hh)
                (by rw [ends_in_scopes_ok hm hr, hs])
            · rename_i st2 hr
              exact keeps_node (children_height_head rest hh)
                (by rw [ends_in_scopes_ok hm hr, hs])
        · exact keeps_node (children_height_head rest hh) hs

theorem check_assignment_keeps (k : Nat) (check : Checker)
    (h : Checker.KeepsScopes k check) (nt : String) (v : Option String)
    (cs : List (Option ASTNode)) (ty : Option CType) (st : State)
    (hcs : children_height cs ≤ k) (hst : st.scope_stack ≠ []) :
    keeps_scopes node_height (some (.mk nt v cs ty)) st
      (check_assignment check nt v cs st) := by
  unfold check_assignment
  cases cs with
  | nil => exact keeps_fault (by decide)
  | cons c0 rest0 =>
    cases rest0 with
    | nil => exact keeps_fault (by decide)
    | cons c1 rest =>
      obtain ⟨hb0, hbr⟩ := children_height_bound hcs
      obtain ⟨hb1, _⟩ := children_height_bound hbr
      have h0 := h c0 st hb0 hst
      simp only
      cases hc : check c0 st with
      | error f => rw [hc] at h0; exact keeps_fault h0
      | ok p =>
        obtain ⟨lhs, st1⟩ := p
        rw [hc] at h0
        obtain ⟨hh0, hs0⟩ := h0
        have h1 := h c1 st1 hb1 (by rw [hs0]; exact hst)
        simp only
        cases hd : check c1 st1 with
        | error f => rw [hd] at h1; exact keeps_fault h1
        | ok q =>
          obtain ⟨rhs, st2⟩ := q
          rw [hd] at h1
          obtain ⟨hh1, hs1⟩ := h1
          have hs2 : st2.scope_stack = st.scope_stack := by rw [hs1, hs0]
          simp only
          cases lhs with
          | none => exact keeps_fault (by decide)
          | some l =>
            simp only
            split
            · exact keeps_node (children_height_two rest hh0 hh1) hs2
            · cases rhs with
              | none => exact keeps_fault (by decide)
              | some r =>
                simp only
                split
                · have hn := get_declarator_name_ends (some l)
                  split
                  · rename_i f hr
                    exact keeps_fault (ends_error hn hr)
                  · exact keeps_node (children_height_two rest hh0 hh1) hs2
                · exact keeps_node (children_height_two rest hh0 hh1) hs2

theorem check_binary_op_keeps (nt : String) (v : Option String) (cs : List (Option ASTNode))
    (ty : Option CType) (st : State) :
    keeps_scopes node_height (some (.mk nt v cs ty)) st (check_binary_op nt v cs ty st) := by
  unfold check_binary_op
  split
  · exact keeps_fault (by decide)
  · split
    · exact keeps_node rfl rfl
    · split
      · exact keeps_fault (by decide)
      · split
        · exact keeps_node rfl rfl
        · split
          · exact keeps_fault (by decide)
          · refine keeps_node rfl ?_
            split <;> rfl
  · exact keeps_fault (by decide)

theorem check_array_access_keeps (k : Nat) (check : Checker)
    (h : Checker.KeepsScopes k check) (nt : String) (v : Option String)
    (cs : List (Option ASTNode)) (ty : Option CType) (st : State)
    (hcs : children_height cs ≤ k) (hst : st.scope_stack ≠ []) :
    keeps_scopes node_height (some (.mk nt v cs ty)) st
      (check_array_access check nt v cs ty st) := by
  unfold check_array_access
  cases cs with
  | nil => exact keeps_fault (by decide)
  | cons c0 rest0 =>
    cases rest0 with
    | nil => exact keeps_fault (by decide)
    | cons c1 rest =>
      obtain ⟨hb0, hbr⟩ := children_height_bound hcs
      obtain ⟨hb1, _⟩ := children_height_bound hbr
      have h0 := h c0 st hb0 hst
      simp only
      cases hc : check c0 st with
      | error f => rw [hc] at h0; exact keeps_fault h0
      | ok p =>
        obtain ⟨array_node, st1⟩ := p
        rw [hc] at h0
        obtain ⟨hh0, hs0⟩ := h0
        have h1 := h c1 st1 hb1 (by rw [hs0]; exact hst)
        simp only
        cases hd : check c1 st1 with
        | error f => rw [hd] at h1; exact keeps_fault h1
        | ok q =>
          obtain ⟨index_node, st2⟩ := q
          rw [hd] at h1
          obtain ⟨hh1, hs1⟩ := h1
          have hs2 : st2.scope_stack = st.scope_stack := by rw [hs1, hs0]
          simp only
          cases array_node with
          | none => exact keeps_fault (by decide)
          | some a =>
            simp only
            split
            · rename_i size element_type array_size hty
              cases index_node with
              | none => exact keeps_fault (by decide)
              | some i =>
                simp only
                split
                · have hbd := check_array_bounds_ends (some a) i.value array_size st2
                  split
                  · rename_i f hr
                    rw [hr] at hbd
                    exact keeps_fault hbd
                  · rename_i st3 hr
                    rw [hr] at hbd
                    exact keeps_node (children_height_two rest hh0 hh1) (by rw [hbd, hs2])
                · exact keeps_node (children_height_two rest hh0 hh1) hs2
            · exact keeps_node (children_height_two rest hh0 hh1) hs2

theorem check_switch_expression_keeps (k : Nat) (check : Checker)
    (h : Checker.KeepsScopes k check) (cs : List (Option ASTNode)) (st : State)
    (hcs : children_height cs ≤ k) (hst : st.scope_stack ≠ []) :
    keeps_scopes children_height cs st (check_switch_expression check cs st) := by
  unfold check_switch_expression
  cases cs with
  | nil => exact keeps_fault (by decide)
  | cons c0 rest =>
    obtain ⟨hb, _⟩ := children_height_bound hcs
    have h0 := h c0 st hb hst
    simp only
    cases hc : check c0 st with
    | error f => rw [hc] at h0; exact keeps_fault h0
    | ok p =>
      obtain ⟨c1, st1⟩ := p
      rw [hc] at h0
      obtain ⟨hh, hs⟩ := h0
      cases c1 with
      | none => exact keeps_fault (by decide)
      | some e =>
        simp only
        split
        · split
          · exact ⟨children_height_head rest hh, hs⟩
          · exact ⟨children_height_head rest hh, hs⟩
        · exact ⟨children_height_head rest hh, hs⟩

theorem check_case_expression_keeps (k : Nat) (check : Checker)
    (h : Checker.KeepsScopes k check) (cs : List (Option ASTNode)) (st : State)
    (hcs : children_height cs ≤ k) (hst : st.scope_stack ≠ []) :
    keeps_scopes children_height cs st (check_case_expression check cs st) := by
  unfold check_case_expression
  cases cs with
  | nil => exact keeps_fault (by decide)
  | cons c0 rest =>
    obtain ⟨hb, _⟩ := children_height_bound hcs
    have h0 := h c0 st hb hst
    simp only
    cases hc : check c0 st with
    | error f => rw [hc] at h0; exact keeps_fault h0
    | ok p =>
      obtain ⟨c1, st1⟩ := p
      rw [hc] at h0
      obtain ⟨hh, hs⟩ := h0
      cases c1 with
      | none => exact keeps_fault (by decide)
      | some e =>
        simp only
        split
        · exact ⟨children_height_head rest hh, hs⟩
        · exact ⟨children_height_head rest hh, hs⟩

theorem leave_scope_cons (st : State) (cur : List Symbol) (outer : List (List Symbol))
    (h : st.scope_stack = cur :: outer) (ho : outer ≠ []) :
    (leave_scope st).scope_stack = outer := by
  unfold leave_scope
  have hlevel : st.current_scope_level > 0 := by
    cases outer with
    | nil => exact absurd rfl ho
    | cons o os =>
      simp only [State.current_scope_level, h, List.length_cons]
      push_cast
      omega
  rw [if_pos hlevel]
  simp [h]

theorem enter_scope_cases (st : State) :
    enter_scope st = .error .exit_failure ∨
      enter_scope st = .ok { st with scope_stack := [] :: st.scope_stack } := by
  unfold enter_scope
  split
  · exact Or.inr rfl
  · exact Or.inl rfl

theorem check_function_definition_keeps (k : Nat) (check : Checker)
    (h : Checker.KeepsScopes k check) (nt : String) (v : Option String)
    (cs : List (Option ASTNode)) (ty : Option CType) (st : State)
    (hcs : children_height cs ≤ k) (hst : st.scope_stack ≠ []) :
    keeps_scopes node_height (some (.mk nt v cs ty)) st
      (check_function_definition check nt v cs ty st) := by
  unfold check_function_definition
  rcases enter_scope_cases st with he | he
  · rw [he]
    exact keeps_fault (by decide)
  rw [he]
  simp only
  cases cs with
  | nil => exact keeps_fault (by decide)
  | cons c0 rest0 =>
    cases rest0 with
    | nil => exact keeps_fault (by decide)
    | cons declarator rest2 =>
      simp only
      have hp := build_parameter_list_from_ast_ends (get_function_parameters_node declarator)
        { st with scope_stack := [] :: st.scope_stack }
      cases hr : build_parameter_list_from_ast (get_function_parameters_node declarator)
          { st with scope_stack := [] :: st.scope_stack } with
      | error f => exact keeps_fault (ends_in_scopes_error hp hr)
      | ok p =>
        obtain ⟨params_list, st2⟩ := p
        have hs2 : st2.scope_stack = [] :: st.scope_stack := ends_in_scopes_ok hp hr
        simp only
        cases rest2 with
        | nil => exact keeps_fault (by decide)
        | cons body rest3 =>
          obtain ⟨_, hbr⟩ := children_height_bound hcs
          obtain ⟨_, hbr2⟩ := children_height_bound hbr
          obtain ⟨hbody, _⟩ := children_height_bound hbr2
          obtain ⟨cur1, hadd, _⟩ := add_parameters_to_scope_find params_list st2 []
            st.scope_stack hs2
          have h0 := h body (add_parameters_to_scope params_list st2) hbody
            (by rw [hadd]; simp)
          simp only
          cases hc : check body (add_parameters_to_scope params_list st2) with
          | error f => rw [hc] at h0; exact keeps_fault h0
          | ok q =>
            obtain ⟨body1, st3⟩ := q
            rw [hc] at h0
            obtain ⟨hh, hs⟩ := h0
            refine keeps_node ?_ ?_
            · simp [children_height_cons, hh]
            · exact leave_scope_cons st3 cur1 st.scope_stack (by rw [hs, hadd]) hst

theorem check_branches_keeps (k : Nat) (check : Checker)
    (h : Checker.KeepsScopes k check) (nt : String) (v : Option String)
    (cs : List (Option ASTNode)) (ty : Option CType) (st : State)
    (hcs : children_height cs ≤ k) (hst : st.scope_stack ≠ []) :
    keeps_scopes node_height (some (.mk nt v cs ty)) st
      (check_branches check nt v cs ty st) := by
  unfold check_branches
  by_cases h1 : nt = "Identifier"
  · simp only [if_pos h1]
    exact check_identifier_keeps nt v cs ty st
  simp only [if_neg h1]
  by_cases h2 : nt = "IntConstant"
  · simp only [if_pos h2]
    exact keeps_node rfl rfl
  simp only [if_neg h2]
  by_cases h3 : nt = "FloatConstant"
  · simp only [if_pos h3]
    exact keeps_node rfl rfl
  simp only [if_neg h3]
  by_cases h4 : nt = "CharConstant"
  · simp only [if_pos h4]
    exact keeps_node rfl rfl
  simp only [if_neg h4]
  by_cases h5 : nt = "MemberAccess"
  · simp only [if_pos h5]
    exact check_member_access_keeps k check h nt v cs ty st hcs hst
  simp only [if_neg h5]
  by_cases h6 : nt = "Assignment"
  · simp only [if_pos h6]
    exact check_assignment_keeps k check h nt v cs ty st hcs hst
  simp only [if_neg h6]
  by_cases h7 : nt = "BinaryOp"
  · simp only [if_pos h7]
    exact check_binary_op_keeps nt v cs ty st
  simp only [if_neg h7]
  by_cases h8 : nt = "FunctionCall"
  · simp only [if_pos h8]
    have hf := check_function_call_ends cs ty st
    cases hr : check_function_call cs ty st with
    | error f => exact keeps_fault (ends_in_scopes_error hf hr)
    | ok p =>
      obtain ⟨ty1, st1⟩ := p
      exact keeps_node rfl (ends_in_scopes_ok hf hr)
  simp only [if_neg h8]
  by_cases h9 : nt = "ArrayAccess"
  · simp only [if_pos h9]
    exact check_array_access_keeps k check h nt v cs ty st hcs hst
  simp only [if_neg h9]
  by_cases h10 : nt = "PointerMemberAccess"
  · simp only [if_pos h10]
    exact check_pointer_member_access_keeps k check h nt v cs ty st hcs hst
  simp only [if_neg h10]
  by_cases h11 : nt = "SwitchStatement"
  · simp only [if_pos h11]
    exact keeps_node rfl rfl
  simp only [if_neg h11]
  have hc := check_children_keeps k check h cs st hcs hst
  cases hr : check_children check cs st with
  | error f => rw [hr] at hc; exact keeps_fault hc
  | ok p =>
    obtain ⟨cs1, st1⟩ := p
    rw [hr] at hc
    obtain ⟨hh, hs⟩ := hc
    exact keeps_node hh hs

theorem keeps_scopes_of_node {nt : String} {v : Option String} {ty : Option CType}
    {cs cs1 : List (Option ASTNode)} {st st1 : State}
    {x : Except Fault (Option ASTNode × State)}
    (hx : keeps_scopes node_height (some (.mk nt v cs1 ty)) st1 x)
    (hh : children_height cs1 = children_height cs)
    (hs : st1.scope_stack = st.scope_stack) :
    keeps_scopes node_height (some (.mk nt v cs ty)) st x := by
  cases x with
  | error f => exact hx
  | ok p =>
    obtain ⟨n1, st2⟩ := p
    obtain ⟨h1, h2⟩ := hx
    exact ⟨by rw [h1]; simp [node_height_mk, hh], by rw [h2, hs]⟩

theorem check_node_keeps (k : Nat) (check : Checker)
    (h : Checker.KeepsScopes k check) (nt : String) (v : Option String)
    (cs : List (Option ASTNode)) (ty : Option CType) (st : State)
    (hcs : children_height cs ≤ k) (hst : st.scope_stack ≠ []) :
    keeps_scopes node_height (some (.mk nt v cs ty)) st (check_node check nt v cs ty st) := by
  unfold check_node
  by_cases hfd : nt = "FunctionDefinition"
  · simp only [if_pos hfd]
    exact check_function_definition_keeps k check h nt v cs ty st hcs hst
  simp only [if_neg hfd]
  have hpre : keeps_scopes children_height cs st
      (if nt = "SwitchStatement" then check_switch_expression check cs st else .ok (cs, st)) := by
    split
    · exact check_switch_expression_keeps k check h cs st hcs hst
    · exact ⟨rfl, rfl⟩
  cases hr : (if nt = "SwitchStatement" then check_switch_expression check cs st
      else .ok (cs, st)) with
  | error f => rw [hr] at hpre; exact keeps_fault hpre
  | ok p =>
    obtain ⟨cs1, st1⟩ := p
    rw [hr] at hpre
    obtain ⟨hh1, hs1⟩ := hpre
    have hcs1 : children_height cs1 ≤ k := by rw [hh1]; exact hcs
    have hst1 : st1.scope_stack ≠ [] := by rw [hs1]; exact hst
    simp only
    have hpre2 : keeps_scopes children_height cs1 st1
        (if nt = "CaseStatement" then check_case_expression check cs1 st1
          else .ok (cs1, st1)) := by
      split
      · exact check_case_expression_keeps k check h cs1 st1 hcs1 hst1
      · exact ⟨rfl, rfl⟩
    cases hr2 : (if nt = "CaseStatement" then check_case_expression check cs1 st1
        else .ok (cs1, st1)) with
    | error f => rw [hr2] at hpre2; exact keeps_fault hpre2
    | ok q =>
      obtain ⟨cs2, st2⟩ := q
      rw [hr2] at hpre2
      obtain ⟨hh2, hs2⟩ := hpre2
      simp only
      exact keeps_scopes_of_node
        (check_branches_keeps k check h nt v cs2 ty st2 (by rw [hh2]; exact hcs1)
          (by rw [hs2]; exact hst1))
        (by rw [hh2, hh1]) (by rw [hs2, hs1])

theorem check_semantics_fuel_keeps (k : Nat) :
    Checker.KeepsScopes k (check_semantics_fuel k) := by
  induction k with
  | zero =>
    intro n st hn _
    cases n with
    | none => exact ⟨rfl, rfl⟩
    | some node =>
      cases node with
      | mk nt v cs ty => simp [node_height_mk] at hn
  | succ k ih =>
    intro n st hn hst
    cases n with
    | none => exact ⟨rfl, rfl⟩
    | some node =>
      cases node with
      | mk nt v cs ty =>
        rw [check_semantics_fuel]
        rw [node_height_mk] at hn
        exact check_node_keeps k _ ih nt v cs ty st (by omega) hst

theorem check_semantics_fuel_ends (n : Option ASTNode) (st : State)
    (hst : st.scope_stack ≠ []) :
    check_semantics_fuel (node_height n) n st ≠ .error .out_of_fuel := by
  have h := check_semantics_fuel_keeps (node_height n) n st (le_refl _) hst
  intro e
  rw [e] at h
  exact h rfl

theorem check_semantics_fuel_at_height (fuel : Nat) (n : Option ASTNode) (st : State)
    (r : Option ASTNode × State) (hst : st.scope_stack ≠ [])
    (h : check_semantics_fuel fuel n st = .ok r) :
    check_semantics_fuel (node_height n) n st = .ok r := by
  have h1 := check_semantics_fuel_mono (node_height n) fuel n st
    (check_semantics_fuel_ends n st hst)
  have h2 := check_semantics_fuel_mono fuel (node_height n) n st (by rw [h]; simp)
  rw [Nat.add_comm] at h2
  rw [← h1, h2, h]

theorem check_semantics_fuel_scopes (fuel : Nat) (n : Option ASTNode) (st : State)
    (r : Option ASTNode × State) (hst : st.scope_stack ≠ [])
    (h : check_semantics_fuel fuel n st = .ok r) :
    node_height r.1 = node_height n ∧ r.2.scope_stack = st.scope_stack := by
  have hk := check_semantics_fuel_keeps (node_height n) n st (le_refl _) hst
  rw [check_semantics_fuel_at_height fuel n st r hst h] at hk
  exact hk

theorem add_parameters_to_scope_distinct (params : List Symbol) :
    ∀ (st : State) (cur : List Symbol) (outer : List (List Symbol)),
      st.scope_stack = cur :: outer →
      (∀ p ∈ params, find_in_scope p.name cur = none) →
      (params.map Symbol.name).Nodup →
      (add_parameters_to_scope params st).scope_stack = (params.reverse ++ cur) :: outer := by
  induction params with
  | nil => intro st cur outer h _ _; simpa using h
  | cons p rest ih =>
    intro st cur outer h hfree hnodup
    rw [add_parameters_to_scope]
    have hf : find_in_scope p.name cur = none := hfree p (List.mem_cons_self _ _)
    have hins : (insert_symbol p.name p.type p.kind st).scope_stack = (p :: cur) :: outer := by
      simp [insert_symbol, h, hf, symbol_eta]
    rw [List.map_cons, List.nodup_cons] at hnodup
    rw [ih _ (p :: cur) outer hins ?_ hnodup.2]
    · simp
    · intro q hq
      have hne : ¬ p.name = q.name := by
        intro e
        exact hnodup.1 (List.mem_map.2 ⟨q, hq, e.symm⟩)
      simp [find_in_scope, hne, hfree q (List.mem_cons_of_mem _ hq)]

theorem lookup_symbol_of_scopes (name : String) (st st1 : State)
    (h : st1.scope_stack = st.scope_stack) : lookup_symbol name st1 = lookup_symbol name st := by
  simp only [lookup_symbol, h]

/-- C22: in an initialised table `check_semantics` comes to an end on every
tree within a budget of the height of the tree, and whenever it returns, the
scope stack is the one it started with: the same depth, the same symbol behind
every name.  On a `FunctionDefinition` below the depth bound it opens one
scope, inserts the parameters `build_parameter_list_from_ast` lists, all of
kind variable and the parameters of a `ParameterList` after those of the list
to its left, in this order: the new scope holds them, and a name is looked up
as the first parameter of that name, else as before the call, so that an
`Identifier` node naming a parameter is annotated with the type of the
parameter.  The body is checked in this state and the scope is left
afterwards. -/
theorem function_definition_scope (st : State) (hinit : st.scope_stack ≠ []) :
    (∀ node, check_semantics_fuel (node_height node) node st ≠ .error .out_of_fuel) ∧
    (∀ fuel node r, check_semantics_fuel fuel node st = .ok r →
      r.2.scope_stack = st.scope_stack ∧
      r.2.current_scope_level = st.current_scope_level ∧
      ∀ name, lookup_symbol name r.2 = lookup_symbol name st) ∧
    (∀ (v : Option String) (c0 declarator body : Option ASTNode)
      (rest : List (Option ASTNode)) (ty : Option CType) (params : List Symbol) (st2 : State),
      st.current_scope_level < MAX_SCOPE_DEPTH - 1 →
      build_parameter_list_from_ast (get_function_parameters_node declarator)
        { st with scope_stack := [] :: st.scope_stack } = .ok (params, st2) →
      (∀ p ∈ params, p.kind = .SYM_VARIABLE) ∧
      (∃ scope, (add_parameters_to_scope params st2).scope_stack = scope :: st.scope_stack ∧
        ((params.map Symbol.name).Nodup → scope = params.reverse)) ∧
      (∀ name, lookup_symbol name (add_parameters_to_scope params st2) =
        match parameter_named name params with
        | some p => some p
        | none => lookup_symbol name st) ∧
      (∀ name p, parameter_named name params = some p →
        ∀ (fuel : Nat) (cs : List (Option ASTNode)) (ity : Option CType),
          check_semantics_fuel (fuel + 1) (some (.mk "Identifier" (some name) cs ity))
              (add_parameters_to_scope params st2) =
            .ok (some (.mk "Identifier" (some name) cs p.type),
              add_parameters_to_scope params st2)) ∧
      (∀ fuel : Nat,
        check_semantics_fuel (fuel + 1)
            (some (.mk "FunctionDefinition" v (c0 :: declarator :: body :: rest) ty)) st =
          match check_semantics_fuel fuel body (add_parameters_to_scope params st2) with
          | .error f => .error f
          | .ok (body1, st3) =>
            .ok (some (.mk "FunctionDefinition" v (c0 :: declarator :: body1 :: rest) ty),
              leave_scope st3))) ∧
    (∀ (v : Option String) (c0 c1 : Option ASTNode) (rest : List (Option ASTNode))
      (ty : Option CType) (s0 s1 s2 : State) (left right : List Symbol),
      build_parameter_list_from_ast c0 s0 = .ok (left, s1) →
      build_parameter_list_from_ast c1 s1 = .ok (right, s2) →
      build_parameter_list_from_ast (some (.mk "ParameterList" v (c0 :: c1 :: rest) ty)) s0 =
        .ok (left ++ right, s2)) := by
  refine ⟨fun node => check_semantics_fuel_ends node st hinit, ?_, ?_, ?_⟩
  · intro fuel node r h
    have hs := (check_semantics_fuel_scopes fuel node st r hinit h).2
    exact ⟨hs, by simp only [State.current_scope_level, hs],
      fun name => lookup_symbol_of_scopes name st r.2 hs⟩
  · intro v c0 declarator body rest ty params st2 hbound hbuild
    have hs2 : st2.scope_stack = [] :: st.scope_stack :=
      ends_in_scopes_ok (build_parameter_list_from_ast_ends _ _) hbuild
    obtain ⟨scope, hscope, hfind⟩ := add_parameters_to_scope_find params st2 []
      st.scope_stack hs2
    have hlookup : ∀ name, lookup_symbol name (add_parameters_to_scope params st2) =
        match parameter_named name params with
        | some p => some p
        | none => lookup_symbol name st := by
      intro name
      simp only [lookup_symbol, hscope, lookup_in_scopes, hfind name, find_in_scope]
    refine ⟨build_parameter_list_from_ast_kinds _ _ _ _ hbuild, ⟨scope, hscope, ?_⟩, hlookup,
      ?_, ?_⟩
    · intro hnodup
      have hd := add_parameters_to_scope_distinct params st2 [] st.scope_stack hs2
        (fun _ _ => rfl) hnodup
      rw [hscope, List.append_nil] at hd
      exact (List.cons.inj hd).1
    · intro name p hp fuel cs ity
      have hl := hlookup name
      rw [hp] at hl
      simp [check_semantics_fuel, check_node, check_branches, check_identifier,
        lookup_symbol_ptr, hl]
    · intro fuel
      simp only [check_semantics_fuel, check_node, if_true, check_function_definition,
        enter_scope, if_pos hbound, hbuild]
  · intro v c0 c1 rest ty s0 s1 s2 left right h0 h1
    rw [build_parameter_list_from_ast, build_parameter_list_from_ast_of_unfold]
    simp [h0, h1]

/-- Witness for C22: `int f(int c, char d) { c; d; }` checked in a table with
a global `double c`: the two identifiers of the body receive the types of the
parameters, and the table afterwards is the table before. -/
theorem function_definition_scope_witness :
    check_semantics_fuel 6 shadowing_function shadowing_scope =
      .ok (shadowing_function_checked, shadowing_scope) ∧
    (∀ name, lookup_symbol name
        (shadowing_function_checked, shadowing_scope).2 = lookup_symbol name shadowing_scope) ∧
    lookup_symbol "c" shadowing_scope
      = some (Symbol.mk .SYM_VARIABLE "c" (some (create_base_type "double"))) :=
  ⟨rfl,
   ((function_definition_scope shadowing_scope (by simp [shadowing_scope])).2.1 6 shadowing_function
      (shadowing_function_checked, shadowing_scope) rfl).2.2,
   rfl⟩

/-! ## Theorems: equality of operands -/

theorem c_eq_comm (x y : Double) : x.c_eq y = y.c_eq x := by
  unfold Double.c_eq
  by_cases hx : x.is_nan = true <;> by_cases hy : y.is_nan = true <;>
    by_cases zx : x.is_zero = true <;> by_cases zy : y.is_zero = true <;>
    simp [hx, hy, zx, zy, eq_comm]

theorem c_eq_self (x : Double) : x.c_eq x = !x.is_nan := by
  unfold Double.c_eq
  cases x.is_nan <;> cases x.is_zero <;> simp

/-- C31, as amended: `are_operands_equal(a, b)` holds exactly when `a` and `b`
are the same operand of a kind other than string literal and float (`None`,
integer or character constant with the same value, identifier, temporary or
label with the same name), or are two float constants equal under the C
operator `==`; two string literals never compare equal.  The comparison is
symmetric on all operands, and reflexive exactly on the operands that are
neither a string literal nor a NaN. -/
theorem are_operands_equal_iff (a b : Operand) :
    (are_operands_equal a b = true ↔
      (a = b ∧ a.is_string_literal = false ∧ a.is_float = false) ∨
      (∃ x y, a = .OP_FLOAT_CONST x ∧ b = .OP_FLOAT_CONST y ∧ x.c_eq y = true)) ∧
    are_operands_equal a b = are_operands_equal b a ∧
    (are_operands_equal a a = true ↔ a.is_string_literal = false ∧ a.is_nan = false) := by
  refine ⟨?_, ?_, ?_⟩
  · cases a <;> cases b <;>
      simp [are_operands_equal, Operand.is_string_literal, Operand.is_float]
  · cases a <;> cases b <;> simp [are_operands_equal, eq_comm, c_eq_comm]
  · cases a <;> simp [are_operands_equal, Operand.is_string_literal, Operand.is_nan, c_eq_self]

/-- C31, the claim as stated fails: a string literal does not compare equal to
itself, nor to a string literal of the same text, and a float NaN does not
compare equal to itself. -/
theorem string_literal_not_equal_to_itself :
    are_operands_equal (.OP_STRING_LITERAL "s") (.OP_STRING_LITERAL "s") = false ∧
    (∀ text : String,
      are_operands_equal (.OP_STRING_LITERAL text) (.OP_STRING_LITERAL text) = false) ∧
    are_operands_equal (.OP_FLOAT_CONST ⟨false, 2047, 1⟩) (.OP_FLOAT_CONST ⟨false, 2047, 1⟩) =
      false := by
  refine ⟨rfl, fun _ => rfl, by decide⟩

/-! ## Theorems: assignments -/

/-- C32, at the failing input: in the scope of `int a[10]; int i; int v;` the
statement `a[i++] = v` passes semantic analysis without a diagnostic, and
`Generate_IR` lowers the index expression `i++` twice: once when it lowers the
target as an expression (`MUL`, `INDEX_LOAD`) and once more for the store.  The
list holds two `ADD _, i, 1` and two `ASSIGN i, _`, so `i` is incremented
twice, and the store uses the value `i` has after the first increment; the
element size in both `MUL` is `get_type_size` of `int`.  For `a[i] = v` the
list is `MUL`, `INDEX_LOAD`, `MUL`, `INDEX_STORE`. -/
theorem index_expression_lowered_twice :
    ((check_semantics_fuel 4 store_a_i_incr a_i_v_scope).bind
        (fun r => Generate_IR r.1 (GenState.initial r.2))).map
        (fun r => (r.1, r.2.1.table.stderr, ir_list .global_declarations r.2.2)) =
      .ok (.OP_IDENTIFIER "v", [],
        [⟨.IR_ASSIGN, .OP_TEMPORARY "t0", .OP_IDENTIFIER "i", .OP_NONE⟩,
         ⟨.IR_ADD, .OP_TEMPORARY "t1", .OP_IDENTIFIER "i", .OP_INT_CONST 1⟩,
         ⟨.IR_ASSIGN, .OP_IDENTIFIER "i", .OP_TEMPORARY "t1", .OP_NONE⟩,
         ⟨.IR_MUL, .OP_TEMPORARY "t2", .OP_TEMPORARY "t0",
           .OP_INT_CONST (get_type_size (some (create_base_type "int")))⟩,
         ⟨.IR_INDEX_LOAD, .OP_TEMPORARY "t3", .OP_IDENTIFIER "a", .OP_TEMPORARY "t2"⟩,
         ⟨.IR_ASSIGN, .OP_TEMPORARY "t4", .OP_IDENTIFIER "i", .OP_NONE⟩,
         ⟨.IR_ADD, .OP_TEMPORARY "t5", .OP_IDENTIFIER "i", .OP_INT_CONST 1⟩,
         ⟨.IR_ASSIGN, .OP_IDENTIFIER "i", .OP_TEMPORARY "t5", .OP_NONE⟩,
         ⟨.IR_MUL, .OP_TEMPORARY "t6", .OP_TEMPORARY "t4",
           .OP_INT_CONST (get_type_size (some (create_base_type "int")))⟩,
         ⟨.IR_INDEX_STORE, .OP_IDENTIFIER "a", .OP_TEMPORARY "t6", .OP_IDENTIFIER "v"⟩]) ∧
    ((check_semantics_fuel 4 store_a_i_incr a_i_v_scope).bind
        (fun r => Generate_IR r.1 (GenState.initial r.2))).map
        (fun r => (with_opcode .IR_ADD (ir_list .global_declarations r.2.2)).length) = .ok 2 ∧
    ((check_semantics_fuel 4 store_a_i a_i_v_scope).bind
        (fun r => Generate_IR r.1 (GenState.initial r.2))).map
        (fun r => (r.1, ir_list .global_declarations r.2.2)) =
      .ok (.OP_IDENTIFIER "v",
        [⟨.IR_MUL, .OP_TEMPORARY "t0", .OP_IDENTIFIER "i",
           .OP_INT_CONST (get_type_size (some (create_base_type "int")))⟩,
         ⟨.IR_INDEX_LOAD, .OP_TEMPORARY "t1", .OP_IDENTIFIER "a", .OP_TEMPORARY "t0"⟩,
         ⟨.IR_MUL, .OP_TEMPORARY "t2", .OP_IDENTIFIER "i",
           .OP_INT_CONST (get_type_size (some (create_base_type "int")))⟩,
         ⟨.IR_INDEX_STORE, .OP_IDENTIFIER "a", .OP_TEMPORARY "t2", .OP_IDENTIFIER "v"⟩]) := by
  refine ⟨by decide!, by decide!, by decide!⟩

theorem generate_node_array_access (position : List Nat) (v : Option String)
    (cs : List (Option ASTNode)) (ty : Option CType) (kids : List (Option Lowering)) :
    generate_node position "ArrayAccess" v cs ty kids =
      generate_array_access position ty kids := rfl

theorem read_type_apply (position : List Nat) (ty : Option CType) (s : GenState)
    (h : s.labelled.lookup position = none) : read_type position ty s = .ok (ty, s, []) := by
  simp only [read_type, lower_bind_apply, Lower.get, h]
  rfl

/-- For an `Assignment` whose target is `arr[e]`, with `arr` of array or
pointer type and the element type `t` on the target node,
`Generate_IR` lowers the right-hand side, then the target as an expression of
its own (`arr`, `e`, `MUL t_a, idx, size`, `INDEX_LOAD t_b, arr, t_a`), then
`arr` and `e` a second time, and emits `MUL off, idx', size` followed by
`INDEX_STORE arr', off, v`, with `size = get_type_size(t)` and `v` the operand
of the right-hand side, which is also the operand returned.  The index
expression is lowered twice; the store uses the operand of its second
lowering. -/
theorem array_element_assignment (position : List Nat) (v lv av : Option String) (ant : String)
    (acs : List (Option ASTNode)) (idx rhs : Option ASTNode) (lrest rest : List (Option ASTNode))
    (array_type element_type : CType) (ty : Option CType)
    (s s1 s2 s3 s4 s5 : GenState) (rhs_op array_op1 index_op1 array_op2 index_op2 : Operand)
    (rhs_code array_code1 index_code1 array_code2 index_code2 : List Emitted)
    (hkind : array_type.kind = .TYPE_ARRAY ∨ array_type.kind = .TYPE_POINTER)
    (hrhs : Generate_IR_from (position ++ [1]) rhs s = .ok (rhs_op, s1, rhs_code))
    (harr1 : Generate_IR_from (position ++ [0] ++ [0])
      (some (.mk ant av acs (some array_type))) s1 = .ok (array_op1, s2, array_code1))
    (hidx1 : Generate_IR_from (position ++ [0] ++ [1]) idx s2 = .ok (index_op1, s3, index_code1))
    (hlab1 : s3.labelled.lookup (position ++ [0] ++ [0]) = none)
    (hlab2 : s3.labelled.lookup (position ++ [0]) = none)
    (harr2 : Generate_IR_from (position ++ [0] ++ [0])
      (some (.mk ant av acs (some array_type)))
      { s3 with temp_counter := s3.temp_counter + 2 } = .ok (array_op2, s4, array_code2))
    (hidx2 : Generate_IR_from (position ++ [0] ++ [1]) idx s4 = .ok (index_op2, s5, index_code2))
    (hlab3 : s5.labelled.lookup (position ++ [0]) = none) :
    Generate_IR_from position
        (some (.mk "Assignment" v
          (some (.mk "ArrayAccess" lv
              (some (.mk ant av acs (some array_type)) :: idx :: lrest) (some element_type)) ::
            rhs :: rest) ty)) s =
      .ok (rhs_op, { s5 with temp_counter := s5.temp_counter + 1 },
        rhs_code ++
          (array_code1 ++ index_code1 ++
            [⟨s3.target, ⟨.IR_MUL, .OP_TEMPORARY (temp_name s3.temp_counter), index_op1,
                .OP_INT_CONST (get_type_size (some element_type))⟩⟩,
             ⟨s3.target, ⟨.IR_INDEX_LOAD, .OP_TEMPORARY (temp_name (s3.temp_counter + 1)),
                array_op1, .OP_TEMPORARY (temp_name s3.temp_counter)⟩⟩]) ++
          (array_code2 ++ index_code2 ++
            [⟨s5.target, ⟨.IR_MUL, .OP_TEMPORARY (temp_name s5.temp_counter), index_op2,
                .OP_INT_CONST (get_type_size (some element_type))⟩⟩,
             ⟨s5.target, ⟨.IR_INDEX_STORE, array_op2, .OP_TEMPORARY (temp_name s5.temp_counter),
                rhs_op⟩⟩])) := by
  have htarget : Generate_IR_from (position ++ [0])
      (some (.mk "ArrayAccess" lv
        (some (.mk ant av acs (some array_type)) :: idx :: lrest) (some element_type))) s1 =
      .ok (.OP_TEMPORARY (temp_name (s3.temp_counter + 1)),
        { s3 with temp_counter := s3.temp_counter + 2 },
        array_code1 ++ index_code1 ++
          [⟨s3.target, ⟨.IR_MUL, .OP_TEMPORARY (temp_name s3.temp_counter), index_op1,
              .OP_INT_CONST (get_type_size (some element_type))⟩⟩,
           ⟨s3.target, ⟨.IR_INDEX_LOAD, .OP_TEMPORARY (temp_name (s3.temp_counter + 1)),
              array_op1, .OP_TEMPORARY (temp_name s3.temp_counter)⟩⟩]) := by
    rw [Generate_IR_from_mk, generate_node_array_access]
    simp only [generate_array_access, lowering_children_cons, lower_bind_apply, child,
      List.getElem?_cons_succ, List.getElem?_cons_zero, lower_pure_apply, Generate_IR_at_map,
      Option.map_some', Generate_IR_at_some, harr1, hidx1, deref, lowering_of_node,
      lowering_of_position, ASTNode.type, read_type_apply _ _ _ hlab1,
      read_type_apply _ _ _ hlab2, List.nil_append, List.append_nil]
    rcases hkind with hk | hk <;>
      simp [hk, lower_bind_apply, create_operand_temp, emit_apply, lower_pure_apply, temp_name,
        GenState.target]
  rw [Generate_IR_from_mk, generate_node_assignment]
  simp only [List.append_assoc] at harr2 hidx2 hlab3 htarget ⊢
  simp only [generate_assignment, generate_array_store, Generate_IR_at_some,
    lowering_children_cons, lower_bind_apply, child,
    List.getElem?_cons_succ, List.getElem?_cons_zero, lower_pure_apply, Generate_IR_at_map,
    hrhs, htarget, Option.map_some', deref, lowering_of_node, ASTNode.node_type, ASTNode.type,
    lowering_of_children, lowering_of_position, ASTNode.children, harr2, hidx2,
    read_type_apply _ _ _ hlab3, if_true, List.nil_append, List.append_nil, List.append_assoc]
  simp [lower_bind_apply, create_operand_temp, emit_apply, lower_pure_apply, temp_name,
    GenState.target]

/-- The statement `a[i++] = v`, annotated by `check_semantics` in the scope of
`int a[10]; int i; int v;`, gives `ASSIGN t0, i; ADD t1, i, 1; ASSIGN i, t1;
MUL t2, t0, size; INDEX_LOAD t3, a, t2` for the target as an expression and
then `ASSIGN t4, i; ADD t5, i, 1; ASSIGN i, t5; MUL t6, t4, size;
INDEX_STORE a, t6, v`, `size` being `get_type_size` of `int`. -/
theorem array_element_assignment_witness :
    Generate_IR_from [] store_a_i_incr_checked (GenState.initial a_i_v_scope) =
      .ok (.OP_IDENTIFIER "v",
        { ({ GenState.initial a_i_v_scope with temp_counter := 6 } : GenState) with
          temp_counter := 6 + 1 },
        [] ++
          ([] ++
            [⟨.global_declarations,
               ⟨.IR_ASSIGN, .OP_TEMPORARY "t0", .OP_IDENTIFIER "i", .OP_NONE⟩⟩,
             ⟨.global_declarations,
               ⟨.IR_ADD, .OP_TEMPORARY "t1", .OP_IDENTIFIER "i", .OP_INT_CONST 1⟩⟩,
             ⟨.global_declarations,
               ⟨.IR_ASSIGN, .OP_IDENTIFIER "i", .OP_TEMPORARY "t1", .OP_NONE⟩⟩] ++
            [⟨.global_declarations,
               ⟨.IR_MUL, .OP_TEMPORARY (temp_name 2), .OP_TEMPORARY "t0",
                 .OP_INT_CONST (get_type_size (some (create_base_type "int")))⟩⟩,
             ⟨.global_declarations,
               ⟨.IR_INDEX_LOAD, .OP_TEMPORARY (temp_name (2 + 1)), .OP_IDENTIFIER "a",
                 .OP_TEMPORARY (temp_name 2)⟩⟩]) ++
          ([] ++
            [⟨.global_declarations,
               ⟨.IR_ASSIGN, .OP_TEMPORARY "t4", .OP_IDENTIFIER "i", .OP_NONE⟩⟩,
             ⟨.global_declarations,
               ⟨.IR_ADD, .OP_TEMPORARY "t5", .OP_IDENTIFIER "i", .OP_INT_CONST 1⟩⟩,
             ⟨.global_declarations,
               ⟨.IR_ASSIGN, .OP_IDENTIFIER "i", .OP_TEMPORARY "t5", .OP_NONE⟩⟩] ++
            [⟨.global_declarations,
               ⟨.IR_MUL, .OP_TEMPORARY (temp_name 6), .OP_TEMPORARY "t4",
                 .OP_INT_CONST (get_type_size (some (create_base_type "int")))⟩⟩,
             ⟨.global_declarations,
               ⟨.IR_INDEX_STORE, .OP_IDENTIFIER "a", .OP_TEMPORARY (temp_name 6),
                 .OP_IDENTIFIER "v"⟩⟩])) ∧
    check_semantics_fuel 4 store_a_i_incr a_i_v_scope =
      .ok (store_a_i_incr_checked, a_i_v_scope) :=
  ⟨array_element_assignment [] (some "=") none (some "a") "Identifier" []
      (some (.mk "PostfixIncrement" none
        [some (.mk "Identifier" (some "i") [] (some (create_base_type "int")))] none))
      (some (.mk "Identifier" (some "v") [] (some (create_base_type "int")))) [] []
      (create_array_type (some (create_base_type "int")) 10) (create_base_type "int")
      (some (create_base_type "int"))
      (GenState.initial a_i_v_scope) (GenState.initial a_i_v_scope)
      (GenState.initial a_i_v_scope)
      { GenState.initial a_i_v_scope with temp_counter := 2 }
      { GenState.initial a_i_v_scope with temp_counter := 4 }
      { GenState.initial a_i_v_scope with temp_counter := 6 }
      (.OP_IDENTIFIER "v") (.OP_IDENTIFIER "a") (.OP_TEMPORARY "t0") (.OP_IDENTIFIER "a")
      (.OP_TEMPORARY "t4") [] []
      [⟨.global_declarations,
         ⟨.IR_ASSIGN, .OP_TEMPORARY "t0", .OP_IDENTIFIER "i", .OP_NONE⟩⟩,
       ⟨.global_declarations,
         ⟨.IR_ADD, .OP_TEMPORARY "t1", .OP_IDENTIFIER "i", .OP_INT_CONST 1⟩⟩,
       ⟨.global_declarations,
         ⟨.IR_ASSIGN, .OP_IDENTIFIER "i", .OP_TEMPORARY "t1", .OP_NONE⟩⟩]
      []
      [⟨.global_declarations,
         ⟨.IR_ASSIGN, .OP_TEMPORARY "t4", .OP_IDENTIFIER "i", .OP_NONE⟩⟩,
       ⟨.global_declarations,
         ⟨.IR_ADD, .OP_TEMPORARY "t5", .OP_IDENTIFIER "i", .OP_INT_CONST 1⟩⟩,
       ⟨.global_declarations,
         ⟨.IR_ASSIGN, .OP_IDENTIFIER "i", .OP_TEMPORARY "t5", .OP_NONE⟩⟩]
      (Or.inl rfl) rfl rfl rfl rfl rfl rfl rfl rfl,
   rfl⟩

/-- C33, at the failing input: for `*p = 5` the operand returned for the
`Assignment` node is the temporary of the `DEREF` load emitted before the
store, which holds what `*p` held before the assignment.  In `x = (*p = 5)`
the outer assignment therefore copies that temporary: after `int y = 10;
int *p = &y; x = (*p = 5);` the variable `y` holds 5 and `x` holds 10.  For
the targets `a[i]`, `s.n`, `q->n` and `y` the outer assignment takes the
right-hand side, or the target identifier. -/
theorem deref_assignment_returns_old_value :
    (∀ (position : List Nat) (name text : String) (s : GenState),
      Generate_IR_from position (ast_assign (ast_deref (ast_identifier name)) (ast_int text)) s =
        .ok (.OP_TEMPORARY ("t" ++ toString s.temp_counter),
          { s with temp_counter := s.temp_counter + 1 },
          [⟨s.target, ⟨.IR_DEREF, .OP_TEMPORARY ("t" ++ toString s.temp_counter),
              .OP_IDENTIFIER name, .OP_NONE⟩⟩,
           ⟨s.target, ⟨.IR_DEREF_STORE, .OP_IDENTIFIER name, .OP_INT_CONST (atoi text),
              .OP_NONE⟩⟩])) ∧
    (Generate_IR store_through_p_block (GenState.initial assignment_scope)).map
        (fun r => ir_list .global_declarations r.2.2) =
      .ok [⟨.IR_ASSIGN, .OP_IDENTIFIER "y", .OP_INT_CONST 10, .OP_NONE⟩,
           ⟨.IR_ADDR_OF, .OP_TEMPORARY "t0", .OP_IDENTIFIER "y", .OP_NONE⟩,
           ⟨.IR_ASSIGN, .OP_IDENTIFIER "p", .OP_TEMPORARY "t0", .OP_NONE⟩,
           ⟨.IR_DEREF, .OP_TEMPORARY "t1", .OP_IDENTIFIER "p", .OP_NONE⟩,
           ⟨.IR_DEREF_STORE, .OP_IDENTIFIER "p", .OP_INT_CONST 5, .OP_NONE⟩,
           ⟨.IR_ASSIGN, .OP_IDENTIFIER "x", .OP_TEMPORARY "t1", .OP_NONE⟩] ∧
    ((Generate_IR store_through_p_block (GenState.initial assignment_scope)).toOption.map
        (fun r => (value_after (ir_list .global_declarations r.2.2) 10 "y",
                   value_after (ir_list .global_declarations r.2.2) 10 "x"))) =
      some (some (.int 5), some (.int 10)) ∧
    last_global_instruction
        (assign_x_of_assignment (ast_array_access (ast_identifier "a") (ast_identifier "i"))) =
      .ok (some (assign_of "x" (.OP_INT_CONST 5))) ∧
    last_global_instruction
        (assign_x_of_assignment (some (.mk "MemberAccess" (some "n") [ast_identifier "s"] none))) =
      .ok (some (assign_of "x" (.OP_INT_CONST 5))) ∧
    last_global_instruction
        (assign_x_of_assignment
          (some (.mk "PointerMemberAccess" (some "n") [ast_identifier "q"] none))) =
      .ok (some (assign_of "x" (.OP_INT_CONST 5))) ∧
    last_global_instruction (assign_x_of_assignment (ast_identifier "y")) =
      .ok (some (assign_of "x" (.OP_IDENTIFIER "y"))) ∧
    last_global_instruction (assign_x_of_assignment (ast_deref (ast_identifier "p"))) =
      .ok (some (assign_of "x" (.OP_TEMPORARY "t0"))) := by
  refine ⟨?_, by decide!, by decide!, by decide!, by decide!, by decide!, by decide!, by decide!⟩
  intro position name text s
  rfl

/-! ## Theorems: loops -/

/-- C34, at the failing input: a `ForStatement` leaves `current_break_label`
and `current_continue_label` set to `OP_NONE` whatever they held before the
loop.  In `for (;;) { for (;;) { } break; continue; }` the `break` and the
`continue` after the inner loop emit no jump and are reported as outside of a
loop; the same holds after an inner `ForDeclStatement`; and in `switch (x)
{ case 1: for (;;) { } break; }` the `break` after the loop emits no jump to
the end label `L0` of the switch. -/
theorem for_statement_clears_outer_labels :
    (∀ (position : List Nat) (s : GenState),
      (Generate_IR_from position (ast_for_ever (ast_block [])) s).map
          (fun r => (r.2.1.current_break_label, r.2.1.current_continue_label)) =
        .ok (.OP_NONE, .OP_NONE)) ∧
    labels_after for_for_break_continue =
      .ok ([goto_of "L0", label_of "L2",
            goto_of "L4", label_of "L6", label_of "L5", label_of "L4",
            if_false_goto "L7" .OP_NONE, goto_of "L6", label_of "L7",
            label_of "L1", label_of "L0", if_false_goto "L3" .OP_NONE, goto_of "L2",
            label_of "L3"],
        .OP_NONE, .OP_NONE,
        [⟨FMT_IR_BREAK, []⟩, ⟨FMT_IR_CONTINUE, []⟩]) ∧
    labels_after for_for_decl_break_continue =
      .ok ([goto_of "L0", label_of "L2",
            assign_of "y" (.OP_INT_CONST 0),
            goto_of "L4", label_of "L5", label_of "L4",
            if_false_goto "L6" .OP_NONE, goto_of "L5", label_of "L6",
            label_of "L1", label_of "L0", if_false_goto "L3" .OP_NONE, goto_of "L2",
            label_of "L3"],
        .OP_NONE, .OP_NONE,
        [⟨FMT_IR_BREAK, []⟩, ⟨FMT_IR_CONTINUE, []⟩]) ∧
    labels_after switch_for_break =
      .ok ([⟨.IR_EQ, .OP_TEMPORARY "t0", .OP_IDENTIFIER "x", .OP_INT_CONST 1⟩,
            ⟨.IR_IF_TRUE_GOTO, .OP_LABEL "L1", .OP_TEMPORARY "t0", .OP_NONE⟩,
            goto_of "L0", label_of "L1",
            goto_of "L2", label_of "L4", label_of "L3", label_of "L2",
            if_false_goto "L5" .OP_NONE, goto_of "L4", label_of "L5",
            label_of "L0"],
        .OP_NONE, .OP_NONE,
        [⟨FMT_IR_BREAK, []⟩]) := by
  refine ⟨?_, by decide!, by decide!, by decide!⟩
  intro position s
  simp only [ast_for_ever, ast_block, Generate_IR_from_mk]
  rfl

theorem for_decl_continue_loops (steps : Nat) :
    ∀ m : Machine, (m.store.lookup "i").getD (.int 0) = .int 0 →
      execute for_decl_continue_code steps
        [⟨.IR_LT, .OP_TEMPORARY "t2", .OP_IDENTIFIER "i", .OP_INT_CONST 3⟩,
         if_false_goto "L2" (.OP_TEMPORARY "t2"), goto_of "L1", label_of "L2"] m = none := by
  induction steps using Nat.strong_induction_on with
  | _ steps ih =>
    intro m hm
    match steps with
    | 0 => rfl
    | 1 => simp [execute, hm, Machine.read, binary_value]
    | 2 => simp [execute, hm, Machine.read, binary_value, if_false_goto, Machine.write]
    | 3 => simp [execute, hm, Machine.read, binary_value, if_false_goto, Machine.write, goto_of,
        Operand.val_name, for_decl_continue_code, code_after_label, label_of, assign_of]
    | k + 4 =>
      have h := ih k (by omega) (m.write (.OP_TEMPORARY "t2") (.int 1))
        (by simpa [Machine.write, List.lookup] using hm)
      simp [execute, hm, Machine.read, binary_value, if_false_goto, Machine.write, goto_of,
        Operand.val_name, for_decl_continue_code, code_after_label, label_of, assign_of]
      simpa [if_false_goto, goto_of, label_of, Machine.write] using h

theorem for_decl_continue_never_ends (steps : Nat) :
    value_after for_decl_continue_code steps "i" = none := by
  unfold value_after
  match steps with
  | 0 => rfl
  | 1 => rfl
  | k + 2 =>
    have h := for_decl_continue_loops k ⟨[("i", .int 0)], [], []⟩ (by decide)
    simp [execute, for_decl_continue_code, assign_of, goto_of, Machine.read, Machine.write,
      Operand.val_name, code_after_label, label_of]
    simpa [if_false_goto, goto_of, label_of] using h

/-- C35, at the failing input: for `for (int i = 0; i < 3; i++) { continue; }`
the `ForDeclStatement` branch creates no label for the update; `continue`
jumps to `L0`, the label of the condition, which is laid down after the code
of `i++`, so the code that follows the jump target holds the test only and the
update is never reached.  For the `ForStatement` `for (i = 0; i < 3; i++)
{ continue; }` the `continue` jumps to `L1`, laid down before the update; run
under the reference reading of the opcodes it ends with `i = 3`, while the
code of the `ForDeclStatement` does not end within any number of steps. -/
theorem continue_in_for_decl_skips_update :
    labels_after for_decl_continue = .ok (for_decl_continue_code, .OP_NONE, .OP_NONE, []) ∧
    for_decl_continue_code[3]? = some (goto_of "L0") ∧
    code_after_label "L0" for_decl_continue_code =
      some [⟨.IR_LT, .OP_TEMPORARY "t2", .OP_IDENTIFIER "i", .OP_INT_CONST 3⟩,
            if_false_goto "L2" (.OP_TEMPORARY "t2"), goto_of "L1", label_of "L2"] ∧
    labels_after for_continue = .ok (for_continue_code, .OP_NONE, .OP_NONE, []) ∧
    for_continue_code[3]? = some (goto_of "L1") ∧
    code_after_label "L1" for_continue_code =
      some [⟨.IR_ASSIGN, .OP_TEMPORARY "t0", .OP_IDENTIFIER "i", .OP_NONE⟩,
            ⟨.IR_ADD, .OP_TEMPORARY "t1", .OP_IDENTIFIER "i", .OP_INT_CONST 1⟩,
            assign_of "i" (.OP_TEMPORARY "t1"),
            label_of "L0",
            ⟨.IR_LT, .OP_TEMPORARY "t2", .OP_IDENTIFIER "i", .OP_INT_CONST 3⟩,
            if_false_goto "L3" (.OP_TEMPORARY "t2"), goto_of "L2", label_of "L3"] ∧
    value_after for_continue_code 40 "i" = some (.int 3) ∧
    (∀ steps : Nat, value_after for_decl_continue_code steps "i" = none) := by
  refine ⟨by decide!, by decide, by decide, by decide!, by decide, by decide, by decide!,
    for_decl_continue_never_ends⟩

/-! ## Theorems: the end of a function definition -/

/-- C36, as amended: for a `FunctionDefinition` of a function `f` whose return
type tests as `void`, `Generate_IR` appends one empty `RETURN` after the code
of the body, whatever that code is, hence also when the body ended with a
return: the instructions emitted are `LABEL f`, the copies of the arguments,
the instructions of the body and `RETURN`.  When the two flags that select the
list have after the body the values they had at its start, that `RETURN` is in
the list that holds the label of `f`. -/
theorem void_function_return_appended (position : List Nat) (v : Option String)
    (specifiers declarator body : Option ASTNode) (rest : List (Option ASTNode))
    (ty : Option CType) (f : String) (params : List Symbol) (table : State)
    (s s2 : GenState) (op : Operand) (body_code : List Emitted) (function_entry_sym : Symbol)
    (type return_type : CType)
    (hname : get_declarator_name declarator = .ok (some f))
    (hparams : build_parameter_list_from_ast (get_function_parameters_node declarator) s.table =
      .ok (params, table))
    (hbody : Generate_IR_from (position ++ [2]) body
      { s with is_global_declaration := false, is_in_main_function := decide (f = "main"),
               table := table } = .ok (op, s2, body_code))
    (hsym : lookup_symbol f s2.table = some function_entry_sym)
    (htype : function_entry_sym.type = some type)
    (hret : read_return_type type = .ok (some return_type))
    (hvoid : return_type_is_void return_type = .ok true) :
    (Generate_IR_from position
        (some (.mk "FunctionDefinition" v (specifiers :: declarator :: body :: rest) ty)) s).map
        (fun r => (r.1, r.2.1, r.2.2.map Emitted.instr)) =
      .ok (.OP_NONE, s2,
        ⟨.IR_LABEL, .OP_LABEL f, .OP_NONE, .OP_NONE⟩ ::
          params.enum.map (fun p =>
            ⟨.IR_ASSIGN, .OP_IDENTIFIER p.2.name, .OP_IDENTIFIER ("ARG" ++ toString p.1),
              .OP_NONE⟩) ++
          body_code.map Emitted.instr ++ [⟨.IR_RETURN, .OP_NONE, .OP_NONE, .OP_NONE⟩]) ∧
    (s2.is_global_declaration = false → s2.is_in_main_function = decide (f = "main") →
      Generate_IR_from position
          (some (.mk "FunctionDefinition" v (specifiers :: declarator :: body :: rest) ty)) s =
        .ok (.OP_NONE, s2,
          ⟨if f = "main" then .main_ir else .other_funcs_ir,
              ⟨.IR_LABEL, .OP_LABEL f, .OP_NONE, .OP_NONE⟩⟩ ::
            params.enum.map (fun p =>
              ⟨if f = "main" then .main_ir else .other_funcs_ir,
                ⟨.IR_ASSIGN, .OP_IDENTIFIER p.2.name, .OP_IDENTIFIER ("ARG" ++ toString p.1),
                  .OP_NONE⟩⟩) ++
            body_code ++
            [⟨if f = "main" then .main_ir else .other_funcs_ir,
               ⟨.IR_RETURN, .OP_NONE, .OP_NONE, .OP_NONE⟩⟩])) := by
  have h : Generate_IR_from position
      (some (.mk "FunctionDefinition" v (specifiers :: declarator :: body :: rest) ty)) s =
      .ok (.OP_NONE, s2,
        function_entry (if f = "main" then .main_ir else .other_funcs_ir) f params ++
          body_code ++ [⟨s2.target, return_none⟩]) := by
    rw [Generate_IR_from_mk]
    have hnt : ("FunctionDefinition" ∈ structural_node_types) = False := by decide
    simp only [generate_node, hnt, if_false, generate_branches, if_true,
      show ("FunctionDefinition" = "Declaration") = False by decide,
      show ("FunctionDefinition" = "InitDeclaratorList") = False by decide,
      show ("FunctionDefinition" = "InitDeclarator") = False by decide,
      show ("FunctionDefinition" = "ArrayDeclarator") = False by decide]
    simp only [generate_function_definition, lowering_children_cons, lower_bind_apply, child,
      List.getElem?_cons_succ, List.getElem?_cons_zero, lower_pure_apply, map_lowering_node, hname,
      Lower.of_except, Lower.modify, Lower.get, hparams, emit_apply,
      emit_parameter_assignments_eq, Generate_IR_at_map, List.nil_append, List.append_nil]
    simp only [List.append_assoc, hbody, emit_void_return, lower_bind_apply, Lower.get, hsym, htype,
      hret, hvoid]
    by_cases hmain : f = "main" <;>
      simp [hmain, emit_apply, lower_pure_apply, function_entry, GenState.target, List.enum,
        return_none, create_operand_argument]
  refine ⟨?_, ?_⟩
  · rw [h]
    simp [Except.map, function_entry, return_none, List.map_map, Function.comp_def]
  · intro hg hm
    rw [h]
    by_cases hmain : f = "main" <;>
      simp [GenState.target, hg, hm, hmain, function_entry, return_none, List.map_map,
        Function.comp_def]

/-- Witness for C36: `void func_void_void() { }` of `tests/test_functions.c`
gives `LABEL func_void_void; RETURN`, both in the other-functions list. -/
theorem void_function_return_appended_witness :
    (Generate_IR_from [] func_void_void_definition
        (GenState.initial functions_and_global_scope)).map
        (fun r => (r.1, r.2.1, r.2.2.map Emitted.instr)) =
      .ok (.OP_NONE, ⟨0, 0, .OP_NONE, .OP_NONE, false, false, [], functions_and_global_scope⟩,
        [⟨.IR_LABEL, .OP_LABEL "func_void_void", .OP_NONE, .OP_NONE⟩,
         ⟨.IR_RETURN, .OP_NONE, .OP_NONE, .OP_NONE⟩]) ∧
    Generate_IR_from [] func_void_void_definition
        (GenState.initial functions_and_global_scope) =
      .ok (.OP_NONE, ⟨0, 0, .OP_NONE, .OP_NONE, false, false, [], functions_and_global_scope⟩,
        [⟨.other_funcs_ir, ⟨.IR_LABEL, .OP_LABEL "func_void_void", .OP_NONE, .OP_NONE⟩⟩,
         ⟨.other_funcs_ir, ⟨.IR_RETURN, .OP_NONE, .OP_NONE, .OP_NONE⟩⟩]) :=
  have h := void_function_return_appended [] none
      (some (.mk "DeclarationSpecifiers" none [some (.mk "TypeSpecifier" (some "void") [] none)]
        none))
      (some (.mk "FunctionDeclarator" none [ast_identifier "func_void_void", ast_no_parameters]
        none))
      (ast_block []) [] none "func_void_void" []
      functions_and_global_scope (GenState.initial functions_and_global_scope)
      ⟨0, 0, .OP_NONE, .OP_NONE, false, false, [], functions_and_global_scope⟩ .OP_NONE []
      (Symbol.mk .SYM_FUNCTION "func_void_void"
        (some (create_function_type (some (create_base_type "void")) [])))
      (create_function_type (some (create_base_type "void")) []) (create_base_type "void")
      rfl rfl rfl rfl rfl rfl rfl
  ⟨h.1, h.2 rfl rfl⟩

/-- C36, the claim as stated fails: the body of `void func_void_void()
{ return; }` ends with a return, and a second `RETURN` is appended all the
same: the instructions emitted for the function are `LABEL func_void_void;
RETURN; RETURN`.  This holds for a `Return` node without a child and for one
with an `EmptyExpression` child. -/
theorem return_appended_after_return :
    (Generate_IR (func_void_void_returning [])
        (GenState.initial functions_and_global_scope)).map
        (fun r => r.2.2.map Emitted.instr) =
      .ok [⟨.IR_LABEL, .OP_LABEL "func_void_void", .OP_NONE, .OP_NONE⟩,
           ⟨.IR_RETURN, .OP_NONE, .OP_NONE, .OP_NONE⟩,
           ⟨.IR_RETURN, .OP_NONE, .OP_NONE, .OP_NONE⟩] ∧
    (Generate_IR (func_void_void_returning [some (.mk "EmptyExpression" none [] none)])
        (GenState.initial functions_and_global_scope)).map
        (fun r => r.2.2.map Emitted.instr) =
      .ok [⟨.IR_LABEL, .OP_LABEL "func_void_void", .OP_NONE, .OP_NONE⟩,
           ⟨.IR_RETURN, .OP_NONE, .OP_NONE, .OP_NONE⟩,
           ⟨.IR_RETURN, .OP_NONE, .OP_NONE, .OP_NONE⟩] := by
  refine ⟨by decide!, by decide!⟩

/-- C37, at the failing input: `void func_void_void() { }` followed by the
global declaration `int g;`.  The `FunctionDefinition` branch clears
`is_global_declaration` and nothing sets it again, the body holding no `Return`
node: the flag is still clear when `Generate_IR` returns from the function,
and `ASSIGN g, 0` is appended to the other-functions list, after the `RETURN`
of the function.  After `int main() { }` it is appended to the main-function
list.  After `int one() { return 1; }` it goes to the global-declarations
list. -/
theorem declaration_after_function_not_global :
    lists_after func_void_void_definition =
      .ok ([], [], [label_of "func_void_void", return_none], false) ∧
    lists_after (function_then_global func_void_void_definition) =
      .ok ([], [],
        [label_of "func_void_void", return_none, assign_of "g" (.OP_INT_CONST 0)], false) ∧
    lists_after (function_then_global (ast_function "int" "main" ast_no_parameters (ast_block []))) =
      .ok ([], [label_of "main", assign_of "g" (.OP_INT_CONST 0)], [], false) ∧
    lists_after (function_then_global
        (ast_function "int" "one" ast_no_parameters (ast_block [ast_return (ast_int "1")]))) =
      .ok ([assign_of "g" (.OP_INT_CONST 0)], [],
        [label_of "one", ⟨.IR_RETURN, .OP_NONE, .OP_INT_CONST 1, .OP_NONE⟩], true) := by
  refine ⟨by decide!, by decide!, by decide!, by decide!⟩

/-! ## Theorems: increments and decrements -/

theorem toString_nat_injective (m n : Nat) (h : toString m = toString n) : m = n := by
  have hm := digits_value_toString m
  rw [h, digits_value_toString] at hm
  exact hm.symm

theorem append_left_cancel_string (p a b : String) (h : p ++ a = p ++ b) : a = b := by
  have hd := congrArg String.data h
  simp only [String.data_append, List.append_cancel_left_eq] at hd
  exact String.ext hd

theorem temp_name_injective (m n : Nat) : temp_name m = temp_name n ↔ m = n := by
  constructor
  · intro h
    exact toString_nat_injective m n (append_left_cancel_string "t" _ _ h)
  · intro h; rw [h]

theorem label_name_injective (m n : Nat) : label_name m = label_name n ↔ m = n := by
  constructor
  · intro h
    exact toString_nat_injective m n (append_left_cancel_string "L" _ _ h)
  · intro h; rw [h]

/-- C39, at the failing input: a call `none_taken(1)` whose single argument is
the child of the `FunctionCall` node itself, to a function declared without
parameters.  After the test `!expected_param` the branch goes on to read
`expected_param->type` through the null pointer: `check_semantics` has no
defined result, whatever the argument node is, as long as it is not an
`ArgumentList`.  With the argument wrapped in an `ArgumentList` the loop
breaks after the message and `check_semantics` returns with "Too many
arguments" as the only diagnostic. -/
theorem single_argument_reads_null_parameter :
    (∀ fuel : Nat,
      check_semantics_fuel (fuel + 1) (ast_call_bare "main" (ast_int "1"))
        (function_scope "int" "main") = .error .undefined_behaviour) ∧
    (∀ (fuel : Nat) (argument : ASTNode), argument.node_type ≠ "ArgumentList" →
      check_semantics_fuel (fuel + 1) (ast_call_bare "main" (some argument))
        (function_scope "int" "main") = .error .undefined_behaviour) ∧
    (∀ fuel : Nat,
      (check_semantics_fuel (fuel + 1)
          (ast_call_bare "main" (some (.mk "ArgumentList" none [ast_int "1"] none)))
          (function_scope "int" "main")).map (fun r => r.2.stderr) =
        .ok [⟨FMT_TOO_MANY, [.str (some "main")]⟩]) := by
  refine ⟨fun fuel => rfl, ?_, fun fuel => rfl⟩
  intro fuel argument h
  have hcall : check_function_call [ast_identifier "main", some argument] none
      (function_scope "int" "main") = .error .undefined_behaviour := by
    have hsym : lookup_symbol_ptr (some "main") (function_scope "int" "main") =
        .ok (some (Symbol.mk .SYM_FUNCTION "main"
          (some (create_function_type (some (create_base_type "int")) [])))) := rfl
    simp only [check_function_call, ast_identifier, ASTNode.value, hsym, create_function_type]
    simp [h, Symbol.kind, Symbol.type]
  show check_node (check_semantics_fuel fuel) "FunctionCall" none
    [ast_identifier "main", some argument] none (function_scope "int" "main") = _
  simp only [check_node, check_branches, hcall,
    show ("FunctionCall" = "FunctionDefinition") = False by decide,
    show ("FunctionCall" = "SwitchStatement") = False by decide,
    show ("FunctionCall" = "CaseStatement") = False by decide,
    show ("FunctionCall" = "Identifier") = False by decide,
    show ("FunctionCall" = "IntConstant") = False by decide,
    show ("FunctionCall" = "FloatConstant") = False by decide,
    show ("FunctionCall" = "CharConstant") = False by decide,
    show ("FunctionCall" = "MemberAccess") = False by decide,
    show ("FunctionCall" = "Assignment") = False by decide,
    show ("FunctionCall" = "BinaryOp") = False by decide, if_false, if_true]

/-! ## Theorems: the counters of temporaries and labels -/

theorem grow_pure {α : Type} (a : α) : counters_grow (pure a : Lower α) := by
  constructor
  intro s b s1 code h
  cases h
  exact ⟨le_refl _, le_refl _⟩

theorem grow_bind {α β : Type} (x : Lower α) (f : α → Lower β)
    (hx : counters_grow x) (hf : ∀ a, counters_grow (f a)) : counters_grow (x >>= f) := by
  constructor
  intro s b s2 code h
  rw [lower_bind_apply] at h
  cases hxs : x s with
  | error e => simp [hxs] at h
  | ok r =>
    obtain ⟨a, s1, e1⟩ := r
    simp only [hxs] at h
    cases hfs : f a s1 with
    | error e => simp [hfs] at h
    | ok r2 =>
      obtain ⟨b2, s3, e2⟩ := r2
      simp only [hfs, Except.ok.injEq, Prod.mk.injEq] at h
      obtain ⟨_, hs, _⟩ := h
      subst hs
      have h1 := hx.le s a s1 e1 hxs
      have h2 := (hf a).le s1 b2 s3 e2 hfs
      exact ⟨le_trans h1.1 h2.1, le_trans h1.2 h2.2⟩

theorem grow_fail {α : Type} (f : Fault) : counters_grow (Lower.fail f : Lower α) := by
  constructor
  intro s a s1 code h
  cases h

theorem grow_get : counters_grow Lower.get := by
  constructor
  intro s a s1 code h
  cases h
  exact ⟨le_refl _, le_refl _⟩

theorem grow_modify (f : GenState → GenState)
    (hf : ∀ s, (f s).temp_counter = s.temp_counter ∧ (f s).label_counter = s.label_counter) :
    counters_grow (Lower.modify f) := by
  constructor
  intro s a s1 code h
  cases h
  exact ⟨le_of_eq (hf s).1.symm, le_of_eq (hf s).2.symm⟩

theorem grow_of_except {α : Type} (x : Except Fault α) : counters_grow (Lower.of_except x) := by
  constructor
  intro s a s1 code h
  cases x with
  | error e => cases h
  | ok b =>
    cases h
    exact ⟨le_refl _, le_refl _⟩

theorem grow_report (fmt : String) (args : List DiagArg) :
    counters_grow (Lower.report fmt args) :=
  grow_modify _ (fun _ => ⟨rfl, rfl⟩)

theorem grow_emit (opcode : OpCode) (result arg1 arg2 : Operand) :
    counters_grow (emit opcode result arg1 arg2) := by
  constructor
  intro s a s1 code h
  cases h
  exact ⟨le_refl _, le_refl _⟩

theorem grow_temp : counters_grow create_operand_temp := by
  constructor
  intro s a s1 code h
  cases h
  exact ⟨Nat.le_succ _, le_refl _⟩

theorem grow_label : counters_grow create_operand_label := by
  constructor
  intro s a s1 code h
  cases h
  exact ⟨le_refl _, Nat.le_succ _⟩

theorem grow_identifier (name : Option String) :
    counters_grow (create_operand_identifier name) := by
  cases name with
  | none => exact grow_fail _
  | some n => exact grow_pure _

theorem grow_string (val : Option String) : counters_grow (create_operand_string val) := by
  cases val with
  | none => exact grow_fail _
  | some n => exact grow_pure _

theorem grow_label_named (name : Option String) :
    counters_grow (create_operand_label_named name) := by
  cases name with
  | none => exact grow_fail _
  | some n => exact grow_pure _

theorem grow_read_type (position : List Nat) (ty : Option CType) :
    counters_grow (read_type position ty) := by
  unfold read_type
  refine grow_bind _ _ grow_get (fun s => ?_)
  split
  · exact grow_fail _
  · exact grow_pure _

theorem grow_read_label (position : List Nat) (ty : Option CType) :
    counters_grow (read_label position ty) := by
  unfold read_label
  refine grow_bind _ _ grow_get (fun s => ?_)
  split
  · exact grow_pure _
  · split
    · exact grow_pure _
    · exact grow_fail _

theorem grow_write_label (position : List Nat) (name : String) :
    counters_grow (write_label position name) :=
  grow_modify _ (fun _ => ⟨rfl, rfl⟩)

theorem grows_at_of_mem (kids : List (Option Lowering))
    (hk : ∀ l, some l ∈ kids → l.Grows) (c : Option Lowering) (hc : c ∈ kids) : grows_at c := by
  cases c with
  | none => trivial
  | some l => exact hk l hc

theorem grow_child (kids : List (Option Lowering)) (i : Nat) :
    counters_grow (child kids i) := by
  unfold child
  split
  · exact grow_pure _
  · exact grow_fail _

theorem grow_deref (p : Option Lowering) : counters_grow (deref p) := by
  unfold deref
  split
  · exact grow_pure _
  · exact grow_fail _

theorem lower_fail_bind {α β : Type} (e : Fault) (f : α → Lower β) :
    (Lower.fail e >>= f) = Lower.fail e := by
  funext s
  rfl

theorem grow_child_bind {β : Type} (kids : List (Option Lowering)) (i : Nat)
    (f : Option Lowering → Lower β) (hk : ∀ l, some l ∈ kids → l.Grows)
    (hf : ∀ c, grows_at c → counters_grow (f c)) : counters_grow (child kids i >>= f) := by
  unfold child
  cases h : kids[i]? with
  | none =>
    simp only [lower_fail_bind]
    exact grow_fail _
  | some k =>
    simp only [lower_pure_bind]
    exact hf k (grows_at_of_mem kids hk k (List.getElem?_mem h))

theorem grow_deref_bind {β : Type} (p : Option Lowering) (f : Lowering → Lower β)
    (hp : grows_at p) (hf : ∀ l, l.Grows → counters_grow (f l)) :
    counters_grow (deref p >>= f) := by
  cases p with
  | none =>
    simp only [deref, lower_fail_bind]
    exact grow_fail _
  | some l =>
    simp only [deref, lower_pure_bind]
    exact hf l hp

theorem grow_generate_at (c : Option Lowering) (hc : grows_at c) :
    counters_grow (Generate_IR_at c) := by
  cases c with
  | none => exact grow_pure _
  | some l =>
    cases hc with
    | mk p n g e cs hg he hcs => exact hg

theorem grow_generate (l : Lowering) (hl : l.Grows) : counters_grow l.generate := by
  cases hl with
  | mk p n g e cs hg he hcs => exact hg

theorem grow_emit_params_at (c : Option Lowering) (count : Nat) (hc : grows_at c) :
    counters_grow (emit_params_for_call_at c count) := by
  cases c with
  | none => exact grow_pure _
  | some l =>
    cases hc with
    | mk p n g e cs hg he hcs => exact he count

theorem grows_children (l : Lowering) (hl : l.Grows) : ∀ k, some k ∈ l.children → k.Grows := by
  cases hl with
  | mk p n g e cs hg he hcs => exact hcs

set_option linter.unusedTactic false
set_option linter.unreachableTactic false

theorem grows_at_head (c : Option Lowering) (kids : List (Option Lowering))
    (hk : ∀ l, some l ∈ c :: kids → l.Grows) : grows_at c :=
  grows_at_of_mem _ hk c (List.mem_cons_self _ _)

theorem grows_tail (c : Option Lowering) (kids : List (Option Lowering))
    (hk : ∀ l, some l ∈ c :: kids → l.Grows) : ∀ l, some l ∈ kids → l.Grows :=
  fun l hl => hk l (List.mem_cons_of_mem _ hl)

theorem grow_generate_children : ∀ (kids : List (Option Lowering)),
    (∀ l, some l ∈ kids → l.Grows) → counters_grow (generate_children kids)
  | [], _ => grow_pure _
  | k :: ks, hk =>
    grow_bind _ _ (grow_generate_at k (grows_at_head k ks hk))
      (fun _ => grow_generate_children ks (grows_tail k ks hk))

theorem grow_emit_alloc_heap (var_name : String) (t : CType) :
    counters_grow (emit_alloc_heap var_name t) :=
  grow_emit _ _ _ _

theorem grow_generate_uninitialized (current_decl : ASTNode) :
    counters_grow (generate_uninitialized current_decl) := by
  unfold generate_uninitialized
  repeat' first
    | exact grow_pure _ | exact grow_fail _ | exact grow_emit _ _ _ _ | exact grow_temp
    | exact grow_label | exact grow_get | exact grow_report _ _ | exact grow_of_except _
    | exact grow_identifier _ | exact grow_string _ | exact grow_label_named _
    | exact grow_read_type _ _ | exact grow_read_label _ _ | exact grow_write_label _ _
    | exact grow_modify _ (fun _ => ⟨rfl, rfl⟩) | exact grow_child _ _ | exact grow_deref _
    | exact grow_generate_at _ (by assumption) | exact grow_generate _ (by assumption)
    | exact grow_emit_params_at _ _ (by assumption)
    | apply grow_child_bind _ _ _ (by assumption)
    | apply grow_child_bind _ _ _ (grows_children _ (by assumption))
    | apply grow_deref_bind _ _ (by assumption)
    | apply grow_bind | intro _ | split | dsimp only

theorem grow_generate_declarators_of (l : Lowering) (hl : l.Grows) :
    counters_grow (generate_declarators_of l) := by
  induction hl with
  | mk p n g e cs hg he hcs ih =>
    match cs, hcs, ih with
    | [], _, _ =>
      rw [generate_declarators_of]
      exact grow_fail _
    | none :: _, _, _ =>
      rw [generate_declarators_of]
      exact grow_fail _
    | [some d], hcs, _ =>
      rw [generate_declarators_of]
      have hd : d.Grows := hcs d (List.mem_cons_self _ _)
      repeat' first
        | exact grow_pure _ | exact grow_fail _ | exact grow_emit _ _ _ _ | exact grow_temp
        | exact grow_label | exact grow_get | exact grow_report _ _ | exact grow_of_except _
        | exact grow_identifier _ | exact grow_string _ | exact grow_label_named _
        | exact grow_read_type _ _ | exact grow_read_label _ _ | exact grow_write_label _ _
        | exact grow_modify _ (fun _ => ⟨rfl, rfl⟩) | exact grow_child _ _ | exact grow_deref _
        | exact grow_generate_at _ (by assumption) | exact grow_generate _ (by assumption)
        | exact grow_emit_params_at _ _ (by assumption)
        | apply grow_child_bind _ _ _ (by assumption)
        | apply grow_child_bind _ _ _ (grows_children _ (by assumption))
        | apply grow_deref_bind _ _ (by assumption)
        | apply grow_bind | intro _ | split | dsimp only
    | some d :: next :: rest, hcs, ih =>
      rw [generate_declarators_of]
      have hd : d.Grows := hcs d (List.mem_cons_self _ _)
      have hnext : counters_grow (generate_declarators next) := by
        cases next with
        | none =>
          rw [generate_declarators]
          exact grow_pure _
        | some l1 =>
          rw [generate_declarators]
          exact ih l1 (List.mem_cons_of_mem _ (List.mem_cons_self _ _))
      repeat' first
        | exact hnext
        | exact grow_pure _ | exact grow_fail _ | exact grow_emit _ _ _ _ | exact grow_temp
        | exact grow_label | exact grow_get | exact grow_report _ _ | exact grow_of_except _
        | exact grow_identifier _ | exact grow_string _ | exact grow_label_named _
        | exact grow_read_type _ _ | exact grow_read_label _ _ | exact grow_write_label _ _
        | exact grow_modify _ (fun _ => ⟨rfl, rfl⟩) | exact grow_child _ _ | exact grow_deref _
        | exact grow_generate_at _ (by assumption) | exact grow_generate _ (by assumption)
        | exact grow_emit_params_at _ _ (by assumption)
        | apply grow_child_bind _ _ _ (by assumption)
        | apply grow_child_bind _ _ _ (grows_children _ (by assumption))
        | apply grow_deref_bind _ _ (by assumption)
        | apply grow_bind | intro _ | split | dsimp only

theorem grow_generate_declarators (c : Option Lowering) (hc : grows_at c) :
    counters_grow (generate_declarators c) := by
  cases c with
  | none =>
    rw [generate_declarators]
    exact grow_pure _
  | some l =>
    rw [generate_declarators]
    exact grow_generate_declarators_of l hc

theorem grow_generate_init_declarator_list (kids : List (Option Lowering))
    (hk : ∀ l, some l ∈ kids → l.Grows) :
    counters_grow (generate_init_declarator_list kids) := by
  unfold generate_init_declarator_list
  repeat' first
    | exact grow_pure _ | exact grow_fail _ | exact grow_emit _ _ _ _ | exact grow_temp
    | exact grow_label | exact grow_get | exact grow_report _ _ | exact grow_of_except _
    | exact grow_identifier _ | exact grow_string _ | exact grow_label_named _
    | exact grow_read_type _ _ | exact grow_read_label _ _ | exact grow_write_label _ _
    | exact grow_modify _ (fun _ => ⟨rfl, rfl⟩) | exact grow_child _ _ | exact grow_deref _
    | exact grow_generate_at _ (by assumption) | exact grow_generate _ (by assumption)
    | exact grow_emit_params_at _ _ (by assumption)
    | apply grow_child_bind _ _ _ (by assumption)
    | apply grow_child_bind _ _ _ (grows_children _ (by assumption))
    | apply grow_deref_bind _ _ (by assumption)
    | apply grow_bind | intro _ | split | dsimp only

theorem grow_generate_init_declarator (kids : List (Option Lowering))
    (hk : ∀ l, some l ∈ kids → l.Grows) :
    counters_grow (generate_init_declarator kids) := by
  unfold generate_init_declarator
  repeat' first
    | exact grow_pure _ | exact grow_fail _ | exact grow_emit _ _ _ _ | exact grow_temp
    | exact grow_label | exact grow_get | exact grow_report _ _ | exact grow_of_except _
    | exact grow_identifier _ | exact grow_string _ | exact grow_label_named _
    | exact grow_read_type _ _ | exact grow_read_label _ _ | exact grow_write_label _ _
    | exact grow_modify _ (fun _ => ⟨rfl, rfl⟩) | exact grow_child _ _ | exact grow_deref _
    | exact grow_generate_at _ (by assumption) | exact grow_generate _ (by assumption)
    | exact grow_emit_params_at _ _ (by assumption)
    | apply grow_child_bind _ _ _ (by assumption)
    | apply grow_child_bind _ _ _ (grows_children _ (by assumption))
    | apply grow_deref_bind _ _ (by assumption)
    | apply grow_bind | intro _ | split | dsimp only

theorem grow_generate_array_declarator (node : ASTNode) :
    counters_grow (generate_array_declarator node) := by
  unfold generate_array_declarator
  repeat' first
    | exact grow_pure _ | exact grow_fail _ | exact grow_emit _ _ _ _ | exact grow_temp
    | exact grow_label | exact grow_get | exact grow_report _ _ | exact grow_of_except _
    | exact grow_identifier _ | exact grow_string _ | exact grow_label_named _
    | exact grow_read_type _ _ | exact grow_read_label _ _ | exact grow_write_label _ _
    | exact grow_modify _ (fun _ => ⟨rfl, rfl⟩) | exact grow_child _ _ | exact grow_deref _
    | exact grow_generate_at _ (by assumption) | exact grow_generate _ (by assumption)
    | exact grow_emit_params_at _ _ (by assumption)
    | apply grow_child_bind _ _ _ (by assumption)
    | apply grow_child_bind _ _ _ (grows_children _ (by assumption))
    | apply grow_deref_bind _ _ (by assumption)
    | apply grow_bind | intro _ | split | dsimp only

theorem grow_emit_parameter_assignments (params : List Symbol) (k : Nat) :
    counters_grow (emit_parameter_assignments params k) := by
  constructor
  intro s a s1 code h
  rw [emit_parameter_assignments_eq] at h
  cases h
  exact ⟨le_refl _, le_refl _⟩

theorem grow_emit_void_return (func_name : String) :
    counters_grow (emit_void_return func_name) := by
  unfold emit_void_return
  repeat' first
    | exact grow_pure _ | exact grow_fail _ | exact grow_emit _ _ _ _ | exact grow_temp
    | exact grow_label | exact grow_get | exact grow_report _ _ | exact grow_of_except _
    | exact grow_identifier _ | exact grow_string _ | exact grow_label_named _
    | exact grow_read_type _ _ | exact grow_read_label _ _ | exact grow_write_label _ _
    | exact grow_modify _ (fun _ => ⟨rfl, rfl⟩) | exact grow_child _ _ | exact grow_deref _
    | exact grow_generate_at _ (by assumption) | exact grow_generate _ (by assumption)
    | exact grow_emit_params_at _ _ (by assumption)
    | apply grow_child_bind _ _ _ (by assumption)
    | apply grow_child_bind _ _ _ (grows_children _ (by assumption))
    | apply grow_deref_bind _ _ (by assumption)
    | apply grow_bind | intro _ | split | dsimp only

theorem grow_generate_function_definition (kids : List (Option Lowering))
    (hk : ∀ l, some l ∈ kids → l.Grows) :
    counters_grow (generate_function_definition kids) := by
  unfold generate_function_definition
  repeat' first
    | exact grow_emit_parameter_assignments _ _ | exact grow_emit_void_return _
    | exact grow_pure _ | exact grow_fail _ | exact grow_emit _ _ _ _ | exact grow_temp
    | exact grow_label | exact grow_get | exact grow_report _ _ | exact grow_of_except _
    | exact grow_identifier _ | exact grow_string _ | exact grow_label_named _
    | exact grow_read_type _ _ | exact grow_read_label _ _ | exact grow_write_label _ _
    | exact grow_modify _ (fun _ => ⟨rfl, rfl⟩) | exact grow_child _ _ | exact grow_deref _
    | exact grow_generate_at _ (by assumption) | exact grow_generate _ (by assumption)
    | exact grow_emit_params_at _ _ (by assumption)
    | apply grow_child_bind _ _ _ (by assumption)
    | apply grow_child_bind _ _ _ (grows_children _ (by assumption))
    | apply grow_deref_bind _ _ (by assumption)
    | apply grow_bind | intro _ | split | dsimp only

theorem grow_generate_first_child (kids : List (Option Lowering))
    (hk : ∀ l, some l ∈ kids → l.Grows) : counters_grow (generate_first_child kids) := by
  cases kids with
  | nil => exact grow_pure _
  | cons c0 rest =>
    have h0 := grows_at_head c0 rest hk
    unfold generate_first_child
    repeat' first
      | exact grow_pure _ | exact grow_fail _ | exact grow_emit _ _ _ _ | exact grow_temp
      | exact grow_label | exact grow_get | exact grow_report _ _ | exact grow_of_except _
      | exact grow_identifier _ | exact grow_string _ | exact grow_label_named _
      | exact grow_read_type _ _ | exact grow_read_label _ _ | exact grow_write_label _ _
      | exact grow_modify _ (fun _ => ⟨rfl, rfl⟩) | exact grow_child _ _ | exact grow_deref _
      | exact grow_generate_at _ (by assumption) | exact grow_generate _ (by assumption)
      | exact grow_emit_params_at _ _ (by assumption)
      | apply grow_child_bind _ _ _ (by assumption)
      | apply grow_child_bind _ _ _ (grows_children _ (by assumption))
      | apply grow_deref_bind _ _ (by assumption)
      | apply grow_bind | intro _ | split | dsimp only

theorem grow_generate_return (kids : List (Option Lowering))
    (hk : ∀ l, some l ∈ kids → l.Grows) : counters_grow (generate_return kids) := by
  cases kids with
  | nil =>
    unfold generate_return
    repeat' first
      | exact grow_pure _ | exact grow_fail _ | exact grow_emit _ _ _ _ | exact grow_temp
      | exact grow_label | exact grow_get | exact grow_report _ _ | exact grow_of_except _
      | exact grow_identifier _ | exact grow_string _ | exact grow_label_named _
      | exact grow_read_type _ _ | exact grow_read_label _ _ | exact grow_write_label _ _
      | exact grow_modify _ (fun _ => ⟨rfl, rfl⟩) | exact grow_child _ _ | exact grow_deref _
      | exact grow_generate_at _ (by assumption) | exact grow_generate _ (by assumption)
      | exact grow_emit_params_at _ _ (by assumption)
      | apply grow_child_bind _ _ _ (by assumption)
      | apply grow_child_bind _ _ _ (grows_children _ (by assumption))
      | apply grow_deref_bind _ _ (by assumption)
      | apply grow_bind | intro _ | split | dsimp only
  | cons c0 rest =>
    have h0 := grows_at_head c0 rest hk
    unfold generate_return
    repeat' first
      | exact grow_pure _ | exact grow_fail _ | exact grow_emit _ _ _ _ | exact grow_temp
      | exact grow_label | exact grow_get | exact grow_report _ _ | exact grow_of_except _
      | exact grow_identifier _ | exact grow_string _ | exact grow_label_named _
      | exact grow_read_type _ _ | exact grow_read_label _ _ | exact grow_write_label _ _
      | exact grow_modify _ (fun _ => ⟨rfl, rfl⟩) | exact grow_child _ _ | exact grow_deref _
      | exact grow_generate_at _ (by assumption) | exact grow_generate _ (by assumption)
      | exact grow_emit_params_at _ _ (by assumption)
      | apply grow_child_bind _ _ _ (by assumption)
      | apply grow_child_bind _ _ _ (grows_children _ (by assumption))
      | apply grow_deref_bind _ _ (by assumption)
      | apply grow_bind | intro _ | split | dsimp only

theorem grow_generate_constant (nt : String) (v : Option String) :
    counters_grow (generate_constant nt v) := by
  unfold generate_constant
  repeat' first
    | exact grow_pure _ | exact grow_fail _ | exact grow_emit _ _ _ _ | exact grow_temp
    | exact grow_label | exact grow_get | exact grow_report _ _ | exact grow_of_except _
    | exact grow_identifier _ | exact grow_string _ | exact grow_label_named _
    | exact grow_read_type _ _ | exact grow_read_label _ _ | exact grow_write_label _ _
    | exact grow_modify _ (fun _ => ⟨rfl, rfl⟩) | exact grow_child _ _ | exact grow_deref _
    | exact grow_generate_at _ (by assumption) | exact grow_generate _ (by assumption)
    | exact grow_emit_params_at _ _ (by assumption)
    | apply grow_child_bind _ _ _ (by assumption)
    | apply grow_child_bind _ _ _ (grows_children _ (by assumption))
    | apply grow_deref_bind _ _ (by assumption)
    | apply grow_bind | intro _ | split | dsimp only

theorem grow_generate_array_store (lhs : Lowering) (arg1_op : Operand) (hl : lhs.Grows) :
    counters_grow (generate_array_store lhs arg1_op) := by
  unfold generate_array_store
  repeat' first
    | exact grow_pure _ | exact grow_fail _ | exact grow_emit _ _ _ _ | exact grow_temp
    | exact grow_label | exact grow_get | exact grow_report _ _ | exact grow_of_except _
    | exact grow_identifier _ | exact grow_string _ | exact grow_label_named _
    | exact grow_read_type _ _ | exact grow_read_label _ _ | exact grow_write_label _ _
    | exact grow_modify _ (fun _ => ⟨rfl, rfl⟩) | exact grow_child _ _ | exact grow_deref _
    | exact grow_generate_at _ (by assumption) | exact grow_generate _ (by assumption)
    | exact grow_emit_params_at _ _ (by assumption)
    | apply grow_child_bind _ _ _ (by assumption)
    | apply grow_child_bind _ _ _ (grows_children _ (by assumption))
    | apply grow_deref_bind _ _ (by assumption)
    | apply grow_bind | intro _ | split | dsimp only

theorem grow_generate_member_store (fmt : String) (lhs : Lowering) (arg1_op : Operand)
    (hl : lhs.Grows) :
    counters_grow (generate_member_store fmt lhs arg1_op) := by
  unfold generate_member_store
  repeat' first
    | exact grow_pure _ | exact grow_fail _ | exact grow_emit _ _ _ _ | exact grow_temp
    | exact grow_label | exact grow_get | exact grow_report _ _ | exact grow_of_except _
    | exact grow_identifier _ | exact grow_string _ | exact grow_label_named _
    | exact grow_read_type _ _ | exact grow_read_label _ _ | exact grow_write_label _ _
    | exact grow_modify _ (fun _ => ⟨rfl, rfl⟩) | exact grow_child _ _ | exact grow_deref _
    | exact grow_generate_at _ (by assumption) | exact grow_generate _ (by assumption)
    | exact grow_emit_params_at _ _ (by assumption)
    | apply grow_child_bind _ _ _ (by assumption)
    | apply grow_child_bind _ _ _ (grows_children _ (by assumption))
    | apply grow_deref_bind _ _ (by assumption)
    | apply grow_bind | intro _ | split | dsimp only

theorem grow_generate_assignment (kids : List (Option Lowering))
    (hk : ∀ l, some l ∈ kids → l.Grows) :
    counters_grow (generate_assignment kids) := by
  unfold generate_assignment
  repeat' first
    | exact grow_generate_array_store _ _ (by assumption)
    | exact grow_generate_member_store _ _ _ (by assumption)
    | exact grow_pure _ | exact grow_fail _ | exact grow_emit _ _ _ _ | exact grow_temp
    | exact grow_label | exact grow_get | exact grow_report _ _ | exact grow_of_except _
    | exact grow_identifier _ | exact grow_string _ | exact grow_label_named _
    | exact grow_read_type _ _ | exact grow_read_label _ _ | exact grow_write_label _ _
    | exact grow_modify _ (fun _ => ⟨rfl, rfl⟩) | exact grow_child _ _ | exact grow_deref _
    | exact grow_generate_at _ (by assumption) | exact grow_generate _ (by assumption)
    | exact grow_emit_params_at _ _ (by assumption)
    | apply grow_child_bind _ _ _ (by assumption)
    | apply grow_child_bind _ _ _ (grows_children _ (by assumption))
    | apply grow_deref_bind _ _ (by assumption)
    | apply grow_bind | intro _ | split | dsimp only

theorem grow_generate_binary_op (v : Option String) (kids : List (Option Lowering))
    (hk : ∀ l, some l ∈ kids → l.Grows) :
    counters_grow (generate_binary_op v kids) := by
  unfold generate_binary_op
  repeat' first
    | exact grow_pure _ | exact grow_fail _ | exact grow_emit _ _ _ _ | exact grow_temp
    | exact grow_label | exact grow_get | exact grow_report _ _ | exact grow_of_except _
    | exact grow_identifier _ | exact grow_string _ | exact grow_label_named _
    | exact grow_read_type _ _ | exact grow_read_label _ _ | exact grow_write_label _ _
    | exact grow_modify _ (fun _ => ⟨rfl, rfl⟩) | exact grow_child _ _ | exact grow_deref _
    | exact grow_generate_at _ (by assumption) | exact grow_generate _ (by assumption)
    | exact grow_emit_params_at _ _ (by assumption)
    | apply grow_child_bind _ _ _ (by assumption)
    | apply grow_child_bind _ _ _ (grows_children _ (by assumption))
    | apply grow_deref_bind _ _ (by assumption)
    | apply grow_bind | intro _ | split | dsimp only

theorem grow_generate_unary_op (v : Option String) (kids : List (Option Lowering))
    (hk : ∀ l, some l ∈ kids → l.Grows) :
    counters_grow (generate_unary_op v kids) := by
  unfold generate_unary_op
  repeat' first
    | exact grow_pure _ | exact grow_fail _ | exact grow_emit _ _ _ _ | exact grow_temp
    | exact grow_label | exact grow_get | exact grow_report _ _ | exact grow_of_except _
    | exact grow_identifier _ | exact grow_string _ | exact grow_label_named _
    | exact grow_read_type _ _ | exact grow_read_label _ _ | exact grow_write_label _ _
    | exact grow_modify _ (fun _ => ⟨rfl, rfl⟩) | exact grow_child _ _ | exact grow_deref _
    | exact grow_generate_at _ (by assumption) | exact grow_generate _ (by assumption)
    | exact grow_emit_params_at _ _ (by assumption)
    | apply grow_child_bind _ _ _ (by assumption)
    | apply grow_child_bind _ _ _ (grows_children _ (by assumption))
    | apply grow_deref_bind _ _ (by assumption)
    | apply grow_bind | intro _ | split | dsimp only

theorem grow_generate_pre_step (op_code : OpCode) (kids : List (Option Lowering))
    (hk : ∀ l, some l ∈ kids → l.Grows) :
    counters_grow (generate_pre_step op_code kids) := by
  unfold generate_pre_step
  repeat' first
    | exact grow_pure _ | exact grow_fail _ | exact grow_emit _ _ _ _ | exact grow_temp
    | exact grow_label | exact grow_get | exact grow_report _ _ | exact grow_of_except _
    | exact grow_identifier _ | exact grow_string _ | exact grow_label_named _
    | exact grow_read_type _ _ | exact grow_read_label _ _ | exact grow_write_label _ _
    | exact grow_modify _ (fun _ => ⟨rfl, rfl⟩) | exact grow_child _ _ | exact grow_deref _
    | exact grow_generate_at _ (by assumption) | exact grow_generate _ (by assumption)
    | exact grow_emit_params_at _ _ (by assumption)
    | apply grow_child_bind _ _ _ (by assumption)
    | apply grow_child_bind _ _ _ (grows_children _ (by assumption))
    | apply grow_deref_bind _ _ (by assumption)
    | apply grow_bind | intro _ | split | dsimp only

theorem grow_generate_post_step (op_code : OpCode) (kids : List (Option Lowering))
    (hk : ∀ l, some l ∈ kids → l.Grows) :
    counters_grow (generate_post_step op_code kids) := by
  unfold generate_post_step
  repeat' first
    | exact grow_pure _ | exact grow_fail _ | exact grow_emit _ _ _ _ | exact grow_temp
    | exact grow_label | exact grow_get | exact grow_report _ _ | exact grow_of_except _
    | exact grow_identifier _ | exact grow_string _ | exact grow_label_named _
    | exact grow_read_type _ _ | exact grow_read_label _ _ | exact grow_write_label _ _
    | exact grow_modify _ (fun _ => ⟨rfl, rfl⟩) | exact grow_child _ _ | exact grow_deref _
    | exact grow_generate_at _ (by assumption) | exact grow_generate _ (by assumption)
    | exact grow_emit_params_at _ _ (by assumption)
    | apply grow_child_bind _ _ _ (by assumption)
    | apply grow_child_bind _ _ _ (grows_children _ (by assumption))
    | apply grow_deref_bind _ _ (by assumption)
    | apply grow_bind | intro _ | split | dsimp only

theorem grows_at_second (kids : List (Option Lowering)) :
    (∀ l, some l ∈ kids → l.Grows) →
    grows_at (match kids with
      | _ :: c1 :: _ => c1
      | _ => none) := by
  intro hk
  split
  · exact grows_at_of_mem _ hk _ (List.mem_cons_of_mem _ (List.mem_cons_self _ _))
  · trivial

theorem grows_of_children_eq (l b : Lowering) (tail : List (Option Lowering)) (hl : l.Grows)
    (h : l.children = some b :: tail) : b.Grows :=
  grows_children l hl b (by rw [h]; exact List.mem_cons_self _ _)

theorem grow_generate_function_call (kids : List (Option Lowering))
    (hk : ∀ l, some l ∈ kids → l.Grows) :
    counters_grow (generate_function_call kids) := by
  unfold generate_function_call
  repeat' first
    | exact grow_emit_params_at _ _ (grows_at_second kids hk)
    | exact grow_pure _ | exact grow_fail _ | exact grow_emit _ _ _ _ | exact grow_temp
    | exact grow_label | exact grow_get | exact grow_report _ _ | exact grow_of_except _
    | exact grow_identifier _ | exact grow_string _ | exact grow_label_named _
    | exact grow_read_type _ _ | exact grow_read_label _ _ | exact grow_write_label _ _
    | exact grow_modify _ (fun _ => ⟨rfl, rfl⟩) | exact grow_child _ _ | exact grow_deref _
    | exact grow_generate_at _ (by assumption) | exact grow_generate _ (by assumption)
    | exact grow_emit_params_at _ _ (by assumption)
    | apply grow_child_bind _ _ _ (by assumption)
    | apply grow_child_bind _ _ _ (grows_children _ (by assumption))
    | apply grow_deref_bind _ _ (by assumption)
    | apply grow_bind | intro _ | split | dsimp only

theorem grow_generate_array_access (position : List Nat) (ty : Option CType) (kids : List (Option Lowering))
    (hk : ∀ l, some l ∈ kids → l.Grows) :
    counters_grow (generate_array_access position ty kids) := by
  unfold generate_array_access
  repeat' first
    | exact grow_pure _ | exact grow_fail _ | exact grow_emit _ _ _ _ | exact grow_temp
    | exact grow_label | exact grow_get | exact grow_report _ _ | exact grow_of_except _
    | exact grow_identifier _ | exact grow_string _ | exact grow_label_named _
    | exact grow_read_type _ _ | exact grow_read_label _ _ | exact grow_write_label _ _
    | exact grow_modify _ (fun _ => ⟨rfl, rfl⟩) | exact grow_child _ _ | exact grow_deref _
    | exact grow_generate_at _ (by assumption) | exact grow_generate _ (by assumption)
    | exact grow_emit_params_at _ _ (by assumption)
    | apply grow_child_bind _ _ _ (by assumption)
    | apply grow_child_bind _ _ _ (grows_children _ (by assumption))
    | apply grow_deref_bind _ _ (by assumption)
    | apply grow_bind | intro _ | split | dsimp only

theorem grow_generate_member_access (fmt : String) (recovery : Operand) (v : Option String)
    (kids : List (Option Lowering))
    (hk : ∀ l, some l ∈ kids → l.Grows) :
    counters_grow (generate_member_access fmt recovery v kids) := by
  unfold generate_member_access
  repeat' first
    | exact grow_pure _ | exact grow_fail _ | exact grow_emit _ _ _ _ | exact grow_temp
    | exact grow_label | exact grow_get | exact grow_report _ _ | exact grow_of_except _
    | exact grow_identifier _ | exact grow_string _ | exact grow_label_named _
    | exact grow_read_type _ _ | exact grow_read_label _ _ | exact grow_write_label _ _
    | exact grow_modify _ (fun _ => ⟨rfl, rfl⟩) | exact grow_child _ _ | exact grow_deref _
    | exact grow_generate_at _ (by assumption) | exact grow_generate _ (by assumption)
    | exact grow_emit_params_at _ _ (by assumption)
    | apply grow_child_bind _ _ _ (by assumption)
    | apply grow_child_bind _ _ _ (grows_children _ (by assumption))
    | apply grow_deref_bind _ _ (by assumption)
    | apply grow_bind | intro _ | split | dsimp only

theorem grow_generate_if (kids : List (Option Lowering))
    (hk : ∀ l, some l ∈ kids → l.Grows) :
    counters_grow (generate_if kids) := by
  unfold generate_if
  repeat' first
    | exact grow_pure _ | exact grow_fail _ | exact grow_emit _ _ _ _ | exact grow_temp
    | exact grow_label | exact grow_get | exact grow_report _ _ | exact grow_of_except _
    | exact grow_identifier _ | exact grow_string _ | exact grow_label_named _
    | exact grow_read_type _ _ | exact grow_read_label _ _ | exact grow_write_label _ _
    | exact grow_modify _ (fun _ => ⟨rfl, rfl⟩) | exact grow_child _ _ | exact grow_deref _
    | exact grow_generate_at _ (by assumption) | exact grow_generate _ (by assumption)
    | exact grow_emit_params_at _ _ (by assumption)
    | apply grow_child_bind _ _ _ (by assumption)
    | apply grow_child_bind _ _ _ (grows_children _ (by assumption))
    | apply grow_deref_bind _ _ (by assumption)
    | apply grow_bind | intro _ | split | dsimp only

theorem grow_generate_if_else (kids : List (Option Lowering))
    (hk : ∀ l, some l ∈ kids → l.Grows) :
    counters_grow (generate_if_else kids) := by
  unfold generate_if_else
  repeat' first
    | exact grow_pure _ | exact grow_fail _ | exact grow_emit _ _ _ _ | exact grow_temp
    | exact grow_label | exact grow_get | exact grow_report _ _ | exact grow_of_except _
    | exact grow_identifier _ | exact grow_string _ | exact grow_label_named _
    | exact grow_read_type _ _ | exact grow_read_label _ _ | exact grow_write_label _ _
    | exact grow_modify _ (fun _ => ⟨rfl, rfl⟩) | exact grow_child _ _ | exact grow_deref _
    | exact grow_generate_at _ (by assumption) | exact grow_generate _ (by assumption)
    | exact grow_emit_params_at _ _ (by assumption)
    | apply grow_child_bind _ _ _ (by assumption)
    | apply grow_child_bind _ _ _ (grows_children _ (by assumption))
    | apply grow_deref_bind _ _ (by assumption)
    | apply grow_bind | intro _ | split | dsimp only

theorem grow_generate_while (kids : List (Option Lowering))
    (hk : ∀ l, some l ∈ kids → l.Grows) :
    counters_grow (generate_while kids) := by
  unfold generate_while
  repeat' first
    | exact grow_pure _ | exact grow_fail _ | exact grow_emit _ _ _ _ | exact grow_temp
    | exact grow_label | exact grow_get | exact grow_report _ _ | exact grow_of_except _
    | exact grow_identifier _ | exact grow_string _ | exact grow_label_named _
    | exact grow_read_type _ _ | exact grow_read_label _ _ | exact grow_write_label _ _
    | exact grow_modify _ (fun _ => ⟨rfl, rfl⟩) | exact grow_child _ _ | exact grow_deref _
    | exact grow_generate_at _ (by assumption) | exact grow_generate _ (by assumption)
    | exact grow_emit_params_at _ _ (by assumption)
    | apply grow_child_bind _ _ _ (by assumption)
    | apply grow_child_bind _ _ _ (grows_children _ (by assumption))
    | apply grow_deref_bind _ _ (by assumption)
    | apply grow_bind | intro _ | split | dsimp only

theorem grow_generate_do_while (kids : List (Option Lowering))
    (hk : ∀ l, some l ∈ kids → l.Grows) :
    counters_grow (generate_do_while kids) := by
  unfold generate_do_while
  repeat' first
    | exact grow_pure _ | exact grow_fail _ | exact grow_emit _ _ _ _ | exact grow_temp
    | exact grow_label | exact grow_get | exact grow_report _ _ | exact grow_of_except _
    | exact grow_identifier _ | exact grow_string _ | exact grow_label_named _
    | exact grow_read_type _ _ | exact grow_read_label _ _ | exact grow_write_label _ _
    | exact grow_modify _ (fun _ => ⟨rfl, rfl⟩) | exact grow_child _ _ | exact grow_deref _
    | exact grow_generate_at _ (by assumption) | exact grow_generate _ (by assumption)
    | exact grow_emit_params_at _ _ (by assumption)
    | apply grow_child_bind _ _ _ (by assumption)
    | apply grow_child_bind _ _ _ (grows_children _ (by assumption))
    | apply grow_deref_bind _ _ (by assumption)
    | apply grow_bind | intro _ | split | dsimp only

theorem grow_clear_loop_labels : counters_grow clear_loop_labels :=
  grow_modify _ (fun _ => ⟨rfl, rfl⟩)

theorem grow_generate_for (kids : List (Option Lowering))
    (hk : ∀ l, some l ∈ kids → l.Grows) :
    counters_grow (generate_for kids) := by
  unfold generate_for
  repeat' first
    | exact grow_clear_loop_labels
    | exact grow_pure _ | exact grow_fail _ | exact grow_emit _ _ _ _ | exact grow_temp
    | exact grow_label | exact grow_get | exact grow_report _ _ | exact grow_of_except _
    | exact grow_identifier _ | exact grow_string _ | exact grow_label_named _
    | exact grow_read_type _ _ | exact grow_read_label _ _ | exact grow_write_label _ _
    | exact grow_modify _ (fun _ => ⟨rfl, rfl⟩) | exact grow_child _ _ | exact grow_deref _
    | exact grow_generate_at _ (by assumption) | exact grow_generate _ (by assumption)
    | exact grow_emit_params_at _ _ (by assumption)
    | apply grow_child_bind _ _ _ (by assumption)
    | apply grow_child_bind _ _ _ (grows_children _ (by assumption))
    | apply grow_deref_bind _ _ (by assumption)
    | apply grow_bind | intro _ | split | dsimp only

theorem grow_generate_for_decl (kids : List (Option Lowering))
    (hk : ∀ l, some l ∈ kids → l.Grows) :
    counters_grow (generate_for_decl kids) := by
  unfold generate_for_decl
  repeat' first
    | exact grow_clear_loop_labels
    | exact grow_pure _ | exact grow_fail _ | exact grow_emit _ _ _ _ | exact grow_temp
    | exact grow_label | exact grow_get | exact grow_report _ _ | exact grow_of_except _
    | exact grow_identifier _ | exact grow_string _ | exact grow_label_named _
    | exact grow_read_type _ _ | exact grow_read_label _ _ | exact grow_write_label _ _
    | exact grow_modify _ (fun _ => ⟨rfl, rfl⟩) | exact grow_child _ _ | exact grow_deref _
    | exact grow_generate_at _ (by assumption) | exact grow_generate _ (by assumption)
    | exact grow_emit_params_at _ _ (by assumption)
    | apply grow_child_bind _ _ _ (by assumption)
    | apply grow_child_bind _ _ _ (grows_children _ (by assumption))
    | apply grow_deref_bind _ _ (by assumption)
    | apply grow_bind | intro _ | split | dsimp only

theorem grow_generate_break :
    counters_grow (generate_break) := by
  unfold generate_break
  repeat' first
    | exact grow_pure _ | exact grow_fail _ | exact grow_emit _ _ _ _ | exact grow_temp
    | exact grow_label | exact grow_get | exact grow_report _ _ | exact grow_of_except _
    | exact grow_identifier _ | exact grow_string _ | exact grow_label_named _
    | exact grow_read_type _ _ | exact grow_read_label _ _ | exact grow_write_label _ _
    | exact grow_modify _ (fun _ => ⟨rfl, rfl⟩) | exact grow_child _ _ | exact grow_deref _
    | exact grow_generate_at _ (by assumption) | exact grow_generate _ (by assumption)
    | exact grow_emit_params_at _ _ (by assumption)
    | apply grow_child_bind _ _ _ (by assumption)
    | apply grow_child_bind _ _ _ (grows_children _ (by assumption))
    | apply grow_deref_bind _ _ (by assumption)
    | apply grow_bind | intro _ | split | dsimp only

theorem grow_generate_continue :
    counters_grow (generate_continue) := by
  unfold generate_continue
  repeat' first
    | exact grow_pure _ | exact grow_fail _ | exact grow_emit _ _ _ _ | exact grow_temp
    | exact grow_label | exact grow_get | exact grow_report _ _ | exact grow_of_except _
    | exact grow_identifier _ | exact grow_string _ | exact grow_label_named _
    | exact grow_read_type _ _ | exact grow_read_label _ _ | exact grow_write_label _ _
    | exact grow_modify _ (fun _ => ⟨rfl, rfl⟩) | exact grow_child _ _ | exact grow_deref _
    | exact grow_generate_at _ (by assumption) | exact grow_generate _ (by assumption)
    | exact grow_emit_params_at _ _ (by assumption)
    | apply grow_child_bind _ _ _ (by assumption)
    | apply grow_child_bind _ _ _ (grows_children _ (by assumption))
    | apply grow_deref_bind _ _ (by assumption)
    | apply grow_bind | intro _ | split | dsimp only

theorem grow_generate_labelled (statement_index : Nat) (position : List Nat)
    (ty : Option CType) (kids : List (Option Lowering))
    (hk : ∀ l, some l ∈ kids → l.Grows) :
    counters_grow (generate_labelled statement_index position ty kids) := by
  unfold generate_labelled
  repeat' first
    | exact grow_pure _ | exact grow_fail _ | exact grow_emit _ _ _ _ | exact grow_temp
    | exact grow_label | exact grow_get | exact grow_report _ _ | exact grow_of_except _
    | exact grow_identifier _ | exact grow_string _ | exact grow_label_named _
    | exact grow_read_type _ _ | exact grow_read_label _ _ | exact grow_write_label _ _
    | exact grow_modify _ (fun _ => ⟨rfl, rfl⟩) | exact grow_child _ _ | exact grow_deref _
    | exact grow_generate_at _ (by assumption) | exact grow_generate _ (by assumption)
    | exact grow_emit_params_at _ _ (by assumption)
    | apply grow_child_bind _ _ _ (by assumption)
    | apply grow_child_bind _ _ _ (grows_children _ (by assumption))
    | apply grow_deref_bind _ _ (by assumption)
    | apply grow_bind | intro _ | split | dsimp only

theorem grow_label_cases : ∀ (kids : List (Option Lowering)) (default_label : Operand),
    counters_grow (label_cases kids default_label)
  | [], _ => grow_pure _
  | none :: _, _ => grow_fail _
  | some stmt :: rest, default_label => by
    have ih := grow_label_cases rest
    rw [label_cases]
    repeat' first
      | exact ih _
      | exact grow_pure _ | exact grow_fail _ | exact grow_emit _ _ _ _ | exact grow_temp
      | exact grow_label | exact grow_get | exact grow_report _ _ | exact grow_of_except _
      | exact grow_identifier _ | exact grow_string _ | exact grow_label_named _
      | exact grow_read_type _ _ | exact grow_read_label _ _ | exact grow_write_label _ _
      | exact grow_modify _ (fun _ => ⟨rfl, rfl⟩) | exact grow_child _ _ | exact grow_deref _
      | exact grow_generate_at _ (by assumption) | exact grow_generate _ (by assumption)
      | exact grow_emit_params_at _ _ (by assumption)
      | apply grow_child_bind _ _ _ (by assumption)
      | apply grow_child_bind _ _ _ (grows_children _ (by assumption))
      | apply grow_deref_bind _ _ (by assumption)
      | apply grow_bind | intro _ | split | dsimp only

theorem grow_emit_case_tests (switch_val : Operand) : ∀ (kids : List (Option Lowering)),
    (∀ l, some l ∈ kids → l.Grows) → counters_grow (emit_case_tests switch_val kids)
  | [], _ => grow_pure _
  | none :: _, _ => grow_fail _
  | some stmt :: rest, hk => by
    have ih := grow_emit_case_tests switch_val rest (grows_tail _ _ hk)
    have hstmt : stmt.Grows := hk stmt (List.mem_cons_self _ _)
    rw [emit_case_tests]
    repeat' first
      | exact ih
      | exact grow_pure _ | exact grow_fail _ | exact grow_emit _ _ _ _ | exact grow_temp
      | exact grow_label | exact grow_get | exact grow_report _ _ | exact grow_of_except _
      | exact grow_identifier _ | exact grow_string _ | exact grow_label_named _
      | exact grow_read_type _ _ | exact grow_read_label _ _ | exact grow_write_label _ _
      | exact grow_modify _ (fun _ => ⟨rfl, rfl⟩) | exact grow_child _ _ | exact grow_deref _
      | exact grow_generate_at _ (by assumption) | exact grow_generate _ (by assumption)
      | exact grow_emit_params_at _ _ (by assumption)
      | apply grow_child_bind _ _ _ (by assumption)
      | apply grow_child_bind _ _ _ (grows_children _ (by assumption))
      | apply grow_deref_bind _ _ (by assumption)
      | apply grow_bind | intro _ | split | dsimp only

theorem grow_generate_switch (kids : List (Option Lowering))
    (hk : ∀ l, some l ∈ kids → l.Grows) : counters_grow (generate_switch kids) := by
  unfold generate_switch
  repeat' first
    | exact grow_label_cases _ _
    | exact grow_emit_case_tests _ _
        (grows_children _ (grows_of_children_eq _ _ _ (by assumption) (by assumption)))
    | exact grow_pure _ | exact grow_fail _ | exact grow_emit _ _ _ _ | exact grow_temp
    | exact grow_label | exact grow_get | exact grow_report _ _ | exact grow_of_except _
    | exact grow_identifier _ | exact grow_string _ | exact grow_label_named _
    | exact grow_read_type _ _ | exact grow_read_label _ _ | exact grow_write_label _ _
    | exact grow_modify _ (fun _ => ⟨rfl, rfl⟩) | exact grow_child _ _ | exact grow_deref _
    | exact grow_generate_at _ (by assumption) | exact grow_generate _ (by assumption)
    | exact grow_emit_params_at _ _ (by assumption)
    | apply grow_child_bind _ _ _ (by assumption)
    | apply grow_child_bind _ _ _ (grows_children _ (by assumption))
    | apply grow_deref_bind _ _ (by assumption)
    | apply grow_bind | intro _ | split | dsimp only

theorem grow_generate_unhandled (nt : String) (kids : List (Option Lowering))
    (hk : ∀ l, some l ∈ kids → l.Grows) :
    counters_grow (generate_unhandled nt kids) := by
  unfold generate_unhandled
  repeat' first
    | exact grow_generate_children kids hk
    | exact grow_pure _ | exact grow_fail _ | exact grow_emit _ _ _ _ | exact grow_temp
    | exact grow_label | exact grow_get | exact grow_report _ _ | exact grow_of_except _
    | exact grow_identifier _ | exact grow_string _ | exact grow_label_named _
    | exact grow_read_type _ _ | exact grow_read_label _ _ | exact grow_write_label _ _
    | exact grow_modify _ (fun _ => ⟨rfl, rfl⟩) | exact grow_child _ _ | exact grow_deref _
    | exact grow_generate_at _ (by assumption) | exact grow_generate _ (by assumption)
    | exact grow_emit_params_at _ _ (by assumption)
    | apply grow_child_bind _ _ _ (by assumption)
    | apply grow_child_bind _ _ _ (grows_children _ (by assumption))
    | apply grow_deref_bind _ _ (by assumption)
    | apply grow_bind | intro _ | split | dsimp only

theorem grow_ite {α : Type} (c : Prop) [Decidable c] (x y : Lower α)
    (hx : counters_grow x) (hy : counters_grow y) : counters_grow (if c then x else y) := by
  split
  · exact hx
  · exact hy

theorem grow_generate_branches (position : List Nat) (nt : String) (v : Option String)
    (ty : Option CType) (kids : List (Option Lowering))
    (hk : ∀ l, some l ∈ kids → l.Grows) :
    counters_grow (generate_branches position nt v ty kids) := by
  unfold generate_branches
  refine grow_ite _ _ _ (grow_generate_function_definition kids hk) ?_
  refine grow_ite _ _ _ (grow_generate_first_child kids hk) ?_
  refine grow_ite _ _ _ (grow_generate_first_child kids hk) ?_
  refine grow_ite _ _ _ (grow_generate_return kids hk) ?_
  refine grow_ite _ _ _ (grow_identifier _) ?_
  refine grow_ite _ _ _ (grow_generate_constant _ _) ?_
  refine grow_ite _ _ _ (grow_generate_constant _ _) ?_
  refine grow_ite _ _ _ (grow_generate_constant _ _) ?_
  refine grow_ite _ _ _ (grow_string _) ?_
  refine grow_ite _ _ _ (grow_generate_assignment kids hk) ?_
  refine grow_ite _ _ _ (grow_generate_binary_op _ kids hk) ?_
  refine grow_ite _ _ _ (grow_generate_unary_op _ kids hk) ?_
  refine grow_ite _ _ _ (grow_generate_pre_step _ kids hk) ?_
  refine grow_ite _ _ _ (grow_generate_pre_step _ kids hk) ?_
  refine grow_ite _ _ _ (grow_generate_post_step _ kids hk) ?_
  refine grow_ite _ _ _ (grow_generate_post_step _ kids hk) ?_
  refine grow_ite _ _ _ (grow_generate_function_call kids hk) ?_
  refine grow_ite _ _ _ (grow_generate_array_access _ _ kids hk) ?_
  refine grow_ite _ _ _ (grow_generate_member_access _ _ _ kids hk) ?_
  refine grow_ite _ _ _ (grow_generate_member_access _ _ _ kids hk) ?_
  refine grow_ite _ _ _ (grow_generate_if kids hk) ?_
  refine grow_ite _ _ _ (grow_generate_if_else kids hk) ?_
  refine grow_ite _ _ _ (grow_generate_while kids hk) ?_
  refine grow_ite _ _ _ (grow_generate_do_while kids hk) ?_
  refine grow_ite _ _ _ (grow_generate_for kids hk) ?_
  refine grow_ite _ _ _ (grow_generate_for_decl kids hk) ?_
  refine grow_ite _ _ _ (grow_generate_break) ?_
  refine grow_ite _ _ _ (grow_generate_continue) ?_
  refine grow_ite _ _ _ (grow_generate_labelled _ _ _ kids hk) ?_
  refine grow_ite _ _ _ (grow_generate_labelled _ _ _ kids hk) ?_
  refine grow_ite _ _ _ (grow_generate_switch kids hk) ?_
  exact grow_generate_unhandled _ kids hk

theorem grow_generate_node (position : List Nat) (nt : String) (v : Option String)
    (cs : List (Option ASTNode)) (ty : Option CType) (kids : List (Option Lowering))
    (hk : ∀ l, some l ∈ kids → l.Grows) :
    counters_grow (generate_node position nt v cs ty kids) := by
  unfold generate_node
  repeat' first
    | exact grow_generate_children kids hk
    | exact grow_generate_declarators _ (by assumption)
    | exact grow_generate_init_declarator_list kids hk
    | exact grow_generate_init_declarator kids hk
    | exact grow_generate_array_declarator _
    | exact grow_generate_branches _ _ _ _ kids hk
    | exact grow_pure _ | exact grow_fail _ | exact grow_emit _ _ _ _ | exact grow_temp
    | exact grow_label | exact grow_get | exact grow_report _ _ | exact grow_of_except _
    | exact grow_identifier _ | exact grow_string _ | exact grow_label_named _
    | exact grow_read_type _ _ | exact grow_read_label _ _ | exact grow_write_label _ _
    | exact grow_modify _ (fun _ => ⟨rfl, rfl⟩) | exact grow_child _ _ | exact grow_deref _
    | exact grow_generate_at _ (by assumption) | exact grow_generate _ (by assumption)
    | exact grow_emit_params_at _ _ (by assumption)
    | apply grow_child_bind _ _ _ (by assumption)
    | apply grow_child_bind _ _ _ (grows_children _ (by assumption))
    | apply grow_deref_bind _ _ (by assumption)
    | apply grow_bind | intro _ | split | dsimp only

theorem grow_emit_params_node (nt : String) (generate : Lower Operand)
    (kids : List (Option Lowering)) (count : Nat) (hg : counters_grow generate)
    (hk : ∀ l, some l ∈ kids → l.Grows) :
    counters_grow (emit_params_node nt generate kids count) := by
  unfold emit_params_node
  repeat' first
    | exact hg
    | exact grow_pure _ | exact grow_fail _ | exact grow_emit _ _ _ _ | exact grow_temp
    | exact grow_label | exact grow_get | exact grow_report _ _ | exact grow_of_except _
    | exact grow_identifier _ | exact grow_string _ | exact grow_label_named _
    | exact grow_read_type _ _ | exact grow_read_label _ _ | exact grow_write_label _ _
    | exact grow_modify _ (fun _ => ⟨rfl, rfl⟩) | exact grow_child _ _ | exact grow_deref _
    | exact grow_generate_at _ (by assumption) | exact grow_generate _ (by assumption)
    | exact grow_emit_params_at _ _ (by assumption)
    | apply grow_child_bind _ _ _ (by assumption)
    | apply grow_child_bind _ _ _ (grows_children _ (by assumption))
    | apply grow_deref_bind _ _ (by assumption)
    | apply grow_bind | intro _ | split | dsimp only

mutual
theorem lowering_of_grows : ∀ (n : ASTNode) (position : List Nat), (lowering_of position n).Grows
  | .mk nt v cs ty, position => by
    rw [lowering_of]
    have hk := lowering_children_grow cs position 0
    exact .mk _ _ _ _ _ (grow_generate_node position nt v cs ty _ hk)
      (fun count => grow_emit_params_node nt _ _ count
        (grow_generate_node position nt v cs ty _ hk) hk) hk
theorem lowering_children_grow : ∀ (cs : List (Option ASTNode)) (position : List Nat) (i : Nat)
    (l : Lowering), some l ∈ lowering_children position i cs → l.Grows
  | [], _, _, l, h => by
    rw [lowering_children] at h
    cases h
  | none :: cs, position, i, l, h => by
    rw [lowering_children] at h
    cases h with
    | tail _ h1 => exact lowering_children_grow cs position (i + 1) l h1
  | some c :: cs, position, i, l, h => by
    rw [lowering_children] at h
    cases h with
    | head => exact lowering_of_grows c (position ++ [i])
    | tail _ h1 => exact lowering_children_grow cs position (i + 1) l h1
end

theorem grow_Generate_IR_from (position : List Nat) (node : Option ASTNode) :
    counters_grow (Generate_IR_from position node) := by
  cases node with
  | none => exact grow_pure _
  | some n => exact grow_generate _ (lowering_of_grows n position)

theorem grow_emit_params_for_call (position : List Nat) (node : Option ASTNode) (count : Nat) :
    counters_grow (emit_params_for_call position node count) := by
  cases node with
  | none => exact grow_pure _
  | some n =>
    have h : grows_at (some (lowering_of position n)) := lowering_of_grows n position
    exact grow_emit_params_at _ count h

set_option linter.unusedTactic true
set_option linter.unreachableTactic true

theorem temp_name_ne_label_name (m n : Nat) : temp_name m ≠ label_name n := by
  intro h
  have hd := congrArg String.data h
  simp [temp_name, label_name, String.data_append] at hd

theorem free_ir_lists_globals (s : GenState) (lists : IRLists) (freed : List Nat)
    (s1 : GenState) (lists1 : IRLists) (freed1 : List Nat)
    (h : free_ir_lists s lists freed = .ok (s1, lists1, freed1)) :
    s1 = s ∧ lists1 = ⟨[], [], []⟩ := by
  unfold free_ir_lists at h
  split at h
  · cases h
  · split at h
    · cases h
    · split at h
      · cases h
      · cases h
        exact ⟨rfl, rfl⟩

/-! ## Theorems: the lowering of a call -/

theorem grow_lower_arguments (steps : List (Lower Operand))
    (h : ∀ x ∈ steps, counters_grow x) : counters_grow (lower_arguments steps) := by
  induction steps with
  | nil => exact grow_pure _
  | cons x xs ih =>
    simp only [lower_arguments_cons]
    refine grow_bind _ _ (h x (List.mem_cons_self _ _)) (fun a => ?_)
    exact grow_bind _ _ (grow_emit _ _ _ _)
      (fun _ => ih (fun y hy => h y (List.mem_cons_of_mem _ hy)))

theorem grow_later_argument_steps (position : List Nat) (arguments : List ASTNode) :
    ∀ x ∈ later_argument_steps position arguments, counters_grow x := by
  induction arguments with
  | nil => intro x hx; simp [later_argument_steps] at hx
  | cons a rest ih =>
    intro x hx
    simp only [later_argument_steps, List.mem_cons] at hx
    rcases hx with hx | hx
    · subst hx; exact grow_Generate_IR_from _ _
    · exact ih x hx

theorem grow_argument_steps (position : List Nat) (arguments : List ASTNode) :
    ∀ x ∈ argument_steps position arguments, counters_grow x := by
  cases arguments with
  | nil => intro x hx; simp [argument_steps] at hx
  | cons a rest =>
    intro x hx
    simp only [argument_steps, List.mem_cons] at hx
    rcases hx with hx | hx
    · subst hx; exact grow_Generate_IR_from _ _
    · exact grow_later_argument_steps position rest x hx

/-- C16: for a call `f(a1, ..., an)`, `n ≥ 0`, whose arguments form a
left-recursive `ArgumentList`, `Generate_IR` lowers the arguments from left to
right, emits one `PARAM` after the code of each argument with the operand of
that argument, then creates a temporary, emits `CALL` with the temporary as
result, the identifier `f` and the integer constant `n`, and returns the
temporary.  The temporary is fresh: when the arguments leave the globals `s1`
and the code `code`, the operand returned is the temporary named `t` followed
by the decimal digits of the counter in `s1`, the globals returned are `s1`
with `temp_counter` advanced by one, the code is `code` followed by the one
`CALL`, and the counter in `s1` is not below the counter the call started
from. -/
theorem function_call_lowering (position : List Nat) (f : String) (arguments : List ASTNode)
    (hfirst : ∀ first ∈ arguments.head?,
      first.node_type ≠ "ArgumentList" ∧ first.node_type ≠ "EmptyExpression") :
    Generate_IR_from position (ast_call f arguments) =
      (do
        lower_arguments (argument_steps (position ++ [1]) arguments)
        let result_op ← create_operand_temp
        emit .IR_CALL result_op (.OP_IDENTIFIER f) (.OP_INT_CONST arguments.length)
        pure result_op) ∧
    ∀ (s s1 : GenState) (code : List Emitted),
      lower_arguments (argument_steps (position ++ [1]) arguments) s = .ok ((), s1, code) →
      Generate_IR_from position (ast_call f arguments) s =
        .ok (.OP_TEMPORARY ("t" ++ toString s1.temp_counter),
          { s1 with temp_counter := s1.temp_counter + 1 },
          code ++
            [⟨s1.target,
              ⟨.IR_CALL, .OP_TEMPORARY ("t" ++ toString s1.temp_counter), .OP_IDENTIFIER f,
                .OP_INT_CONST arguments.length⟩⟩]) ∧
      s.temp_counter ≤ s1.temp_counter := by
  have hstep : Generate_IR_from position (ast_call f arguments) =
      (do
        lower_arguments (argument_steps (position ++ [1]) arguments)
        let result_op ← create_operand_temp
        emit .IR_CALL result_op (.OP_IDENTIFIER f) (.OP_INT_CONST arguments.length)
        pure result_op) := by
    cases arguments with
    | nil =>
      simp only [ast_call, ast_identifier, Generate_IR_from_mk, generate_node_function_call,
        generate_function_call, lowering_children_cons, lowering_children, child,
        List.getElem?_cons_zero, lower_pure_bind, Option.map_some', deref,
        emit_params_for_call_at, lowering_of_node, ASTNode.value, create_operand_identifier,
        argument_steps, lower_arguments_nil, List.length_nil, Nat.cast_zero, Nat.cast_ofNat]
    | cons first more =>
      have h := hfirst first (by simp)
      simp only [ast_call, ast_identifier, Generate_IR_from_mk, generate_node_function_call,
        generate_function_call, lowering_children_cons, lowering_children, child,
        List.getElem?_cons_zero, lower_pure_bind, Option.map_some', deref,
        emit_params_for_call_at_some, lowering_of_node, ASTNode.value, create_operand_identifier,
        Nat.zero_add, emit_params_argument_list first h.1 h.2 more, lower_bind_assoc,
        List.length_cons]
  refine ⟨hstep, ?_⟩
  intro s s1 code hargs
  refine ⟨?_, ((grow_lower_arguments _ (grow_argument_steps _ _)).le s () s1 code hargs).1⟩
  rw [hstep]
  simp only [lower_bind_apply, hargs, create_operand_temp, emit_apply, lower_pure_apply,
    List.append_nil, List.nil_append, GenState.target]

/-- Witness for C16: from the initial globals the call
`func_float_int_float_char(x, 5.5, c_val)` lowers to `PARAM x; PARAM 5.5;
PARAM c_val; CALL t0, func_float_int_float_char, 3`, returns `t0` and leaves
`temp_counter` at 1.  The call `g(x + y, z)` lowers to `ADD t0, x, y;
PARAM t0; PARAM z; CALL t1, g, 2`, returns `t1`, the temporary after the one
of the first argument, and leaves `temp_counter` at 2. -/
theorem function_call_lowering_witness :
    (Generate_IR_from [] (ast_call "func_float_int_float_char" arguments_x_5_5_c_val)
        (GenState.initial ⟨[], []⟩) =
      .ok (.OP_TEMPORARY "t0",
        ⟨1, 0, .OP_NONE, .OP_NONE, false, true, [], ⟨[], []⟩⟩,
        [⟨.global_declarations, ⟨.IR_PARAM, .OP_NONE, .OP_IDENTIFIER "x", .OP_NONE⟩⟩,
         ⟨.global_declarations,
           ⟨.IR_PARAM, .OP_NONE, .OP_FLOAT_CONST ⟨false, 1025, 1688849860263936⟩, .OP_NONE⟩⟩,
         ⟨.global_declarations, ⟨.IR_PARAM, .OP_NONE, .OP_IDENTIFIER "c_val", .OP_NONE⟩⟩,
         ⟨.global_declarations,
           ⟨.IR_CALL, .OP_TEMPORARY "t0", .OP_IDENTIFIER "func_float_int_float_char",
             .OP_INT_CONST 3⟩⟩]) ∧
      (GenState.initial ⟨[], []⟩).temp_counter ≤ 0) ∧
    (Generate_IR_from [] (ast_call "g" arguments_sum_z) (GenState.initial ⟨[], []⟩) =
      .ok (.OP_TEMPORARY "t1",
        ⟨2, 0, .OP_NONE, .OP_NONE, false, true, [], ⟨[], []⟩⟩,
        [⟨.global_declarations,
           ⟨.IR_ADD, .OP_TEMPORARY "t0", .OP_IDENTIFIER "x", .OP_IDENTIFIER "y"⟩⟩,
         ⟨.global_declarations, ⟨.IR_PARAM, .OP_NONE, .OP_TEMPORARY "t0", .OP_NONE⟩⟩,
         ⟨.global_declarations, ⟨.IR_PARAM, .OP_NONE, .OP_IDENTIFIER "z", .OP_NONE⟩⟩,
         ⟨.global_declarations,
           ⟨.IR_CALL, .OP_TEMPORARY "t1", .OP_IDENTIFIER "g", .OP_INT_CONST 2⟩⟩]) ∧
      (GenState.initial ⟨[], []⟩).temp_counter ≤ 1) :=
  ⟨(function_call_lowering [] "func_float_int_float_char" arguments_x_5_5_c_val
      (by decide)).2 (GenState.initial ⟨[], []⟩) (GenState.initial ⟨[], []⟩)
    [⟨.global_declarations, ⟨.IR_PARAM, .OP_NONE, .OP_IDENTIFIER "x", .OP_NONE⟩⟩,
     ⟨.global_declarations,
       ⟨.IR_PARAM, .OP_NONE, .OP_FLOAT_CONST ⟨false, 1025, 1688849860263936⟩, .OP_NONE⟩⟩,
     ⟨.global_declarations, ⟨.IR_PARAM, .OP_NONE, .OP_IDENTIFIER "c_val", .OP_NONE⟩⟩]
    rfl,
   (function_call_lowering [] "g" arguments_sum_z (by decide)).2
    (GenState.initial ⟨[], []⟩) ⟨1, 0, .OP_NONE, .OP_NONE, false, true, [], ⟨[], []⟩⟩
    [⟨.global_declarations,
       ⟨.IR_ADD, .OP_TEMPORARY "t0", .OP_IDENTIFIER "x", .OP_IDENTIFIER "y"⟩⟩,
     ⟨.global_declarations, ⟨.IR_PARAM, .OP_NONE, .OP_TEMPORARY "t0", .OP_NONE⟩⟩,
     ⟨.global_declarations, ⟨.IR_PARAM, .OP_NONE, .OP_IDENTIFIER "z", .OP_NONE⟩⟩]
    rfl⟩

/-! ## Theorems: temporaries and labels never repeat -/

/-- C40: `create_operand_temp` names the temporary after the value of
`temp_counter`, `t` followed by its decimal digits, and adds one to the
counter; `create_operand_label` does the same with `L` and `label_counter`;
both counters start at 0.  Different values of a counter give different names,
and no temporary has the name of a label.  Under every call of `Generate_IR`
and of `emit_params_for_call`, on any tree and from any state, neither counter
ever ends below its value at the start.  Hence a temporary or label made
after any step under which the counters do not decrease differs from one made
before it.  `free_ir_lists`, whenever its frees are defined, sets the three
lists to empty and leaves every other global, the counters included, as it
was. -/
theorem counters_only_increase :
    (∀ s : GenState, create_operand_temp s =
      .ok (.OP_TEMPORARY (temp_name s.temp_counter),
        { s with temp_counter := s.temp_counter + 1 }, [])) ∧
    (∀ s : GenState, create_operand_label s =
      .ok (.OP_LABEL (label_name s.label_counter),
        { s with label_counter := s.label_counter + 1 }, [])) ∧
    (∀ table : State, (GenState.initial table).temp_counter = 0 ∧
      (GenState.initial table).label_counter = 0) ∧
    (∀ m n : Nat, (temp_name m = temp_name n ↔ m = n) ∧
      (label_name m = label_name n ↔ m = n) ∧ temp_name m ≠ label_name n) ∧
    (∀ (position : List Nat) (node : Option ASTNode),
      counters_grow (Generate_IR_from position node)) ∧
    (∀ (position : List Nat) (node : Option ASTNode) (count : Nat),
      counters_grow (emit_params_for_call position node count)) ∧
    (∀ (x : Lower Operand) (s s1 s2 s3 : GenState) (t1 t2 a : Operand)
        (c1 code c3 : List Emitted),
      counters_grow x → create_operand_temp s = .ok (t1, s1, c1) →
      x s1 = .ok (a, s2, code) → create_operand_temp s2 = .ok (t2, s3, c3) → t1 ≠ t2) ∧
    (∀ (x : Lower Operand) (s s1 s2 s3 : GenState) (l1 l2 a : Operand)
        (c1 code c3 : List Emitted),
      counters_grow x → create_operand_label s = .ok (l1, s1, c1) →
      x s1 = .ok (a, s2, code) → create_operand_label s2 = .ok (l2, s3, c3) → l1 ≠ l2) ∧
    (∀ (s : GenState) (lists : IRLists) (freed : List Nat) (s1 : GenState) (lists1 : IRLists)
        (freed1 : List Nat),
      free_ir_lists s lists freed = .ok (s1, lists1, freed1) →
        s1 = s ∧ lists1 = ⟨[], [], []⟩) ∧
    (∀ s : GenState, free_ir_lists s ⟨[], [], stored_assign_x_1⟩ [] = .ok (s, ⟨[], [], []⟩, [0])) ∧
    (∀ s : GenState, free_ir_lists s ⟨[], [], stored_add_assign⟩ [] =
      .error .undefined_behaviour) := by
  refine ⟨fun _ => rfl, fun _ => rfl, fun _ => ⟨rfl, rfl⟩,
    fun m n => ⟨temp_name_injective m n, label_name_injective m n, temp_name_ne_label_name m n⟩,
    grow_Generate_IR_from, grow_emit_params_for_call, ?_, ?_, free_ir_lists_globals,
    fun _ => rfl, fun _ => rfl⟩
  · intro x s s1 s2 s3 t1 t2 a c1 code c3 hx h1 hrun h2 heq
    cases h1
    cases h2
    have hle := (hx.le _ _ _ _ hrun).1
    have hn := (temp_name_injective _ _).1 (Operand.OP_TEMPORARY.inj heq)
    simp only at hle
    omega
  · intro x s s1 s2 s3 l1 l2 a c1 code c3 hx h1 hrun h2 heq
    cases h1
    cases h2
    have hle := (hx.le _ _ _ _ hrun).2
    have hn := (label_name_injective _ _).1 (Operand.OP_LABEL.inj heq)
    simp only at hle
    omega

/-- Witness for C40: the temporary `t0`, made from the initial globals before
`count++` is lowered, differs from the temporary `t3` made after it; the
lowering in between makes `t1` and `t2`. -/
theorem counters_only_increase_witness :
    Operand.OP_TEMPORARY (temp_name 0) ≠ Operand.OP_TEMPORARY (temp_name 3) :=
  counters_only_increase.2.2.2.2.2.2.1
    (Generate_IR_from [] (ast_post_increment (ast_identifier "count")))
    (GenState.initial complex_expression_scope)
    { GenState.initial complex_expression_scope with temp_counter := 1 }
    { GenState.initial complex_expression_scope with temp_counter := 3 }
    { GenState.initial complex_expression_scope with temp_counter := 4 }
    (.OP_TEMPORARY (temp_name 0)) (.OP_TEMPORARY (temp_name 3)) (.OP_TEMPORARY (temp_name 1))
    []
    [⟨.global_declarations,
       ⟨.IR_ASSIGN, .OP_TEMPORARY (temp_name 1), .OP_IDENTIFIER "count", .OP_NONE⟩⟩,
     ⟨.global_declarations,
       ⟨.IR_ADD, .OP_TEMPORARY (temp_name 2), .OP_IDENTIFIER "count", .OP_INT_CONST 1⟩⟩,
     ⟨.global_declarations,
       ⟨.IR_ASSIGN, .OP_IDENTIFIER "count", .OP_TEMPORARY (temp_name 2), .OP_NONE⟩⟩]
    []
    (counters_only_increase.2.2.2.2.1 _ _) rfl rfl rfl

end C99Compiler
